import Mathlib

/-!
# node-oracledb: database objects (`src/njsDbObject.c`), SODA documents (`src/njsSodaDocument.c`)

A shallow embedding of the value marshalling (`njsDbObject_transformFromOracle`,
`njsDbObject_transformToOracle`), of the instance wrapping they rely on
(`njsDbObject_wrap`, `njsDbObject_getInstance`, `njsDbObject_new`), of the collection
cursor (`njsDbObject_getKeys`, `njsDbObject_getValues`), of the type introspection
(`njsDbObject_getSubClass`, `njsDbObjectType_populate`), of the element and attribute
accessors, and of the getters of a SODA document.

Conventions of the embedding.

* C pointers to host objects, to native handles and to type descriptors are natural numbers
  looked up in the stores of a `World`; a `NULL` pointer is `none`.
* A function that writes through output pointers returns a record holding the final content
  of every output, the status (`Except njsError Unit`: the C `bool` result together with the
  error thrown) and the world reached. Outputs are reported on failure too, as in C.
* Machine integers are `Nat`/`Int`; a narrowing cast is written with an explicit `%`.
* The N-API value constructors and inspectors (`napi_get_null`, `napi_create_double`,
  `napi_typeof`, ...) are those of a standard host: they succeed on well-formed arguments.
  What may fail is kept fallible: allocation, every ODPI-C call, and the collaborators that
  run code outside this file (`napi_new_instance` on a database object class, `njsLob_new`).
  Where an N-API call can fail, `NJS_CHECK_NAPI` makes the function return false with the
  generic error, `errNapi`.
* Following a pointer that addresses nothing is undefined in C; the model stops with
  `invalidPointer`.
-/

namespace njs

set_option autoImplicit false

/-! ## Type tags (ODPI-C `dpi.h`: `typedef uint32_t dpiOracleTypeNum, dpiNativeTypeNum`) -/

abbrev dpiOracleTypeNum := Nat
abbrev dpiNativeTypeNum := Nat

def DPI_ORACLE_TYPE_VARCHAR : dpiOracleTypeNum := 2001
def DPI_ORACLE_TYPE_NVARCHAR : dpiOracleTypeNum := 2002
def DPI_ORACLE_TYPE_CHAR : dpiOracleTypeNum := 2003
def DPI_ORACLE_TYPE_NCHAR : dpiOracleTypeNum := 2004
def DPI_ORACLE_TYPE_RAW : dpiOracleTypeNum := 2006
def DPI_ORACLE_TYPE_NATIVE_FLOAT : dpiOracleTypeNum := 2007
def DPI_ORACLE_TYPE_NATIVE_DOUBLE : dpiOracleTypeNum := 2008
def DPI_ORACLE_TYPE_NATIVE_INT : dpiOracleTypeNum := 2009
def DPI_ORACLE_TYPE_NUMBER : dpiOracleTypeNum := 2010
def DPI_ORACLE_TYPE_DATE : dpiOracleTypeNum := 2011
def DPI_ORACLE_TYPE_TIMESTAMP : dpiOracleTypeNum := 2012
def DPI_ORACLE_TYPE_TIMESTAMP_TZ : dpiOracleTypeNum := 2013
def DPI_ORACLE_TYPE_TIMESTAMP_LTZ : dpiOracleTypeNum := 2014
def DPI_ORACLE_TYPE_CLOB : dpiOracleTypeNum := 2017
def DPI_ORACLE_TYPE_NCLOB : dpiOracleTypeNum := 2018
def DPI_ORACLE_TYPE_BLOB : dpiOracleTypeNum := 2019
def DPI_ORACLE_TYPE_BOOLEAN : dpiOracleTypeNum := 2022
def DPI_ORACLE_TYPE_OBJECT : dpiOracleTypeNum := 2023

def DPI_NATIVE_TYPE_INT64 : dpiNativeTypeNum := 3000
def DPI_NATIVE_TYPE_DOUBLE : dpiNativeTypeNum := 3003
def DPI_NATIVE_TYPE_BYTES : dpiNativeTypeNum := 3004
def DPI_NATIVE_TYPE_TIMESTAMP : dpiNativeTypeNum := 3005
def DPI_NATIVE_TYPE_LOB : dpiNativeTypeNum := 3008
def DPI_NATIVE_TYPE_OBJECT : dpiNativeTypeNum := 3009
def DPI_NATIVE_TYPE_BOOLEAN : dpiNativeTypeNum := 3011

/-- The tags `njsDbObject_transformFromOracle` has a `case` for. -/
def supportedOracleTypes : List dpiOracleTypeNum :=
  [DPI_ORACLE_TYPE_CHAR, DPI_ORACLE_TYPE_NCHAR, DPI_ORACLE_TYPE_VARCHAR,
   DPI_ORACLE_TYPE_NVARCHAR, DPI_ORACLE_TYPE_RAW, DPI_ORACLE_TYPE_NUMBER,
   DPI_ORACLE_TYPE_NATIVE_INT, DPI_ORACLE_TYPE_NATIVE_FLOAT, DPI_ORACLE_TYPE_NATIVE_DOUBLE,
   DPI_ORACLE_TYPE_DATE, DPI_ORACLE_TYPE_TIMESTAMP, DPI_ORACLE_TYPE_TIMESTAMP_TZ,
   DPI_ORACLE_TYPE_TIMESTAMP_LTZ, DPI_ORACLE_TYPE_CLOB, DPI_ORACLE_TYPE_NCLOB,
   DPI_ORACLE_TYPE_BLOB, DPI_ORACLE_TYPE_OBJECT, DPI_ORACLE_TYPE_BOOLEAN]

/-- The four temporal tags. -/
def temporalOracleTypes : List dpiOracleTypeNum :=
  [DPI_ORACLE_TYPE_DATE, DPI_ORACLE_TYPE_TIMESTAMP, DPI_ORACLE_TYPE_TIMESTAMP_TZ,
   DPI_ORACLE_TYPE_TIMESTAMP_LTZ]

/-! ## Floating point values, by bit pattern -/

/-- An IEEE-754 binary64 value (C `double`, a host number), identified by its 64 bits. -/
structure Float64 where
  bits : Nat
deriving DecidableEq, Repr

/-- An IEEE-754 binary32 value (C `float`), identified by its 32 bits. -/
structure Float32 where
  bits : Nat
deriving DecidableEq, Repr

/-- Number of binary digits of `n`, for `n < 2 ^ fuel`. -/
def bitLength : Nat → Nat → Nat
  | 0, _ => 0
  | fuel + 1, n => if n = 0 then 0 else bitLength fuel (n / 2) + 1

/-- The C conversion `(double) i` of an `int64_t` (what `napi_create_int64` stores):
round to nearest, ties to even. -/
def Float64.ofInt64 (i : Int) : Float64 :=
  let m := i.natAbs
  if m = 0 then ⟨0⟩
  else
    let sign := if i < 0 then 2 ^ 63 else 0
    let e := bitLength 64 m - 1
    if e ≤ 52 then
      ⟨sign + (e + 1023) * 2 ^ 52 + (m * 2 ^ (52 - e) - 2 ^ 52)⟩
    else
      let shift := e - 52
      let q := m / 2 ^ shift
      let r := m % 2 ^ shift
      let half := 2 ^ (shift - 1)
      let q' := if r > half ∨ (r = half ∧ q % 2 = 1) then q + 1 else q
      ⟨sign + (e + 1023) * 2 ^ 52 + (q' - 2 ^ 52)⟩

/-- The C conversion of a `float` to `double` (exact; a NaN comes out quiet). -/
def Float32.toFloat64 (f : Float32) : Float64 :=
  let sign := (f.bits / 2 ^ 31 % 2) * 2 ^ 63
  let e := f.bits / 2 ^ 23 % 2 ^ 8
  let m := f.bits % 2 ^ 23
  if e = 255 then
    if m = 0 then ⟨sign + 2047 * 2 ^ 52⟩
    else ⟨sign + 2047 * 2 ^ 52 + 2 ^ 51 + (m % 2 ^ 22) * 2 ^ 29⟩
  else if e = 0 then
    if m = 0 then ⟨sign⟩
    else
      let k := bitLength 23 m - 1
      ⟨sign + (k + 874) * 2 ^ 52 + (m - 2 ^ k) * 2 ^ (52 - k)⟩
  else ⟨sign + (e + 896) * 2 ^ 52 + m * 2 ^ 29⟩

/-- The quiet NaN a host produces. -/
def Float64.nan : Float64 := ⟨0x7FF8000000000000⟩

/-- ECMAScript `TimeClip`: the time value of `new Date(x)` for a number `x`. Not finite or
beyond 8.64e15 in magnitude gives NaN; otherwise the fraction is dropped and the zero is
positive. -/
def timeClip (x : Float64) : Float64 :=
  let mag := x.bits % 2 ^ 63
  let e := mag / 2 ^ 52
  if e = 2047 then Float64.nan
  else if mag > 0x433EB208C2DC0000 then Float64.nan
  else if e < 1023 then ⟨0⟩
  else if 1075 ≤ e then x
  else ⟨x.bits / 2 ^ (1075 - e) * 2 ^ (1075 - e)⟩

/-! ## Host values -/

/-- Bytes in memory; a `char*` is modelled by the bytes found at the address. -/
abbrev Bytes := List Nat

/-- Address of a host object in the host heap. -/
abbrev Ref := Nat
/-- A native (ODPI-C) handle: `dpiObject*`, `dpiLob*`, `dpiObjectType*`, `dpiObjectAttr*`. -/
abbrev Handle := Nat
/-- Address of an `njsDbObjectType`. -/
abbrev TypePtr := Nat

/-- Modelled from the spec: the `njsLobBuffer` structure of `njsModule.h`, which is not under
src/; the fields are those `njsDbObject_transformFromOracle` fills in ("carries type tag,
chunk size, total length, auto-close flag"). -/
structure njsLobBuffer where
  dataType : dpiOracleTypeNum
  handle : Option Handle
  isAutoClose : Bool
  chunkSize : Nat
  length : Nat
deriving DecidableEq, Repr

/-- A host (JavaScript) value. Text is identified with its UTF-8 bytes; a `Date` with its
time value and a `Buffer` with its content; every other object is a reference into the host
heap. The class tests of the host follow the prototype chain, which a program may rewire, so
that one object can pass several of them: `exotic` is such an object, given by what the
tests report of it, that is, whether it is an instance of `Date`, the number it coerces to
(`none`: the coercion throws), its storage if it is a buffer, and whether it is an instance
of the base database object class. Its prototype wraps no object type and it has no
`_target`. -/
inductive HostValue where
  | undefined
  | null
  | boolean (b : Bool)
  | number (d : Float64)
  | string (utf8 : Bytes)
  | symbol
  | function
  | external
  | bigint
  | date (time : Float64)
  | buffer (bytes : Bytes)
  | lob (buffer : njsLobBuffer)
  | object (ref : Ref)
  | exotic (isDate : Bool) (number : Option Float64) (buffer : Option Bytes) (isBase : Bool)
deriving DecidableEq, Repr

/-- The `napi_valuetype` enumeration. -/
inductive napi_valuetype where
  | napi_undefined | napi_null | napi_boolean | napi_number | napi_string | napi_symbol
  | napi_object | napi_function | napi_external | napi_bigint
deriving DecidableEq, Repr

/-- Runtime kind of a host value (`napi_typeof`). -/
def napi_typeof : HostValue → napi_valuetype
  | .undefined => .napi_undefined
  | .null => .napi_null
  | .boolean _ => .napi_boolean
  | .number _ => .napi_number
  | .string _ => .napi_string
  | .symbol => .napi_symbol
  | .function => .napi_function
  | .external => .napi_external
  | .bigint => .napi_bigint
  | .date _ => .napi_object
  | .buffer _ => .napi_object
  | .lob _ => .napi_object
  | .object _ => .napi_object
  | .exotic _ _ _ _ => .napi_object

/-- Host text from `length` bytes at `ptr` (`napi_create_string_utf8`). -/
def napi_create_string_utf8 (ptr : Bytes) (length : Nat) : HostValue :=
  .string (ptr.take length)

/-- A new buffer holding a copy of `length` bytes at `ptr` (`napi_create_buffer_copy`). -/
def napi_create_buffer_copy (length : Nat) (ptr : Bytes) : HostValue :=
  .buffer (ptr.take length)

/-- Host number of an `int64_t` (`napi_create_int64`). -/
def napi_create_int64 (i : Int) : HostValue := .number (Float64.ofInt64 i)

/-- Host number of an `int32_t` (`napi_create_int32`). -/
def napi_create_int32 (i : Int) : HostValue := .number (Float64.ofInt64 i)

/-- Host number of a `double` (`napi_create_double`). -/
def napi_create_double (d : Float64) : HostValue := .number d

/-- Host boolean of a C truth value (`napi_get_boolean`). -/
def napi_get_boolean (b : Int) : HostValue := .boolean (decide (b ≠ 0))

/-- The instance `new Date(x)` of the host's `Date` (`napi_new_instance` on it). -/
def napi_new_instance_Date (x : Float64) : HostValue := .date (timeClip x)

/-! ## Native values (ODPI-C `dpiData`) -/

/-- ODPI-C `dpiBytes`: the memory at `ptr` and a `uint32_t` length. -/
structure dpiBytes where
  ptr : Bytes
  length : Nat
deriving DecidableEq, Repr

/-- ODPI-C `dpiDataBuffer`. The members of the C union are kept as separate fields: a store
to one member leaves what the model holds for the others as it was, where in C they share
storage. -/
structure dpiDataBuffer where
  asBoolean : Int
  asInt64 : Int
  asFloat : Float32
  asDouble : Float64
  asBytes : dpiBytes
  asLOB : Option Handle
  asObject : Option Handle
deriving DecidableEq, Repr

/-- ODPI-C `dpiData`. -/
structure dpiData where
  isNull : Int
  value : dpiDataBuffer
deriving DecidableEq, Repr

/-- ODPI-C `dpiData_setNull`. -/
def dpiData_setNull (data : dpiData) : dpiData :=
  { data with isNull := 1 }

/-- ODPI-C `dpiData_setBytes`. -/
def dpiData_setBytes (data : dpiData) (ptr : Bytes) (length : Nat) : dpiData :=
  { isNull := 0, value := { data.value with asBytes := ⟨ptr, length⟩ } }

/-- ODPI-C `dpiData_setObject`. -/
def dpiData_setObject (data : dpiData) (obj : Option Handle) : dpiData :=
  { isNull := 0, value := { data.value with asObject := obj } }

/-! ## Descriptors and instances (`njsModule.h`) -/

/-- Modelled from the spec: the `njsDataTypeInfo` structure of `njsModule.h`, which is not
under src/ ("native type tag, preferred representation tag, and, if the slot holds nested
objects, a reference to an ObjectTypeDescriptor"). -/
structure njsDataTypeInfo where
  oracleTypeNum : dpiOracleTypeNum
  nativeTypeNum : dpiNativeTypeNum
  objectType : Option TypePtr
deriving DecidableEq, Repr

/-- Modelled from the spec: the `njsDbObjectAttr` structure of `njsModule.h`, which is not
under src/ ("name, typeInfo, owns one native attribute handle"); the name is `nameLength`
bytes at `name`. -/
structure njsDbObjectAttr where
  handle : Option Handle
  name : Bytes
  nameLength : Nat
  typeInfo : njsDataTypeInfo
deriving DecidableEq, Repr

/-- A `napi_property_descriptor` as `njsDbObjectType_populate` fills it: the name (a host
string) and `data`, the address of an attribute given by its position in `attributes`; the
getter and the setter are always `njsDbObject_getAttrValue` and `njsDbObject_setAttrValue`. -/
structure napi_property_descriptor where
  name : HostValue
  data : Nat
deriving DecidableEq, Repr

/-- Modelled from the spec: the `njsDbObjectType` structure of `njsModule.h`, which is not
under src/ (fully-qualified name, attribute list or element type, native type handle), with
the reference to the host constructor and the property descriptors the code keeps in it. -/
structure njsDbObjectType where
  handle : Option Handle
  numAttributes : Nat
  attributes : List njsDbObjectAttr
  elementTypeInfo : njsDataTypeInfo
  fqn : Bytes
  fqnLength : Nat
  jsDbObjectConstructor : Option Ref
  descriptors : List napi_property_descriptor
deriving DecidableEq, Repr

/-- Modelled from the spec: the `njsDbObject` structure of `njsModule.h`, which is not under
src/ ("type: shared reference to ObjectTypeDescriptor; handle: native handle, may be
absent"). -/
structure njsDbObject where
  type : TypePtr
  handle : Option Handle
deriving DecidableEq, Repr

/-! ## Errors -/

/-- Errors thrown to the host. -/
inductive njsError where
  /-- `errConvertFromObjAttr`, with `%.*s` of the attribute name and of the type's name. -/
  | errConvertFromObjAttr (attrName fqn : Bytes)
  /-- `errConvertFromObjElement`, with `%.*s` of the type's name. -/
  | errConvertFromObjElement (fqn : Bytes)
  /-- `errConvertToObjAttr`. -/
  | errConvertToObjAttr (attrName fqn : Bytes)
  /-- `errConvertToObjElement`. -/
  | errConvertToObjElement (fqn : Bytes)
  /-- `errInsufficientMemory`. -/
  | errInsufficientMemory
  /-- `errInvalidNumberOfParameters`, with the actual and the expected count. -/
  | errInvalidNumberOfParameters (actual expected : Nat)
  /-- An argument of the wrong kind or value (`njsUtils_getIntArg`). -/
  | errInvalidParameterValue
  /-- `njsUtils_throwErrorDPI`: the error reported by ODPI-C. -/
  | errDPI
  /-- `njsUtils_genericThrowError`: an N-API call did not return `napi_ok`. -/
  | errNapi
  /-- An error thrown by a collaborator outside this file. -/
  | errCollaborator
  /-- A pointer that addresses nothing was followed (undefined in C). -/
  | invalidPointer
deriving DecidableEq, Repr

/-! ## The world: host heap, descriptors, native library state -/

/-- The native pointer `napi_wrap` attached to a host object: an `njsDbObject` (attached to
an instance) or the address of an `njsDbObjectType` (attached to a class prototype). The
instance is stored with the host object that owns it, so an `njsDbObject*` is the `Ref` of
that object. -/
inductive Wrapped where
  | instance (obj : njsDbObject)
  | objectType (type : TypePtr)
deriving DecidableEq, Repr

/-- What this file observes of a host object. -/
structure HostObject where
  /-- Result of `napi_get_prototype`. -/
  prototype : Option Ref
  /-- Value of the property `_target` (`undefined` when there is none). -/
  target : HostValue
  /-- Result of `napi_instanceof` against `globals->jsBaseDbObjectConstructor`. -/
  instanceOfBaseDbObject : Bool
  /-- Pointer attached by `napi_wrap`. -/
  wrapped : Option Wrapped
  /-- Value of the property `prototype` (of a class), when it is an object. -/
  prototypeProperty : Option Ref
  /-- Value of the property `constructor` (of a class prototype), when it is an object. -/
  constructorProperty : Option Ref
deriving DecidableEq, Repr

/-- Native state of a LOB: its reference count and what the chunk size and size queries
report (`none`: the query fails). -/
structure dpiLob where
  refCount : Nat
  chunkSize : Option Nat
  size : Option Nat
deriving DecidableEq, Repr

/-- Native state of an object or collection. An element is given by what
`dpiObject_getElementValueByIndex` reports for it under each requested representation
(`none`: the read fails); `size` is what `dpiObject_getSize` reports. -/
structure dpiObject where
  refCount : Nat
  size : Nat
  elements : List (Int × (dpiNativeTypeNum → Option dpiData))

/-- ODPI-C `dpiDataTypeInfo`, as far as it is read. -/
structure dpiDataTypeInfo where
  oracleTypeNum : dpiOracleTypeNum
  defaultNativeTypeNum : dpiNativeTypeNum
  objectType : Option Handle
deriving DecidableEq, Repr

/-- ODPI-C `dpiObjectTypeInfo`: the names are `schemaLength` bytes at `schema` and
`nameLength` bytes at `name` (`uint32_t` lengths), not null-terminated. -/
structure dpiObjectTypeInfo where
  schema : Bytes
  schemaLength : Nat
  name : Bytes
  nameLength : Nat
  isCollection : Bool
  elementTypeInfo : dpiDataTypeInfo
  numAttributes : Nat
deriving DecidableEq, Repr

/-- ODPI-C `dpiObjectAttrInfo`. -/
structure dpiObjectAttrInfo where
  name : Bytes
  nameLength : Nat
  typeInfo : dpiDataTypeInfo
deriving DecidableEq, Repr

/-- Native state of an object type: its reference count and what `dpiObjectType_getInfo` and
`dpiObjectType_getAttributes` report (`none`: the call fails). -/
structure dpiObjectType where
  refCount : Nat
  info : Option dpiObjectTypeInfo
  attributes : Option (List Handle)
deriving DecidableEq, Repr

/-- Native state of an attribute: its reference count and what `dpiObjectAttr_getInfo`
reports (`none`: the call fails). -/
structure dpiObjectAttr where
  refCount : Nat
  info : Option dpiObjectAttrInfo
deriving DecidableEq, Repr

/-- What is recorded of a run: the native calls of the type introspection and of the writes,
and the buffers freed. -/
inductive Event where
  | dpiObjectType_getInfo (type : Option Handle)
  | dpiObjectType_addRef (type : Option Handle)
  | dpiObjectType_getAttributes (type : Option Handle)
  | dpiObjectAttr_getInfo (attr : Option Handle)
  | dpiObject_appendElement (obj : Option Handle)
  | dpiObject_setElementValueByIndex (obj : Option Handle) (index : Int)
  | dpiObject_setAttributeValue (obj attr : Option Handle)
  | free (buffer : Bytes)
deriving DecidableEq, Repr

/-- State of the host heap, of the descriptors and of the native library. -/
structure World where
  heap : Ref → Option HostObject
  objTypes : TypePtr → Option njsDbObjectType
  objects : Handle → Option dpiObject
  lobs : Handle → Option dpiLob
  /-- Next native object handle `dpiObjectType_createObject` hands out. -/
  nextHandle : Handle
  /-- Whether `dpiObjectType_createObject` succeeds on a type handle. -/
  canCreateObject : Handle → Bool
  /-- Number of allocations (`malloc`, `calloc`) that still succeed. -/
  allocBudget : Nat
  /-- Native object types. -/
  objectTypes : Handle → Option dpiObjectType
  /-- Native attributes of object types. -/
  objectAttrs : Handle → Option dpiObjectAttr
  /-- Value of an attribute of a native object, given as an element is: by what
  `dpiObject_getAttributeValue` reports for it under each requested representation. -/
  attrValues : Handle → Handle → Option (dpiNativeTypeNum → Option dpiData)
  /-- Address of the next `njsDbObjectType` that `calloc` returns. -/
  nextTypePtr : TypePtr
  /-- Events recorded so far, the latest last. -/
  trace : List Event

/-- Collaborators whose code is outside this file. They run host code and may change the
world. -/
structure Collaborators where
  /-- `napi_new_instance` on the constructor of a database object class with the given
  arguments; `none` when it does not return `napi_ok`. -/
  napi_new_instance : World → Ref → List HostValue → Option HostValue × World
  /-- `njsLob_new` on a filled `njsLobBuffer`; the parent is the `_connection` of the given
  constructor; `none` when it fails. -/
  njsLob_new : World → njsLobBuffer → Ref → Option HostValue × World
  /-- The host class cache: `_getDbObjectClassJS` called on the calling object with the
  schema and the name as host strings; `none` when the call does not return `napi_ok`. -/
  getDbObjectClassJS : World → Bytes → Bytes → Option HostValue × World
  /-- `njsUtils_addTypeProperties`: publish the type tag (and the class of the nested object
  type) under the property `elementType` of the class prototype (`some` prototype) or `type`
  of the object describing an attribute (`none`); `none` when it fails. -/
  njsUtils_addTypeProperties : World → Option Ref → dpiOracleTypeNum → Option TypePtr →
    Option World
  /-- `napi_define_properties` of the attribute accessors on the class prototype; `none`
  when it does not return `napi_ok`. -/
  napi_define_properties : World → Ref → List napi_property_descriptor → Option World
  /-- `njsUtils_getIntArg` on an argument: the `int32_t` it stores, or the error it throws. -/
  njsUtils_getIntArg : HostValue → Except njsError Int

/-- Replace a host object. -/
def World.setHeap (w : World) (r : Ref) (o : HostObject) : World :=
  { w with heap := fun k => if k = r then some o else w.heap k }

/-- Replace or drop the state of a native object. -/
def World.setObject (w : World) (h : Handle) (o : Option dpiObject) : World :=
  { w with objects := fun k => if k = h then o else w.objects k }

/-- Replace or drop the state of a native LOB. -/
def World.setLob (w : World) (h : Handle) (l : Option dpiLob) : World :=
  { w with lobs := fun k => if k = h then l else w.lobs k }

/-- `malloc`/`calloc`: `none` when the allocation fails. -/
def World.alloc (w : World) : Option World :=
  match w.allocBudget with
  | 0 => none
  | n + 1 => some { w with allocBudget := n }

/-- The `njsDbObject` a host value wraps (`napi_unwrap`); the result is its address. -/
def napi_unwrap_instance (w : World) : HostValue → Option Ref
  | .object r =>
    match w.heap r with
    | some ho =>
      match ho.wrapped with
      | some (.instance _) => some r
      | _ => none
    | none => none
  | _ => none

/-- The `njsDbObjectType` the prototype of a host object wraps (`napi_get_prototype`, then
`napi_unwrap`). -/
def napi_unwrap_prototype (w : World) (ho : HostObject) : Option TypePtr :=
  match ho.prototype with
  | some p =>
    match w.heap p with
    | some proto =>
      match proto.wrapped with
      | some (.objectType t) => some t
      | _ => none
    | none => none
  | none => none

/-- The instance stored at an `njsDbObject*`. -/
def World.instanceAt (w : World) (r : Ref) : Option njsDbObject :=
  match w.heap r with
  | some ho =>
    match ho.wrapped with
    | some (.instance o) => some o
    | _ => none
  | none => none

/-- ODPI-C `dpiObject_addRef`: fails on a handle that is not live. -/
def dpiObject_addRef (w : World) (h : Option Handle) : Option World :=
  match h with
  | none => none
  | some h =>
    match w.objects h with
    | none => none
    | some o => some (w.setObject h (some { o with refCount := o.refCount + 1 }))

/-- ODPI-C `dpiObject_release`: drops one reference; the object is freed with the last. -/
def dpiObject_release (w : World) (h : Option Handle) : World :=
  match h with
  | none => w
  | some h =>
    match w.objects h with
    | none => w
    | some o =>
      if o.refCount ≤ 1 then w.setObject h none
      else w.setObject h (some { o with refCount := o.refCount - 1 })

/-- ODPI-C `dpiLob_getChunkSize`. -/
def dpiLob_getChunkSize (w : World) (h : Option Handle) : Option Nat :=
  match h with
  | none => none
  | some h => (w.lobs h).bind dpiLob.chunkSize

/-- ODPI-C `dpiLob_getSize`. -/
def dpiLob_getSize (w : World) (h : Option Handle) : Option Nat :=
  match h with
  | none => none
  | some h => (w.lobs h).bind dpiLob.size

/-- ODPI-C `dpiLob_addRef`: fails on a handle that is not live. -/
def dpiLob_addRef (w : World) (h : Option Handle) : Option World :=
  match h with
  | none => none
  | some h =>
    match w.lobs h with
    | none => none
    | some l => some (w.setLob h (some { l with refCount := l.refCount + 1 }))

/-- ODPI-C `dpiObjectType_createObject`: a new, empty object holding one reference. -/
def dpiObjectType_createObject (w : World) (typeHandle : Option Handle) :
    Option (Handle × World) :=
  match typeHandle with
  | none => none
  | some t =>
    if w.canCreateObject t then
      some (w.nextHandle,
        { w.setObject w.nextHandle (some ⟨1, 0, []⟩) with nextHandle := w.nextHandle + 1 })
    else none

/-! ## Instances: `njsDbObject_wrap`, `njsDbObject_getInstance`, `njsDbObject_new` -/

/-- Second half of `njsDbObject_wrap` ("create a new object instance"): allocate a zeroed
`njsDbObject`, set its type and attach it to the host object at `r` with `napi_wrap`, which
refuses an object that is wrapped already (the instance is then freed again). -/
def njsDbObject_wrap_create (w : World) (r : Ref) (objType : TypePtr) :
    Except njsError Ref × World :=
  match w.alloc with
  | none => (.error .errInsufficientMemory, w)
  | some w1 =>
    match w.heap r with
    | none => (.error .errNapi, w)
    | some ho =>
      match ho.wrapped with
      | some _ => (.error .errNapi, w)
      | none => (.ok r, w1.setHeap r { ho with wrapped := some (.instance ⟨objType, none⟩) })

/-- `njsDbObject_wrap`: wrap the value with a new instance; when the prototype of the value
does not wrap an object type the value is a proxy and its `_target` is used, which may have
been wrapped already. A pointer wrapped for the other structure counts as not wrapped. -/
def njsDbObject_wrap (w : World) (value : HostValue) : Except njsError Ref × World :=
  match value with
  | .object r =>
    match w.heap r with
    | none => (.error .errNapi, w)
    | some ho =>
      match napi_unwrap_prototype w ho with
      | some objType => njsDbObject_wrap_create w r objType
      | none =>
        match napi_unwrap_instance w ho.target with
        | some t => (.ok t, w)
        | none =>
          match ho.target with
          | .object t =>
            match w.heap t with
            | none => (.error .errNapi, w)
            | some hot =>
              match napi_unwrap_prototype w hot with
              | some objType => njsDbObject_wrap_create w t objType
              | none => (.error .errNapi, w)
          | _ => (.error .errNapi, w)
  | _ => (.error .errNapi, w)

/-- `njsDbObject_getInstance`: the instance associated with the value; a value that has none
is wrapped, and when the instance then has no handle a native object of its type is
created. -/
def njsDbObject_getInstance (w : World) (value : HostValue) : Except njsError Ref × World :=
  match napi_unwrap_instance w value with
  | some r => (.ok r, w)
  | none =>
    match njsDbObject_wrap w value with
    | (.error e, w1) => (.error e, w1)
    | (.ok tempObj, w1) =>
      match w1.heap tempObj, w1.instanceAt tempObj with
      | some ho, some inst =>
        match inst.handle with
        | some _ => (.ok tempObj, w1)
        | none =>
          match w1.objTypes inst.type with
          | none => (.error .invalidPointer, w1)
          | some ty =>
            match dpiObjectType_createObject w1 ty.handle with
            | none => (.error .errDPI, w1)
            | some (h, w2) =>
              (.ok tempObj,
                w2.setHeap tempObj { ho with wrapped := some (.instance { inst with handle := some h }) })
      | _, _ => (.error .invalidPointer, w1)

/-- Outputs of `njsDbObject_new` and of `njsDbObject_transformFromOracle`: the status, the
content of `*value` (`none` while nothing was stored) and the world reached. -/
structure FromOracle where
  status : Except njsError Unit
  value : Option HostValue
  world : World

/-- `njsDbObject_new`: create a host instance of the class of `objType`, wrap it, then add a
reference to `objHandle` and store it in the instance. -/
def njsDbObject_new (host : Collaborators) (w : World) (objType : Option TypePtr)
    (objHandle : Option Handle) : FromOracle :=
  match objType.bind w.objTypes with
  | none => ⟨.error .invalidPointer, none, w⟩
  | some ty =>
    match ty.jsDbObjectConstructor with
    | none => ⟨.error .errNapi, none, w⟩
    | some constructor =>
      match host.napi_new_instance w constructor [] with
      | (none, w1) => ⟨.error .errNapi, none, w1⟩
      | (some value, w1) =>
        match njsDbObject_wrap w1 value with
        | (.error e, w2) => ⟨.error e, some value, w2⟩
        | (.ok obj, w2) =>
          match dpiObject_addRef w2 objHandle with
          | none => ⟨.error .errDPI, some value, w2⟩
          | some w3 =>
            match w3.heap obj, w3.instanceAt obj with
            | some ho, some inst =>
              ⟨.ok (), some value,
                w3.setHeap obj { ho with wrapped := some (.instance { inst with handle := objHandle }) }⟩
            | _, _ => ⟨.error .invalidPointer, some value, w3⟩

/-! ## `njsDbObject_transformFromOracle` -/

/-- The error thrown at the end of `njsDbObject_transformFromOracle`. -/
def errConvertFrom (w : World) (obj : njsDbObject) (attr : Option njsDbObjectAttr) : njsError :=
  match w.objTypes obj.type with
  | none => .invalidPointer
  | some ty =>
    match attr with
    | some a => .errConvertFromObjAttr (a.name.take a.nameLength) (ty.fqn.take ty.fqnLength)
    | none => .errConvertFromObjElement (ty.fqn.take ty.fqnLength)

/-- `njsDbObject_transformFromOracle`: transform the value returned by ODPI-C into the value
expected by the host. -/
def njsDbObject_transformFromOracle (host : Collaborators) (w : World) (obj : njsDbObject)
    (typeInfo : njsDataTypeInfo) (data : dpiData) (attr : Option njsDbObjectAttr) :
    FromOracle :=
  -- handle null values
  if data.isNull ≠ 0 then ⟨.ok (), some .null, w⟩
  -- transform other values
  else if typeInfo.oracleTypeNum = DPI_ORACLE_TYPE_CHAR
      ∨ typeInfo.oracleTypeNum = DPI_ORACLE_TYPE_NCHAR
      ∨ typeInfo.oracleTypeNum = DPI_ORACLE_TYPE_VARCHAR
      ∨ typeInfo.oracleTypeNum = DPI_ORACLE_TYPE_NVARCHAR then
    ⟨.ok (), some (napi_create_string_utf8 data.value.asBytes.ptr data.value.asBytes.length), w⟩
  else if typeInfo.oracleTypeNum = DPI_ORACLE_TYPE_RAW then
    ⟨.ok (), some (napi_create_buffer_copy data.value.asBytes.length data.value.asBytes.ptr), w⟩
  else if typeInfo.oracleTypeNum = DPI_ORACLE_TYPE_NUMBER then
    if typeInfo.nativeTypeNum = DPI_NATIVE_TYPE_INT64 then
      ⟨.ok (), some (napi_create_int64 data.value.asInt64), w⟩
    else
      ⟨.ok (), some (napi_create_double data.value.asDouble), w⟩
  else if typeInfo.oracleTypeNum = DPI_ORACLE_TYPE_NATIVE_INT then
    ⟨.ok (), some (napi_create_int64 data.value.asInt64), w⟩
  else if typeInfo.oracleTypeNum = DPI_ORACLE_TYPE_NATIVE_FLOAT then
    ⟨.ok (), some (napi_create_double data.value.asFloat.toFloat64), w⟩
  else if typeInfo.oracleTypeNum = DPI_ORACLE_TYPE_NATIVE_DOUBLE then
    ⟨.ok (), some (napi_create_double data.value.asDouble), w⟩
  else if typeInfo.oracleTypeNum = DPI_ORACLE_TYPE_DATE
      ∨ typeInfo.oracleTypeNum = DPI_ORACLE_TYPE_TIMESTAMP
      ∨ typeInfo.oracleTypeNum = DPI_ORACLE_TYPE_TIMESTAMP_TZ
      ∨ typeInfo.oracleTypeNum = DPI_ORACLE_TYPE_TIMESTAMP_LTZ then
    ⟨.ok (), some (napi_new_instance_Date data.value.asDouble), w⟩
  else if typeInfo.oracleTypeNum = DPI_ORACLE_TYPE_CLOB
      ∨ typeInfo.oracleTypeNum = DPI_ORACLE_TYPE_NCLOB
      ∨ typeInfo.oracleTypeNum = DPI_ORACLE_TYPE_BLOB then
    match dpiLob_getChunkSize w data.value.asLOB with
    | none => ⟨.error .errDPI, none, w⟩
    | some chunkSize =>
      match dpiLob_getSize w data.value.asLOB with
      | none => ⟨.error .errDPI, none, w⟩
      | some length =>
        match w.objTypes obj.type with
        | none => ⟨.error .invalidPointer, none, w⟩
        | some ty =>
          match ty.jsDbObjectConstructor with
          | none => ⟨.error .errNapi, none, w⟩
          | some constructor =>
            match host.njsLob_new w
                ⟨typeInfo.oracleTypeNum, data.value.asLOB, true, chunkSize, length⟩
                constructor with
            | (none, w1) => ⟨.error .errCollaborator, none, w1⟩
            | (some value, w1) =>
              match dpiLob_addRef w1 data.value.asLOB with
              | none => ⟨.error .errDPI, some value, w1⟩
              | some w2 => ⟨.ok (), some value, w2⟩
  else if typeInfo.oracleTypeNum = DPI_ORACLE_TYPE_OBJECT then
    let r := njsDbObject_new host w typeInfo.objectType data.value.asObject
    { r with world := dpiObject_release r.world data.value.asObject }
  else if typeInfo.oracleTypeNum = DPI_ORACLE_TYPE_BOOLEAN then
    ⟨.ok (), some (napi_get_boolean data.value.asBoolean), w⟩
  -- unsupported
  else ⟨.error (errConvertFrom w obj attr), none, w⟩

/-! ## `njsDbObject_transformToOracle` -/

/-- Modelled from the spec: `njsUtils_copyStringFromJS` of `njsUtils.c`, which is not under
src/ ("text → copy to an owned byte buffer (caller-freed after the native call consumes
it)"). The buffer holds the UTF-8 bytes and a terminating NUL; the length excludes the NUL.
Only host text has a length to report (`errNapi` otherwise); a failed allocation leaves no
buffer. -/
def njsUtils_copyStringFromJS (w : World) (value : HostValue) :
    Except njsError (Bytes × Nat) × World :=
  match value with
  | .string utf8 =>
    match w.alloc with
    | none => (.error .errInsufficientMemory, w)
    | some w1 => (.ok (utf8 ++ [0], utf8.length), w1)
  | _ => (.error .errNapi, w)

/-- Value of a host number (`napi_get_value_double`). -/
def napi_get_value_double : HostValue → Option Float64
  | .number d => some d
  | _ => none

/-- Value of a host boolean (`napi_get_value_bool`). -/
def napi_get_value_bool : HostValue → Option Bool
  | .boolean b => some b
  | _ => none

/-- Whether the value is an instance of the host's `Date` (`napi_instanceof`). -/
def napi_instanceof_Date : HostValue → Bool
  | .date _ => true
  | .exotic isDate _ _ _ => isDate
  | _ => false

/-- Numeric coercion of a host value (`napi_coerce_to_number`), as far as it is used: on
dates, whose number is the time value. -/
def napi_coerce_to_number : HostValue → Option HostValue
  | .date t => some (.number t)
  | .number d => some (.number d)
  | .exotic _ number _ _ => number.map .number
  | _ => none

/-- Storage and length of a host buffer (`napi_is_buffer`, `napi_get_buffer_info`). -/
def napi_get_buffer_info : HostValue → Option (Bytes × Nat)
  | .buffer bytes => some (bytes, bytes.length)
  | .exotic _ _ (some bytes) _ => some (bytes, bytes.length)
  | _ => none

/-- Whether the value is an instance of the base database object class (`napi_instanceof`
against `globals->jsBaseDbObjectConstructor`). -/
def napi_instanceof_BaseDbObject (w : World) : HostValue → Bool
  | .object r =>
    match w.heap r with
    | some ho => ho.instanceOfBaseDbObject
    | none => false
  | .exotic _ _ _ isBase => isBase
  | _ => false

/-- The error thrown at the end of `njsDbObject_transformToOracle`. -/
def errConvertTo (w : World) (obj : njsDbObject) (attr : Option njsDbObjectAttr) : njsError :=
  match w.objTypes obj.type with
  | none => .invalidPointer
  | some ty =>
    match attr with
    | some a => .errConvertToObjAttr (a.name.take a.nameLength) (ty.fqn.take ty.fqnLength)
    | none => .errConvertToObjElement (ty.fqn.take ty.fqnLength)

/-- Outputs of `njsDbObject_transformToOracle`: the status, the final `*nativeTypeNum`,
`*data` and `*strBuffer`, and the world reached. -/
structure ToOracle where
  status : Except njsError Unit
  nativeTypeNum : dpiNativeTypeNum
  data : dpiData
  strBuffer : Option Bytes
  world : World

/-- The `napi_object` case of `njsDbObject_transformToOracle`, entered with `isNull`
cleared: dates, buffers, database objects, then any other object as the initial value of
the object type the slot declares. -/
def njsDbObject_transformToOracle_object (host : Collaborators) (w : World)
    (obj : njsDbObject) (value : HostValue) (nativeTypeNum : dpiNativeTypeNum)
    (data : dpiData) (attr : Option njsDbObjectAttr) : ToOracle :=
  -- handle dates
  if napi_instanceof_Date value then
    match (napi_coerce_to_number value).bind napi_get_value_double with
    | none => ⟨.error .errNapi, nativeTypeNum, data, none, w⟩
    | some d =>
      ⟨.ok (), DPI_NATIVE_TYPE_DOUBLE, { data with value := { data.value with asDouble := d } },
        none, w⟩
  else
    -- handle buffers
    match napi_get_buffer_info value with
    | some (bufferData, length) =>
      ⟨.ok (), DPI_NATIVE_TYPE_BYTES, dpiData_setBytes data bufferData (length % 2 ^ 32),
        none, w⟩
    | none =>
      -- handle database objects
      if napi_instanceof_BaseDbObject w value then
        match njsDbObject_getInstance w value with
        | (.error e, w1) => ⟨.error e, nativeTypeNum, data, none, w1⟩
        | (.ok valueObj, w1) =>
          match w1.instanceAt valueObj with
          | none => ⟨.error .invalidPointer, nativeTypeNum, data, none, w1⟩
          | some inst =>
            ⟨.ok (), DPI_NATIVE_TYPE_OBJECT, dpiData_setObject data inst.handle, none, w1⟩
      else
        -- other objects are the initial value for an object
        let slot : Except njsError (Option TypePtr) :=
          match attr with
          | some a => .ok a.typeInfo.objectType
          | none =>
            match w.objTypes obj.type with
            | some ty => .ok ty.elementTypeInfo.objectType
            | none => .error .invalidPointer
        match slot with
        | .error e => ⟨.error e, nativeTypeNum, data, none, w⟩
        | .ok none => ⟨.error (errConvertTo w obj attr), nativeTypeNum, data, none, w⟩
        | .ok (some objType) =>
          match w.objTypes objType with
          | none => ⟨.error .invalidPointer, nativeTypeNum, data, none, w⟩
          | some ty =>
            match ty.jsDbObjectConstructor with
            | none => ⟨.error .errNapi, nativeTypeNum, data, none, w⟩
            | some constructor =>
              match host.napi_new_instance w constructor [value] with
              | (none, w1) => ⟨.error .errNapi, nativeTypeNum, data, none, w1⟩
              | (some tempObj, w1) =>
                match njsDbObject_getInstance w1 tempObj with
                | (.error e, w2) => ⟨.error e, nativeTypeNum, data, none, w2⟩
                | (.ok valueObj, w2) =>
                  match w2.instanceAt valueObj with
                  | none => ⟨.error .invalidPointer, nativeTypeNum, data, none, w2⟩
                  | some inst =>
                    ⟨.ok (), DPI_NATIVE_TYPE_OBJECT, dpiData_setObject data inst.handle,
                      none, w2⟩

/-- `njsDbObject_transformToOracle`: transform a host value into the value ODPI-C expects.
`nativeTypeNum` and `data` are the contents of `*nativeTypeNum` and `*data` on entry. -/
def njsDbObject_transformToOracle (host : Collaborators) (w : World) (obj : njsDbObject)
    (value : HostValue) (nativeTypeNum : dpiNativeTypeNum) (data : dpiData)
    (attr : Option njsDbObjectAttr) : ToOracle :=
  let data : dpiData := { data with isNull := 0 }
  match napi_typeof value with
  -- null and undefined are treated as Oracle null values
  | .napi_null | .napi_undefined =>
    ⟨.ok (), nativeTypeNum, dpiData_setNull data, none, w⟩
  -- strings are handled as bytes; the buffer is retained for the caller to free
  | .napi_string =>
    match njsUtils_copyStringFromJS w value with
    | (.error e, w1) => ⟨.error e, nativeTypeNum, data, none, w1⟩
    | (.ok (strBuffer, length), w1) =>
      ⟨.ok (), DPI_NATIVE_TYPE_BYTES, dpiData_setBytes data strBuffer (length % 2 ^ 32),
        some strBuffer, w1⟩
  -- numbers are handled as doubles
  | .napi_number =>
    match napi_get_value_double value with
    | none => ⟨.error .errNapi, nativeTypeNum, data, none, w⟩
    | some d =>
      ⟨.ok (),
        if nativeTypeNum ≠ DPI_NATIVE_TYPE_TIMESTAMP then DPI_NATIVE_TYPE_DOUBLE
        else nativeTypeNum,
        { data with value := { data.value with asDouble := d } }, none, w⟩
  -- handle booleans
  | .napi_boolean =>
    match napi_get_value_bool value with
    | none => ⟨.error .errNapi, nativeTypeNum, data, none, w⟩
    | some tempBool =>
      ⟨.ok (), DPI_NATIVE_TYPE_BOOLEAN,
        { data with value := { data.value with asBoolean := if tempBool then 1 else 0 } },
        none, w⟩
  -- several types of objects are supported
  | .napi_object => njsDbObject_transformToOracle_object host w obj value nativeTypeNum data attr
  -- no other types are supported
  | _ => ⟨.error (errConvertTo w obj attr), nativeTypeNum, data, none, w⟩

/-! ## The collection cursor: `njsDbObject_getKeys`, `njsDbObject_getValues` -/

/-- Least member of a list of indices. -/
def leastIndex : List Int → Option Int
  | [] => none
  | i :: is =>
    match leastIndex is with
    | none => some i
    | some j => some (if i ≤ j then i else j)

/-- The indices a native collection holds. -/
def dpiObject.indices (o : dpiObject) : List Int := o.elements.map Prod.fst

/-- What the native collection reports for the element at `index`. -/
def dpiObject.elementAt (o : dpiObject) (index : Int) :
    Option (dpiNativeTypeNum → Option dpiData) :=
  (o.elements.find? fun e => decide (e.1 = index)).map Prod.snd

/-- ODPI-C `dpiObject_getSize`; `none` when the call fails. -/
def dpiObject_getSize (w : World) (h : Option Handle) : Option Nat :=
  (h.bind w.objects).map dpiObject.size

/-- ODPI-C `dpiObject_getFirstIndex`: the least index held; the outer `none` is a failed
call, the inner one `exists = 0`. -/
def dpiObject_getFirstIndex (w : World) (h : Option Handle) : Option (Option Int) :=
  (h.bind w.objects).map fun o => leastIndex o.indices

/-- ODPI-C `dpiObject_getNextIndex`: the least index held that is greater than `index`. -/
def dpiObject_getNextIndex (w : World) (h : Option Handle) (index : Int) :
    Option (Option Int) :=
  (h.bind w.objects).map fun o => leastIndex (o.indices.filter fun j => decide (index < j))

/-- ODPI-C `dpiObject_getElementValueByIndex`; `none` when the call fails. -/
def dpiObject_getElementValueByIndex (w : World) (h : Option Handle) (index : Int)
    (nativeTypeNum : dpiNativeTypeNum) : Option dpiData :=
  ((h.bind w.objects).bind fun o => o.elementAt index).bind fun read => read nativeTypeNum

/-- A host array; `none` is a position that was never set. -/
abbrev HostArray := List (Option HostValue)

/-- An array of the given length with no position set (`napi_create_array_with_length`). -/
def napi_create_array_with_length (length : Nat) : HostArray := List.replicate length none

/-- Store at a position, growing the array when the position is past its end
(`napi_set_element`). -/
def napi_set_element (arr : HostArray) (pos : Nat) (v : HostValue) : HostArray :=
  if pos < arr.length then arr.set pos (some v)
  else arr ++ List.replicate (pos - arr.length) none ++ [some v]

/-- The `while (exists)` loop of `njsDbObject_getKeys`; `cursor` is `exists` with `index`,
`arrayPos` a `uint32_t`. The outer `none` is fuel running out. -/
def njsDbObject_getKeys_loop (w : World) (obj : njsDbObject) :
    Nat → HostArray → Nat → Option Int → Option (Except njsError HostArray)
  | _, arr, _, none => some (.ok arr)
  | 0, _, _, some _ => none
  | fuel + 1, arr, arrayPos, some index =>
    match dpiObject_getNextIndex w obj.handle index with
    | none => some (.error .errDPI)
    | some next =>
      njsDbObject_getKeys_loop w obj fuel
        (napi_set_element arr arrayPos (napi_create_int32 index)) ((arrayPos + 1) % 2 ^ 32) next

/-- `njsDbObject_getKeys`: the indices of the collection as a host array. -/
def njsDbObject_getKeys (fuel : Nat) (w : World) (obj : njsDbObject) :
    Option (Except njsError HostArray) :=
  -- determine the size of the collection and create an array of that length
  match dpiObject_getSize w obj.handle with
  | none => some (.error .errDPI)
  | some size =>
    -- iterate over the elements in the collection
    match dpiObject_getFirstIndex w obj.handle with
    | none => some (.error .errDPI)
    | some first =>
      njsDbObject_getKeys_loop w obj fuel (napi_create_array_with_length size) 0 first

/-- The `while (exists)` loop of `njsDbObject_getValues`. -/
def njsDbObject_getValues_loop (host : Collaborators) (obj : njsDbObject) :
    Nat → World → HostArray → Nat → Option Int → Option (Except njsError HostArray × World)
  | _, w, arr, _, none => some (.ok arr, w)
  | 0, _, _, _, some _ => none
  | fuel + 1, w, arr, arrayPos, some index =>
    match w.objTypes obj.type with
    | none => some (.error .invalidPointer, w)
    | some ty =>
      match dpiObject_getElementValueByIndex w obj.handle index
          ty.elementTypeInfo.nativeTypeNum with
      | none => some (.error .errDPI, w)
      | some data =>
        match njsDbObject_transformFromOracle host w obj ty.elementTypeInfo data none with
        | ⟨.error e, _, w1⟩ => some (.error e, w1)
        | ⟨.ok _, temp, w1⟩ =>
          match dpiObject_getNextIndex w1 obj.handle index with
          | none => some (.error .errDPI, w1)
          | some next =>
            njsDbObject_getValues_loop host obj fuel w1
              (napi_set_element arr arrayPos (temp.getD .undefined)) ((arrayPos + 1) % 2 ^ 32)
              next

/-- `njsDbObject_getValues`: the elements of the collection as a host array. -/
def njsDbObject_getValues (host : Collaborators) (fuel : Nat) (w : World)
    (obj : njsDbObject) : Option (Except njsError HostArray × World) :=
  match dpiObject_getSize w obj.handle with
  | none => some (.error .errDPI, w)
  | some size =>
    match dpiObject_getFirstIndex w obj.handle with
    | none => some (.error .errDPI, w)
    | some first =>
      njsDbObject_getValues_loop host obj fuel w (napi_create_array_with_length size) 0 first

/-! ## Composition and sample data used by the statements -/

/-- Convert a host value to native with `njsDbObject_transformToOracle` and, when that
succeeds, convert the native value produced back with `njsDbObject_transformFromOracle`
under `typeInfo`. -/
def roundTrip (host : Collaborators) (w : World) (obj : njsDbObject) (value : HostValue)
    (nativeTypeNum : dpiNativeTypeNum) (data : dpiData) (attr : Option njsDbObjectAttr)
    (typeInfo : njsDataTypeInfo) : FromOracle :=
  let r := njsDbObject_transformToOracle host w obj value nativeTypeNum data attr
  match r.status with
  | .ok _ => njsDbObject_transformFromOracle host r.world obj typeInfo r.data attr
  | .error e => ⟨.error e, none, r.world⟩

/-- A world with nothing in it where `n` allocations succeed. -/
def World.blank (n : Nat) : World :=
  { heap := fun _ => none, objTypes := fun _ => none, objects := fun _ => none,
    lobs := fun _ => none, nextHandle := 0, canCreateObject := fun _ => false,
    allocBudget := n, objectTypes := fun _ => none, objectAttrs := fun _ => none,
    attrValues := fun _ _ => none, nextTypePtr := 0, trace := [] }

/-- Collaborators that always fail. -/
def Collaborators.failing : Collaborators :=
  { napi_new_instance := fun w _ _ => (none, w), njsLob_new := fun w _ _ => (none, w),
    getDbObjectClassJS := fun w _ _ => (none, w),
    njsUtils_addTypeProperties := fun _ _ _ _ => none,
    napi_define_properties := fun _ _ _ => none,
    njsUtils_getIntArg := fun _ => .error .errInvalidParameterValue }

/-- A zeroed `dpiData`. -/
def dpiData.zero : dpiData := ⟨0, ⟨0, 0, ⟨0⟩, ⟨0⟩, ⟨[], 0⟩, none, none⟩⟩

/-- The descriptor of a type named `HR.T` (no attributes, elements of the given type). -/
def sampleType (elementTypeInfo : njsDataTypeInfo) : njsDbObjectType :=
  ⟨some 7, 0, [], elementTypeInfo, [72, 82, 46, 84], 4, none, []⟩

/-- A world whose only descriptor, at address 1, is `sampleType`. -/
def World.withType (elementTypeInfo : njsDataTypeInfo) : World :=
  { World.blank 1 with
    objTypes := fun p => if p = 1 then some (sampleType elementTypeInfo) else none }

/-- An attribute named `AMOUNT`. -/
def sampleAttr (typeInfo : njsDataTypeInfo) : njsDbObjectAttr :=
  ⟨some 9, [65, 77, 79, 85, 78, 84], 6, typeInfo⟩

/-- Store the values at consecutive positions from `pos` on, with `napi_set_element`. -/
def napi_set_elements : HostArray → Nat → List HostValue → HostArray
  | arr, _, [] => arr
  | arr, pos, v :: vs => napi_set_elements (napi_set_element arr pos v) (pos + 1) vs

/-- What aligning `njsDbObject_getValues` with the indices means: the elements at the given
indices are read (under the representation of the element type) and converted with
`njsDbObject_transformFromOracle` (element type information, no attribute) one after the
other, each in the world the previous conversion left; the first failure ends it. -/
def convertElements (host : Collaborators) (obj : njsDbObject) (ty : njsDbObjectType) :
    World → List Int → Except njsError (List HostValue) × World
  | w, [] => (.ok [], w)
  | w, index :: rest =>
    match dpiObject_getElementValueByIndex w obj.handle index
        ty.elementTypeInfo.nativeTypeNum with
    | none => (.error .errDPI, w)
    | some data =>
      match njsDbObject_transformFromOracle host w obj ty.elementTypeInfo data none with
      | ⟨.error e, _, w1⟩ => (.error e, w1)
      | ⟨.ok _, temp, w1⟩ =>
        match convertElements host obj ty w1 rest with
        | (.error e, w2) => (.error e, w2)
        | (.ok vs, w2) => (.ok (temp.getD .undefined :: vs), w2)

/-- A native element all of whose representations report the given `int64_t`. -/
def int64Element (i : Int) : dpiNativeTypeNum → Option dpiData :=
  fun _ => some { dpiData.zero with value := { dpiData.zero.value with asInt64 := i } }

/-- A world whose only descriptor, at address 1, is `sampleType` with elements of type
NUMBER carried as `int64_t`, and whose only native object, at handle 3, is a collection
with the given size report and elements. -/
def World.withCollection (size : Nat)
    (elements : List (Int × (dpiNativeTypeNum → Option dpiData))) : World :=
  { World.withType ⟨DPI_ORACLE_TYPE_NUMBER, DPI_NATIVE_TYPE_INT64, none⟩ with
    objects := fun k => if k = 3 then some ⟨1, size, elements⟩ else none }

/-! ## Type introspection: `njsDbObject_getSubClass`, `njsDbObjectType_populate` -/

/-- Record an event. -/
def World.record (w : World) (e : Event) : World :=
  { w with trace := w.trace ++ [e] }

/-- Replace or drop the state of a native object type. -/
def World.setObjectType (w : World) (h : Handle) (t : Option dpiObjectType) : World :=
  { w with objectTypes := fun k => if k = h then t else w.objectTypes k }

/-- Replace or drop the state of a native attribute. -/
def World.setObjectAttr (w : World) (h : Handle) (a : Option dpiObjectAttr) : World :=
  { w with objectAttrs := fun k => if k = h then a else w.objectAttrs k }

/-- Replace or free an `njsDbObjectType`. -/
def World.setObjType (w : World) (p : TypePtr) (t : Option njsDbObjectType) : World :=
  { w with objTypes := fun k => if k = p then t else w.objTypes k }

/-- ODPI-C `dpiObjectType_getInfo`. -/
def dpiObjectType_getInfo (w : World) (h : Option Handle) :
    Option dpiObjectTypeInfo × World :=
  ((h.bind w.objectTypes).bind dpiObjectType.info, w.record (.dpiObjectType_getInfo h))

/-- ODPI-C `dpiObjectType_addRef`: fails on a handle that is not live. -/
def dpiObjectType_addRef (w : World) (h : Option Handle) : Bool × World :=
  match h with
  | none => (false, w.record (.dpiObjectType_addRef h))
  | some t =>
    match w.objectTypes t with
    | none => (false, w.record (.dpiObjectType_addRef h))
    | some ty =>
      (true, (w.setObjectType t (some { ty with refCount := ty.refCount + 1 })).record
        (.dpiObjectType_addRef h))

/-- ODPI-C `dpiObjectType_release`. -/
def dpiObjectType_release (w : World) (h : Option Handle) : World :=
  match h with
  | none => w
  | some t =>
    match w.objectTypes t with
    | none => w
    | some ty =>
      if ty.refCount ≤ 1 then w.setObjectType t none
      else w.setObjectType t (some { ty with refCount := ty.refCount - 1 })

/-- ODPI-C `dpiObjectAttr_release`. -/
def dpiObjectAttr_release (w : World) (h : Option Handle) : World :=
  match h with
  | none => w
  | some a =>
    match w.objectAttrs a with
    | none => w
    | some attr =>
      if attr.refCount ≤ 1 then w.setObjectAttr a none
      else w.setObjectAttr a (some { attr with refCount := attr.refCount - 1 })

/-- One reference more on each of the attributes that are live. -/
def addRefAttrs (w : World) : List Handle → World
  | [] => w
  | a :: rest =>
    match w.objectAttrs a with
    | none => addRefAttrs w rest
    | some attr =>
      addRefAttrs (w.setObjectAttr a (some { attr with refCount := attr.refCount + 1 })) rest

/-- ODPI-C `dpiObjectType_getAttributes` into an array of `numAttributes` zeroed entries: it
fails when the array is too small; the attributes are returned in declaration order, each
with a reference of its own, and the entries past them stay `NULL`. -/
def dpiObjectType_getAttributes (w : World) (h : Option Handle) (numAttributes : Nat) :
    Option (List (Option Handle)) × World :=
  match (h.bind w.objectTypes).bind dpiObjectType.attributes with
  | none => (none, w.record (.dpiObjectType_getAttributes h))
  | some attrs =>
    if numAttributes < attrs.length then (none, w.record (.dpiObjectType_getAttributes h))
    else
      (some (attrs.map some ++ List.replicate (numAttributes - attrs.length) none),
        (addRefAttrs w attrs).record (.dpiObjectType_getAttributes h))

/-- ODPI-C `dpiObjectAttr_getInfo`. -/
def dpiObjectAttr_getInfo (w : World) (a : Option Handle) :
    Option dpiObjectAttrInfo × World :=
  ((a.bind w.objectAttrs).bind dpiObjectAttr.info, w.record (.dpiObjectAttr_getInfo a))

/-- The zeroed structure `calloc` returns for an `njsDbObjectType`. -/
def njsDbObjectType.zero : njsDbObjectType := ⟨none, 0, [], ⟨0, 0, none⟩, [], 0, none, []⟩

/-- `calloc` of an `njsDbObjectType`: a new address holding a zeroed structure. -/
def World.allocObjType (w : World) : Option (TypePtr × World) :=
  match w.alloc with
  | none => none
  | some w1 =>
    some (w1.nextTypePtr,
      { w1.setObjType w1.nextTypePtr (some njsDbObjectType.zero) with
        nextTypePtr := w1.nextTypePtr + 1 })

/-- The C cast `(int)` of a `uint32_t`. -/
def castInt (n : Nat) : Int :=
  if n % 2 ^ 32 < 2 ^ 31 then (n % 2 ^ 32 : Nat) else (n % 2 ^ 32 : Nat) - 2 ^ 32

/-- Output of the `snprintf` conversion `%.*s`: the bytes of the argument up to its first
NUL, at most `precision` of them (no limit when the precision is negative). -/
def printf_s (precision : Int) (s : Bytes) : Bytes :=
  if precision < 0 then s.takeWhile (fun b => decide (b ≠ 0))
  else (s.take precision.toNat).takeWhile (fun b => decide (b ≠ 0))

/-- Outputs of `njsDbObject_getSubClass`: the status, `*cls`, `*objectType` and the world
reached. -/
structure SubClass where
  status : Except njsError Unit
  cls : Option HostValue
  objectType : Option TypePtr
  world : World

/-- Outputs of `njsDbObjectType_populateTypeInfo`: the status, the content of `*info` and
the world reached. -/
structure PopulateTypeInfo where
  status : Except njsError Unit
  info : njsDataTypeInfo
  world : World

/-- `njsDbObjectType_populateTypeInfo`: populate the type information, acquiring the object
type if needed; the native type is double for all dates. `sub` is the call of
`njsDbObject_getSubClass`; the outer `none` is fuel running out. -/
def njsDbObjectType_populateTypeInfo (sub : World → Option Handle → Option SubClass)
    (w : World) (info : njsDataTypeInfo) (sourceInfo : dpiDataTypeInfo) :
    Option PopulateTypeInfo :=
  let info : njsDataTypeInfo := { info with oracleTypeNum := sourceInfo.oracleTypeNum }
  let info : njsDataTypeInfo := { info with nativeTypeNum := sourceInfo.defaultNativeTypeNum }
  let info : njsDataTypeInfo :=
    if info.oracleTypeNum = DPI_ORACLE_TYPE_DATE
        ∨ info.oracleTypeNum = DPI_ORACLE_TYPE_TIMESTAMP
        ∨ info.oracleTypeNum = DPI_ORACLE_TYPE_TIMESTAMP_TZ
        ∨ info.oracleTypeNum = DPI_ORACLE_TYPE_TIMESTAMP_LTZ then
      { info with nativeTypeNum := DPI_NATIVE_TYPE_DOUBLE }
    else info
  match sourceInfo.objectType with
  | some objectType =>
    match sub w (some objectType) with
    | none => none
    | some r =>
      some ⟨r.status,
        match r.objectType with
        | some t => { info with objectType := some t }
        | none => info,
        r.world⟩
  | none => some ⟨.ok (), info, w⟩

/-- Outputs of the attribute loop of `njsDbObjectType_populate`: the status, the attributes
and the descriptors as far as they were filled in, and the world reached. -/
structure PopulateAttrs where
  status : Except njsError Unit
  attributes : List njsDbObjectAttr
  descriptors : List napi_property_descriptor
  world : World

/-- The loop of `njsDbObjectType_populate` over the attributes, from the attribute at
position `i` on: its information is read, its type information populated, the object
describing it built and its property descriptor filled in. -/
def njsDbObjectType_populate_attrs (host : Collaborators)
    (sub : World → Option Handle → Option SubClass) :
    World → Nat → List njsDbObjectAttr → Option PopulateAttrs
  | w, _, [] => some ⟨.ok (), [], [], w⟩
  | w, i, attr :: rest =>
    match dpiObjectAttr_getInfo w attr.handle with
    | (none, w1) => some ⟨.error .errDPI, attr :: rest, [], w1⟩
    | (some attrInfo, w1) =>
      match njsDbObjectType_populateTypeInfo sub w1 attr.typeInfo attrInfo.typeInfo with
      | none => none
      | some ⟨.error e, typeInfo, w2⟩ =>
        some ⟨.error e, { attr with typeInfo := typeInfo } :: rest, [], w2⟩
      | some ⟨.ok _, typeInfo, w2⟩ =>
        let attr : njsDbObjectAttr :=
          { attr with typeInfo := typeInfo, name := attrInfo.name,
                      nameLength := attrInfo.nameLength }
        match host.njsUtils_addTypeProperties w2 none attrInfo.typeInfo.oracleTypeNum
            attr.typeInfo.objectType with
        | none => some ⟨.error .errCollaborator, attr :: rest, [], w2⟩
        | some w3 =>
          match njsDbObjectType_populate_attrs host sub w3 (i + 1) rest with
          | none => none
          | some r =>
            some ⟨r.status, attr :: r.attributes,
              ⟨napi_create_string_utf8 attrInfo.name attrInfo.nameLength, i⟩ :: r.descriptors,
              r.world⟩

/-- Outputs of `njsDbObjectType_populate`: the status, the content of `*objType` and the
world reached. -/
structure Populate where
  status : Except njsError Unit
  objType : njsDbObjectType
  world : World

/-- End of `njsDbObjectType_populate`: keep a reference to the constructor, keep a copy of
the name for error messages, publish whether the class is a collection. -/
def njsDbObjectType_populate_finish (w : World) (objType : njsDbObjectType)
    (jsObjectType : Option Ref) (info : dpiObjectTypeInfo) : Populate :=
  match (jsObjectType.bind w.heap).bind HostObject.constructorProperty with
  | none => ⟨.error .errNapi, objType, w⟩
  | some constructor =>
    let objType : njsDbObjectType := { objType with jsDbObjectConstructor := some constructor }
    let objType : njsDbObjectType :=
      { objType with fqnLength := (info.schemaLength + info.nameLength + 1) % 2 ^ 32 }
    match w.alloc with
    | none => ⟨.error .errInsufficientMemory, objType, w⟩
    | some w1 =>
      ⟨.ok (),
        { objType with
          fqn := (printf_s (castInt info.schemaLength) info.schema ++ [46]
            ++ printf_s (castInt info.nameLength) info.name).take objType.fqnLength ++ [0] },
        w1⟩

/-- The part of `njsDbObjectType_populate` that depends on the kind of type: the element
type of a collection, or the attributes of an object type and their accessors. -/
def njsDbObjectType_populate_members (host : Collaborators)
    (sub : World → Option Handle → Option SubClass) (w : World) (objType : njsDbObjectType)
    (jsObjectType : Option Ref) (info : dpiObjectTypeInfo) : Option Populate :=
  -- process collections object types
  if info.isCollection then
    match njsDbObjectType_populateTypeInfo sub w objType.elementTypeInfo
        info.elementTypeInfo with
    | none => none
    | some ⟨.error e, typeInfo, w1⟩ =>
      some ⟨.error e, { objType with elementTypeInfo := typeInfo }, w1⟩
    | some ⟨.ok _, typeInfo, w1⟩ =>
      let objType : njsDbObjectType := { objType with elementTypeInfo := typeInfo }
      match jsObjectType with
      -- a prototype that is no object takes no property
      | none => some ⟨.error .errNapi, objType, w1⟩
      | some prototype =>
        match host.njsUtils_addTypeProperties w1 (some prototype)
            info.elementTypeInfo.oracleTypeNum objType.elementTypeInfo.objectType with
        | none => some ⟨.error .errCollaborator, objType, w1⟩
        | some w2 => some ⟨.ok (), objType, w2⟩
  -- process object types with attributes
  else
    match w.alloc with
    | none => some ⟨.error .errInsufficientMemory, objType, w⟩
    | some w1 =>
      match njsDbObjectType_populate_attrs host sub w1 0
          (objType.attributes.take info.numAttributes) with
      | none => none
      | some r =>
        let objType : njsDbObjectType :=
          { objType with
            attributes := r.attributes ++ objType.attributes.drop info.numAttributes,
            descriptors := r.descriptors }
        match r.status with
        | .error e => some ⟨.error e, objType, r.world⟩
        | .ok _ =>
          -- the property `attributes` can be set on an object only
          match jsObjectType with
          | none => some ⟨.error .errNapi, objType, r.world⟩
          | some prototype =>
            match r.world.heap prototype with
            | none => some ⟨.error .errNapi, objType, r.world⟩
            | some _ =>
              if 0 < info.numAttributes then
                match host.napi_define_properties r.world prototype objType.descriptors with
                | none => some ⟨.error .errNapi, objType, r.world⟩
                | some w2 => some ⟨.ok (), objType, w2⟩
              else some ⟨.ok (), objType, r.world⟩

/-- The part of `njsDbObjectType_populate` that transfers the attribute handles to the
instance: the attribute array and the array of handles are allocated, the handles are
fetched and stored. On failure the attribute array holds no handle. -/
def njsDbObjectType_populate_handles (w : World) (objType : njsDbObjectType)
    (objectTypeHandle : Option Handle) (info : dpiObjectTypeInfo) :
    Except njsError njsDbObjectType × World :=
  if 0 < info.numAttributes then
    -- allocate space for attributes
    match w.alloc with
    | none => (.error .errInsufficientMemory, w)
    | some w1 =>
      -- determine the attributes associated with the object type
      match w1.alloc with
      | none => (.error .errInsufficientMemory, w1)
      | some w2 =>
        match dpiObjectType_getAttributes w2 objectTypeHandle objType.numAttributes with
        | (none, w3) => (.error .errDPI, w3)
        | (some attrHandles, w3) =>
          -- transfer handle to attribute structure
          (.ok { objType with
              attributes := (attrHandles.take info.numAttributes).map fun h =>
                ⟨h, [], 0, ⟨0, 0, none⟩⟩ },
            w3)
  else (.ok objType, w)

/-- `njsDbObjectType_populate`: populate the object type and its host equivalent
(`jsObjectType`, the class prototype) with the information about the object type. -/
def njsDbObjectType_populate (host : Collaborators)
    (sub : World → Option Handle → Option SubClass) (w : World) (objType : njsDbObjectType)
    (objectTypeHandle : Option Handle) (jsObjectType : Option Ref)
    (info : dpiObjectTypeInfo) : Option Populate :=
  -- transfer basic data to instance
  match dpiObjectType_addRef w objectTypeHandle with
  | (false, w1) => some ⟨.error .errDPI, objType, w1⟩
  | (true, w1) =>
    let objType : njsDbObjectType :=
      { objType with handle := objectTypeHandle, numAttributes := info.numAttributes }
    -- transfer attribute information to instance
    match njsDbObjectType_populate_handles w1 objType objectTypeHandle info with
    | (.error e, w2) => some ⟨.error e, objType, w2⟩
    | (.ok objType, w2) =>
      match njsDbObjectType_populate_members host sub w2 objType jsObjectType info with
      | none => none
      | some ⟨.error e, objType, w3⟩ => some ⟨.error e, objType, w3⟩
      | some ⟨.ok _, objType, w3⟩ =>
        njsDbObjectType_populate_finish w3 objType jsObjectType info

/-- `njsDbObjectType_finalize`: release the attribute handles and the type handle and free
the structure at `p`, whose content is `type`. -/
def njsDbObjectType_finalize (w : World) (p : TypePtr) (type : njsDbObjectType) : World :=
  (dpiObjectType_release
    (type.attributes.foldl (fun w attr => dpiObjectAttr_release w attr.handle) w)
    type.handle).setObjType p none

/-- The `prototype` of a class and the object type it wraps, if any
(`napi_get_named_property`, `napi_unwrap`); the outer `none` when the class is no object. -/
def classPrototype (w : World) : HostValue → Option (Option Ref)
  | .object c => (w.heap c).map HostObject.prototypeProperty
  | _ => none

/-- The `njsDbObjectType` a host object wraps (`napi_unwrap`). -/
def napi_unwrap_objectType (w : World) (r : Option Ref) : Option TypePtr :=
  match r.bind w.heap with
  | some ho =>
    match ho.wrapped with
    | some (.objectType t) => some t
    | _ => none
  | none => none

/-- `napi_wrap` of an `njsDbObjectType` on a host object: refused when the object is
wrapped already. -/
def napi_wrap_objectType (w : World) (r : Option Ref) (p : TypePtr) : Option World :=
  match r with
  | none => none
  | some r =>
    match w.heap r with
    | none => none
    | some ho =>
      match ho.wrapped with
      | some _ => none
      | none => some (w.setHeap r { ho with wrapped := some (.objectType p) })

/-- `njsDbObject_getSubClass`: the sub class for the specified type. The first argument is
fuel, spent by each call; the outer `none` is fuel running out. -/
def njsDbObject_getSubClass :
    Nat → Collaborators → World → Option Handle → Option SubClass
  | 0, _, _, _ => none
  | fuel + 1, host, w, objectTypeHandle =>
    -- get object type information from ODPI-C
    match dpiObjectType_getInfo w objectTypeHandle with
    | (none, w1) => some ⟨.error .errDPI, none, none, w1⟩
    | (some info, w1) =>
      -- call into the host to get the sub class (stored in a cache on the connection)
      match host.getDbObjectClassJS w1 (info.schema.take info.schemaLength)
          (info.name.take info.nameLength) with
      | (none, w2) => some ⟨.error .errNapi, none, none, w2⟩
      | (some cls, w2) =>
        -- get the class prototype; if it has already been wrapped, it has been fully
        -- populated and there is no need to do anything further
        match classPrototype w2 cls with
        | none => some ⟨.error .errNapi, some cls, none, w2⟩
        | some prototype =>
          match napi_unwrap_objectType w2 prototype with
          | some objectType => some ⟨.ok (), some cls, some objectType, w2⟩
          | none =>
            -- allocate memory for structure; memory is zero-ed
            match w2.allocObjType with
            | none => some ⟨.error .errInsufficientMemory, some cls, none, w2⟩
            | some (tempObjectType, w3) =>
              -- populate object type and prototype
              match njsDbObjectType_populate host (njsDbObject_getSubClass fuel host) w3
                  njsDbObjectType.zero objectTypeHandle prototype info with
              | none => none
              | some ⟨.error e, objType, w4⟩ =>
                some ⟨.error e, some cls, none,
                  njsDbObjectType_finalize w4 tempObjectType objType⟩
              | some ⟨.ok _, objType, w4⟩ =>
                -- wrap the structure for use by the host
                match napi_wrap_objectType (w4.setObjType tempObjectType (some objType))
                    prototype tempObjectType with
                | none =>
                  some ⟨.error .errNapi, some cls, none,
                    njsDbObjectType_finalize w4 tempObjectType objType⟩
                | some w5 => some ⟨.ok (), some cls, some tempObjectType, w5⟩

/-! ## Sample classes and instances -/

/-- A world with the class of `sampleType` (elements of the type itself): the descriptor, at
address 1, is attached to the class prototype at 6, whose constructor is the class at 8; the
host object at 5 is an instance holding the native object 3, whose attribute 9 is the
number 5; the host object at 20 is a plain object. Objects of the type can be created; the
next one gets the handle 30. -/
def World.withInstance : World :=
  { World.blank 4 with
    heap := fun r =>
      if r = 5 then some ⟨some 6, .undefined, true, some (.instance ⟨1, some 3⟩), none, none⟩
      else if r = 6 then some ⟨none, .undefined, false, some (.objectType 1), none, some 8⟩
      else if r = 8 then some ⟨none, .undefined, false, none, some 6, none⟩
      else if r = 20 then some ⟨none, .undefined, false, none, none, none⟩
      else none,
    objTypes := fun p =>
      if p = 1 then
        some { sampleType ⟨DPI_ORACLE_TYPE_OBJECT, DPI_NATIVE_TYPE_OBJECT, some 1⟩ with
          jsDbObjectConstructor := some 8 }
      else none,
    objects := fun k => if k = 3 then some ⟨1, 0, []⟩ else none,
    nextHandle := 30,
    canCreateObject := fun t => decide (t = 7),
    attrValues := fun k a => if k = 3 ∧ a = 9 then some (int64Element 5) else none,
    nextTypePtr := 2 }

/-- A host whose `napi_new_instance` creates, at the reference 21, an object that is not
wrapped yet and has the class prototype of the constructor; its other collaborators fail. -/
def Collaborators.constructing : Collaborators :=
  { Collaborators.failing with
    napi_new_instance := fun w c _ =>
      match w.heap c with
      | some cls =>
        (some (.object 21),
          w.setHeap 21 ⟨cls.prototypeProperty, .undefined, true, none, none, none⟩)
      | none => (none, w) }

/-- A host with a class cache that is a table looked up by schema and name, and whose type
property helpers succeed; none of them changes the world. -/
def Collaborators.caching (cache : Bytes → Bytes → Option HostValue) : Collaborators :=
  { Collaborators.failing with
    getDbObjectClassJS := fun w schema name => (cache schema name, w),
    njsUtils_addTypeProperties := fun w _ _ _ => some w,
    napi_define_properties := fun w _ _ => some w }

/-- The class table of the sample native types: the classes at 8 (`A`), 9 (`B`) and 18
(any other name). -/
def sampleCache (_schema name : Bytes) : Option HostValue :=
  if name = [65] then some (.object 8)
  else if name = [66] then some (.object 9)
  else some (.object 18)

/-- Information about the sample type 12: an object type with the given schema (of
`schemaLength` bytes) and the name `T`, with one attribute. -/
def sampleInfo (schema : Bytes) (schemaLength : Nat) : dpiObjectTypeInfo :=
  ⟨schema, schemaLength, [84], 1, false, ⟨0, 0, none⟩, 1⟩

/-- A world of native types. The types 10 (`HR.A`) and 11 (`HR.B`) nest each other: the one
attribute of `A` (handle 20, named `B`) is of type `B` and the one attribute of `B` (handle
21, named `A`) is of type `A`. The type 12 (`sampleInfo`) has the one attribute 22, named
`AMOUNT`, a NUMBER read as a double. The classes at 8, 9 and 18 have the prototypes 6, 7 and
16, none of which has a descriptor attached; each prototype has its class as constructor. -/
def World.withNativeTypes (schema : Bytes) (schemaLength : Nat) : World :=
  { World.blank 64 with
    heap := fun r =>
      if r = 8 then some ⟨none, .undefined, false, none, some 6, none⟩
      else if r = 6 then some ⟨none, .undefined, false, none, none, some 8⟩
      else if r = 9 then some ⟨none, .undefined, false, none, some 7, none⟩
      else if r = 7 then some ⟨none, .undefined, false, none, none, some 9⟩
      else if r = 18 then some ⟨none, .undefined, false, none, some 16, none⟩
      else if r = 16 then some ⟨none, .undefined, false, none, none, some 18⟩
      else none,
    objectTypes := fun h =>
      if h = 10 then
        some ⟨1, some ⟨[72, 82], 2, [65], 1, false, ⟨0, 0, none⟩, 1⟩, some [20]⟩
      else if h = 11 then
        some ⟨1, some ⟨[72, 82], 2, [66], 1, false, ⟨0, 0, none⟩, 1⟩, some [21]⟩
      else if h = 12 then some ⟨1, some (sampleInfo schema schemaLength), some [22]⟩
      else none,
    objectAttrs := fun a =>
      if a = 20 then
        some ⟨1, some ⟨[66], 1, ⟨DPI_ORACLE_TYPE_OBJECT, DPI_NATIVE_TYPE_OBJECT, some 11⟩⟩⟩
      else if a = 21 then
        some ⟨1, some ⟨[65], 1, ⟨DPI_ORACLE_TYPE_OBJECT, DPI_NATIVE_TYPE_OBJECT, some 10⟩⟩⟩
      else if a = 22 then
        some ⟨1, some ⟨[65, 77, 79, 85, 78, 84], 6,
          ⟨DPI_ORACLE_TYPE_NUMBER, DPI_NATIVE_TYPE_DOUBLE, none⟩⟩⟩
      else none,
    nextTypePtr := 2 }

/-! ## What the host keeps -/

/-- In the world `w` the first attribute of the object type `a` is of the object type `b`:
the information about `a` is available and describes an object type (no collection) with
attributes, its attribute list starts with an attribute whose information is available and
names `b` as its object type. -/
def World.nests (w : World) (a b : Handle) : Prop :=
  ∃ info x rest ainfo, (dpiObjectType_getInfo w (some a)).1 = some info
    ∧ info.isCollection = false ∧ 0 < info.numAttributes
    ∧ ((some a).bind w.objectTypes).bind dpiObjectType.attributes = some (x :: rest)
    ∧ (dpiObjectAttr_getInfo w (some x)).1 = some ainfo
    ∧ ainfo.typeInfo.objectType = some b

/-- In the world `w` no descriptor is attached to the prototype of the class that the class
table `cache` holds for the object type `a`. -/
def World.unattached (w : World) (cache : Bytes → Bytes → Option HostValue) (a : Handle) :
    Prop :=
  ∀ info cls proto, (dpiObjectType_getInfo w (some a)).1 = some info →
    cache (info.schema.take info.schemaLength) (info.name.take info.nameLength) = some cls →
    classPrototype w cls = some proto → napi_unwrap_objectType w proto = none

/-- The world `w2` shows the host heap and the native type information that `w1` shows. -/
def World.sameTypes (w1 w2 : World) : Prop :=
  w2.heap = w1.heap
    ∧ (∀ h, (w2.objectTypes h).bind dpiObjectType.info
        = (w1.objectTypes h).bind dpiObjectType.info)
    ∧ (∀ h, (w2.objectTypes h).bind dpiObjectType.attributes
        = (w1.objectTypes h).bind dpiObjectType.attributes)
    ∧ (∀ x, (w2.objectAttrs x).bind dpiObjectAttr.info
        = (w1.objectAttrs x).bind dpiObjectAttr.info)

/-! ## Elements and attributes: `njsDbObject_append`, `njsDbObject_copy`, and others -/

/-- What ODPI-C does with a value it is given to store, which this file leaves open. -/
structure dpiLibrary where
  /-- The value stored when `data` is written under a representation, given as an element
  is: by what a read reports for it under each requested representation; `none` when the
  value cannot be stored. -/
  store : dpiNativeTypeNum → dpiData → Option (dpiNativeTypeNum → Option dpiData)
  /-- Whether `dpiObject_getSize` keeps counting an element that was deleted. -/
  sizeCountsDeleted : Bool

/-- The greatest member of a list of indices. -/
def greatestIndex : List Int → Option Int
  | [] => none
  | i :: is =>
    match greatestIndex is with
    | none => some i
    | some j => some (if j ≤ i then i else j)

/-- ODPI-C `dpiObject_appendElement`: the value is stored past the last element, at the
position the size gives when that is further on. The result tells whether the call
succeeded; the call is recorded either way. -/
def dpiObject_appendElement (lib : dpiLibrary) (w : World) (h : Option Handle)
    (nativeTypeNum : dpiNativeTypeNum) (data : dpiData) : Bool × World :=
  match h with
  | some k =>
    match w.objects k, lib.store nativeTypeNum data with
    | some o, some element =>
      let index : Int :=
        match greatestIndex o.indices with
        | none => o.size
        | some last => max (o.size : Int) (last + 1)
      (true, (w.setObject k
        (some { o with size := o.size + 1, elements := o.elements ++ [(index, element)] })).record
        (.dpiObject_appendElement h))
    | _, _ => (false, w.record (.dpiObject_appendElement h))
  | none => (false, w.record (.dpiObject_appendElement h))

/-- ODPI-C `dpiObject_deleteElementByIndex`: fails when there is no element at the index. -/
def dpiObject_deleteElementByIndex (lib : dpiLibrary) (w : World) (h : Option Handle)
    (index : Int) : Option World :=
  match h with
  | none => none
  | some k =>
    match w.objects k with
    | none => none
    | some o =>
      match o.elementAt index with
      | none => none
      | some _ =>
        some (w.setObject k
          (some { o with
            size := if lib.sizeCountsDeleted then o.size else o.size - 1,
            elements := o.elements.filter fun e => decide (e.1 ≠ index) }))

/-- ODPI-C `dpiObject_copy`: a new object, holding one reference, whose elements and
attribute values are those of the object copied. -/
def dpiObject_copy (w : World) (h : Option Handle) : Option (Handle × World) :=
  match h with
  | none => none
  | some k =>
    match w.objects k with
    | none => none
    | some o =>
      some (w.nextHandle,
        { w.setObject w.nextHandle (some { o with refCount := 1 }) with
          attrValues := fun j => if j = w.nextHandle then w.attrValues k else w.attrValues j,
          nextHandle := w.nextHandle + 1 })

/-- ODPI-C `dpiObject_setAttributeValue`. The result tells whether the call succeeded; the
call is recorded either way. -/
def dpiObject_setAttributeValue (lib : dpiLibrary) (w : World) (h attr : Option Handle)
    (nativeTypeNum : dpiNativeTypeNum) (data : dpiData) : Bool × World :=
  match h, attr with
  | some k, some a =>
    match w.objects k, lib.store nativeTypeNum data with
    | some _, some value =>
      (true, { w with
        attrValues := fun j b =>
          if j = k ∧ b = a then some value else w.attrValues j b }.record
        (.dpiObject_setAttributeValue h attr))
    | _, _ => (false, w.record (.dpiObject_setAttributeValue h attr))
  | _, _ => (false, w.record (.dpiObject_setAttributeValue h attr))

/-- ODPI-C `dpiObject_getAttributeValue`; `none` when the call fails. -/
def dpiObject_getAttributeValue (w : World) (h attr : Option Handle)
    (nativeTypeNum : dpiNativeTypeNum) : Option dpiData :=
  match h, attr with
  | some k, some a =>
    match w.objects k with
    | none => none
    | some _ => (w.attrValues k a).bind fun read => read nativeTypeNum
  | _, _ => none

/-- What `free(str)` after the native call leaves: the scratch buffer, when there is one, is
released. -/
def freeStr (w : World) : Option Bytes → World
  | some str => w.record (.free str)
  | none => w

/-- `njsDbObject_append`: append an element to the end of the collection. `obj` is the
calling instance, `arg` the argument, `data` what the local `data` holds on entry. -/
def njsDbObject_append (host : Collaborators) (lib : dpiLibrary) (w : World)
    (obj : njsDbObject) (arg : HostValue) (data : dpiData) : Except njsError Unit × World :=
  match w.objTypes obj.type with
  | none => (.error .invalidPointer, w)
  | some ty =>
    match njsDbObject_transformToOracle host w obj arg ty.elementTypeInfo.nativeTypeNum data
        none with
    | ⟨.error e, _, _, _, w1⟩ => (.error e, w1)
    | ⟨.ok _, nativeTypeNum, data, str, w1⟩ =>
      match dpiObject_appendElement lib w1 obj.handle nativeTypeNum data with
      | (false, w2) => (.error .errDPI, freeStr w2 str)
      | (true, w2) => (.ok (), freeStr w2 str)

/-- `njsDbObject_deleteElement`: delete the element at the specified index. -/
def njsDbObject_deleteElement (host : Collaborators) (lib : dpiLibrary) (w : World)
    (obj : njsDbObject) (arg : HostValue) : Except njsError Unit × World :=
  match host.njsUtils_getIntArg arg with
  | .error e => (.error e, w)
  | .ok index =>
    match dpiObject_deleteElementByIndex lib w obj.handle index with
    | none => (.error .errDPI, w)
    | some w1 => (.ok (), w1)

/-- `njsDbObject_getElement`: the element at the specified index. -/
def njsDbObject_getElement (host : Collaborators) (w : World) (obj : njsDbObject)
    (arg : HostValue) : FromOracle :=
  match host.njsUtils_getIntArg arg with
  | .error e => ⟨.error e, none, w⟩
  | .ok index =>
    match w.objTypes obj.type with
    | none => ⟨.error .invalidPointer, none, w⟩
    | some ty =>
      match dpiObject_getElementValueByIndex w obj.handle index
          ty.elementTypeInfo.nativeTypeNum with
      | none => ⟨.error .errDPI, none, w⟩
      | some data => njsDbObject_transformFromOracle host w obj ty.elementTypeInfo data none

/-- `njsDbObject_getFirstIndex`: the first index in the collection; nothing is returned when
there is none. -/
def njsDbObject_getFirstIndex (w : World) (obj : njsDbObject) :
    Except njsError (Option HostValue) :=
  match dpiObject_getFirstIndex w obj.handle with
  | none => .error .errDPI
  | some none => .ok none
  | some (some index) => .ok (some (napi_create_int32 index))

/-- `njsDbObject_copy`: create a copy of the object and return that. -/
def njsDbObject_copy (host : Collaborators) (w : World) (obj : njsDbObject) : FromOracle :=
  match dpiObject_copy w obj.handle with
  | none => ⟨.error .errDPI, none, w⟩
  | some (copiedObjHandle, w1) =>
    match njsDbObject_new host w1 (some obj.type) (some copiedObjHandle) with
    | ⟨ok, returnValue, w2⟩ => ⟨ok, returnValue, dpiObject_release w2 (some copiedObjHandle)⟩

/-- `njsDbObject_validateArgs`: the instance associated with `thisArg`, once the number of
arguments is validated. -/
def njsDbObject_validateArgs (w : World) (thisArg : HostValue) (actualArgs : List HostValue)
    (numArgs : Nat) : Except njsError Ref × World :=
  if actualArgs.length ≠ numArgs then
    (.error (.errInvalidNumberOfParameters actualArgs.length numArgs), w)
  else njsDbObject_getInstance w thisArg

/-- `njsDbObject_getAttrValueHelper`: helper of the get accessor of the attribute `attr`. -/
def njsDbObject_getAttrValueHelper (host : Collaborators) (w : World) (thisArg : HostValue)
    (actualArgs : List HostValue) (attr : njsDbObjectAttr) : FromOracle :=
  match njsDbObject_validateArgs w thisArg actualArgs 0 with
  | (.error e, w1) => ⟨.error e, none, w1⟩
  | (.ok obj, w1) =>
    match w1.instanceAt obj with
    | none => ⟨.error .invalidPointer, none, w1⟩
    | some inst =>
      match dpiObject_getAttributeValue w1 inst.handle attr.handle
          attr.typeInfo.nativeTypeNum with
      | none => ⟨.error .errDPI, none, w1⟩
      | some data =>
        njsDbObject_transformFromOracle host w1 inst attr.typeInfo data (some attr)

/-- `njsDbObject_setAttrValueHelper`: helper of the set accessor of the attribute `attr`;
`data` is what the local `data` holds on entry. -/
def njsDbObject_setAttrValueHelper (host : Collaborators) (lib : dpiLibrary) (w : World)
    (thisArg : HostValue) (actualArgs : List HostValue) (attr : njsDbObjectAttr)
    (data : dpiData) : Except njsError Unit × World :=
  -- get object instance and validate number of arguments
  match njsDbObject_validateArgs w thisArg actualArgs 1 with
  | (.error e, w1) => (.error e, w1)
  | (.ok obj, w1) =>
    match w1.instanceAt obj, actualArgs with
    | some inst, [value] =>
      -- transform to value required by ODPI-C
      match njsDbObject_transformToOracle host w1 inst value attr.typeInfo.nativeTypeNum data
          (some attr) with
      | ⟨.error e, _, _, _, w2⟩ => (.error e, w2)
      | ⟨.ok _, nativeTypeNum, data, str, w2⟩ =>
        -- set value
        match dpiObject_setAttributeValue lib w2 inst.handle attr.handle nativeTypeNum data with
        | (false, w3) => (.error .errDPI, freeStr w3 str)
        | (true, w3) => (.ok (), freeStr w3 str)
    | _, _ => (.error .invalidPointer, w1)

/-! ## The collection scenario -/

/-- What the collection scenario observes: the status of each mutation, and what each query
returns. -/
structure Scenario where
  append1 : Except njsError Unit
  append2 : Except njsError Unit
  firstIndex1 : Except njsError (Option HostValue)
  element0 : Except njsError Unit × Option HostValue
  delete0 : Except njsError Unit
  firstIndex2 : Except njsError (Option HostValue)
  element1 : Except njsError Unit × Option HostValue
  keys : Option (Except njsError HostArray)

/-- The collection scenario on the instance `obj`: `append(a)`, `append(b)`,
`getFirstIndex()`, `getElement(0)`, `deleteElement(0)`, `getFirstIndex()`, `getElement(1)`,
`getKeys()`, each call in the world the previous one left. `data1` and `data2` are what the
local `data` of the two calls of `njsDbObject_append` holds on entry. -/
def collectionScenario (host : Collaborators) (lib : dpiLibrary) (fuel : Nat) (w : World)
    (obj : njsDbObject) (a b : Int) (data1 data2 : dpiData) : Scenario :=
  let r1 := njsDbObject_append host lib w obj (.number (Float64.ofInt64 a)) data1
  let r2 := njsDbObject_append host lib r1.2 obj (.number (Float64.ofInt64 b)) data2
  let f1 := njsDbObject_getFirstIndex r2.2 obj
  let e0 := njsDbObject_getElement host r2.2 obj (.number (Float64.ofInt64 0))
  let d := njsDbObject_deleteElement host lib e0.world obj (.number (Float64.ofInt64 0))
  let f2 := njsDbObject_getFirstIndex d.2 obj
  let e1 := njsDbObject_getElement host d.2 obj (.number (Float64.ofInt64 1))
  ⟨r1.1, r2.1, f1, (e0.status, e0.value), d.1, f2, (e1.status, e1.value),
    njsDbObject_getKeys fuel e1.world obj⟩

/-- The whole number a double holds, if it holds one. -/
def Float64.toInt? (d : Float64) : Option Int :=
  let sign : Int := if d.bits / 2 ^ 63 % 2 = 1 then -1 else 1
  let e := d.bits / 2 ^ 52 % 2 ^ 11
  let m := d.bits % 2 ^ 52
  if e = 0 then (if m = 0 then some 0 else none)
  else if e = 2047 then none
  else if 1075 ≤ e then some (sign * ((2 ^ 52 + m) * 2 ^ (e - 1075) : Nat))
  else if (2 ^ 52 + m) % 2 ^ (1075 - e) = 0 then
    some (sign * ((2 ^ 52 + m) / 2 ^ (1075 - e) : Nat))
  else none

/-- A sample library: a double holding a whole number is stored as that number, which every
read reports as `int64_t`; nothing else can be stored. -/
def dpiLibrary.sample (sizeCountsDeleted : Bool) : dpiLibrary :=
  { store := fun _ data => data.value.asDouble.toInt?.map int64Element,
    sizeCountsDeleted := sizeCountsDeleted }

/-- A sample host whose only working collaborator is `njsUtils_getIntArg`, which accepts the
host numbers that hold an `int32_t`. -/
def Collaborators.indexing : Collaborators :=
  { Collaborators.failing with
    njsUtils_getIntArg := fun v =>
      match (napi_get_value_double v).bind Float64.toInt? with
      | some i =>
        if -2 ^ 31 ≤ i ∧ i < 2 ^ 31 then .ok i else .error .errInvalidParameterValue
      | none => .error .errInvalidParameterValue }

/-! ## The cursor queries: `njsDbObject_getLastIndex`, `njsDbObject_getNextIndex`,
`njsDbObject_getPrevIndex` -/

/-- ODPI-C `dpiObject_getLastIndex`: the greatest index held; the outer `none` is a failed
call, the inner one `exists = 0`. -/
def dpiObject_getLastIndex (w : World) (h : Option Handle) : Option (Option Int) :=
  (h.bind w.objects).map fun o => greatestIndex o.indices

/-- ODPI-C `dpiObject_getPrevIndex`: the greatest index held that is less than `index`. -/
def dpiObject_getPrevIndex (w : World) (h : Option Handle) (index : Int) :
    Option (Option Int) :=
  (h.bind w.objects).map fun o => greatestIndex (o.indices.filter fun j => decide (j < index))

/-- `njsDbObject_getLastIndex`: the last index in the collection; nothing is returned when
there is none. -/
def njsDbObject_getLastIndex (w : World) (obj : njsDbObject) :
    Except njsError (Option HostValue) :=
  match dpiObject_getLastIndex w obj.handle with
  | none => .error .errDPI
  | some none => .ok none
  | some (some index) => .ok (some (napi_create_int32 index))

/-- `njsDbObject_getNextIndex`: the next index in the collection following the one
provided. -/
def njsDbObject_getNextIndex (host : Collaborators) (w : World) (obj : njsDbObject)
    (arg : HostValue) : Except njsError (Option HostValue) :=
  match host.njsUtils_getIntArg arg with
  | .error e => .error e
  | .ok index =>
    match dpiObject_getNextIndex w obj.handle index with
    | none => .error .errDPI
    | some none => .ok none
    | some (some index) => .ok (some (napi_create_int32 index))

/-- `njsDbObject_getPrevIndex`: the previous index in the collection preceding the one
provided. -/
def njsDbObject_getPrevIndex (host : Collaborators) (w : World) (obj : njsDbObject)
    (arg : HostValue) : Except njsError (Option HostValue) :=
  match host.njsUtils_getIntArg arg with
  | .error e => .error e
  | .ok index =>
    match dpiObject_getPrevIndex w obj.handle index with
    | none => .error .errDPI
    | some none => .ok none
    | some (some index) => .ok (some (napi_create_int32 index))

/-! ## A value whose native object cannot be created -/

/-- The world `World.withInstance` with two more host objects and no native object creation:
the object at 21 has the class prototype and is not wrapped, as `new` of the class in the
host leaves it; the object at 22 is a proxy whose `_target` is the object at 21. -/
def World.withUnbound : World :=
  { World.withInstance with
    heap := fun r =>
      if r = 21 then some ⟨some 6, .undefined, true, none, none, none⟩
      else if r = 22 then some ⟨none, .object 21, true, none, none, none⟩
      else World.withInstance.heap r,
    canCreateObject := fun _ => false }

/-- The world with native object creation working (again). -/
def World.creating (w : World) : World :=
  { w with canCreateObject := fun _ => true }

/-! ## `njsDbObject_setElement` -/

/-- ODPI-C `dpiObject_setElementValueByIndex`: the value is stored at the index, in place of
the element there or as one more element. The result tells whether the call succeeded; the
call is recorded either way. -/
def dpiObject_setElementValueByIndex (lib : dpiLibrary) (w : World) (h : Option Handle)
    (index : Int) (nativeTypeNum : dpiNativeTypeNum) (data : dpiData) : Bool × World :=
  match h with
  | some k =>
    match w.objects k, lib.store nativeTypeNum data with
    | some o, some element =>
      (true, (w.setObject k
        (some { o with
          size := if (o.elementAt index).isSome then o.size else o.size + 1,
          elements := (o.elements.filter fun e => decide (e.1 ≠ index))
            ++ [(index, element)] })).record
        (.dpiObject_setElementValueByIndex h index))
    | _, _ => (false, w.record (.dpiObject_setElementValueByIndex h index))
  | none => (false, w.record (.dpiObject_setElementValueByIndex h index))

/-- `njsDbObject_setElement`: set the element at the specified index to the specified value.
`obj` is the calling instance, `arg0` and `arg1` the arguments, `data` what the local `data`
holds on entry. -/
def njsDbObject_setElement (host : Collaborators) (lib : dpiLibrary) (w : World)
    (obj : njsDbObject) (arg0 arg1 : HostValue) (data : dpiData) :
    Except njsError Unit × World :=
  match host.njsUtils_getIntArg arg0 with
  | .error e => (.error e, w)
  | .ok index =>
    match w.objTypes obj.type with
    | none => (.error .invalidPointer, w)
    | some ty =>
      match njsDbObject_transformToOracle host w obj arg1 ty.elementTypeInfo.nativeTypeNum
          data none with
      | ⟨.error e, _, _, _, w1⟩ => (.error e, w1)
      | ⟨.ok _, nativeTypeNum, data, str, w1⟩ =>
        match dpiObject_setElementValueByIndex lib w1 obj.handle index nativeTypeNum data with
        | (false, w2) => (.error .errDPI, freeStr w2 str)
        | (true, w2) => (.ok (), freeStr w2 str)

/-- What `if (str) free(str)` records. -/
def freed : Option Bytes → List Event
  | some str => [.free str]
  | none => []

/-! ## A value that is a LOB -/

/-- The world `World.withInstance` with one native LOB, at handle 4, holding one reference,
with chunk size 8132 and size 20. -/
def World.withLob : World :=
  { World.withInstance with
    lobs := fun k => if k = 4 then some ⟨1, some 8132, some 20⟩ else none }

/-- A host whose `njsLob_new` returns the wrapper of the buffer it is given and changes
nothing else; its other collaborators fail. -/
def Collaborators.streaming : Collaborators :=
  { Collaborators.failing with njsLob_new := fun w buffer _ => (some (.lob buffer), w) }

/-- A native value that is the LOB at the given handle. -/
def lobData (h : Handle) : dpiData :=
  { dpiData.zero with value := { dpiData.zero.value with asLOB := some h } }

/-! ## Attributes and their accessors -/

/-- The world `w2` shows the descriptors and the native state that `w1` shows: they differ at
most in the host heap, the allocation budget and the trace. -/
def World.sameNative (w1 w2 : World) : Prop :=
  w2.objTypes = w1.objTypes ∧ w2.objects = w1.objects ∧ w2.lobs = w1.lobs
    ∧ w2.attrValues = w1.attrValues ∧ w2.nextHandle = w1.nextHandle
    ∧ w2.canCreateObject = w1.canCreateObject

/-- The world `w2` shows what `w1` shows of the descriptors, of the native objects handed out
so far and their attribute values, and of the host objects that wrap an instance holding a
handle; native objects may have been created since. -/
def World.keepsLive (w1 w2 : World) : Prop :=
  w2.objTypes = w1.objTypes ∧ w1.nextHandle ≤ w2.nextHandle
    ∧ (∀ j, j < w1.nextHandle →
      w2.objects j = w1.objects j ∧ w2.attrValues j = w1.attrValues j)
    ∧ ∀ r inst k, w1.instanceAt r = some inst → inst.handle = some k → w2.heap r = w1.heap r

/-- Constructing a host object without an initial value, or a LOB, changes nothing of the
descriptors and of the native state. -/
structure Collaborators.keepsNative (host : Collaborators) : Prop where
  napi_new_instance : ∀ (w : World) c, w.sameNative (host.napi_new_instance w c []).2
  njsLob_new : ∀ (w : World) b c, w.sameNative (host.njsLob_new w b c).2

/-- Constructing a host object, with or without an initial value, leaves what is there (see
`World.keepsLive`); it may create native objects, as a constructor that stores the
attributes of its initial value does. -/
def Collaborators.keepsLive (host : Collaborators) : Prop :=
  ∀ (w : World) c args, w.keepsLive (host.napi_new_instance w c args).2

/-- A native element all of whose representations report the given object. -/
def objectElement (k : Handle) : dpiNativeTypeNum → Option dpiData :=
  fun _ => some { dpiData.zero with value := { dpiData.zero.value with asObject := some k } }

/-- A world with a collection of objects. The descriptor at address 1 is `sampleType` with
elements of the object type whose descriptor, at address 2, has the native type 17 and the
class at 8, with the class prototype at 6. The native collection 3 reports the size 1 and
holds, at the index 0, the native object 4; each holds one reference. -/
def World.withObjects : World :=
  { World.blank 4 with
    heap := fun r =>
      if r = 6 then some ⟨none, .undefined, false, some (.objectType 2), none, some 8⟩
      else if r = 8 then some ⟨none, .undefined, false, none, some 6, none⟩
      else none,
    objTypes := fun p =>
      if p = 1 then
        some (sampleType ⟨DPI_ORACLE_TYPE_OBJECT, DPI_NATIVE_TYPE_OBJECT, some 2⟩)
      else if p = 2 then
        some { sampleType ⟨DPI_ORACLE_TYPE_NUMBER, DPI_NATIVE_TYPE_DOUBLE, none⟩ with
          handle := some 17, jsDbObjectConstructor := some 8 }
      else none,
    objects := fun k =>
      if k = 3 then some ⟨1, 1, [(0, objectElement 4)]⟩
      else if k = 4 then some ⟨1, 0, []⟩
      else none,
    nextHandle := 30,
    nextTypePtr := 3 }

/-- A host whose `napi_new_instance` creates an object that is not wrapped yet and has the
class prototype of the constructor, at the first of the references 21 and 22 that is free;
it fails when neither is. Its other collaborators fail. -/
def Collaborators.placing : Collaborators :=
  { Collaborators.failing with
    napi_new_instance := fun w c _ =>
      match w.heap c with
      | some cls =>
        if (w.heap 21).isNone then
          (some (.object 21),
            w.setHeap 21 ⟨cls.prototypeProperty, .undefined, true, none, none, none⟩)
        else if (w.heap 22).isNone then
          (some (.object 22),
            w.setHeap 22 ⟨cls.prototypeProperty, .undefined, true, none, none, none⟩)
        else (none, w)
      | none => (none, w) }

/-- A sample library that stores every value as it is given; every read reports it, whatever
the representation asked for. -/
def dpiLibrary.storing : dpiLibrary :=
  { store := fun _ data => some fun _ => some data, sizeCountsDeleted := true }

/-! ## SODA documents (`src/njsSodaDocument.c`) -/

/-- Native state of a SODA document: what `dpiSodaDoc_getContent` reports (the memory at
`value`, `valueLength`, and the memory at `encoding`, `none` for a `NULL` encoding) and what
the five metadata queries report (the memory at `value`, and `valueLength`); `none`: the
call fails. -/
structure dpiSodaDoc where
  content : Option (Bytes × Nat × Option Bytes)
  createdOn : Option (Bytes × Nat)
  key : Option (Bytes × Nat)
  lastModified : Option (Bytes × Nat)
  mediaType : Option (Bytes × Nat)
  version : Option (Bytes × Nat)
deriving DecidableEq, Repr

/-- Modelled from the spec: the `njsSodaDocument` structure of `njsModule.h`, which is not
under src/ and which the spec does not describe; the one field the functions of
`njsSodaDocument.c` read is the native handle. -/
structure njsSodaDocument where
  handle : Option Handle
deriving DecidableEq, Repr

/-- ODPI-C `dpiSodaDoc_getContent`; `none` when the call fails. -/
def dpiSodaDoc_getContent (docs : Handle → Option dpiSodaDoc) (h : Option Handle) :
    Option (Bytes × Nat × Option Bytes) :=
  (h.bind docs).bind dpiSodaDoc.content

/-- ODPI-C `dpiSodaDoc_getCreatedOn`. -/
def dpiSodaDoc_getCreatedOn (docs : Handle → Option dpiSodaDoc) (h : Option Handle) :
    Option (Bytes × Nat) :=
  (h.bind docs).bind dpiSodaDoc.createdOn

/-- ODPI-C `dpiSodaDoc_getKey`. -/
def dpiSodaDoc_getKey (docs : Handle → Option dpiSodaDoc) (h : Option Handle) :
    Option (Bytes × Nat) :=
  (h.bind docs).bind dpiSodaDoc.key

/-- ODPI-C `dpiSodaDoc_getLastModified`. -/
def dpiSodaDoc_getLastModified (docs : Handle → Option dpiSodaDoc) (h : Option Handle) :
    Option (Bytes × Nat) :=
  (h.bind docs).bind dpiSodaDoc.lastModified

/-- ODPI-C `dpiSodaDoc_getMediaType`. -/
def dpiSodaDoc_getMediaType (docs : Handle → Option dpiSodaDoc) (h : Option Handle) :
    Option (Bytes × Nat) :=
  (h.bind docs).bind dpiSodaDoc.mediaType

/-- ODPI-C `dpiSodaDoc_getVersion`. -/
def dpiSodaDoc_getVersion (docs : Handle → Option dpiSodaDoc) (h : Option Handle) :
    Option (Bytes × Nat) :=
  (h.bind docs).bind dpiSodaDoc.version

/-- The C string at a pointer: the bytes before the first NUL. -/
def cString (s : Bytes) : Bytes := s.takeWhile fun b => decide (b ≠ 0)

/-- The C string `"UTF-8"`. -/
def utf8Name : Bytes := [85, 84, 70, 45, 56]

/-- What the platform and the host leave open about UTF-16 text: the `char16_t` that two
consecutive bytes of memory hold, and the text (identified with its UTF-8 bytes) of a
sequence of UTF-16 code units. -/
structure Utf16 where
  char16 : Nat → Nat → Nat
  text : List Nat → Bytes

/-- The memory at a `char*` read as `char16_t*`: one code unit for every two bytes. -/
def char16s (u : Utf16) : Bytes → List Nat
  | a :: b :: rest => u.char16 a b :: char16s u rest
  | _ => []

/-- Host text from `length` UTF-16 code units at `str` (`napi_create_string_utf16`). -/
def napi_create_string_utf16 (u : Utf16) (str : Bytes) (length : Nat) : HostValue :=
  .string (u.text ((char16s u str).take length))

/-- `njsSodaDocument_genericGetter`: generic function which performs the work of getting an
attribute from the SODA document; `dpiGetterFn` is the native query, `doc` the instance
`njsUtils_validateGetter` found. -/
def njsSodaDocument_genericGetter (dpiGetterFn : Option Handle → Option (Bytes × Nat))
    (doc : njsSodaDocument) : Except njsError HostValue :=
  match dpiGetterFn doc.handle with
  | none => .error .errDPI
  | some (value, valueLength) =>
    if valueLength = 0 then .ok .null
    else .ok (napi_create_string_utf8 value valueLength)

/-- `njsSodaDocument_getContentAsBuffer`: the contents of the SODA document as a buffer. -/
def njsSodaDocument_getContentAsBuffer (docs : Handle → Option dpiSodaDoc)
    (doc : njsSodaDocument) : Except njsError HostValue :=
  match dpiSodaDoc_getContent docs doc.handle with
  | none => .error .errDPI
  | some (value, valueLength, _) => .ok (napi_create_buffer_copy valueLength value)

/-- `njsSodaDocument_getContentAsString`: the contents of the SODA document as a string. -/
def njsSodaDocument_getContentAsString (u : Utf16) (docs : Handle → Option dpiSodaDoc)
    (doc : njsSodaDocument) : Except njsError HostValue :=
  match dpiSodaDoc_getContent docs doc.handle with
  | none => .error .errDPI
  | some (value, valueLength, encoding) =>
    if valueLength = 0 then .ok .null
    else if encoding = none ∨ encoding.map cString = some utf8Name then
      .ok (napi_create_string_utf8 value valueLength)
    else .ok (napi_create_string_utf16 u value (valueLength / 2))

/-- `njsSodaDocument_getCreatedOn`: get accessor of the `createdOn` property. -/
def njsSodaDocument_getCreatedOn (docs : Handle → Option dpiSodaDoc)
    (doc : njsSodaDocument) : Except njsError HostValue :=
  njsSodaDocument_genericGetter (dpiSodaDoc_getCreatedOn docs) doc

/-- `njsSodaDocument_getKey`: get accessor of the `key` property. -/
def njsSodaDocument_getKey (docs : Handle → Option dpiSodaDoc)
    (doc : njsSodaDocument) : Except njsError HostValue :=
  njsSodaDocument_genericGetter (dpiSodaDoc_getKey docs) doc

/-- `njsSodaDocument_getLastModified`: get accessor of the `lastModified` property. -/
def njsSodaDocument_getLastModified (docs : Handle → Option dpiSodaDoc)
    (doc : njsSodaDocument) : Except njsError HostValue :=
  njsSodaDocument_genericGetter (dpiSodaDoc_getLastModified docs) doc

/-- `njsSodaDocument_getMediaType`: get accessor of the `mediaType` property. -/
def njsSodaDocument_getMediaType (docs : Handle → Option dpiSodaDoc)
    (doc : njsSodaDocument) : Except njsError HostValue :=
  njsSodaDocument_genericGetter (dpiSodaDoc_getMediaType docs) doc

/-- `njsSodaDocument_getVersion`: get accessor of the `version` property. -/
def njsSodaDocument_getVersion (docs : Handle → Option dpiSodaDoc)
    (doc : njsSodaDocument) : Except njsError HostValue :=
  njsSodaDocument_genericGetter (dpiSodaDoc_getVersion docs) doc

/-- A sample platform and host: little-endian code units, and a text that shows each code
unit below 128 as the character it is (any other as `?`). -/
def Utf16.sample : Utf16 :=
  { char16 := fun a b => a + 256 * b,
    text := fun units => units.map fun c => if c < 128 then c else 63 }

/-- Sample documents: the document 1 has a content of 5 bytes, `h\0i\0!`, in the encoding
`UTF-16LE`, the key `k1` and no version (length 0); the document 2 has the content `hi!`
(3 bytes) with no encoding reported; the document 3 has an empty content. Their other
queries fail. -/
def sampleDocs (h : Handle) : Option dpiSodaDoc :=
  if h = 1 then
    some ⟨some ([104, 0, 105, 0, 33], 5, some [85, 84, 70, 45, 49, 54, 76, 69, 0]), none,
      some ([107, 49], 2), none, none, some ([], 0)⟩
  else if h = 2 then some ⟨some ([104, 105, 33], 3, none), none, none, none, none, none⟩
  else if h = 3 then
    some ⟨some ([], 0, some [85, 84, 70, 45, 49, 54, 76, 69, 0]), none, none, none, none,
      none⟩
  else none

/-! ## Theorems -/

/-- C1: on a native value whose `isNull` flag is set, `njsDbObject_transformFromOracle`
succeeds and yields host null, whatever the type information (any tag, supported or not,
any representation), the attribute and the owning object are; the world, and with it every
LOB and object handle, is left as it was. -/
theorem transformFromOracle_isNull (host : Collaborators) (w : World) (obj : njsDbObject)
    (typeInfo : njsDataTypeInfo) (data : dpiData) (attr : Option njsDbObjectAttr)
    (h : data.isNull ≠ 0) :
    (njsDbObject_transformFromOracle host w obj typeInfo data attr).status = .ok ()
    ∧ (njsDbObject_transformFromOracle host w obj typeInfo data attr).value = some .null
    ∧ (njsDbObject_transformFromOracle host w obj typeInfo data attr).world = w := by
  simp [njsDbObject_transformFromOracle, h]

/-- Witness of C1: a null value under a tag outside the supported table. -/
theorem transformFromOracle_isNull_witness :
    (dpiData_setNull dpiData.zero).isNull ≠ 0
    ∧ (njsDbObject_transformFromOracle Collaborators.failing (World.blank 0) ⟨1, none⟩
        ⟨4242, 17, none⟩ (dpiData_setNull dpiData.zero) none).status = .ok ()
    ∧ (njsDbObject_transformFromOracle Collaborators.failing (World.blank 0) ⟨1, none⟩
        ⟨4242, 17, none⟩ (dpiData_setNull dpiData.zero) none).value = some .null
    ∧ (njsDbObject_transformFromOracle Collaborators.failing (World.blank 0) ⟨1, none⟩
        ⟨4242, 17, none⟩ (dpiData_setNull dpiData.zero) none).world = World.blank 0 :=
  ⟨by decide, transformFromOracle_isNull _ _ _ _ _ _ (by decide)⟩

/-- C2: on a host value that is null or undefined, `njsDbObject_transformToOracle`
succeeds, the native value produced has `isNull` set, the representation tag is the
incoming one and there is no scratch buffer, whatever the incoming tag, the attribute and
the owning object are. -/
theorem transformToOracle_null (host : Collaborators) (w : World) (obj : njsDbObject)
    (value : HostValue) (nativeTypeNum : dpiNativeTypeNum) (data : dpiData)
    (attr : Option njsDbObjectAttr) (h : value = .null ∨ value = .undefined) :
    (njsDbObject_transformToOracle host w obj value nativeTypeNum data attr).status = .ok ()
    ∧ (njsDbObject_transformToOracle host w obj value nativeTypeNum data attr).data.isNull = 1
    ∧ (njsDbObject_transformToOracle host w obj value nativeTypeNum data attr).nativeTypeNum
        = nativeTypeNum
    ∧ (njsDbObject_transformToOracle host w obj value nativeTypeNum data attr).strBuffer
        = none := by
  rcases h with h | h <;> subst h <;>
    simp [njsDbObject_transformToOracle, napi_typeof, dpiData_setNull]

/-- Witness of C2: `undefined` written to an int64 slot. -/
theorem transformToOracle_null_witness :
    (HostValue.undefined = .null ∨ HostValue.undefined = .undefined)
    ∧ (njsDbObject_transformToOracle Collaborators.failing (World.blank 0) ⟨1, none⟩
        .undefined DPI_NATIVE_TYPE_INT64 dpiData.zero none).status = .ok ()
    ∧ (njsDbObject_transformToOracle Collaborators.failing (World.blank 0) ⟨1, none⟩
        .undefined DPI_NATIVE_TYPE_INT64 dpiData.zero none).data.isNull = 1
    ∧ (njsDbObject_transformToOracle Collaborators.failing (World.blank 0) ⟨1, none⟩
        .undefined DPI_NATIVE_TYPE_INT64 dpiData.zero none).nativeTypeNum
        = DPI_NATIVE_TYPE_INT64
    ∧ (njsDbObject_transformToOracle Collaborators.failing (World.blank 0) ⟨1, none⟩
        .undefined DPI_NATIVE_TYPE_INT64 dpiData.zero none).strBuffer = none :=
  ⟨Or.inr rfl, transformToOracle_null Collaborators.failing (World.blank 0) ⟨1, none⟩
    .undefined DPI_NATIVE_TYPE_INT64 dpiData.zero none (Or.inr rfl)⟩

/-- A buffer of exactly `2 ^ 32` bytes comes back empty: its length does not fit the
`uint32_t` length of `dpiBytes`. -/
theorem roundTrip_buffer_wrap (host : Collaborators) (w : World) (obj : njsDbObject)
    (b : Bytes) (t n : dpiNativeTypeNum) (data : dpiData) (attr : Option njsDbObjectAttr)
    (hb : b.length = 2 ^ 32) :
    (roundTrip host w obj (.buffer b) t data attr ⟨DPI_ORACLE_TYPE_RAW, n, none⟩).value
      = some (.buffer []) := by
  simp [roundTrip, njsDbObject_transformToOracle, napi_typeof,
    njsDbObject_transformToOracle_object, napi_instanceof_Date, napi_get_buffer_info,
    njsDbObject_transformFromOracle, dpiData_setBytes, napi_create_buffer_copy, hb,
    DPI_ORACLE_TYPE_RAW, DPI_ORACLE_TYPE_CHAR, DPI_ORACLE_TYPE_NCHAR, DPI_ORACLE_TYPE_VARCHAR,
    DPI_ORACLE_TYPE_NVARCHAR]

/-- C3, counterexample: the scalar round trip fails on the code at two inputs. (1) The host
number 5 written to a slot of tag NUMBER with the int64 representation:
`njsDbObject_transformToOracle` stores it in the double member and tags it double, and
`njsDbObject_transformFromOracle` under NUMBER with the int64 representation reads the int64
member. The buffer passed in holds in its int64 member the 64 bits of the double 5.0, which
is what the shared storage of the C union shows after the store; the host receives
4617315517961601024. (2) A byte buffer of `2 ^ 32` bytes: its length is cast to `uint32_t`
and becomes 0, and the buffer comes back empty. -/
theorem scalar_roundTrip_fails :
    (roundTrip Collaborators.failing (World.blank 0) ⟨1, none⟩ (.number (Float64.ofInt64 5))
        DPI_NATIVE_TYPE_INT64
        { dpiData.zero with value := { dpiData.zero.value with asInt64 := 0x4014000000000000 } }
        none ⟨DPI_ORACLE_TYPE_NUMBER, DPI_NATIVE_TYPE_INT64, none⟩).value
      = some (.number ⟨0x43D0050000000000⟩)
    ∧ (roundTrip Collaborators.failing (World.blank 0) ⟨1, none⟩ (.number (Float64.ofInt64 5))
        DPI_NATIVE_TYPE_INT64
        { dpiData.zero with value := { dpiData.zero.value with asInt64 := 0x4014000000000000 } }
        none ⟨DPI_ORACLE_TYPE_NUMBER, DPI_NATIVE_TYPE_INT64, none⟩).value
      ≠ some (.number (Float64.ofInt64 5))
    ∧ (roundTrip Collaborators.failing (World.blank 0) ⟨1, none⟩
        (.buffer (List.replicate (2 ^ 32) 0)) DPI_NATIVE_TYPE_BYTES dpiData.zero none
        ⟨DPI_ORACLE_TYPE_RAW, DPI_NATIVE_TYPE_BYTES, none⟩).value
      = some (.buffer [])
    ∧ (roundTrip Collaborators.failing (World.blank 0) ⟨1, none⟩
        (.buffer (List.replicate (2 ^ 32) 0)) DPI_NATIVE_TYPE_BYTES dpiData.zero none
        ⟨DPI_ORACLE_TYPE_RAW, DPI_NATIVE_TYPE_BYTES, none⟩).value
      ≠ some (.buffer (List.replicate (2 ^ 32) 0)) := by
  have hlen : (List.replicate (2 ^ 32) (0 : Nat)).length = 2 ^ 32 := List.length_replicate _ _
  have hb := roundTrip_buffer_wrap Collaborators.failing (World.blank 0) ⟨1, none⟩
    (List.replicate (2 ^ 32) 0) DPI_NATIVE_TYPE_BYTES DPI_NATIVE_TYPE_BYTES dpiData.zero none hlen
  refine ⟨by decide, by decide, hb, ?_⟩
  rw [hb]
  intro h
  have h2 : ([] : Bytes).length = (List.replicate (2 ^ 32) (0 : Nat)).length := by
    injection h with h; injection h with h; rw [← h]
  rw [hlen] at h2
  exact absurd h2 (by decide)

/-- C3, as amended: for a text string of fewer than `2 ^ 32` bytes whose scratch buffer can
be allocated (under a character tag), a byte buffer of fewer than `2 ^ 32` bytes (under RAW),
a number (under the native double tag, or under NUMBER with a representation other than
int64) and a boolean (under BOOLEAN), converting the value with
`njsDbObject_transformToOracle` and the native value produced back with
`njsDbObject_transformFromOracle` succeeds and yields a host value equal to the one
converted. -/
theorem scalar_roundTrip (host : Collaborators) (w : World) (obj : njsDbObject)
    (nativeTypeNum : dpiNativeTypeNum) (data : dpiData) (attr : Option njsDbObjectAttr)
    (typeInfo : njsDataTypeInfo) (value : HostValue)
    (h : (∃ s, value = .string s ∧ s.length < 2 ^ 32 ∧ 0 < w.allocBudget
            ∧ typeInfo.oracleTypeNum ∈ [DPI_ORACLE_TYPE_CHAR, DPI_ORACLE_TYPE_NCHAR,
                DPI_ORACLE_TYPE_VARCHAR, DPI_ORACLE_TYPE_NVARCHAR])
        ∨ (∃ b, value = .buffer b ∧ b.length < 2 ^ 32
            ∧ typeInfo.oracleTypeNum = DPI_ORACLE_TYPE_RAW)
        ∨ (∃ d, value = .number d
            ∧ (typeInfo.oracleTypeNum = DPI_ORACLE_TYPE_NATIVE_DOUBLE
              ∨ (typeInfo.oracleTypeNum = DPI_ORACLE_TYPE_NUMBER
                ∧ typeInfo.nativeTypeNum ≠ DPI_NATIVE_TYPE_INT64)))
        ∨ (∃ b, value = .boolean b ∧ typeInfo.oracleTypeNum = DPI_ORACLE_TYPE_BOOLEAN)) :
    (roundTrip host w obj value nativeTypeNum data attr typeInfo).status = .ok ()
    ∧ (roundTrip host w obj value nativeTypeNum data attr typeInfo).value = some value := by
  rcases h with ⟨s, rfl, hs, ha, ht⟩ | ⟨b, rfl, hb, ht⟩ | ⟨d, rfl, ht⟩ | ⟨b, rfl, ht⟩
  · obtain ⟨n, hn⟩ : ∃ n, w.allocBudget = n + 1 := ⟨w.allocBudget - 1, by omega⟩
    have hmod : s.length % 4294967296 = s.length := Nat.mod_eq_of_lt (by simpa using hs)
    have htake : List.take s.length (s ++ [0]) = s := by simp
    simp only [List.mem_cons, List.mem_singleton, List.mem_nil_iff, or_false] at ht
    have ht' : typeInfo.oracleTypeNum = DPI_ORACLE_TYPE_CHAR
        ∨ typeInfo.oracleTypeNum = DPI_ORACLE_TYPE_NCHAR
        ∨ typeInfo.oracleTypeNum = DPI_ORACLE_TYPE_VARCHAR
        ∨ typeInfo.oracleTypeNum = DPI_ORACLE_TYPE_NVARCHAR := ht
    simp [roundTrip, njsDbObject_transformToOracle, napi_typeof, njsUtils_copyStringFromJS,
      World.alloc, hn, njsDbObject_transformFromOracle, dpiData_setBytes,
      napi_create_string_utf8, ht', hmod, htake]
  · have hmod : b.length % 4294967296 = b.length := Nat.mod_eq_of_lt (by simpa using hb)
    simp [roundTrip, njsDbObject_transformToOracle, napi_typeof,
      njsDbObject_transformToOracle_object, napi_instanceof_Date, napi_get_buffer_info,
      njsDbObject_transformFromOracle, dpiData_setBytes, napi_create_buffer_copy, ht, hmod,
      DPI_ORACLE_TYPE_RAW, DPI_ORACLE_TYPE_CHAR, DPI_ORACLE_TYPE_NCHAR,
      DPI_ORACLE_TYPE_VARCHAR, DPI_ORACLE_TYPE_NVARCHAR]
  · rcases ht with ht | ⟨ht, hn⟩
    · simp [roundTrip, njsDbObject_transformToOracle, napi_typeof, napi_get_value_double,
        njsDbObject_transformFromOracle, napi_create_double, ht,
        DPI_ORACLE_TYPE_RAW, DPI_ORACLE_TYPE_CHAR, DPI_ORACLE_TYPE_NCHAR,
        DPI_ORACLE_TYPE_VARCHAR, DPI_ORACLE_TYPE_NVARCHAR, DPI_ORACLE_TYPE_NUMBER,
        DPI_ORACLE_TYPE_NATIVE_INT, DPI_ORACLE_TYPE_NATIVE_FLOAT,
        DPI_ORACLE_TYPE_NATIVE_DOUBLE]
    · simp [roundTrip, njsDbObject_transformToOracle, napi_typeof, napi_get_value_double,
        njsDbObject_transformFromOracle, napi_create_double, ht, hn,
        DPI_ORACLE_TYPE_RAW, DPI_ORACLE_TYPE_CHAR, DPI_ORACLE_TYPE_NCHAR,
        DPI_ORACLE_TYPE_VARCHAR, DPI_ORACLE_TYPE_NVARCHAR, DPI_ORACLE_TYPE_NUMBER]
  · cases b <;>
      simp [roundTrip, njsDbObject_transformToOracle, napi_typeof, napi_get_value_bool,
        njsDbObject_transformFromOracle, napi_get_boolean, ht,
        DPI_ORACLE_TYPE_RAW, DPI_ORACLE_TYPE_CHAR, DPI_ORACLE_TYPE_NCHAR,
        DPI_ORACLE_TYPE_VARCHAR, DPI_ORACLE_TYPE_NVARCHAR, DPI_ORACLE_TYPE_NUMBER,
        DPI_ORACLE_TYPE_NATIVE_INT, DPI_ORACLE_TYPE_NATIVE_FLOAT,
        DPI_ORACLE_TYPE_NATIVE_DOUBLE, DPI_ORACLE_TYPE_DATE, DPI_ORACLE_TYPE_TIMESTAMP,
        DPI_ORACLE_TYPE_TIMESTAMP_TZ, DPI_ORACLE_TYPE_TIMESTAMP_LTZ, DPI_ORACLE_TYPE_CLOB,
        DPI_ORACLE_TYPE_NCLOB, DPI_ORACLE_TYPE_BLOB, DPI_ORACLE_TYPE_OBJECT,
        DPI_ORACLE_TYPE_BOOLEAN]

/-- Witness of the amended C3: the text `AB` under VARCHAR. -/
theorem scalar_roundTrip_witness :
    ((∃ s, HostValue.string [65, 66] = .string s ∧ s.length < 2 ^ 32
            ∧ 0 < (World.blank 1).allocBudget
            ∧ DPI_ORACLE_TYPE_VARCHAR ∈ [DPI_ORACLE_TYPE_CHAR, DPI_ORACLE_TYPE_NCHAR,
                DPI_ORACLE_TYPE_VARCHAR, DPI_ORACLE_TYPE_NVARCHAR])
        ∨ (∃ b, HostValue.string [65, 66] = .buffer b ∧ b.length < 2 ^ 32
            ∧ DPI_ORACLE_TYPE_VARCHAR = DPI_ORACLE_TYPE_RAW)
        ∨ (∃ d, HostValue.string [65, 66] = .number d
            ∧ (DPI_ORACLE_TYPE_VARCHAR = DPI_ORACLE_TYPE_NATIVE_DOUBLE
              ∨ (DPI_ORACLE_TYPE_VARCHAR = DPI_ORACLE_TYPE_NUMBER
                ∧ DPI_NATIVE_TYPE_BYTES ≠ DPI_NATIVE_TYPE_INT64)))
        ∨ (∃ b, HostValue.string [65, 66] = .boolean b
            ∧ DPI_ORACLE_TYPE_VARCHAR = DPI_ORACLE_TYPE_BOOLEAN))
    ∧ (roundTrip Collaborators.failing (World.blank 1) ⟨1, none⟩ (.string [65, 66])
        DPI_NATIVE_TYPE_BYTES dpiData.zero none
        ⟨DPI_ORACLE_TYPE_VARCHAR, DPI_NATIVE_TYPE_BYTES, none⟩).status = .ok ()
    ∧ (roundTrip Collaborators.failing (World.blank 1) ⟨1, none⟩ (.string [65, 66])
        DPI_NATIVE_TYPE_BYTES dpiData.zero none
        ⟨DPI_ORACLE_TYPE_VARCHAR, DPI_NATIVE_TYPE_BYTES, none⟩).value
      = some (.string [65, 66]) :=
  have h : (∃ s, HostValue.string [65, 66] = .string s ∧ s.length < 2 ^ 32
            ∧ 0 < (World.blank 1).allocBudget
            ∧ DPI_ORACLE_TYPE_VARCHAR ∈ [DPI_ORACLE_TYPE_CHAR, DPI_ORACLE_TYPE_NCHAR,
                DPI_ORACLE_TYPE_VARCHAR, DPI_ORACLE_TYPE_NVARCHAR])
        ∨ (∃ b, HostValue.string [65, 66] = .buffer b ∧ b.length < 2 ^ 32
            ∧ DPI_ORACLE_TYPE_VARCHAR = DPI_ORACLE_TYPE_RAW)
        ∨ (∃ d, HostValue.string [65, 66] = .number d
            ∧ (DPI_ORACLE_TYPE_VARCHAR = DPI_ORACLE_TYPE_NATIVE_DOUBLE
              ∨ (DPI_ORACLE_TYPE_VARCHAR = DPI_ORACLE_TYPE_NUMBER
                ∧ DPI_NATIVE_TYPE_BYTES ≠ DPI_NATIVE_TYPE_INT64)))
        ∨ (∃ b, HostValue.string [65, 66] = .boolean b
            ∧ DPI_ORACLE_TYPE_VARCHAR = DPI_ORACLE_TYPE_BOOLEAN) :=
    Or.inl ⟨[65, 66], rfl, by decide, by decide, by decide⟩
  ⟨h, scalar_roundTrip Collaborators.failing (World.blank 1) ⟨1, none⟩ DPI_NATIVE_TYPE_BYTES
    dpiData.zero none ⟨DPI_ORACLE_TYPE_VARCHAR, DPI_NATIVE_TYPE_BYTES, none⟩
    (.string [65, 66]) h⟩

/-- C4: for a host Date and each of the four temporal tags,
`njsDbObject_transformToOracle` succeeds with a non-null value, tagged double, whose double
member is the numeric (epoch) value of the Date, and `njsDbObject_transformFromOracle` of
that value under type information with that tag yields the Date constructed from exactly
that double: the same for the four tags and for every `typeInfo.nativeTypeNum`. -/
theorem temporal_roundTrip (host : Collaborators) (w : World) (obj : njsDbObject)
    (nativeTypeNum : dpiNativeTypeNum) (data : dpiData) (attr : Option njsDbObjectAttr)
    (typeInfo : njsDataTypeInfo) (time : Float64)
    (h : typeInfo.oracleTypeNum ∈ temporalOracleTypes) :
    (njsDbObject_transformToOracle host w obj (.date time) nativeTypeNum data attr).status
        = .ok ()
    ∧ (njsDbObject_transformToOracle host w obj (.date time) nativeTypeNum data attr).data.isNull
        = 0
    ∧ (njsDbObject_transformToOracle host w obj (.date time) nativeTypeNum data attr).nativeTypeNum
        = DPI_NATIVE_TYPE_DOUBLE
    ∧ (njsDbObject_transformToOracle host w obj (.date time) nativeTypeNum data
        attr).data.value.asDouble = time
    ∧ (roundTrip host w obj (.date time) nativeTypeNum data attr typeInfo).status = .ok ()
    ∧ (roundTrip host w obj (.date time) nativeTypeNum data attr typeInfo).value
        = some (napi_new_instance_Date time) := by
  simp only [temporalOracleTypes, List.mem_cons, List.mem_singleton, List.mem_nil_iff,
    or_false] at h
  rcases h with h | h | h | h <;>
    simp [roundTrip, njsDbObject_transformToOracle, napi_typeof,
      njsDbObject_transformToOracle_object, napi_instanceof_Date, napi_coerce_to_number,
      napi_get_value_double, njsDbObject_transformFromOracle, h,
      DPI_ORACLE_TYPE_RAW, DPI_ORACLE_TYPE_CHAR, DPI_ORACLE_TYPE_NCHAR,
      DPI_ORACLE_TYPE_VARCHAR, DPI_ORACLE_TYPE_NVARCHAR, DPI_ORACLE_TYPE_NUMBER,
      DPI_ORACLE_TYPE_NATIVE_INT, DPI_ORACLE_TYPE_NATIVE_FLOAT,
      DPI_ORACLE_TYPE_NATIVE_DOUBLE, DPI_ORACLE_TYPE_DATE, DPI_ORACLE_TYPE_TIMESTAMP,
      DPI_ORACLE_TYPE_TIMESTAMP_TZ, DPI_ORACLE_TYPE_TIMESTAMP_LTZ]

/-- Witness of C4: the Date of time value 12 under TIMESTAMP_TZ with an int64 preferred
representation. -/
theorem temporal_roundTrip_witness :
    DPI_ORACLE_TYPE_TIMESTAMP_TZ ∈ temporalOracleTypes
    ∧ (njsDbObject_transformToOracle Collaborators.failing (World.blank 0) ⟨1, none⟩
        (.date ⟨0x4028000000000000⟩) DPI_NATIVE_TYPE_INT64 dpiData.zero none).status = .ok ()
    ∧ (njsDbObject_transformToOracle Collaborators.failing (World.blank 0) ⟨1, none⟩
        (.date ⟨0x4028000000000000⟩) DPI_NATIVE_TYPE_INT64 dpiData.zero none).data.isNull = 0
    ∧ (njsDbObject_transformToOracle Collaborators.failing (World.blank 0) ⟨1, none⟩
        (.date ⟨0x4028000000000000⟩) DPI_NATIVE_TYPE_INT64 dpiData.zero none).nativeTypeNum
        = DPI_NATIVE_TYPE_DOUBLE
    ∧ (njsDbObject_transformToOracle Collaborators.failing (World.blank 0) ⟨1, none⟩
        (.date ⟨0x4028000000000000⟩) DPI_NATIVE_TYPE_INT64 dpiData.zero
        none).data.value.asDouble = ⟨0x4028000000000000⟩
    ∧ (roundTrip Collaborators.failing (World.blank 0) ⟨1, none⟩ (.date ⟨0x4028000000000000⟩)
        DPI_NATIVE_TYPE_INT64 dpiData.zero none
        ⟨DPI_ORACLE_TYPE_TIMESTAMP_TZ, DPI_NATIVE_TYPE_INT64, none⟩).status = .ok ()
    ∧ (roundTrip Collaborators.failing (World.blank 0) ⟨1, none⟩ (.date ⟨0x4028000000000000⟩)
        DPI_NATIVE_TYPE_INT64 dpiData.zero none
        ⟨DPI_ORACLE_TYPE_TIMESTAMP_TZ, DPI_NATIVE_TYPE_INT64, none⟩).value
        = some (napi_new_instance_Date ⟨0x4028000000000000⟩) :=
  ⟨by decide, temporal_roundTrip Collaborators.failing (World.blank 0) ⟨1, none⟩
    DPI_NATIVE_TYPE_INT64 dpiData.zero none
    ⟨DPI_ORACLE_TYPE_TIMESTAMP_TZ, DPI_NATIVE_TYPE_INT64, none⟩ ⟨0x4028000000000000⟩
    (by decide)⟩

theorem leastIndex_eq_none {K : List Int} : leastIndex K = none ↔ K = [] := by
  cases K with
  | nil => simp [leastIndex]
  | cons i is =>
    simp only [leastIndex]
    cases leastIndex is <;> simp

theorem leastIndex_spec {K : List Int} {m : Int} (h : leastIndex K = some m) :
    m ∈ K ∧ ∀ x ∈ K, m ≤ x := by
  induction K generalizing m with
  | nil => simp [leastIndex] at h
  | cons i is ih =>
    simp only [leastIndex] at h
    cases hl : leastIndex is with
    | none =>
      rw [hl] at h
      have := leastIndex_eq_none.mp hl
      subst this
      simp only [Option.some.injEq] at h
      subst h
      simp
    | some j =>
      rw [hl] at h
      obtain ⟨hj, hmin⟩ := ih hl
      simp only [Option.some.injEq] at h
      by_cases hij : i ≤ j
      · rw [if_pos hij] at h
        subst h
        refine ⟨by simp, ?_⟩
        intro x hx
        rcases List.mem_cons.mp hx with rfl | hx
        · exact le_refl _
        · exact le_trans hij (hmin x hx)
      · rw [if_neg hij] at h
        subst h
        refine ⟨by simp [hj], ?_⟩
        intro x hx
        rcases List.mem_cons.mp hx with rfl | hx
        · omega
        · exact hmin x hx

/-- The least index of `K` is the head of any strictly ascending list with the members of
`K`. -/
theorem leastIndex_eq_head (K l : List Int) (hs : l.Sorted (· < ·))
    (hm : ∀ x, x ∈ l ↔ x ∈ K) : leastIndex K = l.head? := by
  cases l with
  | nil =>
    have : K = [] := by
      cases K with
      | nil => rfl
      | cons a as => exact absurd ((hm a).mpr (by simp)) (by simp)
    subst this
    rfl
  | cons a rest =>
    cases hl : leastIndex K with
    | none =>
      have := leastIndex_eq_none.mp hl
      subst this
      exact absurd ((hm a).mp (by simp)) (by simp)
    | some m =>
      obtain ⟨hmK, hmin⟩ := leastIndex_spec hl
      have h1 : m ≤ a := hmin a ((hm a).mp (by simp))
      have h2 : a ≤ m := by
        rcases List.mem_cons.mp ((hm m).mpr hmK) with h | h
        · omega
        · exact le_of_lt (List.rel_of_sorted_cons hs m h)
      simp only [List.head?_cons, Option.some.injEq]
      omega

/-- Along a strictly ascending list holding the members of `K` from `a` on, the least index
of `K` above `a` is the next entry. -/
theorem leastIndex_filter_eq_head (K : List Int) (a : Int) (rest : List Int)
    (hs : (a :: rest).Sorted (· < ·)) (hm : ∀ x, x ∈ a :: rest ↔ x ∈ K ∧ a ≤ x) :
    leastIndex (K.filter fun j => decide (a < j)) = rest.head? := by
  apply leastIndex_eq_head _ _ (List.Sorted.of_cons hs)
  intro x
  simp only [List.mem_filter, decide_eq_true_eq]
  constructor
  · intro hx
    exact ⟨((hm x).mp (List.mem_cons_of_mem _ hx)).1, List.rel_of_sorted_cons hs x hx⟩
  · rintro ⟨hxK, hax⟩
    rcases List.mem_cons.mp ((hm x).mpr ⟨hxK, le_of_lt hax⟩) with h | h
    · omega
    · exact h

/-- The invariant of the walk carries over to the next entry. -/
theorem walk_invariant_tail (K : List Int) (a b : Int) (rest : List Int)
    (hs : (a :: b :: rest).Sorted (· < ·)) (hm : ∀ x, x ∈ a :: b :: rest ↔ x ∈ K ∧ a ≤ x) :
    ∀ x, x ∈ b :: rest ↔ x ∈ K ∧ b ≤ x := by
  have hab : a < b := List.rel_of_sorted_cons hs b (by simp)
  have hs' : (b :: rest).Sorted (· < ·) := List.Sorted.of_cons hs
  intro x
  constructor
  · intro hx
    refine ⟨((hm x).mp (List.mem_cons_of_mem _ hx)).1, ?_⟩
    rcases List.mem_cons.mp hx with h | h
    · omega
    · exact le_of_lt (List.rel_of_sorted_cons hs' x h)
  · rintro ⟨hxK, hbx⟩
    rcases List.mem_cons.mp ((hm x).mpr ⟨hxK, by omega⟩) with h | h
    · omega
    · exact h

/-- A strictly ascending list of integers of an interval is no longer than the interval. -/
theorem sorted_length_le (l : List Int) (lo hi : Int) (hs : l.Sorted (· < ·))
    (hb : ∀ x ∈ l, lo ≤ x ∧ x < hi) : (l.length : Int) ≤ max (hi - lo) 0 := by
  induction l generalizing lo with
  | nil => simp
  | cons a rest ih =>
    have ha := hb a (by simp)
    have := ih (a + 1) (List.Sorted.of_cons hs) (fun x hx =>
      ⟨by have := List.rel_of_sorted_cons hs x hx; omega, (hb x (List.mem_cons_of_mem _ hx)).2⟩)
    simp only [List.length_cons, Nat.cast_add, Nat.cast_one]
    omega

/-- Consecutive stores into an array whose unset tail starts at the first position. -/
theorem napi_set_elements_eq (vs : List HostValue) (pre : HostArray) (n : Nat) :
    napi_set_elements (pre ++ List.replicate n none) pre.length vs
      = pre ++ vs.map some ++ List.replicate (n - vs.length) none := by
  induction vs generalizing pre n with
  | nil => simp [napi_set_elements]
  | cons v vs ih =>
    have step : napi_set_element (pre ++ List.replicate n none) pre.length v
        = (pre ++ [some v]) ++ List.replicate (n - 1) none := by
      unfold napi_set_element
      cases n with
      | zero => simp
      | succ k =>
        rw [if_pos (by simp)]
        simp [List.replicate_succ]
    have hlen : pre.length + 1 = (pre ++ [some v]).length := by simp
    rw [napi_set_elements, step, hlen, ih]
    simp [Nat.sub_sub, Nat.add_comm]

theorem getKeys_loop_none (w : World) (obj : njsDbObject) (fuel : Nat) (arr : HostArray)
    (pos : Nat) : njsDbObject_getKeys_loop w obj fuel arr pos none = some (.ok arr) := by
  cases fuel <;> rfl

theorem dpiObject_getNextIndex_eq (w : World) (obj : njsDbObject) (h : Handle)
    (c : dpiObject) (hh : obj.handle = some h) (hc : w.objects h = some c) (a : Int) :
    dpiObject_getNextIndex w obj.handle a
      = some (leastIndex (c.indices.filter fun j => decide (a < j))) := by
  simp [dpiObject_getNextIndex, hh, hc]

theorem dpiObject_getSize_eq (w : World) (obj : njsDbObject) (h : Handle)
    (c : dpiObject) (hh : obj.handle = some h) (hc : w.objects h = some c) :
    dpiObject_getSize w obj.handle = some c.size := by
  simp [dpiObject_getSize, hh, hc]

theorem dpiObject_getFirstIndex_eq (w : World) (obj : njsDbObject) (h : Handle)
    (c : dpiObject) (hh : obj.handle = some h) (hc : w.objects h = some c) :
    dpiObject_getFirstIndex w obj.handle = some (leastIndex c.indices) := by
  simp [dpiObject_getFirstIndex, hh, hc]

/-- The loop of `njsDbObject_getKeys`, started on an index of the collection with enough
fuel, stores that index and all greater ones in ascending order and ends. -/
theorem getKeys_loop_eq (w : World) (obj : njsDbObject) (h : Handle) (c : dpiObject)
    (hh : obj.handle = some h) (hc : w.objects h = some c) :
    ∀ (rest : List Int) (a : Int) (fuel : Nat) (arr : HostArray) (pos : Nat),
      (a :: rest).Sorted (· < ·) → (∀ x, x ∈ a :: rest ↔ x ∈ c.indices ∧ a ≤ x) →
      rest.length < fuel → pos + rest.length < 2 ^ 32 →
      njsDbObject_getKeys_loop w obj fuel arr pos (some a)
        = some (.ok (napi_set_elements arr pos ((a :: rest).map napi_create_int32))) := by
  intro rest
  induction rest with
  | nil =>
    intro a fuel arr pos hs hm hf hp
    obtain ⟨fuel', rfl⟩ : ∃ k, fuel = k + 1 := ⟨fuel - 1, by simp at hf; omega⟩
    have hn := leastIndex_filter_eq_head c.indices a [] hs hm
    simp [njsDbObject_getKeys_loop, dpiObject_getNextIndex_eq w obj h c hh hc, hn,
      getKeys_loop_none, napi_set_elements]
  | cons b rest ih =>
    intro a fuel arr pos hs hm hf hp
    obtain ⟨fuel', rfl⟩ : ∃ k, fuel = k + 1 := ⟨fuel - 1, by simp at hf; omega⟩
    have hn := leastIndex_filter_eq_head c.indices a (b :: rest) hs hm
    have hmod : (pos + 1) % 2 ^ 32 = pos + 1 := Nat.mod_eq_of_lt (by simp at hp; omega)
    have := ih b fuel' (napi_set_element arr pos (napi_create_int32 a)) (pos + 1)
      (List.Sorted.of_cons hs) (walk_invariant_tail c.indices a b rest hs hm)
      (by simp at hf ⊢; omega) (by simp at hp ⊢; omega)
    simp only [njsDbObject_getKeys_loop, dpiObject_getNextIndex_eq w obj h c hh hc, hn,
      List.head?_cons, hmod, this]
    simp [napi_set_elements]

/-- Facts on the ascending list of the indices held. -/
theorem sort_indices_facts (K : List Int) :
    (K.toFinset.sort (· ≤ ·)).Sorted (· < ·)
    ∧ (∀ x, x ∈ K.toFinset.sort (· ≤ ·) ↔ x ∈ K)
    ∧ (K.toFinset.sort (· ≤ ·)).length = K.toFinset.card :=
  ⟨Finset.sort_sorted_lt _, fun x => by simp, Finset.length_sort _⟩

/-- `njsDbObject_getKeys` in general: the indices held, ascending, then the positions up to
the reported size that were never set. -/
theorem getKeys_eq (w : World) (obj : njsDbObject) (h : Handle) (c : dpiObject) (fuel : Nat)
    (hh : obj.handle = some h) (hc : w.objects h = some c)
    (hint : ∀ i ∈ c.indices, -2 ^ 31 ≤ i ∧ i < 2 ^ 31)
    (hfuel : c.indices.toFinset.card < fuel) :
    njsDbObject_getKeys fuel w obj
      = some (.ok ((c.indices.toFinset.sort (· ≤ ·)).map (fun i => some (napi_create_int32 i))
          ++ List.replicate (c.size - c.indices.toFinset.card) none)) := by
  obtain ⟨hs, hm, hl⟩ := sort_indices_facts c.indices
  have hfirst := leastIndex_eq_head c.indices _ hs hm
  have hbound := sorted_length_le _ (-2 ^ 31) (2 ^ 31) hs (fun x hx => hint x ((hm x).mp hx))
  rw [← hl]
  rw [← hl] at hfuel
  generalize c.indices.toFinset.sort (· ≤ ·) = L at hs hm hfirst hbound hfuel
  unfold njsDbObject_getKeys
  simp only [dpiObject_getSize_eq w obj h c hh hc, dpiObject_getFirstIndex_eq w obj h c hh hc,
    hfirst]
  cases L with
  | nil => simp [getKeys_loop_none, napi_create_array_with_length]
  | cons a rest =>
    have hm' : ∀ x, x ∈ a :: rest ↔ x ∈ c.indices ∧ a ≤ x := by
      intro x
      constructor
      · intro hx
        refine ⟨(hm x).mp hx, ?_⟩
        rcases List.mem_cons.mp hx with h | h
        · omega
        · exact le_of_lt (List.rel_of_sorted_cons hs x h)
      · exact fun hx => (hm x).mpr hx.1
    have hlen : (0 : Nat) + rest.length < 2 ^ 32 := by
      simp only [List.length_cons, Nat.cast_add, Nat.cast_one] at hbound
      omega
    simp only [List.head?_cons]
    rw [getKeys_loop_eq w obj h c hh hc rest a fuel _ 0 hs hm'
      (by simp at hfuel; omega) hlen]
    have := napi_set_elements_eq ((a :: rest).map napi_create_int32) [] c.size
    simp only [List.nil_append, List.length_nil] at this
    rw [napi_create_array_with_length, this]
    simp

/-- C5, counterexample: a collection that holds the single index 1 and whose size query
reports 2 (as for a nested table once the first of two elements is deleted, the native count
keeping deleted elements). `njsDbObject_getKeys` creates an array of length 2 and sets
position 0 only: the array returned has a second, unset position and is not the array of the
indices held. -/
theorem getKeys_size_counterexample :
    njsDbObject_getKeys 2 (World.withCollection 2 [(1, int64Element 7)]) ⟨1, some 3⟩
      = some (.ok [some (napi_create_int32 1), none])
    ∧ njsDbObject_getKeys 2 (World.withCollection 2 [(1, int64Element 7)]) ⟨1, some 3⟩
      ≠ some (.ok [some (napi_create_int32 1)]) := by
  have h : njsDbObject_getKeys 2 (World.withCollection 2 [(1, int64Element 7)]) ⟨1, some 3⟩
      = some (.ok [some (napi_create_int32 1), none]) := by rfl
  refine ⟨h, ?_⟩
  rw [h]
  simp

/-- C5, as amended: for a collection that holds a finite set of int32 indices and whose
size query reports no more than the number of indices held, `njsDbObject_getKeys` ends (any
fuel above the number of indices is enough) and returns exactly the indices held, each once,
in ascending order. -/
theorem getKeys_ascending (w : World) (obj : njsDbObject) (h : Handle) (c : dpiObject)
    (fuel : Nat) (hh : obj.handle = some h) (hc : w.objects h = some c)
    (hint : ∀ i ∈ c.indices, -2 ^ 31 ≤ i ∧ i < 2 ^ 31)
    (hsize : c.size ≤ c.indices.toFinset.card)
    (hfuel : c.indices.toFinset.card < fuel) :
    njsDbObject_getKeys fuel w obj
      = some (.ok ((c.indices.toFinset.sort (· ≤ ·)).map
          fun i => some (napi_create_int32 i))) := by
  rw [getKeys_eq w obj h c fuel hh hc hint hfuel, Nat.sub_eq_zero_of_le hsize]
  simp

/-- Witness of the amended C5: the indices 9, 100 and 2 give the array 2, 9, 100. -/
theorem getKeys_ascending_witness :
    (⟨1, some 3⟩ : njsDbObject).handle = some 3
    ∧ (World.withCollection 3 [(9, int64Element 5), (100, int64Element 7),
        (2, int64Element 1)]).objects 3
      = some ⟨1, 3, [(9, int64Element 5), (100, int64Element 7), (2, int64Element 1)]⟩
    ∧ (∀ i ∈ (⟨1, 3, [(9, int64Element 5), (100, int64Element 7),
          (2, int64Element 1)]⟩ : dpiObject).indices, -2 ^ 31 ≤ i ∧ i < 2 ^ 31)
    ∧ (⟨1, 3, [(9, int64Element 5), (100, int64Element 7),
          (2, int64Element 1)]⟩ : dpiObject).size
        ≤ (⟨1, 3, [(9, int64Element 5), (100, int64Element 7),
          (2, int64Element 1)]⟩ : dpiObject).indices.toFinset.card
    ∧ (⟨1, 3, [(9, int64Element 5), (100, int64Element 7),
          (2, int64Element 1)]⟩ : dpiObject).indices.toFinset.card < 4
    ∧ njsDbObject_getKeys 4
        (World.withCollection 3 [(9, int64Element 5), (100, int64Element 7),
          (2, int64Element 1)]) ⟨1, some 3⟩
      = some (.ok [some (napi_create_int32 2), some (napi_create_int32 9),
          some (napi_create_int32 100)]) := by
  have hint : ∀ i ∈ (⟨1, 3, [(9, int64Element 5), (100, int64Element 7),
      (2, int64Element 1)]⟩ : dpiObject).indices, -2 ^ 31 ≤ i ∧ i < 2 ^ 31 := by
    intro i hi
    simp only [dpiObject.indices, List.map_cons, List.map_nil, List.mem_cons,
      List.mem_singleton, List.mem_nil_iff, or_false] at hi
    rcases hi with rfl | rfl | rfl <;> decide
  have key := getKeys_ascending
    (World.withCollection 3 [(9, int64Element 5), (100, int64Element 7), (2, int64Element 1)])
    ⟨1, some 3⟩ 3 ⟨1, 3, [(9, int64Element 5), (100, int64Element 7), (2, int64Element 1)]⟩
    4 rfl rfl hint (by decide) (by decide)
  have hset : ([9, 100, 2] : List Int).toFinset = ([2, 9, 100] : List Int).toFinset := by
    ext x
    simp only [List.mem_toFinset, List.mem_cons, List.mem_singleton, List.mem_nil_iff,
      or_false]
    tauto
  have hsort : ([9, 100, 2] : List Int).toFinset.sort (· ≤ ·) = [2, 9, 100] := by
    rw [hset]
    exact (List.toFinset_sort (· ≤ ·) (by decide)).mpr (by simp [List.Sorted])
  refine ⟨rfl, rfl, hint, by decide, by decide, ?_⟩
  rw [key]
  simp only [dpiObject.indices, List.map_cons, List.map_nil, hsort]

theorem getValues_loop_none (host : Collaborators) (obj : njsDbObject) (fuel : Nat)
    (w : World) (arr : HostArray) (pos : Nat) :
    njsDbObject_getValues_loop host obj fuel w arr pos none = some (.ok arr, w) := by
  cases fuel <;> rfl

theorem dpiObject_getNextIndex_of_indices (w : World) (obj : njsDbObject) (h : Handle)
    (K : List Int) (hh : obj.handle = some h)
    (hK : (w.objects h).map dpiObject.indices = some K) (a : Int) :
    dpiObject_getNextIndex w obj.handle a
      = some (leastIndex (K.filter fun j => decide (a < j))) := by
  cases hc : w.objects h with
  | none => simp [hc] at hK
  | some c =>
    simp only [hc, Option.map_some', Option.some.injEq] at hK
    rw [dpiObject_getNextIndex_eq w obj h c hh hc, hK]

theorem convertElements_length (host : Collaborators) (obj : njsDbObject)
    (ty : njsDbObjectType) (l : List Int) :
    ∀ (w : World) (vs : List HostValue) (w' : World),
      convertElements host obj ty w l = (.ok vs, w') → vs.length = l.length := by
  induction l with
  | nil =>
    intro w vs w' h
    simp only [convertElements, Prod.mk.injEq, Except.ok.injEq] at h
    obtain ⟨rfl, rfl⟩ := h
    rfl
  | cons a rest ih =>
    intro w vs w' h
    simp only [convertElements] at h
    split at h
    · simp at h
    · split at h
      · simp at h
      · rename_i w1 _
        split at h
        · simp at h
        · rename_i vs' w2 hrest
          simp only [Prod.mk.injEq, Except.ok.injEq] at h
          rw [← h.1, List.length_cons, List.length_cons, ih w1 vs' w2 hrest]

/-- The loop of `njsDbObject_getValues`, started on an index of the collection with enough
fuel, converts the element at that index and at all greater ones in ascending order, as
long as no conversion that succeeds alters the native collection or its descriptor. -/
theorem getValues_loop_eq (host : Collaborators) (obj : njsDbObject) (h : Handle)
    (c : dpiObject) (ty : njsDbObjectType) (hh : obj.handle = some h)
    (hframe : ∀ (w' : World) (data : dpiData),
      w'.objects h = some c → w'.objTypes obj.type = some ty →
      (njsDbObject_transformFromOracle host w' obj ty.elementTypeInfo data none).status
        = .ok () →
      (njsDbObject_transformFromOracle host w' obj ty.elementTypeInfo data none).world.objects
          h = some c
      ∧ (njsDbObject_transformFromOracle host w' obj ty.elementTypeInfo data
          none).world.objTypes obj.type = some ty) :
    ∀ (rest : List Int) (a : Int) (fuel : Nat) (w : World) (arr : HostArray) (pos : Nat),
      (a :: rest).Sorted (· < ·) → (∀ x, x ∈ a :: rest ↔ x ∈ c.indices ∧ a ≤ x) →
      rest.length < fuel → pos + rest.length < 2 ^ 32 →
      w.objects h = some c → w.objTypes obj.type = some ty →
      njsDbObject_getValues_loop host obj fuel w arr pos (some a)
        = some (match convertElements host obj ty w (a :: rest) with
          | (.ok vs, w') => (.ok (napi_set_elements arr pos vs), w')
          | (.error e, w') => (.error e, w')) := by
  intro rest
  induction rest with
  | nil =>
    intro a fuel w arr pos hs hm hf hp hK hty
    obtain ⟨fuel', rfl⟩ : ∃ k, fuel = k + 1 := ⟨fuel - 1, by simp at hf; omega⟩
    have hn := leastIndex_filter_eq_head c.indices a [] hs hm
    simp only [njsDbObject_getValues_loop, convertElements, hty]
    cases hread : dpiObject_getElementValueByIndex w obj.handle a
        ty.elementTypeInfo.nativeTypeNum with
    | none => rfl
    | some data =>
      dsimp only
      have hfr := hframe w data hK hty
      generalize njsDbObject_transformFromOracle host w obj ty.elementTypeInfo data none = r
        at hfr ⊢
      obtain ⟨status, temp, w1⟩ := r
      cases status with
      | error e => rfl
      | ok u =>
        have hfr := hfr rfl
        simp only [dpiObject_getNextIndex_of_indices w1 obj h c.indices hh
          (congrArg (Option.map dpiObject.indices) hfr.1), hn, List.head?_nil,
          getValues_loop_none, napi_set_elements]
  | cons b rest ih =>
    intro a fuel w arr pos hs hm hf hp hK hty
    obtain ⟨fuel', rfl⟩ : ∃ k, fuel = k + 1 := ⟨fuel - 1, by simp at hf; omega⟩
    have hn := leastIndex_filter_eq_head c.indices a (b :: rest) hs hm
    have hmod : (pos + 1) % 2 ^ 32 = pos + 1 := Nat.mod_eq_of_lt (by simp at hp; omega)
    rw [convertElements]
    simp only [njsDbObject_getValues_loop, hty]
    cases hread : dpiObject_getElementValueByIndex w obj.handle a
        ty.elementTypeInfo.nativeTypeNum with
    | none => rfl
    | some data =>
      dsimp only
      have hfr := hframe w data hK hty
      generalize njsDbObject_transformFromOracle host w obj ty.elementTypeInfo data none = r
        at hfr ⊢
      obtain ⟨status, temp, w1⟩ := r
      cases status with
      | error e => rfl
      | ok u =>
        have hfr := hfr rfl
        have := ih b fuel' w1 (napi_set_element arr pos (temp.getD .undefined)) (pos + 1)
          (List.Sorted.of_cons hs) (walk_invariant_tail c.indices a b rest hs hm)
          (by simp at hf ⊢; omega) (by simp at hp ⊢; omega) hfr.1 hfr.2
        simp only [dpiObject_getNextIndex_of_indices w1 obj h c.indices hh
          (congrArg (Option.map dpiObject.indices) hfr.1), hn, List.head?_cons,
          hmod, this]
        generalize convertElements host obj ty w1 (b :: rest) = q
        obtain ⟨res, w2⟩ := q
        cases res with
        | error e => rfl
        | ok vs => simp [napi_set_elements]

/-- Under the NUMBER tag a conversion leaves the world as it was. -/
theorem transformFromOracle_number_world (host : Collaborators) (w : World)
    (obj : njsDbObject) (n : dpiNativeTypeNum) (data : dpiData)
    (attr : Option njsDbObjectAttr) :
    (njsDbObject_transformFromOracle host w obj ⟨DPI_ORACLE_TYPE_NUMBER, n, none⟩ data
      attr).world = w := by
  by_cases hnull : data.isNull = 0 <;> by_cases hn : n = DPI_NATIVE_TYPE_INT64 <;>
    simp [njsDbObject_transformFromOracle, hnull, hn, DPI_ORACLE_TYPE_RAW,
      DPI_ORACLE_TYPE_CHAR, DPI_ORACLE_TYPE_NCHAR, DPI_ORACLE_TYPE_VARCHAR,
      DPI_ORACLE_TYPE_NVARCHAR, DPI_ORACLE_TYPE_NUMBER]

/-- `njsDbObject_wrap` throws nothing but an N-API or an allocation error. -/
theorem njsDbObject_wrap_error (w : World) (value : HostValue) (e : njsError)
    (h : (njsDbObject_wrap w value).1 = .error e) :
    e = .errNapi ∨ e = .errInsufficientMemory := by
  unfold njsDbObject_wrap njsDbObject_wrap_create at h
  repeat' split at h
  all_goals first
    | (injection h with h; subst h; simp)
    | (exact absurd h (by simp))

/-- `njsDbObject_new` never throws a conversion error. -/
theorem njsDbObject_new_error (host : Collaborators) (w : World) (objType : Option TypePtr)
    (objHandle : Option Handle) (e : njsError)
    (h : (njsDbObject_new host w objType objHandle).status = .error e) :
    e = .errNapi ∨ e = .errInsufficientMemory ∨ e = .errDPI ∨ e = .invalidPointer := by
  unfold njsDbObject_new at h
  split at h
  · injection h with h; subst h; simp
  · split at h
    · injection h with h; subst h; simp
    · split at h
      · injection h with h; subst h; simp
      · split at h
        · rename_i e' w2 hw
          injection h with h; subst h
          have := njsDbObject_wrap_error _ _ e' (by rw [hw])
          rcases this with h | h <;> simp [h]
        · split at h
          · injection h with h; subst h; simp
          · split at h
            · simp at h
            · injection h with h; subst h; simp

/-- A non-null value under a tag without a `case` reaches the end of the `switch`. -/
theorem transformFromOracle_default (host : Collaborators) (w : World)
    (obj : njsDbObject) (typeInfo : njsDataTypeInfo) (data : dpiData)
    (attr : Option njsDbObjectAttr) (hnull : data.isNull = 0)
    (h : typeInfo.oracleTypeNum ∉ supportedOracleTypes) :
    njsDbObject_transformFromOracle host w obj typeInfo data attr
      = ⟨.error (errConvertFrom w obj attr), none, w⟩ := by
  simp only [supportedOracleTypes, List.mem_cons, List.mem_singleton, List.mem_nil_iff,
    or_false, not_or] at h
  obtain ⟨h1, h2, h3, h4, h5, h6, h7, h8, h9, h10, h11, h12, h13, h14, h15, h16, h17, h18⟩ := h
  unfold njsDbObject_transformFromOracle
  rw [if_neg (by simp [hnull]), if_neg (by simp [h1, h2, h3, h4]), if_neg h5, if_neg h6,
    if_neg h7, if_neg h8, if_neg h9, if_neg (by simp [h10, h11, h12, h13]),
    if_neg (by simp [h14, h15, h16]), if_neg h17, if_neg h18]

/-- Under a tag that has a `case`, a non-null value fails with an error of another kind
than the conversion errors, if it fails. -/
theorem transformFromOracle_supported_error (host : Collaborators) (w : World)
    (obj : njsDbObject) (typeInfo : njsDataTypeInfo) (data : dpiData)
    (attr : Option njsDbObjectAttr) (hnull : data.isNull = 0)
    (h : typeInfo.oracleTypeNum ∈ supportedOracleTypes) (e : njsError)
    (he : (njsDbObject_transformFromOracle host w obj typeInfo data attr).status = .error e) :
    e = .errNapi ∨ e = .errInsufficientMemory ∨ e = .errDPI ∨ e = .invalidPointer
      ∨ e = .errCollaborator := by
  unfold njsDbObject_transformFromOracle at he
  have hn : ¬ (data.isNull ≠ 0) := by simp [hnull]
  rw [if_neg hn] at he
  by_cases c1 : typeInfo.oracleTypeNum = DPI_ORACLE_TYPE_CHAR
      ∨ typeInfo.oracleTypeNum = DPI_ORACLE_TYPE_NCHAR
      ∨ typeInfo.oracleTypeNum = DPI_ORACLE_TYPE_VARCHAR
      ∨ typeInfo.oracleTypeNum = DPI_ORACLE_TYPE_NVARCHAR
  · rw [if_pos c1] at he; simp at he
  rw [if_neg c1] at he
  by_cases c2 : typeInfo.oracleTypeNum = DPI_ORACLE_TYPE_RAW
  · rw [if_pos c2] at he; simp at he
  rw [if_neg c2] at he
  by_cases c3 : typeInfo.oracleTypeNum = DPI_ORACLE_TYPE_NUMBER
  · rw [if_pos c3] at he
    by_cases c3' : typeInfo.nativeTypeNum = DPI_NATIVE_TYPE_INT64
    · rw [if_pos c3'] at he; simp at he
    · rw [if_neg c3'] at he; simp at he
  rw [if_neg c3] at he
  by_cases c4 : typeInfo.oracleTypeNum = DPI_ORACLE_TYPE_NATIVE_INT
  · rw [if_pos c4] at he; simp at he
  rw [if_neg c4] at he
  by_cases c5 : typeInfo.oracleTypeNum = DPI_ORACLE_TYPE_NATIVE_FLOAT
  · rw [if_pos c5] at he; simp at he
  rw [if_neg c5] at he
  by_cases c6 : typeInfo.oracleTypeNum = DPI_ORACLE_TYPE_NATIVE_DOUBLE
  · rw [if_pos c6] at he; simp at he
  rw [if_neg c6] at he
  by_cases c7 : typeInfo.oracleTypeNum = DPI_ORACLE_TYPE_DATE
      ∨ typeInfo.oracleTypeNum = DPI_ORACLE_TYPE_TIMESTAMP
      ∨ typeInfo.oracleTypeNum = DPI_ORACLE_TYPE_TIMESTAMP_TZ
      ∨ typeInfo.oracleTypeNum = DPI_ORACLE_TYPE_TIMESTAMP_LTZ
  · rw [if_pos c7] at he; simp at he
  rw [if_neg c7] at he
  by_cases c8 : typeInfo.oracleTypeNum = DPI_ORACLE_TYPE_CLOB
      ∨ typeInfo.oracleTypeNum = DPI_ORACLE_TYPE_NCLOB
      ∨ typeInfo.oracleTypeNum = DPI_ORACLE_TYPE_BLOB
  · rw [if_pos c8] at he
    repeat' split at he
    all_goals first
      | (injection he with he; subst he; simp)
      | (exact absurd he (by simp))
  rw [if_neg c8] at he
  by_cases c9 : typeInfo.oracleTypeNum = DPI_ORACLE_TYPE_OBJECT
  · rw [if_pos c9] at he
    have := njsDbObject_new_error host w typeInfo.objectType data.value.asObject e he
    rcases this with h | h | h | h <;> simp [h]
  rw [if_neg c9] at he
  by_cases c10 : typeInfo.oracleTypeNum = DPI_ORACLE_TYPE_BOOLEAN
  · rw [if_pos c10] at he; simp at he
  exfalso
  simp only [supportedOracleTypes, List.mem_cons, List.mem_singleton, List.mem_nil_iff,
    or_false] at h
  tauto

/-- C7: on a non-null value whose tag has no `case`, `njsDbObject_transformFromOracle` fails
with the unsupported-conversion error: `errConvertFromObjAttr` with the attribute's name and
the fully-qualified name of the owning type when an attribute is supplied,
`errConvertFromObjElement` with the fully-qualified name alone when there is none (the
descriptor of the owning object being live). Under a tag that has a `case` neither error is
ever raised. -/
theorem transformFromOracle_unsupported (host : Collaborators) (w : World)
    (obj : njsDbObject) (typeInfo : njsDataTypeInfo) (data : dpiData)
    (attr : Option njsDbObjectAttr) :
    (data.isNull = 0 → typeInfo.oracleTypeNum ∉ supportedOracleTypes →
      ∀ ty, w.objTypes obj.type = some ty →
      (njsDbObject_transformFromOracle host w obj typeInfo data attr).status
        = .error (match attr with
          | some a =>
            .errConvertFromObjAttr (a.name.take a.nameLength) (ty.fqn.take ty.fqnLength)
          | none => .errConvertFromObjElement (ty.fqn.take ty.fqnLength)))
    ∧ (typeInfo.oracleTypeNum ∈ supportedOracleTypes → ∀ name fqn,
        (njsDbObject_transformFromOracle host w obj typeInfo data attr).status
          ≠ .error (.errConvertFromObjAttr name fqn)
        ∧ (njsDbObject_transformFromOracle host w obj typeInfo data attr).status
          ≠ .error (.errConvertFromObjElement fqn)) := by
  constructor
  · intro hnull h ty hty
    rw [transformFromOracle_default host w obj typeInfo data attr hnull h]
    cases attr <;> simp [errConvertFrom, hty]
  · intro h name fqn
    by_cases hnull : data.isNull = 0
    · have key := transformFromOracle_supported_error host w obj typeInfo data attr hnull h
      constructor
      · intro he
        rcases key _ he with h | h | h | h | h <;> simp at h
      · intro he
        rcases key _ he with h | h | h | h | h <;> simp at h
    · have hs : (njsDbObject_transformFromOracle host w obj typeInfo data attr).status
          = .ok () := by
        simp [njsDbObject_transformFromOracle, hnull]
      rw [hs]
      simp

/-- Witness of C7: tag 2005 (a rowid) for the attribute `AMOUNT` and for an element of
`HR.T`; a BLOB whose handle is absent fails, but not with a conversion error. -/
theorem transformFromOracle_unsupported_witness :
    dpiData.zero.isNull = 0
    ∧ (2005 : dpiOracleTypeNum) ∉ supportedOracleTypes
    ∧ (World.withType ⟨2005, 3012, none⟩).objTypes 1 = some (sampleType ⟨2005, 3012, none⟩)
    ∧ (njsDbObject_transformFromOracle Collaborators.failing (World.withType ⟨2005, 3012, none⟩)
        ⟨1, none⟩ ⟨2005, 3012, none⟩ dpiData.zero (some (sampleAttr ⟨2005, 3012, none⟩))).status
        = .error (.errConvertFromObjAttr [65, 77, 79, 85, 78, 84] [72, 82, 46, 84])
    ∧ (njsDbObject_transformFromOracle Collaborators.failing (World.withType ⟨2005, 3012, none⟩)
        ⟨1, none⟩ ⟨2005, 3012, none⟩ dpiData.zero none).status
        = .error (.errConvertFromObjElement [72, 82, 46, 84])
    ∧ DPI_ORACLE_TYPE_BLOB ∈ supportedOracleTypes
    ∧ (njsDbObject_transformFromOracle Collaborators.failing (World.withType ⟨2005, 3012, none⟩)
        ⟨1, none⟩ ⟨DPI_ORACLE_TYPE_BLOB, 3008, none⟩ dpiData.zero none).status
        ≠ .error (.errConvertFromObjElement [72, 82, 46, 84]) :=
  ⟨rfl, by decide, rfl,
    (transformFromOracle_unsupported Collaborators.failing (World.withType ⟨2005, 3012, none⟩)
      ⟨1, none⟩ ⟨2005, 3012, none⟩ dpiData.zero (some (sampleAttr ⟨2005, 3012, none⟩))).1
      rfl (by decide) (sampleType ⟨2005, 3012, none⟩) rfl,
    (transformFromOracle_unsupported Collaborators.failing (World.withType ⟨2005, 3012, none⟩)
      ⟨1, none⟩ ⟨2005, 3012, none⟩ dpiData.zero none).1
      rfl (by decide) (sampleType ⟨2005, 3012, none⟩) rfl,
    by decide,
    ((transformFromOracle_unsupported Collaborators.failing (World.withType ⟨2005, 3012, none⟩)
      ⟨1, none⟩ ⟨DPI_ORACLE_TYPE_BLOB, 3008, none⟩ dpiData.zero none).2
      (by decide) [] [72, 82, 46, 84]).2⟩

/-- C8: on a host value whose runtime kind is none of null, undefined, string, number,
boolean, object (a function, say), `njsDbObject_transformToOracle` fails with the
unsupported-conversion error: `errConvertToObjAttr` with the attribute's name and the
fully-qualified name of the owning type when an attribute is supplied,
`errConvertToObjElement` with the fully-qualified name alone when there is none (the owning
object's descriptor being live). On a value of kind null, undefined, number or boolean it
does not fail. -/
theorem transformToOracle_unsupported (host : Collaborators) (w : World)
    (obj : njsDbObject) (value : HostValue) (nativeTypeNum : dpiNativeTypeNum)
    (data : dpiData) (attr : Option njsDbObjectAttr) :
    (∀ ty, w.objTypes obj.type = some ty →
      napi_typeof value ∉ [napi_valuetype.napi_null, .napi_undefined, .napi_string,
        .napi_number, .napi_boolean, .napi_object] →
      (njsDbObject_transformToOracle host w obj value nativeTypeNum data attr).status
        = .error (match attr with
          | some a =>
            .errConvertToObjAttr (a.name.take a.nameLength) (ty.fqn.take ty.fqnLength)
          | none => .errConvertToObjElement (ty.fqn.take ty.fqnLength)))
    ∧ (napi_typeof value ∈ [napi_valuetype.napi_null, .napi_undefined, .napi_number,
        .napi_boolean] →
      (njsDbObject_transformToOracle host w obj value nativeTypeNum data attr).status
        = .ok ()) := by
  constructor
  · intro ty hty h
    cases value <;> simp [napi_typeof] at h <;>
      cases attr <;> simp [njsDbObject_transformToOracle, napi_typeof, errConvertTo, hty]
  · intro h
    cases value <;> simp [napi_typeof] at h <;>
      simp [njsDbObject_transformToOracle, napi_typeof, napi_get_value_double,
        napi_get_value_bool]

/-- Witness of C8: a function written to the attribute `AMOUNT` and to an element of `HR.T`;
the boolean `true`. -/
theorem transformToOracle_unsupported_witness :
    (World.withType ⟨2010, 3003, none⟩).objTypes 1 = some (sampleType ⟨2010, 3003, none⟩)
    ∧ napi_typeof .function ∉ [napi_valuetype.napi_null, .napi_undefined, .napi_string,
        .napi_number, .napi_boolean, .napi_object]
    ∧ (njsDbObject_transformToOracle Collaborators.failing (World.withType ⟨2010, 3003, none⟩)
        ⟨1, none⟩ .function 3003 dpiData.zero (some (sampleAttr ⟨2010, 3003, none⟩))).status
        = .error (.errConvertToObjAttr [65, 77, 79, 85, 78, 84] [72, 82, 46, 84])
    ∧ (njsDbObject_transformToOracle Collaborators.failing (World.withType ⟨2010, 3003, none⟩)
        ⟨1, none⟩ .function 3003 dpiData.zero none).status
        = .error (.errConvertToObjElement [72, 82, 46, 84])
    ∧ napi_typeof (.boolean true) ∈ [napi_valuetype.napi_null, .napi_undefined, .napi_number,
        .napi_boolean]
    ∧ (njsDbObject_transformToOracle Collaborators.failing (World.withType ⟨2010, 3003, none⟩)
        ⟨1, none⟩ (.boolean true) 3003 dpiData.zero none).status = .ok () :=
  ⟨rfl, by decide,
    (transformToOracle_unsupported Collaborators.failing (World.withType ⟨2010, 3003, none⟩)
      ⟨1, none⟩ .function 3003 dpiData.zero (some (sampleAttr ⟨2010, 3003, none⟩))).1
      (sampleType ⟨2010, 3003, none⟩) rfl (by decide),
    (transformToOracle_unsupported Collaborators.failing (World.withType ⟨2010, 3003, none⟩)
      ⟨1, none⟩ .function 3003 dpiData.zero none).1
      (sampleType ⟨2010, 3003, none⟩) rfl (by decide),
    by decide,
    (transformToOracle_unsupported Collaborators.failing (World.withType ⟨2010, 3003, none⟩)
      ⟨1, none⟩ (.boolean true) 3003 dpiData.zero none).2 (by decide)⟩

/-- C9: on a host number, whatever the incoming representation tag,
`njsDbObject_transformToOracle` succeeds with a non-null value whose double member is the
number; the resulting tag is the double tag, unless the incoming tag is the timestamp tag,
which is left as it is. -/
theorem transformToOracle_number (host : Collaborators) (w : World) (obj : njsDbObject)
    (d : Float64) (nativeTypeNum : dpiNativeTypeNum) (data : dpiData)
    (attr : Option njsDbObjectAttr) :
    (njsDbObject_transformToOracle host w obj (.number d) nativeTypeNum data attr).status
        = .ok ()
    ∧ (njsDbObject_transformToOracle host w obj (.number d) nativeTypeNum data attr).data.isNull
        = 0
    ∧ (njsDbObject_transformToOracle host w obj (.number d) nativeTypeNum data
        attr).data.value.asDouble = d
    ∧ (njsDbObject_transformToOracle host w obj (.number d) nativeTypeNum data
        attr).nativeTypeNum
        = (if nativeTypeNum = DPI_NATIVE_TYPE_TIMESTAMP then DPI_NATIVE_TYPE_TIMESTAMP
            else DPI_NATIVE_TYPE_DOUBLE) := by
  by_cases h : nativeTypeNum = DPI_NATIVE_TYPE_TIMESTAMP <;>
    simp [njsDbObject_transformToOracle, napi_typeof, napi_get_value_double, h]

/-- C10: on a non-null value, `njsDbObject_transformFromOracle` yields under NUMBER the int64
member when the preferred representation is int64 and the double member for every other
preferred representation; under the native int tag the int64 member, under the native float
tag the float member widened to double, under the native double tag the double member,
whatever the preferred representation. -/
theorem transformFromOracle_numeric (host : Collaborators) (w : World) (obj : njsDbObject)
    (typeInfo : njsDataTypeInfo) (data : dpiData) (attr : Option njsDbObjectAttr)
    (hnull : data.isNull = 0) :
    (typeInfo.oracleTypeNum = DPI_ORACLE_TYPE_NUMBER →
      (njsDbObject_transformFromOracle host w obj typeInfo data attr).status = .ok ()
      ∧ (njsDbObject_transformFromOracle host w obj typeInfo data attr).value
        = some (if typeInfo.nativeTypeNum = DPI_NATIVE_TYPE_INT64
            then napi_create_int64 data.value.asInt64
            else napi_create_double data.value.asDouble))
    ∧ (typeInfo.oracleTypeNum = DPI_ORACLE_TYPE_NATIVE_INT →
      (njsDbObject_transformFromOracle host w obj typeInfo data attr).status = .ok ()
      ∧ (njsDbObject_transformFromOracle host w obj typeInfo data attr).value
        = some (napi_create_int64 data.value.asInt64))
    ∧ (typeInfo.oracleTypeNum = DPI_ORACLE_TYPE_NATIVE_FLOAT →
      (njsDbObject_transformFromOracle host w obj typeInfo data attr).status = .ok ()
      ∧ (njsDbObject_transformFromOracle host w obj typeInfo data attr).value
        = some (napi_create_double data.value.asFloat.toFloat64))
    ∧ (typeInfo.oracleTypeNum = DPI_ORACLE_TYPE_NATIVE_DOUBLE →
      (njsDbObject_transformFromOracle host w obj typeInfo data attr).status = .ok ()
      ∧ (njsDbObject_transformFromOracle host w obj typeInfo data attr).value
        = some (napi_create_double data.value.asDouble)) := by
  refine ⟨fun h => ?_, fun h => ?_, fun h => ?_, fun h => ?_⟩
  · by_cases h' : typeInfo.nativeTypeNum = DPI_NATIVE_TYPE_INT64 <;>
      simp [njsDbObject_transformFromOracle, hnull, h, h', DPI_ORACLE_TYPE_RAW,
        DPI_ORACLE_TYPE_CHAR, DPI_ORACLE_TYPE_NCHAR, DPI_ORACLE_TYPE_VARCHAR,
        DPI_ORACLE_TYPE_NVARCHAR, DPI_ORACLE_TYPE_NUMBER]
  · simp [njsDbObject_transformFromOracle, hnull, h, DPI_ORACLE_TYPE_RAW,
      DPI_ORACLE_TYPE_CHAR, DPI_ORACLE_TYPE_NCHAR, DPI_ORACLE_TYPE_VARCHAR,
      DPI_ORACLE_TYPE_NVARCHAR, DPI_ORACLE_TYPE_NUMBER, DPI_ORACLE_TYPE_NATIVE_INT]
  · simp [njsDbObject_transformFromOracle, hnull, h, DPI_ORACLE_TYPE_RAW,
      DPI_ORACLE_TYPE_CHAR, DPI_ORACLE_TYPE_NCHAR, DPI_ORACLE_TYPE_VARCHAR,
      DPI_ORACLE_TYPE_NVARCHAR, DPI_ORACLE_TYPE_NUMBER, DPI_ORACLE_TYPE_NATIVE_INT,
      DPI_ORACLE_TYPE_NATIVE_FLOAT]
  · simp [njsDbObject_transformFromOracle, hnull, h, DPI_ORACLE_TYPE_RAW,
      DPI_ORACLE_TYPE_CHAR, DPI_ORACLE_TYPE_NCHAR, DPI_ORACLE_TYPE_VARCHAR,
      DPI_ORACLE_TYPE_NVARCHAR, DPI_ORACLE_TYPE_NUMBER, DPI_ORACLE_TYPE_NATIVE_INT,
      DPI_ORACLE_TYPE_NATIVE_FLOAT, DPI_ORACLE_TYPE_NATIVE_DOUBLE]

/-- Witness of C10: a value whose members hold 42 (int64), 1.5 (float) and 12.5 (double). -/
theorem transformFromOracle_numeric_witness :
    (⟨0, ⟨0, 42, ⟨0x3FC00000⟩, ⟨0x4029000000000000⟩, ⟨[], 0⟩, none, none⟩⟩ : dpiData).isNull = 0
    ∧ (njsDbObject_transformFromOracle Collaborators.failing (World.blank 0) ⟨1, none⟩
        ⟨DPI_ORACLE_TYPE_NUMBER, DPI_NATIVE_TYPE_INT64, none⟩
        ⟨0, ⟨0, 42, ⟨0x3FC00000⟩, ⟨0x4029000000000000⟩, ⟨[], 0⟩, none, none⟩⟩ none).value
      = some (napi_create_int64 42)
    ∧ (njsDbObject_transformFromOracle Collaborators.failing (World.blank 0) ⟨1, none⟩
        ⟨DPI_ORACLE_TYPE_NUMBER, DPI_NATIVE_TYPE_DOUBLE, none⟩
        ⟨0, ⟨0, 42, ⟨0x3FC00000⟩, ⟨0x4029000000000000⟩, ⟨[], 0⟩, none, none⟩⟩ none).value
      = some (napi_create_double ⟨0x4029000000000000⟩)
    ∧ (njsDbObject_transformFromOracle Collaborators.failing (World.blank 0) ⟨1, none⟩
        ⟨DPI_ORACLE_TYPE_NATIVE_INT, DPI_NATIVE_TYPE_DOUBLE, none⟩
        ⟨0, ⟨0, 42, ⟨0x3FC00000⟩, ⟨0x4029000000000000⟩, ⟨[], 0⟩, none, none⟩⟩ none).value
      = some (napi_create_int64 42)
    ∧ (njsDbObject_transformFromOracle Collaborators.failing (World.blank 0) ⟨1, none⟩
        ⟨DPI_ORACLE_TYPE_NATIVE_FLOAT, DPI_NATIVE_TYPE_INT64, none⟩
        ⟨0, ⟨0, 42, ⟨0x3FC00000⟩, ⟨0x4029000000000000⟩, ⟨[], 0⟩, none, none⟩⟩ none).value
      = some (.number ⟨0x3FF8000000000000⟩)
    ∧ (njsDbObject_transformFromOracle Collaborators.failing (World.blank 0) ⟨1, none⟩
        ⟨DPI_ORACLE_TYPE_NATIVE_DOUBLE, DPI_NATIVE_TYPE_INT64, none⟩
        ⟨0, ⟨0, 42, ⟨0x3FC00000⟩, ⟨0x4029000000000000⟩, ⟨[], 0⟩, none, none⟩⟩ none).value
      = some (napi_create_double ⟨0x4029000000000000⟩) :=
  ⟨rfl,
    ((transformFromOracle_numeric Collaborators.failing (World.blank 0) ⟨1, none⟩
      ⟨DPI_ORACLE_TYPE_NUMBER, DPI_NATIVE_TYPE_INT64, none⟩
      ⟨0, ⟨0, 42, ⟨0x3FC00000⟩, ⟨0x4029000000000000⟩, ⟨[], 0⟩, none, none⟩⟩ none rfl).1 rfl).2,
    ((transformFromOracle_numeric Collaborators.failing (World.blank 0) ⟨1, none⟩
      ⟨DPI_ORACLE_TYPE_NUMBER, DPI_NATIVE_TYPE_DOUBLE, none⟩
      ⟨0, ⟨0, 42, ⟨0x3FC00000⟩, ⟨0x4029000000000000⟩, ⟨[], 0⟩, none, none⟩⟩ none rfl).1 rfl).2,
    ((transformFromOracle_numeric Collaborators.failing (World.blank 0) ⟨1, none⟩
      ⟨DPI_ORACLE_TYPE_NATIVE_INT, DPI_NATIVE_TYPE_DOUBLE, none⟩
      ⟨0, ⟨0, 42, ⟨0x3FC00000⟩, ⟨0x4029000000000000⟩, ⟨[], 0⟩, none, none⟩⟩ none rfl).2.1 rfl).2,
    ((transformFromOracle_numeric Collaborators.failing (World.blank 0) ⟨1, none⟩
      ⟨DPI_ORACLE_TYPE_NATIVE_FLOAT, DPI_NATIVE_TYPE_INT64, none⟩
      ⟨0, ⟨0, 42, ⟨0x3FC00000⟩, ⟨0x4029000000000000⟩, ⟨[], 0⟩, none, none⟩⟩ none rfl).2.2.1
        rfl).2,
    ((transformFromOracle_numeric Collaborators.failing (World.blank 0) ⟨1, none⟩
      ⟨DPI_ORACLE_TYPE_NATIVE_DOUBLE, DPI_NATIVE_TYPE_INT64, none⟩
      ⟨0, ⟨0, 42, ⟨0x3FC00000⟩, ⟨0x4029000000000000⟩, ⟨[], 0⟩, none, none⟩⟩ none rfl).2.2.2
        rfl).2⟩

/-- C11: `njsDbObjectType_populateTypeInfo` returns whenever the nested lookup (if there is
one to make) returns, and then the type tag is the source tag and the representation is
double for DATE, TIMESTAMP, TIMESTAMP_TZ and TIMESTAMP_LTZ, whatever default was reported,
and the reported default for every other tag; without a nested object type it succeeds and
leaves the world and the nested type as they were. -/
theorem populateTypeInfo_tags (sub : World → Option Handle → Option SubClass) (w : World)
    (info : njsDataTypeInfo) (sourceInfo : dpiDataTypeInfo)
    (hsub : ∀ h, sourceInfo.objectType = some h → (sub w (some h)).isSome) :
    ∃ r, njsDbObjectType_populateTypeInfo sub w info sourceInfo = some r
      ∧ r.info.oracleTypeNum = sourceInfo.oracleTypeNum
      ∧ (sourceInfo.oracleTypeNum ∈ temporalOracleTypes →
          r.info.nativeTypeNum = DPI_NATIVE_TYPE_DOUBLE)
      ∧ (sourceInfo.oracleTypeNum ∉ temporalOracleTypes →
          r.info.nativeTypeNum = sourceInfo.defaultNativeTypeNum)
      ∧ (sourceInfo.objectType = none →
          r.status = .ok () ∧ r.world = w ∧ r.info.objectType = info.objectType) := by
  unfold njsDbObjectType_populateTypeInfo
  cases hobj : sourceInfo.objectType with
  | none =>
    refine ⟨_, rfl, ?_, ?_, ?_, ?_⟩
    · dsimp only; split <;> rfl
    · intro ht
      simp only [temporalOracleTypes, List.mem_cons, List.mem_singleton, List.mem_nil_iff,
        or_false] at ht
      dsimp only; rw [if_pos (by tauto)]
    · intro ht
      simp only [temporalOracleTypes, List.mem_cons, List.mem_singleton, List.mem_nil_iff,
        or_false] at ht
      dsimp only; rw [if_neg (by tauto)]
    · intro _
      refine ⟨rfl, rfl, ?_⟩
      dsimp only; split <;> rfl
  | some h =>
    have hs := hsub h hobj
    cases hr : sub w (some h) with
    | none => rw [hr] at hs; cases hs
    | some s =>
      dsimp only
      rw [hr]
      refine ⟨_, rfl, ?_, ?_, ?_, ?_⟩
      · dsimp only; cases s.objectType <;> dsimp only <;> split <;> rfl
      · intro ht
        simp only [temporalOracleTypes, List.mem_cons, List.mem_singleton, List.mem_nil_iff,
          or_false] at ht
        dsimp only; rw [if_pos (by tauto)]; cases s.objectType <;> rfl
      · intro ht
        simp only [temporalOracleTypes, List.mem_cons, List.mem_singleton, List.mem_nil_iff,
          or_false] at ht
        dsimp only; rw [if_neg (by tauto)]; cases s.objectType <;> rfl
      · intro hn; cases hn

/-- C11 at a DATE whose reported default is the timestamp representation and whose nested
type is looked up among no native types. -/
theorem populateTypeInfo_tags_witness :
    ∃ r, njsDbObjectType_populateTypeInfo (njsDbObject_getSubClass 1 Collaborators.failing)
        (World.blank 0) ⟨0, 0, none⟩
        ⟨DPI_ORACLE_TYPE_DATE, DPI_NATIVE_TYPE_TIMESTAMP, some 4⟩ = some r
      ∧ r.info.oracleTypeNum = DPI_ORACLE_TYPE_DATE
      ∧ r.info.nativeTypeNum = DPI_NATIVE_TYPE_DOUBLE := by
  obtain ⟨r, h1, h2, h3, -, -⟩ := populateTypeInfo_tags
    (njsDbObject_getSubClass 1 Collaborators.failing) (World.blank 0) ⟨0, 0, none⟩
    ⟨DPI_ORACLE_TYPE_DATE, DPI_NATIVE_TYPE_TIMESTAMP, some 4⟩
    (by intro h hh; cases hh; rfl)
  exact ⟨r, h1, h2, h3 (by decide)⟩

/-- C12: for a host value that is a string, a boolean, a Date or a byte buffer,
`njsDbObject_transformToOracle` gives the same outcome under any two incoming representation
tags: the same status, the same native value, the same scratch buffer (present or absent),
the same world and, on success, the same resulting tag; on failure nothing is stored in the
tag, which still holds what came in. -/
theorem transformToOracle_tag_independent (host : Collaborators) (w : World)
    (obj : njsDbObject) (value : HostValue) (t1 t2 : dpiNativeTypeNum) (data : dpiData)
    (attr : Option njsDbObjectAttr)
    (hv : (∃ s, value = .string s) ∨ (∃ b, value = .boolean b) ∨ (∃ t, value = .date t)
      ∨ (∃ b, value = .buffer b)) :
    (njsDbObject_transformToOracle host w obj value t1 data attr).status
        = (njsDbObject_transformToOracle host w obj value t2 data attr).status
      ∧ (njsDbObject_transformToOracle host w obj value t1 data attr).data
        = (njsDbObject_transformToOracle host w obj value t2 data attr).data
      ∧ (njsDbObject_transformToOracle host w obj value t1 data attr).strBuffer
        = (njsDbObject_transformToOracle host w obj value t2 data attr).strBuffer
      ∧ (njsDbObject_transformToOracle host w obj value t1 data attr).world
        = (njsDbObject_transformToOracle host w obj value t2 data attr).world
      ∧ ((njsDbObject_transformToOracle host w obj value t1 data attr).status = .ok () →
          (njsDbObject_transformToOracle host w obj value t1 data attr).nativeTypeNum
            = (njsDbObject_transformToOracle host w obj value t2 data attr).nativeTypeNum)
      ∧ ((njsDbObject_transformToOracle host w obj value t1 data attr).status ≠ .ok () →
          (njsDbObject_transformToOracle host w obj value t1 data attr).nativeTypeNum = t1
          ∧ (njsDbObject_transformToOracle host w obj value t2 data attr).nativeTypeNum
            = t2) := by
  rcases hv with ⟨s, rfl⟩ | ⟨b, rfl⟩ | ⟨t, rfl⟩ | ⟨b, rfl⟩
  · simp only [njsDbObject_transformToOracle, napi_typeof, njsUtils_copyStringFromJS]
    cases w.alloc <;> simp
  · simp [njsDbObject_transformToOracle, napi_typeof, napi_get_value_bool]
  · simp [njsDbObject_transformToOracle, napi_typeof, njsDbObject_transformToOracle_object,
      napi_instanceof_Date, napi_coerce_to_number, napi_get_value_double]
  · simp [njsDbObject_transformToOracle, napi_typeof, njsDbObject_transformToOracle_object,
      napi_instanceof_Date, napi_get_buffer_info]

/-- C12 at the text `A`, under the int64 and the timestamp representation. -/
theorem transformToOracle_tag_independent_witness :
    (njsDbObject_transformToOracle Collaborators.failing (World.blank 1) ⟨1, some 3⟩
        (.string [65]) DPI_NATIVE_TYPE_INT64 dpiData.zero none).status = .ok ()
      ∧ (njsDbObject_transformToOracle Collaborators.failing (World.blank 1) ⟨1, some 3⟩
        (.string [65]) DPI_NATIVE_TYPE_INT64 dpiData.zero none).nativeTypeNum
        = (njsDbObject_transformToOracle Collaborators.failing (World.blank 1) ⟨1, some 3⟩
        (.string [65]) DPI_NATIVE_TYPE_TIMESTAMP dpiData.zero none).nativeTypeNum :=
  ⟨rfl,
    (transformToOracle_tag_independent Collaborators.failing (World.blank 1) ⟨1, some 3⟩
      (.string [65]) DPI_NATIVE_TYPE_INT64 DPI_NATIVE_TYPE_TIMESTAMP dpiData.zero none
      (Or.inl ⟨[65], rfl⟩)).2.2.2.2.1 rfl⟩

/-- What `njsDbObject_transformToOracle` does with a byte buffer. -/
theorem transformToOracle_buffer (host : Collaborators) (w : World) (obj : njsDbObject)
    (b : Bytes) (t : dpiNativeTypeNum) (data : dpiData) (attr : Option njsDbObjectAttr) :
    njsDbObject_transformToOracle host w obj (.buffer b) t data attr
      = ⟨.ok (), DPI_NATIVE_TYPE_BYTES,
          dpiData_setBytes { data with isNull := 0 } b (b.length % 2 ^ 32), none, w⟩ := by
  simp [njsDbObject_transformToOracle, napi_typeof, njsDbObject_transformToOracle_object,
    napi_instanceof_Date, napi_get_buffer_info]

/-- What `njsDbObject_transformToOracle` does with an instance of the base database object
class. -/
theorem transformToOracle_instance (host : Collaborators) (w : World) (obj : njsDbObject)
    (r : Ref) (t : dpiNativeTypeNum) (data : dpiData) (attr : Option njsDbObjectAttr)
    (hbase : napi_instanceof_BaseDbObject w (.object r) = true) :
    njsDbObject_transformToOracle host w obj (.object r) t data attr
      = match njsDbObject_getInstance w (.object r) with
        | (.error e, w1) => ⟨.error e, t, { data with isNull := 0 }, none, w1⟩
        | (.ok valueObj, w1) =>
          match w1.instanceAt valueObj with
          | none => ⟨.error .invalidPointer, t, { data with isNull := 0 }, none, w1⟩
          | some inst =>
            ⟨.ok (), DPI_NATIVE_TYPE_OBJECT,
              dpiData_setObject { data with isNull := 0 } inst.handle, none, w1⟩ := by
  simp only [njsDbObject_transformToOracle, napi_typeof, njsDbObject_transformToOracle_object,
    napi_instanceof_Date, napi_get_buffer_info, hbase]
  simp

/-- The length stored for a byte buffer of exactly `2 ^ 32` bytes is 0. -/
theorem transformToOracle_buffer_wrap (host : Collaborators) (w : World) (obj : njsDbObject)
    (b : Bytes) (t : dpiNativeTypeNum) (data : dpiData) (attr : Option njsDbObjectAttr)
    (hb : b.length = 2 ^ 32) :
    (njsDbObject_transformToOracle host w obj (.buffer b) t data attr).data.value.asBytes.length
      = 0 := by
  rw [transformToOracle_buffer, hb]
  rfl

/-- C13, counterexample: a byte buffer of `2 ^ 32` bytes is stored with the length 0, not
with its own length: the length is cast to `uint32_t`, the type of the length of
`dpiBytes`. -/
theorem transformToOracle_buffer_length_fails :
    (njsDbObject_transformToOracle Collaborators.failing (World.blank 0) ⟨1, none⟩
        (.buffer (List.replicate (2 ^ 32) 0)) DPI_NATIVE_TYPE_BYTES dpiData.zero
        none).data.value.asBytes.length = 0
    ∧ (njsDbObject_transformToOracle Collaborators.failing (World.blank 0) ⟨1, none⟩
        (.buffer (List.replicate (2 ^ 32) 0)) DPI_NATIVE_TYPE_BYTES dpiData.zero
        none).data.value.asBytes.length ≠ (List.replicate (2 ^ 32) (0 : Nat)).length := by
  have hlen : (List.replicate (2 ^ 32) (0 : Nat)).length = 2 ^ 32 := List.length_replicate _ _
  have h0 := transformToOracle_buffer_wrap Collaborators.failing (World.blank 0) ⟨1, none⟩
    (List.replicate (2 ^ 32) 0) DPI_NATIVE_TYPE_BYTES dpiData.zero none hlen
  refine ⟨h0, ?_⟩
  rw [h0, hlen]
  decide

/-- What `njsDbObject_transformToOracle` does with an object that is no Date, no buffer and
no instance of the base database object class, in terms of the type the slot declares. -/
theorem transformToOracle_plain (host : Collaborators) (w : World) (obj : njsDbObject)
    (r : Ref) (t : dpiNativeTypeNum) (data : dpiData) (attr : Option njsDbObjectAttr)
    (hbase : napi_instanceof_BaseDbObject w (.object r) = false) :
    njsDbObject_transformToOracle host w obj (.object r) t data attr
      = match (match attr with
          | some a => (.ok a.typeInfo.objectType : Except njsError (Option TypePtr))
          | none =>
            match w.objTypes obj.type with
            | some ty => .ok ty.elementTypeInfo.objectType
            | none => .error .invalidPointer) with
        | .error e => ⟨.error e, t, { data with isNull := 0 }, none, w⟩
        | .ok none => ⟨.error (errConvertTo w obj attr), t, { data with isNull := 0 }, none, w⟩
        | .ok (some objType) =>
          match w.objTypes objType with
          | none => ⟨.error .invalidPointer, t, { data with isNull := 0 }, none, w⟩
          | some ty =>
            match ty.jsDbObjectConstructor with
            | none => ⟨.error .errNapi, t, { data with isNull := 0 }, none, w⟩
            | some constructor =>
              match host.napi_new_instance w constructor [.object r] with
              | (none, w1) => ⟨.error .errNapi, t, { data with isNull := 0 }, none, w1⟩
              | (some tempObj, w1) =>
                match njsDbObject_getInstance w1 tempObj with
                | (.error e, w2) => ⟨.error e, t, { data with isNull := 0 }, none, w2⟩
                | (.ok valueObj, w2) =>
                  match w2.instanceAt valueObj with
                  | none => ⟨.error .invalidPointer, t, { data with isNull := 0 }, none, w2⟩
                  | some inst =>
                    ⟨.ok (), DPI_NATIVE_TYPE_OBJECT,
                      dpiData_setObject { data with isNull := 0 } inst.handle, none, w2⟩ := by
  simp only [njsDbObject_transformToOracle, napi_typeof, njsDbObject_transformToOracle_object,
    napi_instanceof_Date, napi_get_buffer_info, hbase]
  simp


/-- C14: for a host object that is no Date, no byte buffer and no instance of the base
database object class. With an attribute supplied the slot is the attribute: when its type
information names no object type the conversion fails with the unsupported-conversion error
naming the attribute and the type, and when it names one a new instance is constructed from
the plain value with the constructor of that type and the result is the object
representation carrying the handle of the new instance; no condition is put on the element
type of the owning object, which is not consulted. Without an attribute the same holds with
the element type of the owning collection, the error naming the type only. -/
theorem transformToOracle_plain_object (host : Collaborators) (w : World) (obj : njsDbObject)
    (r : Ref) (t : dpiNativeTypeNum) (data : dpiData) (attr : Option njsDbObjectAttr)
    (hbase : napi_instanceof_BaseDbObject w (.object r) = false) :
    (∀ a, attr = some a →
      (a.typeInfo.objectType = none →
        njsDbObject_transformToOracle host w obj (.object r) t data attr
          = ⟨.error (errConvertTo w obj attr), t, { data with isNull := 0 }, none, w⟩
        ∧ ∀ oty, w.objTypes obj.type = some oty →
            errConvertTo w obj attr
              = .errConvertToObjAttr (a.name.take a.nameLength) (oty.fqn.take oty.fqnLength))
      ∧ (∀ p ty c tempObj w1 valueObj w2 inst, a.typeInfo.objectType = some p →
          w.objTypes p = some ty → ty.jsDbObjectConstructor = some c →
          host.napi_new_instance w c [.object r] = (some tempObj, w1) →
          njsDbObject_getInstance w1 tempObj = (.ok valueObj, w2) →
          w2.instanceAt valueObj = some inst →
          njsDbObject_transformToOracle host w obj (.object r) t data attr
            = ⟨.ok (), DPI_NATIVE_TYPE_OBJECT,
                { isNull := 0, value := { data.value with asObject := inst.handle } }, none,
                w2⟩))
    ∧ (attr = none → ∀ oty, w.objTypes obj.type = some oty →
      (oty.elementTypeInfo.objectType = none →
        njsDbObject_transformToOracle host w obj (.object r) t data attr
          = ⟨.error (errConvertTo w obj attr), t, { data with isNull := 0 }, none, w⟩
        ∧ errConvertTo w obj attr = .errConvertToObjElement (oty.fqn.take oty.fqnLength))
      ∧ (∀ p ty c tempObj w1 valueObj w2 inst, oty.elementTypeInfo.objectType = some p →
          w.objTypes p = some ty → ty.jsDbObjectConstructor = some c →
          host.napi_new_instance w c [.object r] = (some tempObj, w1) →
          njsDbObject_getInstance w1 tempObj = (.ok valueObj, w2) →
          w2.instanceAt valueObj = some inst →
          njsDbObject_transformToOracle host w obj (.object r) t data attr
            = ⟨.ok (), DPI_NATIVE_TYPE_OBJECT,
                { isNull := 0, value := { data.value with asObject := inst.handle } }, none,
                w2⟩)) := by
  refine ⟨?_, ?_⟩
  · rintro a rfl
    refine ⟨fun hnone => ⟨?_, ?_⟩, ?_⟩
    · rw [transformToOracle_plain host w obj r t data _ hbase]
      simp only [hnone]
    · intro oty hoty
      simp only [errConvertTo, hoty]
    · intro p ty c tempObj w1 valueObj w2 inst hp hty hc hnew hget hinst
      rw [transformToOracle_plain host w obj r t data _ hbase]
      simp only [hp, hty, hc, hnew, hget, hinst]
      rfl
  · rintro rfl oty hoty
    refine ⟨fun hnone => ⟨?_, ?_⟩, ?_⟩
    · rw [transformToOracle_plain host w obj r t data _ hbase]
      simp only [hoty, hnone]
    · simp only [errConvertTo, hoty]
    · intro p ty c tempObj w1 valueObj w2 inst hp hty hc hnew hget hinst
      rw [transformToOracle_plain host w obj r t data _ hbase]
      simp only [hoty, hp, hty, hc, hnew, hget, hinst]
      rfl

/-- C14 at the plain object at 20 of `World.withInstance`, written to an attribute whose type
is the sample type: the new instance is the host object at 21, and its native object, created
for it, has the handle 30. -/
theorem transformToOracle_plain_object_witness :
    napi_instanceof_BaseDbObject World.withInstance (.object 20) = false
    ∧ (njsDbObject_transformToOracle Collaborators.constructing World.withInstance
        ⟨1, some 3⟩ (.object 20) DPI_NATIVE_TYPE_OBJECT dpiData.zero
        (some (sampleAttr ⟨DPI_ORACLE_TYPE_OBJECT, DPI_NATIVE_TYPE_OBJECT, some 1⟩))).status
        = .ok ()
    ∧ (njsDbObject_transformToOracle Collaborators.constructing World.withInstance
        ⟨1, some 3⟩ (.object 20) DPI_NATIVE_TYPE_OBJECT dpiData.zero
        (some (sampleAttr ⟨DPI_ORACLE_TYPE_OBJECT, DPI_NATIVE_TYPE_OBJECT, some 1⟩))
        ).data.value.asObject = some 30 := by
  have h := ((transformToOracle_plain_object Collaborators.constructing World.withInstance
    ⟨1, some 3⟩ 20 DPI_NATIVE_TYPE_OBJECT dpiData.zero
    (some (sampleAttr ⟨DPI_ORACLE_TYPE_OBJECT, DPI_NATIVE_TYPE_OBJECT, some 1⟩)) rfl).1 _ rfl).2
    1 _ 8 (.object 21) _ 21 _ ⟨1, some 30⟩ rfl rfl rfl rfl rfl rfl
  rw [h]
  exact ⟨rfl, rfl, rfl⟩

/-- A successful `njsDbObjectType_populate` ends with `njsDbObjectType_populate_finish`. -/
theorem populate_ok_finish (host : Collaborators)
    (sub : World → Option Handle → Option SubClass) (w : World) (objType : njsDbObjectType)
    (h : Option Handle) (js : Option Ref) (info : dpiObjectTypeInfo) (r : Populate)
    (hr : njsDbObjectType_populate host sub w objType h js info = some r)
    (hok : r.status = .ok ()) :
    ∃ w3 objType3, r = njsDbObjectType_populate_finish w3 objType3 js info := by
  unfold njsDbObjectType_populate at hr
  split at hr
  · cases hr; cases hok
  · dsimp only at hr
    split at hr
    · cases hr; cases hok
    · split at hr
      · cases hr
      · cases hr; cases hok
      · exact ⟨_, _, (Option.some.inj hr).symm⟩


/-- With a length below `2 ^ 31` and no NUL among the first `length` bytes, `%.*s` prints
exactly those bytes. -/
theorem printf_s_take (length : Nat) (s : Bytes) (hlen : length < 2 ^ 31)
    (h0 : ∀ b ∈ s.take length, b ≠ 0) : printf_s (castInt length) s = s.take length := by
  have hmod : length % 2 ^ 32 = length := Nat.mod_eq_of_lt (by omega)
  have hc : castInt length = (length : Int) := by
    unfold castInt
    rw [hmod, if_pos hlen]
  rw [hc]
  unfold printf_s
  rw [if_neg (by omega), Int.toNat_ofNat]
  rw [List.takeWhile_eq_self_iff]
  intro b hb
  simpa using h0 b hb

/-- What `%.*s` does at a NUL byte, which no name the engine reports contains: for the bytes
`H\0R` as schema and the name `T`, `njsDbObjectType_populate` succeeds with `fqnLength = 5`
and the name it wrote is `H.T` followed by the terminating NUL. -/
theorem populate_fqn_nul :
    (njsDbObjectType_populate (Collaborators.caching sampleCache)
      (njsDbObject_getSubClass 0 (Collaborators.caching sampleCache))
      (World.withNativeTypes [72, 0, 82] 3) njsDbObjectType.zero (some 12) (some 16)
      (sampleInfo [72, 0, 82] 3)).map (fun r => (r.status, r.objType.fqn, r.objType.fqnLength))
      = some (.ok (), [72, 46, 84, 0], 5)
    ∧ (njsDbObjectType_populate (Collaborators.caching sampleCache)
      (njsDbObject_getSubClass 0 (Collaborators.caching sampleCache))
      (World.withNativeTypes [72, 0, 82] 3) njsDbObjectType.zero (some 12) (some 16)
      (sampleInfo [72, 0, 82] 3)).map (fun r => r.objType.fqn.take r.objType.fqnLength)
      ≠ some ([72, 0, 82] ++ [46] ++ [84]) :=
  ⟨rfl, by decide⟩

/-- C15: after `njsDbObjectType_populate` succeeds for a type whose schema is `schemaLength`
bytes at `schema` and whose name is `nameLength` bytes at `name`, neither null-terminated,
the `fqnLength` bytes at `fqn` are the bytes of the schema, a single `.` and the bytes of the
name, and `fqnLength = schemaLength + nameLength + 1`. The schema and the name are names as
the engine reports them: identifiers, which hold no NUL byte and are shorter than `2 ^ 31`
bytes, the memory holding at least the lengths reported. -/
theorem populate_fqn (host : Collaborators) (sub : World → Option Handle → Option SubClass)
    (w : World) (objType : njsDbObjectType) (h : Option Handle) (js : Option Ref)
    (info : dpiObjectTypeInfo) (r : Populate)
    (hr : njsDbObjectType_populate host sub w objType h js info = some r)
    (hok : r.status = .ok ())
    (hs : info.schemaLength ≤ info.schema.length) (hn : info.nameLength ≤ info.name.length)
    (hs31 : info.schemaLength < 2 ^ 31) (hn31 : info.nameLength < 2 ^ 31)
    (hs0 : ∀ b ∈ info.schema.take info.schemaLength, b ≠ 0)
    (hn0 : ∀ b ∈ info.name.take info.nameLength, b ≠ 0) :
    r.objType.fqn.take r.objType.fqnLength
        = info.schema.take info.schemaLength ++ [46] ++ info.name.take info.nameLength
      ∧ r.objType.fqnLength = info.schemaLength + info.nameLength + 1 := by
  obtain ⟨w3, objType3, rfl⟩ := populate_ok_finish host sub w objType h js info r hr hok
  unfold njsDbObjectType_populate_finish at hok ⊢
  split at hok
  · cases hok
  · dsimp only at hok ⊢
    split at hok
    · cases hok
    · have hmod : (info.schemaLength + info.nameLength + 1) % 2 ^ 32
          = info.schemaLength + info.nameLength + 1 := Nat.mod_eq_of_lt (by omega)
      have hlen : (info.schema.take info.schemaLength ++ [46]
          ++ info.name.take info.nameLength).length
            = info.schemaLength + info.nameLength + 1 := by
        simp only [List.length_append, List.length_take, List.length_singleton]
        omega
      dsimp only
      rw [printf_s_take _ _ hs31 hs0, printf_s_take _ _ hn31 hn0, hmod]
      refine ⟨?_, rfl⟩
      rw [← hlen, List.take_length, List.take_append_of_le_length (le_refl _), List.take_length]

/-- C15 at the sample type 12, `HR.T`: it is populated, and its name is `HR.T`, 4 bytes. -/
theorem populate_fqn_witness :
    ∃ r, njsDbObjectType_populate (Collaborators.caching sampleCache)
        (njsDbObject_getSubClass 0 (Collaborators.caching sampleCache))
        (World.withNativeTypes [72, 82] 2) njsDbObjectType.zero (some 12) (some 16)
        (sampleInfo [72, 82] 2) = some r
      ∧ r.status = .ok ()
      ∧ r.objType.fqn.take r.objType.fqnLength = [72, 82, 46, 84]
      ∧ r.objType.fqnLength = 4 :=
  ⟨_, rfl, rfl, populate_fqn (Collaborators.caching sampleCache)
    (njsDbObject_getSubClass 0 (Collaborators.caching sampleCache))
    (World.withNativeTypes [72, 82] 2) njsDbObjectType.zero (some 12) (some 16)
    (sampleInfo [72, 82] 2) _ rfl rfl (by decide) (by decide) (by decide)
    (by decide) (by decide) (by decide)⟩

theorem sameTypes_refl (w : World) : w.sameTypes w :=
  ⟨rfl, fun _ => rfl, fun _ => rfl, fun _ => rfl⟩

theorem sameTypes_trans {w1 w2 w3 : World} (h12 : w1.sameTypes w2) (h23 : w2.sameTypes w3) :
    w1.sameTypes w3 :=
  ⟨h23.1.trans h12.1, fun h => (h23.2.1 h).trans (h12.2.1 h),
    fun h => (h23.2.2.1 h).trans (h12.2.2.1 h), fun x => (h23.2.2.2 x).trans (h12.2.2.2 x)⟩

theorem alloc_sameTypes {w w1 : World} (h : w.alloc = some w1) : w.sameTypes w1 := by
  unfold World.alloc at h
  split at h
  · cases h
  · cases h; exact sameTypes_refl w

theorem allocObjType_sameTypes {w w3 : World} {p : TypePtr}
    (h : w.allocObjType = some (p, w3)) : w.sameTypes w3 := by
  unfold World.allocObjType at h
  split at h
  · cases h
  · rename_i w1 h1
    cases h
    exact sameTypes_trans (alloc_sameTypes h1) ⟨rfl, fun _ => rfl, fun _ => rfl, fun _ => rfl⟩

theorem dpiObjectType_addRef_sameTypes (w : World) (h : Option Handle) :
    w.sameTypes (dpiObjectType_addRef w h).2 := by
  unfold dpiObjectType_addRef
  split
  · exact sameTypes_refl w
  · rename_i t
    split
    · exact sameTypes_refl w
    · rename_i ty hty
      refine ⟨rfl, fun k => ?_, fun k => ?_, fun _ => rfl⟩
      · by_cases hk : k = t
        · subst hk; simp [World.record, World.setObjectType, hty]
        · simp [World.record, World.setObjectType, hk]
      · by_cases hk : k = t
        · subst hk; simp [World.record, World.setObjectType, hty]
        · simp [World.record, World.setObjectType, hk]

theorem addRefAttrs_sameTypes (l : List Handle) (w : World) :
    w.sameTypes (addRefAttrs w l) := by
  induction l generalizing w with
  | nil => exact sameTypes_refl w
  | cons a l ih =>
    unfold addRefAttrs
    split
    · exact ih w
    · rename_i attr hattr
      refine sameTypes_trans ?_ (ih _)
      refine ⟨rfl, fun _ => rfl, fun _ => rfl, fun k => ?_⟩
      by_cases hk : k = a
      · subst hk; simp [World.setObjectAttr, hattr]
      · simp [World.setObjectAttr, hk]

theorem dpiObjectType_getAttributes_sameTypes (w : World) (h : Option Handle) (n : Nat) :
    w.sameTypes (dpiObjectType_getAttributes w h n).2 := by
  unfold dpiObjectType_getAttributes
  split
  · exact sameTypes_refl w
  · split
    · exact sameTypes_refl w
    · exact sameTypes_trans (addRefAttrs_sameTypes _ w)
        ⟨rfl, fun _ => rfl, fun _ => rfl, fun _ => rfl⟩

theorem nests_of_sameTypes {w w2 : World} (hs : w.sameTypes w2) (a b : Handle)
    (h : w.nests a b) : w2.nests a b := by
  obtain ⟨info, x, rest, ainfo, h1, h2, h3, h4, h5, h6⟩ := h
  refine ⟨info, x, rest, ainfo, ?_, h2, h3, ?_, ?_, h6⟩
  · exact (hs.2.1 a).trans h1
  · exact (hs.2.2.1 a).trans h4
  · exact (hs.2.2.2 x).trans h5

theorem unattached_of_sameTypes {w w2 : World} (hs : w.sameTypes w2)
    (cache : Bytes → Bytes → Option HostValue) (a : Handle) (h : w.unattached cache a) :
    w2.unattached cache a := by
  intro info cls proto h1 h2 h3
  have hheap := hs.1
  have hcp : classPrototype w2 cls = classPrototype w cls := by
    cases cls <;> simp [classPrototype, hheap]
  have hun : napi_unwrap_objectType w2 proto = napi_unwrap_objectType w proto := by
    simp [napi_unwrap_objectType, hheap]
  rw [hun]
  exact h info cls proto ((hs.2.1 a).symm.trans h1) h2 (hcp ▸ h3)


/-- When the lookup of the nested type does not succeed, neither does the type information
of an attribute of that type. -/
theorem populateTypeInfo_not_ok (sub : World → Option Handle → Option SubClass) (w : World)
    (info : njsDataTypeInfo) (sourceInfo : dpiDataTypeInfo) (b : Handle)
    (hb : sourceInfo.objectType = some b)
    (hsub : ∀ r, sub w (some b) = some r → r.status ≠ .ok ()) (r : PopulateTypeInfo)
    (h : njsDbObjectType_populateTypeInfo sub w info sourceInfo = some r) :
    r.status ≠ .ok () := by
  unfold njsDbObjectType_populateTypeInfo at h
  dsimp only at h
  rw [hb] at h
  dsimp only at h
  split at h
  · cases h
  · rename_i s hs
    cases h
    exact hsub s hs

theorem populate_attrs_not_ok (host : Collaborators)
    (sub : World → Option Handle → Option SubClass) (w : World) (i : Nat)
    (attr : njsDbObjectAttr) (rest : List njsDbObjectAttr) (x b : Handle)
    (ainfo : dpiObjectAttrInfo) (hx : attr.handle = some x)
    (hinfo : (dpiObjectAttr_getInfo w (some x)).1 = some ainfo)
    (hb : ainfo.typeInfo.objectType = some b)
    (hsub : ∀ w2, w.sameTypes w2 → ∀ r, sub w2 (some b) = some r → r.status ≠ .ok ())
    (r : PopulateAttrs)
    (h : njsDbObjectType_populate_attrs host sub w i (attr :: rest) = some r) :
    r.status ≠ .ok () := by
  unfold njsDbObjectType_populate_attrs at h
  rw [hx] at h
  have hpair : dpiObjectAttr_getInfo w (some x)
      = (some ainfo, w.record (.dpiObjectAttr_getInfo (some x))) := by
    rw [← hinfo]; rfl
  rw [hpair] at h
  dsimp only at h
  have hw1 : w.sameTypes (w.record (.dpiObjectAttr_getInfo (some x))) :=
    ⟨rfl, fun _ => rfl, fun _ => rfl, fun _ => rfl⟩
  split at h
  · cases h
  · cases h
    intro hc; cases hc
  · rename_i typeInfo w2 hti
    have := populateTypeInfo_not_ok sub _ _ _ b hb (hsub _ hw1) _ hti
    exact absurd rfl this


theorem populate_members_not_ok (host : Collaborators)
    (sub : World → Option Handle → Option SubClass) (w : World) (objType : njsDbObjectType)
    (js : Option Ref) (info : dpiObjectTypeInfo) (attr : njsDbObjectAttr)
    (rest : List njsDbObjectAttr) (x b : Handle) (ainfo : dpiObjectAttrInfo)
    (hcol : info.isCollection = false)
    (hattrs : objType.attributes.take info.numAttributes = attr :: rest)
    (hx : attr.handle = some x)
    (hinfo : (dpiObjectAttr_getInfo w (some x)).1 = some ainfo)
    (hb : ainfo.typeInfo.objectType = some b)
    (hsub : ∀ w2, w.sameTypes w2 → ∀ r, sub w2 (some b) = some r → r.status ≠ .ok ())
    (r : Populate)
    (h : njsDbObjectType_populate_members host sub w objType js info = some r) :
    r.status ≠ .ok () := by
  unfold njsDbObjectType_populate_members at h
  rw [hcol] at h
  simp only [Bool.false_eq_true, if_false] at h
  split at h
  · cases h
    intro hc; cases hc
  · rename_i w1 ha
    have h01 := alloc_sameTypes ha
    rw [hattrs] at h
    split at h
    · cases h
    · rename_i ra hra
      have hinfo1 : (dpiObjectAttr_getInfo w1 (some x)).1 = some ainfo :=
        (h01.2.2.2 x).trans hinfo
      have hne := populate_attrs_not_ok host sub w1 0 attr rest x b ainfo hx hinfo1 hb
        (fun w2 h12 => hsub w2 (sameTypes_trans h01 h12)) ra hra
      split at h
      · cases h
        intro hc; cases hc
      · rename_i u hst
        exact absurd hst hne

theorem populate_handles_first (w : World) (objType : njsDbObjectType) (a x : Handle)
    (rest : List Handle) (info : dpiObjectTypeInfo) (objType2 : njsDbObjectType) (w2 : World)
    (hn : 0 < info.numAttributes) (hnum : objType.numAttributes = info.numAttributes)
    (hattrs : ((some a).bind w.objectTypes).bind dpiObjectType.attributes = some (x :: rest))
    (h : njsDbObjectType_populate_handles w objType (some a) info = (.ok objType2, w2)) :
    (∃ tl, objType2.attributes.take info.numAttributes
        = (⟨some x, [], 0, ⟨0, 0, none⟩⟩ : njsDbObjectAttr) :: tl)
      ∧ w.sameTypes w2 := by
  unfold njsDbObjectType_populate_handles at h
  rw [if_pos hn] at h
  split at h
  · cases h
  · rename_i w1 ha1
    split at h
    · cases h
    · rename_i w1b ha2
      have h02 := sameTypes_trans (alloc_sameTypes ha1) (alloc_sameTypes ha2)
      have hg := dpiObjectType_getAttributes_sameTypes w1b (some a) objType.numAttributes
      split at h
      · cases h
      · rename_i attrHandles w3 hga
        rw [hga] at hg
        cases h
        refine ⟨?_, sameTypes_trans h02 hg⟩
        have hattrs2 : ((some a).bind w1b.objectTypes).bind dpiObjectType.attributes
            = some (x :: rest) := (h02.2.2.1 a).trans hattrs
        unfold dpiObjectType_getAttributes at hga
        rw [hattrs2] at hga
        dsimp only at hga
        split at hga
        · cases hga
        · cases hga
          obtain ⟨n, hn2⟩ : ∃ n, info.numAttributes = n + 1 := ⟨info.numAttributes - 1, by omega⟩
          rw [hn2]
          simp


theorem populate_not_ok (host : Collaborators)
    (sub : World → Option Handle → Option SubClass) (w : World) (objType : njsDbObjectType)
    (a : Handle) (js : Option Ref) (info : dpiObjectTypeInfo) (x : Handle)
    (rest : List Handle) (b : Handle) (ainfo : dpiObjectAttrInfo)
    (hcol : info.isCollection = false) (hn : 0 < info.numAttributes)
    (hattrs : ((some a).bind w.objectTypes).bind dpiObjectType.attributes = some (x :: rest))
    (hinfo : (dpiObjectAttr_getInfo w (some x)).1 = some ainfo)
    (hb : ainfo.typeInfo.objectType = some b)
    (hsub : ∀ w2, w.sameTypes w2 → ∀ r, sub w2 (some b) = some r → r.status ≠ .ok ())
    (r : Populate)
    (h : njsDbObjectType_populate host sub w objType (some a) js info = some r) :
    r.status ≠ .ok () := by
  unfold njsDbObjectType_populate at h
  have h01 := dpiObjectType_addRef_sameTypes w (some a)
  split at h
  · cases h
    intro hc; cases hc
  · rename_i w1 hadd
    rw [hadd] at h01
    dsimp only at h h01
    split at h
    · cases h
      intro hc; cases hc
    · rename_i objType2 w2 hh
      obtain ⟨⟨tl, htl⟩, h12⟩ := populate_handles_first w1 _ a x rest info objType2 w2 hn rfl
        ((h01.2.2.1 a).trans hattrs) hh
      have h02 := sameTypes_trans h01 h12
      split at h
      · cases h
      · cases h
        intro hc; cases hc
      · rename_i u objType3 w3 hm
        have := populate_members_not_ok host sub w2 objType2 js info _ tl x b ainfo hcol htl
          rfl ((h02.2.2.2 x).trans hinfo) hb
          (fun w4 h24 => hsub w4 (sameTypes_trans h02 h24)) _ hm
        exact absurd rfl this

/-- While neither of two types that nest each other has a descriptor attached, and the class
cache is a table that leaves the world alone, no lookup of either succeeds: the nested lookup
finds no descriptor attached either and populates anew. -/
theorem mutual_lookup_not_ok (host : Collaborators)
    (cache : Bytes → Bytes → Option HostValue)
    (hcache : ∀ w schema name, host.getDbObjectClassJS w schema name = (cache schema name, w))
    (fuel : Nat) :
    ∀ (a b : Handle) (w : World), w.nests a b → w.nests b a → w.unattached cache a →
      w.unattached cache b →
      ∀ r, njsDbObject_getSubClass fuel host w (some a) = some r → r.status ≠ .ok () := by
  induction fuel with
  | zero =>
    intro a b w _ _ _ _ r hr
    simp [njsDbObject_getSubClass] at hr
  | succ fuel ih =>
    intro a b w hab hba hua hub r hr
    obtain ⟨info, x, rest, ainfo, hinfo, hcol, hn, hattrs, hainfo, hb⟩ := hab
    have hpair : dpiObjectType_getInfo w (some a)
        = (some info, w.record (.dpiObjectType_getInfo (some a))) := by
      rw [← hinfo]; rfl
    have h01 : w.sameTypes (w.record (.dpiObjectType_getInfo (some a))) :=
      ⟨rfl, fun _ => rfl, fun _ => rfl, fun _ => rfl⟩
    unfold njsDbObject_getSubClass at hr
    rw [hpair] at hr
    dsimp only at hr
    rw [hcache] at hr
    split at hr
    · cases hr
      intro hc; cases hc
    · rename_i cls w2 hcls
      obtain ⟨hcls1, hw2⟩ := Prod.mk.inj hcls
      subst hw2
      split at hr
      · cases hr
        intro hc; cases hc
      · rename_i prototype hproto
        have hun := unattached_of_sameTypes h01 cache a hua info cls prototype
          ((h01.2.1 a).trans hinfo) hcls1 hproto
        rw [hun] at hr
        dsimp only at hr
        split at hr
        · cases hr
          intro hc; cases hc
        · rename_i temp w3 halloc
          have h03 := sameTypes_trans h01 (allocObjType_sameTypes halloc)
          have hsub : ∀ w4, w3.sameTypes w4 →
              ∀ r, njsDbObject_getSubClass fuel host w4 (some b) = some r →
                r.status ≠ .ok () := by
            intro w4 h34
            have h04 := sameTypes_trans h03 h34
            exact ih b a w4 (nests_of_sameTypes h04 b a hba)
              (nests_of_sameTypes h04 a b ⟨info, x, rest, ainfo, hinfo, hcol, hn, hattrs,
                hainfo, hb⟩)
              (unattached_of_sameTypes h04 cache b hub)
              (unattached_of_sameTypes h04 cache a hua)
          split at hr
          · cases hr
          · cases hr
            intro hc; cases hc
          · rename_i u objType w4 hpop
            have := populate_not_ok host _ w3 _ a prototype info x rest b ainfo hcol hn
              ((h03.2.2.1 a).trans hattrs) ((h03.2.2.2 x).trans hainfo) hb hsub _ hpop
            exact absurd rfl this


theorem sample_nests (schema : Bytes) (n : Nat) :
    (World.withNativeTypes schema n).nests 10 11
      ∧ (World.withNativeTypes schema n).nests 11 10 :=
  ⟨⟨_, 20, [], _, rfl, rfl, by decide, rfl, rfl, rfl⟩,
    ⟨_, 21, [], _, rfl, rfl, by decide, rfl, rfl, rfl⟩⟩

theorem sample_unattached (schema : Bytes) (n : Nat) :
    (World.withNativeTypes schema n).unattached sampleCache 10
      ∧ (World.withNativeTypes schema n).unattached sampleCache 11 := by
  refine ⟨?_, ?_⟩
  · intro info cls proto h1 h2 h3
    have hi : info = ⟨[72, 82], 2, [65], 1, false, ⟨0, 0, none⟩, 1⟩ := (Option.some.inj h1).symm
    subst hi
    have hc : cls = .object 8 := (Option.some.inj h2).symm
    subst hc
    have hp : proto = some 6 := (Option.some.inj h3).symm
    subst hp
    rfl
  · intro info cls proto h1 h2 h3
    have hi : info = ⟨[72, 82], 2, [66], 1, false, ⟨0, 0, none⟩, 1⟩ := (Option.some.inj h1).symm
    subst hi
    have hc : cls = .object 9 := (Option.some.inj h2).symm
    subst hc
    have hp : proto = some 7 := (Option.some.inj h3).symm
    subst hp
    rfl

/-- On native types that nest each other by value, which the engine does not allow (the
sample types 10, `HR.A`, and 11, `HR.B`, with their classes in the class table and no
descriptor attached), the check for an attached descriptor cuts nothing. No amount of fuel makes
`njsDbObject_getSubClass` on `A` return success: with fuel for 16 lookups, one inside the
other, the call has not returned, and the 17th lookup finds the 64 allocations of the sample
world used up (four for each lookup) and fails with `errInsufficientMemory`. -/
theorem getSubClass_mutual_fails :
    (¬ ∃ fuel r, njsDbObject_getSubClass fuel (Collaborators.caching sampleCache)
        (World.withNativeTypes [72, 82] 2) (some 10) = some r ∧ r.status = .ok ())
    ∧ (njsDbObject_getSubClass 16 (Collaborators.caching sampleCache)
        (World.withNativeTypes [72, 82] 2) (some 10)).isNone = true
    ∧ (njsDbObject_getSubClass 17 (Collaborators.caching sampleCache)
        (World.withNativeTypes [72, 82] 2) (some 10)).map (fun r => (r.status, r.objectType))
      = some (.error .errInsufficientMemory, none) := by
  refine ⟨?_, rfl, rfl⟩
  rintro ⟨fuel, r, hr, hok⟩
  exact mutual_lookup_not_ok (Collaborators.caching sampleCache) sampleCache
    (fun _ _ _ => rfl) fuel 10 11 _ (sample_nests _ _).1 (sample_nests _ _).2
    (sample_unattached _ _).1 (sample_unattached _ _).2 r hr hok

/-- The same in general: for two object types `a` and `b` that nest each other (the first
attribute of `a` is of type `b` and the first attribute of `b` is of type `a`), with a class
cache that is a table leaving the world alone and no descriptor attached to the class
prototype of either, `njsDbObject_getSubClass` on `a` never returns success, whatever fuel
it is given: the check for an attached descriptor does not cut the recursion, a descriptor
being attached only after `njsDbObjectType_populate` has returned. -/
theorem getSubClass_mutual (host : Collaborators) (cache : Bytes → Bytes → Option HostValue)
    (hcache : ∀ w schema name, host.getDbObjectClassJS w schema name = (cache schema name, w))
    (a b : Handle) (w : World) (hab : w.nests a b) (hba : w.nests b a)
    (hua : w.unattached cache a) (hub : w.unattached cache b) (fuel : Nat) (r : SubClass)
    (hr : njsDbObject_getSubClass fuel host w (some a) = some r) : r.status ≠ .ok () :=
  mutual_lookup_not_ok host cache hcache fuel a b w hab hba hua hub r hr

/-- The sample types 11 (`HR.B`) and 10 (`HR.A`), with a budget of four allocations:
the lookup of `B` reaches the nested lookup of `A`, which finds no descriptor attached and
fails to allocate a structure; the lookup of `B` returns `errInsufficientMemory`. -/
theorem getSubClass_mutual_witness :
    ∃ r, njsDbObject_getSubClass 3 (Collaborators.caching sampleCache)
        { World.withNativeTypes [72, 82] 2 with allocBudget := 4 } (some 11) = some r
      ∧ r.status = .error .errInsufficientMemory
      ∧ r.world.trace = [.dpiObjectType_getInfo (some 11), .dpiObjectType_addRef (some 11),
          .dpiObjectType_getAttributes (some 11), .dpiObjectAttr_getInfo (some 21),
          .dpiObjectType_getInfo (some 10)]
      ∧ r.status ≠ .ok () :=
  ⟨_, rfl, rfl, rfl, getSubClass_mutual (Collaborators.caching sampleCache) sampleCache
    (fun _ _ _ => rfl) 11 10 { World.withNativeTypes [72, 82] 2 with allocBudget := 4 }
    ⟨_, 21, [], _, rfl, rfl, by decide, rfl, rfl, rfl⟩
    ⟨_, 20, [], _, rfl, rfl, by decide, rfl, rfl, rfl⟩
    (unattached_of_sameTypes ⟨rfl, fun _ => rfl, fun _ => rfl, fun _ => rfl⟩ sampleCache 11
      (sample_unattached [72, 82] 2).2)
    (unattached_of_sameTypes ⟨rfl, fun _ => rfl, fun _ => rfl, fun _ => rfl⟩ sampleCache 10
      (sample_unattached [72, 82] 2).1) 3 _ rfl⟩

/-- A host number appended to a collection of representation int64 is stored as a double. -/
theorem append_number (host : Collaborators) (lib : dpiLibrary) (w : World)
    (obj : njsDbObject) (ty : njsDbObjectType) (k : Handle) (o : dpiObject) (x : Float64)
    (data : dpiData) (e : dpiNativeTypeNum → Option dpiData)
    (hty : w.objTypes obj.type = some ty)
    (hn : ty.elementTypeInfo.nativeTypeNum = DPI_NATIVE_TYPE_INT64)
    (hh : obj.handle = some k) (ho : w.objects k = some o)
    (hstore : lib.store DPI_NATIVE_TYPE_DOUBLE
      { isNull := 0, value := { data.value with asDouble := x } } = some e) :
    njsDbObject_append host lib w obj (.number x) data
      = (.ok (), (w.setObject k (some { o with
          size := o.size + 1,
          elements := o.elements ++ [(match greatestIndex o.indices with
            | none => (o.size : Int)
            | some last => max (o.size : Int) (last + 1), e)] })).record
          (.dpiObject_appendElement (some k))) := by
  simp [njsDbObject_append, hty, hn, njsDbObject_transformToOracle, napi_typeof,
    napi_get_value_double, DPI_NATIVE_TYPE_INT64, DPI_NATIVE_TYPE_TIMESTAMP,
    dpiObject_appendElement, hh, ho, hstore, freeStr]

theorem getFirstIndex_eq (w : World) (obj : njsDbObject) (k : Handle) (o : dpiObject)
    (hh : obj.handle = some k) (ho : w.objects k = some o) :
    njsDbObject_getFirstIndex w obj = .ok ((leastIndex o.indices).map napi_create_int32) := by
  unfold njsDbObject_getFirstIndex
  rw [dpiObject_getFirstIndex_eq w obj k o hh ho]
  cases leastIndex o.indices <;> rfl

theorem getElement_int64 (host : Collaborators) (w : World) (obj : njsDbObject)
    (ty : njsDbObjectType) (k : Handle) (o : dpiObject) (v : HostValue) (i : Int)
    (e : dpiNativeTypeNum → Option dpiData) (d : dpiData)
    (hidx : host.njsUtils_getIntArg v = .ok i) (hty : w.objTypes obj.type = some ty)
    (helem : ty.elementTypeInfo = ⟨DPI_ORACLE_TYPE_NUMBER, DPI_NATIVE_TYPE_INT64, none⟩)
    (hh : obj.handle = some k) (ho : w.objects k = some o) (he : o.elementAt i = some e)
    (hd : e DPI_NATIVE_TYPE_INT64 = some d) (hnull : d.isNull = 0) :
    njsDbObject_getElement host w obj v
      = ⟨.ok (), some (napi_create_int64 d.value.asInt64), w⟩ := by
  have hread : dpiObject_getElementValueByIndex w obj.handle i DPI_NATIVE_TYPE_INT64
      = some d := by
    simp [dpiObject_getElementValueByIndex, hh, ho, he, hd]
  unfold njsDbObject_getElement
  rw [hidx]
  simp only [hty, helem, hread]
  simp [njsDbObject_transformFromOracle, hnull, DPI_ORACLE_TYPE_RAW,
    DPI_ORACLE_TYPE_CHAR, DPI_ORACLE_TYPE_NCHAR, DPI_ORACLE_TYPE_VARCHAR,
    DPI_ORACLE_TYPE_NVARCHAR, DPI_ORACLE_TYPE_NUMBER]

theorem deleteElement_eq (host : Collaborators) (lib : dpiLibrary) (w : World)
    (obj : njsDbObject) (k : Handle) (o : dpiObject) (v : HostValue) (i : Int)
    (e : dpiNativeTypeNum → Option dpiData)
    (hidx : host.njsUtils_getIntArg v = .ok i) (hh : obj.handle = some k)
    (ho : w.objects k = some o) (he : o.elementAt i = some e) :
    njsDbObject_deleteElement host lib w obj v
      = (.ok (), w.setObject k (some { o with
          size := if lib.sizeCountsDeleted then o.size else o.size - 1,
          elements := o.elements.filter fun e => decide (e.1 ≠ i) })) := by
  simp [njsDbObject_deleteElement, hidx, dpiObject_deleteElementByIndex, hh, ho, he]


theorem getKeys_single (w : World) (obj : njsDbObject) (k : Handle) (rc size : Nat)
    (e : dpiNativeTypeNum → Option dpiData) (fuel : Nat) (hh : obj.handle = some k)
    (ho : w.objects k = some ⟨rc, size, [(1, e)]⟩) (hfuel : 0 < fuel) :
    njsDbObject_getKeys fuel w obj
      = some (.ok (napi_set_element (napi_create_array_with_length size) 0
          (napi_create_int32 1))) := by
  obtain ⟨n, rfl⟩ : ∃ n, fuel = n + 1 := ⟨fuel - 1, by omega⟩
  unfold njsDbObject_getKeys
  rw [dpiObject_getSize_eq w obj k _ hh ho, dpiObject_getFirstIndex_eq w obj k _ hh ho]
  have hfirst : leastIndex (⟨rc, size, [(1, e)]⟩ : dpiObject).indices = some 1 := rfl
  rw [hfirst]
  dsimp only
  unfold njsDbObject_getKeys_loop
  rw [dpiObject_getNextIndex_eq w obj k _ hh ho]
  have hnext : leastIndex ((⟨rc, size, [(1, e)]⟩ : dpiObject).indices.filter
      fun j => decide ((1 : Int) < j)) = none := rfl
  rw [hnext]
  dsimp only
  cases n <;> rfl

/-- C19, as amended: the collection scenario on an initially empty collection whose elements
are NUMBER carried as `int64_t`, for two numbers `a` and `b` that the library stores (written
as doubles) and reports back as the `int64_t` `a` and `b`. After the two appends the first
index is 0 and the element read at index 0 is `a`; after deleting the element at index 0 the
first index is 1 and the element read at index 1 is `b`; `njsDbObject_getKeys` returns an
array whose first entry is 1 and whose length is the size the library reports: `[1]` when
the size no longer counts the deleted element, and `[1, <unset>]` when it still does. -/
theorem collection_scenario (host : Collaborators) (lib : dpiLibrary) (fuel : Nat)
    (w : World) (obj : njsDbObject) (ty : njsDbObjectType) (k : Handle) (rc : Nat)
    (a b : Int) (data1 data2 : dpiData) (ea eb : dpiNativeTypeNum → Option dpiData)
    (da db : dpiData)
    (hty : w.objTypes obj.type = some ty)
    (helem : ty.elementTypeInfo = ⟨DPI_ORACLE_TYPE_NUMBER, DPI_NATIVE_TYPE_INT64, none⟩)
    (hh : obj.handle = some k) (hempty : w.objects k = some ⟨rc, 0, []⟩)
    (h0 : host.njsUtils_getIntArg (.number (Float64.ofInt64 0)) = .ok 0)
    (h1 : host.njsUtils_getIntArg (.number (Float64.ofInt64 1)) = .ok 1)
    (hsa : lib.store DPI_NATIVE_TYPE_DOUBLE
      { isNull := 0, value := { data1.value with asDouble := Float64.ofInt64 a } } = some ea)
    (hra : ea DPI_NATIVE_TYPE_INT64 = some da) (hna : da.isNull = 0)
    (hva : da.value.asInt64 = a)
    (hsb : lib.store DPI_NATIVE_TYPE_DOUBLE
      { isNull := 0, value := { data2.value with asDouble := Float64.ofInt64 b } } = some eb)
    (hrb : eb DPI_NATIVE_TYPE_INT64 = some db) (hnb : db.isNull = 0)
    (hvb : db.value.asInt64 = b)
    (hfuel : 0 < fuel) :
    collectionScenario host lib fuel w obj a b data1 data2
      = ⟨.ok (), .ok (), .ok (some (napi_create_int32 0)),
          (.ok (), some (.number (Float64.ofInt64 a))), .ok (),
          .ok (some (napi_create_int32 1)), (.ok (), some (.number (Float64.ofInt64 b))),
          some (.ok (some (napi_create_int32 1)
            :: List.replicate (if lib.sizeCountsDeleted then 1 else 0) none))⟩ := by
  have hn : ty.elementTypeInfo.nativeTypeNum = DPI_NATIVE_TYPE_INT64 := by rw [helem]
  -- the two appends
  have A1 : njsDbObject_append host lib w obj (.number (Float64.ofInt64 a)) data1
      = (.ok (), (w.setObject k (some ⟨rc, 1, [(0, ea)]⟩)).record
          (.dpiObject_appendElement (some k))) :=
    append_number host lib w obj ty k _ _ data1 ea hty hn hh hempty hsa
  generalize hw1 : (w.setObject k (some ⟨rc, 1, [(0, ea)]⟩)).record
    (.dpiObject_appendElement (some k)) = w1 at A1
  have hty1 : w1.objTypes obj.type = some ty := by rw [← hw1]; exact hty
  have ho1 : w1.objects k = some ⟨rc, 1, [(0, ea)]⟩ := by
    rw [← hw1]; simp [World.setObject, World.record]
  have A2 : njsDbObject_append host lib w1 obj (.number (Float64.ofInt64 b)) data2
      = (.ok (), (w1.setObject k (some ⟨rc, 2, [(0, ea), (1, eb)]⟩)).record
          (.dpiObject_appendElement (some k))) :=
    append_number host lib w1 obj ty k _ _ data2 eb hty1 hn hh ho1 hsb
  generalize hw2 : (w1.setObject k (some ⟨rc, 2, [(0, ea), (1, eb)]⟩)).record
    (.dpiObject_appendElement (some k)) = w2 at A2
  have hty2 : w2.objTypes obj.type = some ty := by rw [← hw2]; exact hty1
  have ho2 : w2.objects k = some ⟨rc, 2, [(0, ea), (1, eb)]⟩ := by
    rw [← hw2]; simp [World.setObject, World.record]
  -- the queries before the deletion
  have F1 : njsDbObject_getFirstIndex w2 obj = .ok (some (napi_create_int32 0)) :=
    getFirstIndex_eq w2 obj k _ hh ho2
  have E0 : njsDbObject_getElement host w2 obj (.number (Float64.ofInt64 0))
      = ⟨.ok (), some (napi_create_int64 da.value.asInt64), w2⟩ :=
    getElement_int64 host w2 obj ty k _ _ 0 ea da h0 hty2 helem hh ho2 rfl hra hna
  -- the deletion
  have D : njsDbObject_deleteElement host lib w2 obj (.number (Float64.ofInt64 0))
      = (.ok (), w2.setObject k (some ⟨rc, if lib.sizeCountsDeleted then 2 else 1,
          [(1, eb)]⟩)) :=
    deleteElement_eq host lib w2 obj k _ _ 0 ea h0 hh ho2 rfl
  generalize hw3 : w2.setObject k (some ⟨rc, if lib.sizeCountsDeleted then 2 else 1,
    [(1, eb)]⟩) = w3 at D
  have hty3 : w3.objTypes obj.type = some ty := by rw [← hw3]; exact hty2
  have ho3 : w3.objects k = some ⟨rc, if lib.sizeCountsDeleted then 2 else 1, [(1, eb)]⟩ := by
    rw [← hw3]; simp [World.setObject]
  -- the queries after the deletion
  have F2 : njsDbObject_getFirstIndex w3 obj = .ok (some (napi_create_int32 1)) :=
    getFirstIndex_eq w3 obj k _ hh ho3
  have E1 : njsDbObject_getElement host w3 obj (.number (Float64.ofInt64 1))
      = ⟨.ok (), some (napi_create_int64 db.value.asInt64), w3⟩ :=
    getElement_int64 host w3 obj ty k _ _ 1 eb db h1 hty3 helem hh ho3 rfl hrb hnb
  have K := getKeys_single w3 obj k rc _ eb fuel hh ho3 hfuel
  unfold collectionScenario
  simp only [A1, A2, F1, E0, D, F2, E1, K, hva, hvb, napi_create_int64]
  cases lib.sizeCountsDeleted <;> rfl


/-- C19, counterexample: the scenario with 5 and 7 on a library whose size keeps counting a
deleted element (the count `OCICollSize` keeps for a nested table). After `deleteElement(0)`
the size reported is still 2, so `njsDbObject_getKeys` creates an array of length 2, stores
1 at the first position and leaves the second one unset: the result is not the array
`[1]`. -/
theorem collection_scenario_keys_fail :
    (collectionScenario Collaborators.indexing (dpiLibrary.sample true) 1
        (World.withCollection 0 []) ⟨1, some 3⟩ 5 7 dpiData.zero dpiData.zero).keys
      = some (.ok [some (napi_create_int32 1), none])
    ∧ (collectionScenario Collaborators.indexing (dpiLibrary.sample true) 1
        (World.withCollection 0 []) ⟨1, some 3⟩ 5 7 dpiData.zero dpiData.zero).keys
      ≠ some (.ok [some (napi_create_int32 1)]) := by
  have h : (collectionScenario Collaborators.indexing (dpiLibrary.sample true) 1
      (World.withCollection 0 []) ⟨1, some 3⟩ 5 7 dpiData.zero dpiData.zero).keys
      = some (.ok [some (napi_create_int32 1), none]) := rfl
  refine ⟨h, ?_⟩
  rw [h]
  intro hc
  cases hc

/-- C19 at 5 and 7, on a library whose size does not count a deleted element: the keys are
`[1]`. -/
theorem collection_scenario_witness :
    collectionScenario Collaborators.indexing (dpiLibrary.sample false) 1
        (World.withCollection 0 []) ⟨1, some 3⟩ 5 7 dpiData.zero dpiData.zero
      = ⟨.ok (), .ok (), .ok (some (napi_create_int32 0)),
          (.ok (), some (.number (Float64.ofInt64 5))), .ok (),
          .ok (some (napi_create_int32 1)), (.ok (), some (.number (Float64.ofInt64 7))),
          some (.ok [some (napi_create_int32 1)])⟩ :=
  collection_scenario Collaborators.indexing (dpiLibrary.sample false) 1
    (World.withCollection 0 []) ⟨1, some 3⟩
    (sampleType ⟨DPI_ORACLE_TYPE_NUMBER, DPI_NATIVE_TYPE_INT64, none⟩) 3 1 5 7 dpiData.zero
    dpiData.zero (int64Element 5) (int64Element 7) _ _ rfl rfl rfl rfl rfl rfl rfl rfl rfl
    rfl rfl rfl rfl rfl (by decide)

/-- The native copy: a fresh handle, an object with the elements of the original and one
reference, the attribute values of the original; everything else as it was. -/
theorem dpiObject_copy_eq (w : World) (k : Handle) (o : dpiObject)
    (ho : w.objects k = some o) :
    dpiObject_copy w (some k)
      = some (w.nextHandle,
        { w.setObject w.nextHandle (some { o with refCount := 1 }) with
          attrValues := fun j => if j = w.nextHandle then w.attrValues k else w.attrValues j,
          nextHandle := w.nextHandle + 1 }) := by
  simp [dpiObject_copy, ho]

/-- A host object that has an instance attached unwraps to it. -/
theorem unwrap_of_instanceAt (w : World) (r : Ref) (inst : njsDbObject)
    (hinst : w.instanceAt r = some inst) : napi_unwrap_instance w (.object r) = some r := by
  unfold World.instanceAt at hinst
  cases hh : w.heap r with
  | none => rw [hh] at hinst; cases hinst
  | some ho =>
    rw [hh] at hinst
    dsimp only at hinst
    split at hinst
    · rename_i x hx
      simp only [napi_unwrap_instance, hh, hx]
    · cases hinst

/-- Under the NUMBER tag the conversion from native depends on the native value only. -/
theorem transformFromOracle_number_eq (host : Collaborators) (w : World) (obj : njsDbObject)
    (n : dpiNativeTypeNum) (data : dpiData) (attr : Option njsDbObjectAttr) :
    njsDbObject_transformFromOracle host w obj ⟨DPI_ORACLE_TYPE_NUMBER, n, none⟩ data attr
      = ⟨.ok (), some (if data.isNull ≠ 0 then .null
          else if n = DPI_NATIVE_TYPE_INT64 then napi_create_int64 data.value.asInt64
          else napi_create_double data.value.asDouble), w⟩ := by
  by_cases hnull : data.isNull = 0 <;> by_cases hn : n = DPI_NATIVE_TYPE_INT64 <;>
    simp [njsDbObject_transformFromOracle, hnull, hn, DPI_ORACLE_TYPE_RAW,
      DPI_ORACLE_TYPE_CHAR, DPI_ORACLE_TYPE_NCHAR, DPI_ORACLE_TYPE_VARCHAR,
      DPI_ORACLE_TYPE_NVARCHAR, DPI_ORACLE_TYPE_NUMBER]

/-- What the get accessor of a NUMBER attribute returns, in terms of the native read. -/
theorem getAttrValueHelper_number (host : Collaborators) (w : World) (value : HostValue)
    (r : Ref) (inst : njsDbObject) (attr : njsDbObjectAttr) (n : dpiNativeTypeNum)
    (hun : napi_unwrap_instance w value = some r) (hinst : w.instanceAt r = some inst)
    (hti : attr.typeInfo = ⟨DPI_ORACLE_TYPE_NUMBER, n, none⟩) :
    njsDbObject_getAttrValueHelper host w value [] attr
      = match dpiObject_getAttributeValue w inst.handle attr.handle n with
        | none => ⟨.error .errDPI, none, w⟩
        | some data =>
          ⟨.ok (), some (if data.isNull ≠ 0 then .null
            else if n = DPI_NATIVE_TYPE_INT64 then napi_create_int64 data.value.asInt64
            else napi_create_double data.value.asDouble), w⟩ := by
  have hva : njsDbObject_validateArgs w value [] 0 = (.ok r, w) := by
    simp [njsDbObject_validateArgs, njsDbObject_getInstance, hun]
  unfold njsDbObject_getAttrValueHelper
  rw [hva]
  simp only [hinst, hti]
  cases dpiObject_getAttributeValue w inst.handle attr.handle n with
  | none => rfl
  | some data => exact transformFromOracle_number_eq host w inst n data (some attr)

/-- Converting a value that is no host object changes nothing but the allocation budget. -/
theorem transformToOracle_scalar_world (host : Collaborators) (w : World) (obj : njsDbObject)
    (v : HostValue) (t : dpiNativeTypeNum) (data : dpiData) (attr : Option njsDbObjectAttr)
    (hv : napi_typeof v ≠ .napi_object) :
    ∃ n, (njsDbObject_transformToOracle host w obj v t data attr).world
      = { w with allocBudget := n } := by
  cases v with
  | string s =>
    simp only [njsDbObject_transformToOracle, napi_typeof, njsUtils_copyStringFromJS]
    cases hal : w.alloc with
    | none => exact ⟨w.allocBudget, rfl⟩
    | some w1 =>
      unfold World.alloc at hal
      split at hal
      · cases hal
      · rename_i n hn
        cases hal
        exact ⟨n, rfl⟩
  | date x => exact absurd rfl hv
  | buffer x => exact absurd rfl hv
  | lob x => exact absurd rfl hv
  | object x => exact absurd rfl hv
  | exotic _ _ _ _ => exact absurd rfl hv
  | _ => exact ⟨w.allocBudget, rfl⟩

/-- Setting an attribute of an instance to a value that is no host object leaves the host
heap, the descriptors, the native objects and the attribute values of every other native
object as they were. -/
theorem setAttrValueHelper_frame (host : Collaborators) (lib : dpiLibrary) (w : World)
    (r0 : Ref) (inst : njsDbObject) (k : Handle) (v : HostValue) (attr : njsDbObjectAttr)
    (data : dpiData) (hinst : w.instanceAt r0 = some inst) (hk : inst.handle = some k)
    (hv : napi_typeof v ≠ .napi_object) :
    (njsDbObject_setAttrValueHelper host lib w (.object r0) [v] attr data).2.heap = w.heap
      ∧ (njsDbObject_setAttrValueHelper host lib w (.object r0) [v] attr data).2.objects
        = w.objects
      ∧ (njsDbObject_setAttrValueHelper host lib w (.object r0) [v] attr data).2.objTypes
        = w.objTypes
      ∧ ∀ j b, j ≠ k →
        (njsDbObject_setAttrValueHelper host lib w (.object r0) [v] attr data).2.attrValues j b
          = w.attrValues j b := by
  have hun := unwrap_of_instanceAt w r0 inst hinst
  have hva : njsDbObject_validateArgs w (.object r0) [v] 1 = (.ok r0, w) := by
    simp [njsDbObject_validateArgs, njsDbObject_getInstance, hun]
  obtain ⟨n, hn⟩ := transformToOracle_scalar_world host w inst v attr.typeInfo.nativeTypeNum
    data (some attr) hv
  unfold njsDbObject_setAttrValueHelper
  rw [hva]
  simp only [hinst]
  generalize njsDbObject_transformToOracle host w inst v attr.typeInfo.nativeTypeNum data
    (some attr) = T at hn
  obtain ⟨st, nt, d, str, w2⟩ := T
  dsimp only at hn
  subst hn
  cases st with
  | error e => exact ⟨rfl, rfl, rfl, fun _ _ _ => rfl⟩
  | ok u =>
    dsimp only
    have h3 : (dpiObject_setAttributeValue lib { w with allocBudget := n } inst.handle
          attr.handle nt d).2.heap = w.heap
        ∧ (dpiObject_setAttributeValue lib { w with allocBudget := n } inst.handle
          attr.handle nt d).2.objects = w.objects
        ∧ (dpiObject_setAttributeValue lib { w with allocBudget := n } inst.handle
          attr.handle nt d).2.objTypes = w.objTypes
        ∧ ∀ j b, j ≠ k →
          (dpiObject_setAttributeValue lib { w with allocBudget := n } inst.handle
            attr.handle nt d).2.attrValues j b = w.attrValues j b := by
      unfold dpiObject_setAttributeValue
      rw [hk]
      split
      · split
        · refine ⟨rfl, rfl, rfl, ?_⟩
          intro j b hj
          rename_i k2 a hk2 ha _ _ _ _ _ _
          cases hk2
          simp [World.record, hj]
        · exact ⟨rfl, rfl, rfl, fun _ _ _ => rfl⟩
      · exact ⟨rfl, rfl, rfl, fun _ _ _ => rfl⟩
    generalize dpiObject_setAttributeValue lib { w with allocBudget := n } inst.handle
      attr.handle nt d = S at h3
    obtain ⟨sb, w3⟩ := S
    cases sb <;> cases str <;> exact h3

theorem instanceAt_some (w : World) (r : Ref) (inst : njsDbObject)
    (h : w.instanceAt r = some inst) :
    ∃ ho, w.heap r = some ho ∧ ho.wrapped = some (.instance inst) := by
  unfold World.instanceAt at h
  cases hh : w.heap r with
  | none => rw [hh] at h; cases h
  | some ho =>
    rw [hh] at h
    dsimp only at h
    split at h
    · rename_i x hx
      cases h
      exact ⟨ho, rfl, hx⟩
    · cases h

theorem instanceAt_of_heap (w : World) (r : Ref) (ho : HostObject) (inst : njsDbObject)
    (hh : w.heap r = some ho) (hw : ho.wrapped = some (.instance inst)) :
    w.instanceAt r = some inst := by
  simp [World.instanceAt, hh, hw]

/-- What `njsDbObject_copy` does when the native copy succeeds, the constructor of the type
returns a value, `njsDbObject_wrap` attaches to it a new instance of the type (at `r`) and
the copy is live (`oc`) when its reference is added. -/
theorem copy_eq (host : Collaborators) (w : World) (obj : njsDbObject)
    (ty : njsDbObjectType) (c : Ref) (k2 : Handle) (w1 : World) (value : HostValue)
    (w2 w3 : World) (r : Ref) (hor : HostObject) (oc : dpiObject)
    (hty : w1.objTypes obj.type = some ty) (hc : ty.jsDbObjectConstructor = some c)
    (hcopy : dpiObject_copy w obj.handle = some (k2, w1))
    (hnew : host.napi_new_instance w1 c [] = (some value, w2))
    (hwrap : njsDbObject_wrap w2 value = (.ok r, w3))
    (hheap : w3.heap r = some hor)
    (hinst : hor.wrapped = some (.instance ⟨obj.type, none⟩))
    (hlive : w3.objects k2 = some oc) (hrc : 0 < oc.refCount) :
    njsDbObject_copy host w obj
      = ⟨.ok (), some value,
          ((w3.setObject k2 (some oc)).setHeap r
            { hor with wrapped := some (.instance ⟨obj.type, some k2⟩) })⟩ := by
  have hadd : dpiObject_addRef w3 (some k2)
      = some (w3.setObject k2 (some { oc with refCount := oc.refCount + 1 })) := by
    simp [dpiObject_addRef, hlive]
  have hnewobj : njsDbObject_new host w1 (some obj.type) (some k2)
      = ⟨.ok (), some value,
          (w3.setObject k2 (some { oc with refCount := oc.refCount + 1 })).setHeap r
            { hor with wrapped := some (.instance ⟨obj.type, some k2⟩) }⟩ := by
    have h4 : (w3.setObject k2 (some { oc with refCount := oc.refCount + 1 })).heap r
        = some hor := hheap
    have h4i : (w3.setObject k2 (some { oc with refCount := oc.refCount + 1 })).instanceAt r
        = some ⟨obj.type, none⟩ := instanceAt_of_heap _ r hor _ h4 hinst
    have hb : (some obj.type).bind w1.objTypes = some ty := hty
    unfold njsDbObject_new
    rw [hb]
    simp only [hc, hnew, hwrap, hadd, h4, h4i]
  unfold njsDbObject_copy
  rw [hcopy]
  simp only [hnewobj]
  have hrel : dpiObject_release
      ((w3.setObject k2 (some { oc with refCount := oc.refCount + 1 })).setHeap r
        { hor with wrapped := some (.instance ⟨obj.type, some k2⟩) }) (some k2)
      = (w3.setObject k2 (some oc)).setHeap r
        { hor with wrapped := some (.instance ⟨obj.type, some k2⟩) } := by
    have hne : ¬ (oc.refCount + 1 ≤ 1) := by omega
    simp only [dpiObject_release, World.setHeap, World.setObject, if_true, hne, if_false,
      Nat.add_sub_cancel]
    congr 1
    funext j
    by_cases hj : j = k2
    · rw [if_pos hj, if_pos hj]
    · rw [if_neg hj, if_neg hj, if_neg hj]
  rw [hrel]


theorem getAttributeValue_congr (w ws : World) (k2 : Handle) (a : Option Handle)
    (n : dpiNativeTypeNum) (hobj : ws.objects = w.objects)
    (hattr : ∀ b, ws.attrValues k2 b = w.attrValues k2 b) :
    dpiObject_getAttributeValue ws (some k2) a n
      = dpiObject_getAttributeValue w (some k2) a n := by
  cases a with
  | none => rfl
  | some b => simp only [dpiObject_getAttributeValue, hobj, hattr]

/-- C21: each of `njsDbObject_getFirstIndex`, `njsDbObject_getLastIndex`,
`njsDbObject_getNextIndex` and `njsDbObject_getPrevIndex` succeeds and returns no value when
the native query succeeds with `exists = 0`, returns exactly the `int32_t` index reported
when it succeeds with `exists = 1`, and fails exactly when the argument is not accepted as
an integer or the native query reports failure. -/
theorem index_queries (host : Collaborators) (w : World) (obj : njsDbObject)
    (arg : HostValue) :
    ((dpiObject_getFirstIndex w obj.handle = some none →
        njsDbObject_getFirstIndex w obj = .ok none)
      ∧ (∀ i, dpiObject_getFirstIndex w obj.handle = some (some i) →
        njsDbObject_getFirstIndex w obj = .ok (some (napi_create_int32 i)))
      ∧ ((∃ e, njsDbObject_getFirstIndex w obj = .error e) ↔
        dpiObject_getFirstIndex w obj.handle = none))
    ∧ ((dpiObject_getLastIndex w obj.handle = some none →
        njsDbObject_getLastIndex w obj = .ok none)
      ∧ (∀ i, dpiObject_getLastIndex w obj.handle = some (some i) →
        njsDbObject_getLastIndex w obj = .ok (some (napi_create_int32 i)))
      ∧ ((∃ e, njsDbObject_getLastIndex w obj = .error e) ↔
        dpiObject_getLastIndex w obj.handle = none))
    ∧ ((∀ index, host.njsUtils_getIntArg arg = .ok index →
          dpiObject_getNextIndex w obj.handle index = some none →
          njsDbObject_getNextIndex host w obj arg = .ok none)
      ∧ (∀ index i, host.njsUtils_getIntArg arg = .ok index →
          dpiObject_getNextIndex w obj.handle index = some (some i) →
          njsDbObject_getNextIndex host w obj arg = .ok (some (napi_create_int32 i)))
      ∧ ((∃ e, njsDbObject_getNextIndex host w obj arg = .error e) ↔
        ((∃ e, host.njsUtils_getIntArg arg = .error e)
          ∨ ∃ index, host.njsUtils_getIntArg arg = .ok index
            ∧ dpiObject_getNextIndex w obj.handle index = none)))
    ∧ ((∀ index, host.njsUtils_getIntArg arg = .ok index →
          dpiObject_getPrevIndex w obj.handle index = some none →
          njsDbObject_getPrevIndex host w obj arg = .ok none)
      ∧ (∀ index i, host.njsUtils_getIntArg arg = .ok index →
          dpiObject_getPrevIndex w obj.handle index = some (some i) →
          njsDbObject_getPrevIndex host w obj arg = .ok (some (napi_create_int32 i)))
      ∧ ((∃ e, njsDbObject_getPrevIndex host w obj arg = .error e) ↔
        ((∃ e, host.njsUtils_getIntArg arg = .error e)
          ∨ ∃ index, host.njsUtils_getIntArg arg = .ok index
            ∧ dpiObject_getPrevIndex w obj.handle index = none))) := by
  refine ⟨⟨?_, ?_, ?_⟩, ⟨?_, ?_, ?_⟩, ⟨?_, ?_, ?_⟩, ⟨?_, ?_, ?_⟩⟩
  · intro h; simp [njsDbObject_getFirstIndex, h]
  · intro i h; simp [njsDbObject_getFirstIndex, h]
  · unfold njsDbObject_getFirstIndex
    rcases h : dpiObject_getFirstIndex w obj.handle with _ | _ | i <;> simp
  · intro h; simp [njsDbObject_getLastIndex, h]
  · intro i h; simp [njsDbObject_getLastIndex, h]
  · unfold njsDbObject_getLastIndex
    rcases h : dpiObject_getLastIndex w obj.handle with _ | _ | i <;> simp
  · intro index ha h; simp [njsDbObject_getNextIndex, ha, h]
  · intro index i ha h; simp [njsDbObject_getNextIndex, ha, h]
  · unfold njsDbObject_getNextIndex
    cases ha : host.njsUtils_getIntArg arg with
    | error e => simp
    | ok index =>
      rcases h : dpiObject_getNextIndex w obj.handle index with _ | _ | i <;> simp [h]
  · intro index ha h; simp [njsDbObject_getPrevIndex, ha, h]
  · intro index i ha h; simp [njsDbObject_getPrevIndex, ha, h]
  · unfold njsDbObject_getPrevIndex
    cases ha : host.njsUtils_getIntArg arg with
    | error e => simp
    | ok index =>
      rcases h : dpiObject_getPrevIndex w obj.handle index with _ | _ | i <;> simp [h]

/-- C21, on a sample collection holding the indices 2 and 5: the first index is 2, the last
one 5, the index after 2 is 5, and there is none before 2, which is no error. -/
theorem index_queries_witness :
    njsDbObject_getFirstIndex (World.withCollection 2 [(2, int64Element 7), (5, int64Element 8)])
        ⟨1, some 3⟩ = .ok (some (napi_create_int32 2))
    ∧ njsDbObject_getLastIndex (World.withCollection 2 [(2, int64Element 7), (5, int64Element 8)])
        ⟨1, some 3⟩ = .ok (some (napi_create_int32 5))
    ∧ njsDbObject_getNextIndex Collaborators.indexing
        (World.withCollection 2 [(2, int64Element 7), (5, int64Element 8)])
        ⟨1, some 3⟩ (napi_create_int32 2) = .ok (some (napi_create_int32 5))
    ∧ njsDbObject_getPrevIndex Collaborators.indexing
        (World.withCollection 2 [(2, int64Element 7), (5, int64Element 8)])
        ⟨1, some 3⟩ (napi_create_int32 2) = .ok none :=
  have h := index_queries Collaborators.indexing
    (World.withCollection 2 [(2, int64Element 7), (5, int64Element 8)]) ⟨1, some 3⟩
    (napi_create_int32 2)
  ⟨h.1.2.1 2 (by decide), h.2.1.2.1 5 (by decide), h.2.2.1.2.1 2 5 (by rfl) (by decide),
    h.2.2.2.1 2 (by rfl) (by decide)⟩

/-- A value that carries a bound instance gets that same instance back from
`njsDbObject_getInstance`, and nothing is created or changed. -/
theorem getInstance_bound (w : World) (value : HostValue) (r : Ref)
    (h : napi_unwrap_instance w value = some r) :
    njsDbObject_getInstance w value = (.ok r, w) := by
  simp [njsDbObject_getInstance, h]

/-- C22, at the failing input: on the unwrapped value at 21, a first call of
`njsDbObject_getInstance` fails while creating the native object and leaves the value bound
to an instance without a handle; a second call on the same value succeeds and returns that
instance, whose handle is absent, also when native creation works again; the call through
the proxy of the value, in that same world, does create the native object. -/
theorem getInstance_after_failed_create :
    (njsDbObject_getInstance World.withUnbound (.object 21)).1 = .error .errDPI
    ∧ (njsDbObject_getInstance
        (njsDbObject_getInstance World.withUnbound (.object 21)).2 (.object 21)).1 = .ok 21
    ∧ (njsDbObject_getInstance
        (njsDbObject_getInstance World.withUnbound (.object 21)).2 (.object 21)).2.instanceAt 21
        = some ⟨1, none⟩
    ∧ (njsDbObject_getInstance
        (njsDbObject_getInstance World.withUnbound (.object 21)).2.creating (.object 21)).1
        = .ok 21
    ∧ (njsDbObject_getInstance
        (njsDbObject_getInstance World.withUnbound (.object 21)).2.creating
          (.object 21)).2.instanceAt 21 = some ⟨1, none⟩
    ∧ (njsDbObject_getInstance
        (njsDbObject_getInstance World.withUnbound (.object 21)).2.creating (.object 22)).1
        = .ok 21
    ∧ (njsDbObject_getInstance
        (njsDbObject_getInstance World.withUnbound (.object 21)).2.creating
          (.object 22)).2.instanceAt 21 = some ⟨1, some 30⟩ :=
  ⟨rfl, rfl, rfl, rfl, rfl, rfl, rfl⟩

/-- On a non-null value with the object tag, `njsDbObject_transformFromOracle` is
`njsDbObject_new` followed by one `dpiObject_release` of the native handle. -/
theorem transformFromOracle_object_eq (host : Collaborators) (w : World) (obj : njsDbObject)
    (typeInfo : njsDataTypeInfo) (data : dpiData) (attr : Option njsDbObjectAttr)
    (hnull : data.isNull = 0) (htag : typeInfo.oracleTypeNum = DPI_ORACLE_TYPE_OBJECT) :
    njsDbObject_transformFromOracle host w obj typeInfo data attr
      = ⟨(njsDbObject_new host w typeInfo.objectType data.value.asObject).status,
          (njsDbObject_new host w typeInfo.objectType data.value.asObject).value,
          dpiObject_release
            (njsDbObject_new host w typeInfo.objectType data.value.asObject).world
            data.value.asObject⟩ := by
  unfold njsDbObject_transformFromOracle
  rw [if_neg (by simp [hnull]), htag]
  rw [if_neg (by decide), if_neg (by decide), if_neg (by decide), if_neg (by decide),
    if_neg (by decide), if_neg (by decide), if_neg (by decide), if_neg (by decide),
    if_pos rfl]

/-- The function `dpiObject_release` leaves the host heap alone. -/
theorem dpiObject_release_heap (w : World) (h : Option Handle) :
    (dpiObject_release w h).heap = w.heap := by
  unfold dpiObject_release
  cases h with
  | none => rfl
  | some k =>
    dsimp only
    cases w.objects k with
    | none => rfl
    | some o =>
      dsimp only
      split <;> rfl

/-- The function `dpiObject_release` leaves the instances alone. -/
theorem dpiObject_release_instanceAt (w : World) (h : Option Handle) (r : Ref) :
    (dpiObject_release w h).instanceAt r = w.instanceAt r := by
  unfold World.instanceAt
  rw [dpiObject_release_heap]

/-- A failing `njsDbObject_wrap` leaves the world as it was. -/
theorem njsDbObject_wrap_error_world (w w1 : World) (value : HostValue) (e : njsError)
    (h : njsDbObject_wrap w value = (.error e, w1)) : w1 = w := by
  unfold njsDbObject_wrap njsDbObject_wrap_create at h
  repeat' split at h
  all_goals first
    | (exact (Prod.mk.inj h).2.symm)
    | (exact absurd (Prod.mk.inj h).1 (by simp))


/-- A successful `njsDbObject_wrap` returns the address of a host object that wraps an
instance. -/
theorem njsDbObject_wrap_ok (w w1 : World) (value : HostValue) (r : Ref)
    (h : njsDbObject_wrap w value = (.ok r, w1)) :
    ∃ hor inst, w1.heap r = some hor ∧ hor.wrapped = some (.instance inst) := by
  have hcreate : ∀ (t : Ref) (p : TypePtr),
      njsDbObject_wrap_create w t p = (.ok r, w1) →
      ∃ hor inst, w1.heap r = some hor ∧ hor.wrapped = some (.instance inst) := by
    intro t p hc
    unfold njsDbObject_wrap_create at hc
    repeat' split at hc
    all_goals first
      | (exfalso; have h1 := (Prod.mk.inj hc).1; simp at h1; done)
      | skip
    obtain ⟨h1, h2⟩ := Prod.mk.inj hc
    have ht : t = r := by injection h1
    subst ht
    subst h2
    exact ⟨_, _, if_pos rfl, rfl⟩
  unfold njsDbObject_wrap at h
  repeat' split at h
  all_goals first
    | (exfalso; have h1 := (Prod.mk.inj h).1; simp at h1; done)
    | (exact hcreate _ _ h)
    | skip
  rename_i t hun
  obtain ⟨h1, h2⟩ := Prod.mk.inj h
  have ht : t = r := by injection h1
  subst ht
  subst h2
  unfold napi_unwrap_instance at hun
  repeat' split at hun
  all_goals first
    | (exfalso; simp at hun; done)
    | skip
  rename_i r2 _ _ ho hheap _ inst hwr
  have hr : r2 = t := by injection hun
  subst hr
  exact ⟨ho, _, hheap, hwr⟩

/-- C23: on a non-null value with the object tag, `njsDbObject_transformFromOracle` returns
the status and value of `njsDbObject_new` and applies `dpiObject_release` to the native
handle exactly once, to the world `njsDbObject_new` left, whatever that call did. When the
constructor fails or `njsDbObject_wrap` fails, nothing but that release is done to the world
the host left (the heap is as it was); when adding the reference fails, the world is the one
`njsDbObject_wrap` left, so the instance is as it was wrapped. When the reference is
added (the native object is live with a positive reference count), the call succeeds, the
instance at the wrapped address holds the native handle, and every native object, the one
named by the handle included, is as it was before the reference was added. -/
theorem transformFromOracle_object_refs (host : Collaborators) (w : World)
    (obj : njsDbObject) (typeInfo : njsDataTypeInfo) (data : dpiData)
    (attr : Option njsDbObjectAttr)
    (hnull : data.isNull = 0) (htag : typeInfo.oracleTypeNum = DPI_ORACLE_TYPE_OBJECT) :
    njsDbObject_transformFromOracle host w obj typeInfo data attr
      = ⟨(njsDbObject_new host w typeInfo.objectType data.value.asObject).status,
          (njsDbObject_new host w typeInfo.objectType data.value.asObject).value,
          dpiObject_release
            (njsDbObject_new host w typeInfo.objectType data.value.asObject).world
            data.value.asObject⟩
    ∧ ∀ p ty c, typeInfo.objectType = some p → w.objTypes p = some ty →
        ty.jsDbObjectConstructor = some c →
      (∀ w1, host.napi_new_instance w c [] = (none, w1) →
        njsDbObject_transformFromOracle host w obj typeInfo data attr
          = ⟨.error .errNapi, none, dpiObject_release w1 data.value.asObject⟩
        ∧ (njsDbObject_transformFromOracle host w obj typeInfo data attr).world.heap
          = w1.heap)
      ∧ ∀ value w1, host.napi_new_instance w c [] = (some value, w1) →
        (∀ e w2, njsDbObject_wrap w1 value = (.error e, w2) →
          njsDbObject_transformFromOracle host w obj typeInfo data attr
            = ⟨.error e, some value, dpiObject_release w1 data.value.asObject⟩
          ∧ (njsDbObject_transformFromOracle host w obj typeInfo data attr).world.heap
            = w1.heap)
        ∧ ∀ r w2, njsDbObject_wrap w1 value = (.ok r, w2) →
          (dpiObject_addRef w2 data.value.asObject = none →
            njsDbObject_transformFromOracle host w obj typeInfo data attr
              = ⟨.error .errDPI, some value, w2⟩)
          ∧ ∀ k oc, data.value.asObject = some k → w2.objects k = some oc →
            0 < oc.refCount →
            ∃ wf inst, njsDbObject_transformFromOracle host w obj typeInfo data attr
                = ⟨.ok (), some value, wf⟩
              ∧ w2.instanceAt r = some inst
              ∧ wf.instanceAt r = some { inst with handle := some k }
              ∧ wf.objects = w2.objects := by
  have heq := transformFromOracle_object_eq host w obj typeInfo data attr hnull htag
  refine ⟨heq, ?_⟩
  intro p ty c hp hty hc
  have hb : typeInfo.objectType.bind w.objTypes = some ty := by rw [hp]; exact hty
  refine ⟨?_, ?_⟩
  · intro w1 hnew
    have hn : njsDbObject_new host w typeInfo.objectType data.value.asObject
        = ⟨.error .errNapi, none, w1⟩ := by
      unfold njsDbObject_new
      rw [hb]
      simp only [hc, hnew]
    rw [heq, hn]
    exact ⟨rfl, dpiObject_release_heap _ _⟩
  intro value w1 hnew
  refine ⟨?_, ?_⟩
  · intro e w2 hwrap
    have hw2 := njsDbObject_wrap_error_world _ _ _ _ hwrap
    subst hw2
    have hn : njsDbObject_new host w typeInfo.objectType data.value.asObject
        = ⟨.error e, some value, w2⟩ := by
      unfold njsDbObject_new
      rw [hb]
      simp only [hc, hnew, hwrap]
    rw [heq, hn]
    exact ⟨rfl, dpiObject_release_heap _ _⟩
  intro r w2 hwrap
  refine ⟨?_, ?_⟩
  · intro hadd
    have hn : njsDbObject_new host w typeInfo.objectType data.value.asObject
        = ⟨.error .errDPI, some value, w2⟩ := by
      unfold njsDbObject_new
      rw [hb]
      simp only [hc, hnew, hwrap, hadd]
    rw [heq, hn]
    have hrel : dpiObject_release w2 data.value.asObject = w2 := by
      unfold dpiObject_addRef at hadd
      unfold dpiObject_release
      cases hk : data.value.asObject with
      | none => rfl
      | some k =>
        rw [hk] at hadd
        dsimp only at hadd ⊢
        cases ho : w2.objects k with
        | none => rfl
        | some o => rw [ho] at hadd; simp at hadd
    simp only [hrel]
  intro k oc hk hlive hrc
  obtain ⟨hor, inst, hheap, hinst⟩ := njsDbObject_wrap_ok _ _ _ _ hwrap
  have hadd : dpiObject_addRef w2 (some k)
      = some (w2.setObject k (some { oc with refCount := oc.refCount + 1 })) := by
    simp [dpiObject_addRef, hlive]
  have h4 : (w2.setObject k (some { oc with refCount := oc.refCount + 1 })).heap r
      = some hor := hheap
  have h4i : (w2.setObject k (some { oc with refCount := oc.refCount + 1 })).instanceAt r
      = some inst := instanceAt_of_heap _ r hor _ h4 hinst
  have hn : njsDbObject_new host w typeInfo.objectType data.value.asObject
      = ⟨.ok (), some value,
          (w2.setObject k (some { oc with refCount := oc.refCount + 1 })).setHeap r
            { hor with wrapped := some (.instance { inst with handle := some k }) }⟩ := by
    unfold njsDbObject_new
    rw [hb, hk]
    simp only [hc, hnew, hwrap, hadd, h4, h4i]
  have hne : ¬ (oc.refCount + 1 ≤ 1) := by omega
  refine ⟨_, inst, by rw [heq, hn, hk], instanceAt_of_heap _ r hor _ hheap hinst, ?_, ?_⟩
  · rw [dpiObject_release_instanceAt]
    simp [World.instanceAt, World.setHeap]
  · simp only [dpiObject_release, World.setHeap, World.setObject, if_true, hne, if_false,
      Nat.add_sub_cancel]
    funext j
    by_cases hj : j = k
    · rw [if_pos hj, hj, hlive]
    · rw [if_neg hj, if_neg hj]


/-- C23, on the sample class: the nested object 3 is materialized as the host object at 21,
whose instance holds the handle 3, and the object has the one reference it had. -/
theorem transformFromOracle_object_refs_witness :
    ∃ wf, njsDbObject_transformFromOracle Collaborators.constructing World.withInstance
          ⟨1, some 3⟩ ⟨DPI_ORACLE_TYPE_OBJECT, DPI_NATIVE_TYPE_OBJECT, some 1⟩
          ⟨0, ⟨0, 0, ⟨0⟩, ⟨0⟩, ⟨[], 0⟩, none, some 3⟩⟩ none
        = ⟨.ok (), some (.object 21), wf⟩
      ∧ wf.instanceAt 21 = some ⟨1, some 3⟩
      ∧ wf.objects 3 = some ⟨1, 0, []⟩ := by
  have h := (transformFromOracle_object_refs Collaborators.constructing World.withInstance
    ⟨1, some 3⟩ ⟨DPI_ORACLE_TYPE_OBJECT, DPI_NATIVE_TYPE_OBJECT, some 1⟩
    ⟨0, ⟨0, 0, ⟨0⟩, ⟨0⟩, ⟨[], 0⟩, none, some 3⟩⟩ none rfl rfl).2 1 _ 8 rfl rfl rfl
  obtain ⟨wf, inst, h1, h2, h3, h4⟩ :=
    ((h.2 (.object 21) _ rfl).2 21 _ rfl).2 3 ⟨1, 0, []⟩ rfl rfl (by decide)
  have hi : inst = ⟨1, none⟩ := (Option.some.inj h2).symm
  subst hi
  exact ⟨wf, h1, h3, by rw [h4]; rfl⟩

/-- The `napi_object` case of `njsDbObject_transformToOracle` produces no scratch buffer. -/
theorem transformToOracle_object_strBuffer (host : Collaborators) (w : World)
    (obj : njsDbObject) (value : HostValue) (nativeTypeNum : dpiNativeTypeNum)
    (data : dpiData) (attr : Option njsDbObjectAttr) :
    (njsDbObject_transformToOracle_object host w obj value nativeTypeNum data attr).strBuffer
      = none := by
  unfold njsDbObject_transformToOracle_object
  repeat' split
  all_goals first
    | rfl
    | (dsimp only
       repeat' split
       all_goals rfl)

/-- What `njsDbObject_transformToOracle` leaves in `*strBuffer`: a buffer exactly when it
succeeds on a host string, and then `data` points at that buffer and is tagged as bytes. -/
theorem transformToOracle_strBuffer (host : Collaborators) (w : World) (obj : njsDbObject)
    (value : HostValue) (nativeTypeNum : dpiNativeTypeNum) (data : dpiData)
    (attr : Option njsDbObjectAttr) :
    ((njsDbObject_transformToOracle host w obj value nativeTypeNum data attr).strBuffer ≠ none
      ↔ ((njsDbObject_transformToOracle host w obj value nativeTypeNum data attr).status
          = .ok ()
        ∧ napi_typeof value = .napi_string))
    ∧ ∀ buf, (njsDbObject_transformToOracle host w obj value nativeTypeNum data attr).strBuffer
        = some buf →
      (njsDbObject_transformToOracle host w obj value nativeTypeNum data attr).nativeTypeNum
        = DPI_NATIVE_TYPE_BYTES
      ∧ (njsDbObject_transformToOracle host w obj value nativeTypeNum data attr).data.isNull
        = 0
      ∧ (njsDbObject_transformToOracle host w obj value nativeTypeNum data attr
          ).data.value.asBytes.ptr = buf := by
  unfold njsDbObject_transformToOracle
  cases hty : napi_typeof value
  case napi_object =>
    simp only [transformToOracle_object_strBuffer]
    simp
  case napi_string =>
    dsimp only
    cases hcp : njsUtils_copyStringFromJS w value with
    | mk st w1 =>
      cases st with
      | error e => simp
      | ok p =>
        obtain ⟨b, l⟩ := p
        simp [dpiData_setBytes]
  all_goals
    dsimp only
    repeat' split
    all_goals simp

/-- The call of `dpiObject_appendElement` is recorded, whether it succeeds or fails. -/
theorem dpiObject_appendElement_trace (lib : dpiLibrary) (w : World) (h : Option Handle)
    (nativeTypeNum : dpiNativeTypeNum) (data : dpiData) :
    (dpiObject_appendElement lib w h nativeTypeNum data).2.trace
      = w.trace ++ [.dpiObject_appendElement h] := by
  unfold dpiObject_appendElement
  repeat' split
  all_goals rfl

/-- The call of `dpiObject_setElementValueByIndex` is recorded, whether it succeeds or
fails. -/
theorem dpiObject_setElementValueByIndex_trace (lib : dpiLibrary) (w : World)
    (h : Option Handle) (index : Int) (nativeTypeNum : dpiNativeTypeNum) (data : dpiData) :
    (dpiObject_setElementValueByIndex lib w h index nativeTypeNum data).2.trace
      = w.trace ++ [.dpiObject_setElementValueByIndex h index] := by
  unfold dpiObject_setElementValueByIndex
  repeat' split
  all_goals rfl

/-- The call of `dpiObject_setAttributeValue` is recorded, whether it succeeds or fails. -/
theorem dpiObject_setAttributeValue_trace (lib : dpiLibrary) (w : World)
    (h attr : Option Handle) (nativeTypeNum : dpiNativeTypeNum) (data : dpiData) :
    (dpiObject_setAttributeValue lib w h attr nativeTypeNum data).2.trace
      = w.trace ++ [.dpiObject_setAttributeValue h attr] := by
  unfold dpiObject_setAttributeValue
  repeat' split
  all_goals rfl

/-- What `freeStr` records. -/
theorem freeStr_trace (w : World) (str : Option Bytes) :
    (freeStr w str).trace = w.trace ++ freed str := by
  cases str <;> simp [freeStr, freed, World.record]

/-- What `njsDbObject_append` does with the scratch buffer of its conversion `c`. -/
theorem append_trace (host : Collaborators) (lib : dpiLibrary) (w : World)
    (obj : njsDbObject) (value : HostValue) (data : dpiData) (ty : njsDbObjectType)
    (hty : w.objTypes obj.type = some ty) :
    (∀ e, (njsDbObject_transformToOracle host w obj value ty.elementTypeInfo.nativeTypeNum
          data none).status = .error e →
        njsDbObject_append host lib w obj value data
          = (.error e, (njsDbObject_transformToOracle host w obj value
              ty.elementTypeInfo.nativeTypeNum data none).world))
    ∧ ((njsDbObject_transformToOracle host w obj value ty.elementTypeInfo.nativeTypeNum
          data none).status = .ok () →
        (njsDbObject_append host lib w obj value data).2.trace
          = (njsDbObject_transformToOracle host w obj value
              ty.elementTypeInfo.nativeTypeNum data none).world.trace
            ++ [.dpiObject_appendElement obj.handle]
            ++ freed (njsDbObject_transformToOracle host w obj value
              ty.elementTypeInfo.nativeTypeNum data none).strBuffer) := by
  unfold njsDbObject_append
  rw [hty]
  dsimp only
  generalize njsDbObject_transformToOracle host w obj value ty.elementTypeInfo.nativeTypeNum
    data none = c
  obtain ⟨st, n, d, s, w1⟩ := c
  cases st with
  | error e1 =>
    refine ⟨?_, ?_⟩
    · intro e he
      dsimp only at he ⊢
      cases he
      rfl
    · intro he
      cases he
  | ok u =>
    refine ⟨?_, ?_⟩
    · intro e he
      cases he
    · intro _
      dsimp only
      have ht := dpiObject_appendElement_trace lib w1 obj.handle n d
      cases hwr : dpiObject_appendElement lib w1 obj.handle n d with
      | mk b w2 =>
        rw [hwr] at ht
        cases b <;> simp only [freeStr_trace] <;> rw [ht]

/-- What `njsDbObject_setElement` does with the scratch buffer of its conversion. -/
theorem setElement_trace (host : Collaborators) (lib : dpiLibrary) (w : World)
    (obj : njsDbObject) (arg0 value : HostValue) (data : dpiData) (ty : njsDbObjectType)
    (index : Int)
    (hidx : host.njsUtils_getIntArg arg0 = .ok index)
    (hty : w.objTypes obj.type = some ty) :
    (∀ e, (njsDbObject_transformToOracle host w obj value ty.elementTypeInfo.nativeTypeNum
          data none).status = .error e →
        njsDbObject_setElement host lib w obj arg0 value data
          = (.error e, (njsDbObject_transformToOracle host w obj value
              ty.elementTypeInfo.nativeTypeNum data none).world))
    ∧ ((njsDbObject_transformToOracle host w obj value ty.elementTypeInfo.nativeTypeNum
          data none).status = .ok () →
        (njsDbObject_setElement host lib w obj arg0 value data).2.trace
          = (njsDbObject_transformToOracle host w obj value
              ty.elementTypeInfo.nativeTypeNum data none).world.trace
            ++ [.dpiObject_setElementValueByIndex obj.handle index]
            ++ freed (njsDbObject_transformToOracle host w obj value
              ty.elementTypeInfo.nativeTypeNum data none).strBuffer) := by
  unfold njsDbObject_setElement
  rw [hidx, hty]
  dsimp only
  generalize njsDbObject_transformToOracle host w obj value ty.elementTypeInfo.nativeTypeNum
    data none = c
  obtain ⟨st, n, d, s, w1⟩ := c
  cases st with
  | error e1 =>
    refine ⟨?_, ?_⟩
    · intro e he
      dsimp only at he ⊢
      cases he
      rfl
    · intro he
      cases he
  | ok u =>
    refine ⟨?_, ?_⟩
    · intro e he
      cases he
    · intro _
      dsimp only
      have ht := dpiObject_setElementValueByIndex_trace lib w1 obj.handle index n d
      cases hwr : dpiObject_setElementValueByIndex lib w1 obj.handle index n d with
      | mk b w2 =>
        rw [hwr] at ht
        cases b <;> simp only [freeStr_trace] <;> rw [ht]

/-- What `njsDbObject_setAttrValueHelper` does with the scratch buffer of its conversion,
once the instance `inst` of `thisArg` is found (in the world `w1`). -/
theorem setAttrValueHelper_trace (host : Collaborators) (lib : dpiLibrary) (w : World)
    (thisArg value : HostValue) (attr : njsDbObjectAttr) (data : dpiData) (r : Ref)
    (w1 : World) (inst : njsDbObject)
    (hargs : njsDbObject_validateArgs w thisArg [value] 1 = (.ok r, w1))
    (hinst : w1.instanceAt r = some inst) :
    (∀ e, (njsDbObject_transformToOracle host w1 inst value attr.typeInfo.nativeTypeNum
          data (some attr)).status = .error e →
        njsDbObject_setAttrValueHelper host lib w thisArg [value] attr data
          = (.error e, (njsDbObject_transformToOracle host w1 inst value
              attr.typeInfo.nativeTypeNum data (some attr)).world))
    ∧ ((njsDbObject_transformToOracle host w1 inst value attr.typeInfo.nativeTypeNum
          data (some attr)).status = .ok () →
        (njsDbObject_setAttrValueHelper host lib w thisArg [value] attr data).2.trace
          = (njsDbObject_transformToOracle host w1 inst value
              attr.typeInfo.nativeTypeNum data (some attr)).world.trace
            ++ [.dpiObject_setAttributeValue inst.handle attr.handle]
            ++ freed (njsDbObject_transformToOracle host w1 inst value
              attr.typeInfo.nativeTypeNum data (some attr)).strBuffer) := by
  unfold njsDbObject_setAttrValueHelper
  rw [hargs]
  dsimp only
  rw [hinst]
  dsimp only
  generalize njsDbObject_transformToOracle host w1 inst value attr.typeInfo.nativeTypeNum
    data (some attr) = c
  obtain ⟨st, n, d, s, w2⟩ := c
  cases st with
  | error e1 =>
    refine ⟨?_, ?_⟩
    · intro e he
      dsimp only at he ⊢
      cases he
      rfl
    · intro he
      cases he
  | ok u =>
    refine ⟨?_, ?_⟩
    · intro e he
      cases he
    · intro _
      dsimp only
      have ht := dpiObject_setAttributeValue_trace lib w2 inst.handle attr.handle n d
      cases hwr : dpiObject_setAttributeValue lib w2 inst.handle attr.handle n d with
      | mk b w3 =>
        rw [hwr] at ht
        cases b <;> simp only [freeStr_trace] <;> rw [ht]

/-- C24: `njsDbObject_transformToOracle` leaves a scratch buffer in `*strBuffer` exactly
when it succeeds on a host string, and then `data` points at that buffer and the value is
tagged as bytes. In `njsDbObject_append`, `njsDbObject_setElement` and
`njsDbObject_setAttrValueHelper`, when the conversion fails the call returns its error in
the world the conversion left, with nothing released; when it succeeds, what is recorded
after the conversion is the native write call and then, once, the release of the buffer
if there is one, whether the write succeeded or failed. -/
theorem scratch_buffer_ownership (host : Collaborators) (lib : dpiLibrary) (w : World)
    (obj : njsDbObject) (value : HostValue) (nativeTypeNum : dpiNativeTypeNum)
    (data : dpiData) (attr : Option njsDbObjectAttr) :
    ((njsDbObject_transformToOracle host w obj value nativeTypeNum data attr).strBuffer ≠ none
      ↔ ((njsDbObject_transformToOracle host w obj value nativeTypeNum data attr).status
          = .ok ()
        ∧ napi_typeof value = .napi_string))
    ∧ (∀ buf, (njsDbObject_transformToOracle host w obj value nativeTypeNum data attr
          ).strBuffer = some buf →
      (njsDbObject_transformToOracle host w obj value nativeTypeNum data attr).nativeTypeNum
        = DPI_NATIVE_TYPE_BYTES
      ∧ (njsDbObject_transformToOracle host w obj value nativeTypeNum data attr).data.isNull
        = 0
      ∧ (njsDbObject_transformToOracle host w obj value nativeTypeNum data attr
          ).data.value.asBytes.ptr = buf)
    ∧ (∀ ty, w.objTypes obj.type = some ty →
      (∀ e, (njsDbObject_transformToOracle host w obj value ty.elementTypeInfo.nativeTypeNum
            data none).status = .error e →
          njsDbObject_append host lib w obj value data
            = (.error e, (njsDbObject_transformToOracle host w obj value
                ty.elementTypeInfo.nativeTypeNum data none).world))
      ∧ ((njsDbObject_transformToOracle host w obj value ty.elementTypeInfo.nativeTypeNum
            data none).status = .ok () →
          (njsDbObject_append host lib w obj value data).2.trace
            = (njsDbObject_transformToOracle host w obj value
                ty.elementTypeInfo.nativeTypeNum data none).world.trace
              ++ [.dpiObject_appendElement obj.handle]
              ++ freed (njsDbObject_transformToOracle host w obj value
                ty.elementTypeInfo.nativeTypeNum data none).strBuffer))
    ∧ (∀ ty arg0 index, w.objTypes obj.type = some ty →
        host.njsUtils_getIntArg arg0 = .ok index →
      (∀ e, (njsDbObject_transformToOracle host w obj value ty.elementTypeInfo.nativeTypeNum
            data none).status = .error e →
          njsDbObject_setElement host lib w obj arg0 value data
            = (.error e, (njsDbObject_transformToOracle host w obj value
                ty.elementTypeInfo.nativeTypeNum data none).world))
      ∧ ((njsDbObject_transformToOracle host w obj value ty.elementTypeInfo.nativeTypeNum
            data none).status = .ok () →
          (njsDbObject_setElement host lib w obj arg0 value data).2.trace
            = (njsDbObject_transformToOracle host w obj value
                ty.elementTypeInfo.nativeTypeNum data none).world.trace
              ++ [.dpiObject_setElementValueByIndex obj.handle index]
              ++ freed (njsDbObject_transformToOracle host w obj value
                ty.elementTypeInfo.nativeTypeNum data none).strBuffer))
    ∧ (∀ thisArg a r w1 inst, njsDbObject_validateArgs w thisArg [value] 1 = (.ok r, w1) →
        w1.instanceAt r = some inst →
      (∀ e, (njsDbObject_transformToOracle host w1 inst value a.typeInfo.nativeTypeNum
            data (some a)).status = .error e →
          njsDbObject_setAttrValueHelper host lib w thisArg [value] a data
            = (.error e, (njsDbObject_transformToOracle host w1 inst value
                a.typeInfo.nativeTypeNum data (some a)).world))
      ∧ ((njsDbObject_transformToOracle host w1 inst value a.typeInfo.nativeTypeNum
            data (some a)).status = .ok () →
          (njsDbObject_setAttrValueHelper host lib w thisArg [value] a data).2.trace
            = (njsDbObject_transformToOracle host w1 inst value
                a.typeInfo.nativeTypeNum data (some a)).world.trace
              ++ [.dpiObject_setAttributeValue inst.handle a.handle]
              ++ freed (njsDbObject_transformToOracle host w1 inst value
                a.typeInfo.nativeTypeNum data (some a)).strBuffer)) :=
  ⟨(transformToOracle_strBuffer host w obj value nativeTypeNum data attr).1,
    (transformToOracle_strBuffer host w obj value nativeTypeNum data attr).2,
    fun ty hty => append_trace host lib w obj value data ty hty,
    fun ty arg0 index hty hidx => setElement_trace host lib w obj arg0 value data ty index
      hidx hty,
    fun thisArg a r w1 inst hargs hinst =>
      setAttrValueHelper_trace host lib w thisArg value a data r w1 inst hargs hinst⟩

/-- C24, on a sample collection: appending the text `hi` converts it into the buffer
`hi\0`, which is released once, after the native append; the attribute setter on the sample
instance does the same around its native write, which fails there. -/
theorem scratch_buffer_ownership_witness :
    (njsDbObject_transformToOracle Collaborators.failing (World.withCollection 0 [])
        ⟨1, some 3⟩ (.string [104, 105]) DPI_NATIVE_TYPE_INT64 dpiData.zero none).strBuffer
      = some [104, 105, 0]
    ∧ (njsDbObject_append Collaborators.failing (dpiLibrary.sample false)
        (World.withCollection 0 []) ⟨1, some 3⟩ (.string [104, 105]) dpiData.zero).2.trace
      = [.dpiObject_appendElement (some 3), .free [104, 105, 0]]
    ∧ (njsDbObject_setElement Collaborators.indexing (dpiLibrary.sample false)
        (World.withCollection 0 []) ⟨1, some 3⟩ (napi_create_int32 4) (.string [104, 105])
        dpiData.zero).2.trace
      = [.dpiObject_setElementValueByIndex (some 3) 4, .free [104, 105, 0]]
    ∧ (njsDbObject_setAttrValueHelper Collaborators.failing
        { store := fun _ _ => none, sizeCountsDeleted := false } World.withInstance
        (.object 5) [.string [104, 105]]
        (sampleAttr ⟨DPI_ORACLE_TYPE_VARCHAR, DPI_NATIVE_TYPE_BYTES, none⟩) dpiData.zero).1
      = .error .errDPI
    ∧ (njsDbObject_setAttrValueHelper Collaborators.failing
        { store := fun _ _ => none, sizeCountsDeleted := false } World.withInstance
        (.object 5) [.string [104, 105]]
        (sampleAttr ⟨DPI_ORACLE_TYPE_VARCHAR, DPI_NATIVE_TYPE_BYTES, none⟩)
        dpiData.zero).2.trace
      = [.dpiObject_setAttributeValue (some 3) (some 9), .free [104, 105, 0]] :=
  ⟨rfl,
    ((scratch_buffer_ownership Collaborators.failing (dpiLibrary.sample false)
      (World.withCollection 0 []) ⟨1, some 3⟩ (.string [104, 105]) DPI_NATIVE_TYPE_INT64
      dpiData.zero none).2.2.1 _ rfl).2 rfl,
    ((scratch_buffer_ownership Collaborators.indexing (dpiLibrary.sample false)
      (World.withCollection 0 []) ⟨1, some 3⟩ (.string [104, 105]) DPI_NATIVE_TYPE_INT64
      dpiData.zero none).2.2.2.1 _ (napi_create_int32 4) 4 rfl rfl).2 rfl,
    rfl,
    ((scratch_buffer_ownership Collaborators.failing
      { store := fun _ _ => none, sizeCountsDeleted := false } World.withInstance
      ⟨1, some 3⟩ (.string [104, 105]) DPI_NATIVE_TYPE_BYTES dpiData.zero none).2.2.2.2
      (.object 5) (sampleAttr ⟨DPI_ORACLE_TYPE_VARCHAR, DPI_NATIVE_TYPE_BYTES, none⟩) 5 _
      ⟨1, some 3⟩ rfl rfl).2 rfl⟩

/-- The outcomes of `njsDbObject_transformFromOracle` on a non-null value with a CLOB,
NCLOB or BLOB tag: a failing chunk size or size query gives the native error with no value
and the world as it was; once `njsLob_new` has returned the wrapper built from the tag, the
handle, the chunk size, the length and auto-close, the call succeeds in the world
`dpiLob_addRef` leaves, or fails with the native error, the wrapper being stored, when
`dpiLob_addRef` fails. -/
theorem transformFromOracle_lob (host : Collaborators) (w : World) (obj : njsDbObject)
    (typeInfo : njsDataTypeInfo) (data : dpiData) (attr : Option njsDbObjectAttr)
    (hnull : data.isNull = 0)
    (htag : typeInfo.oracleTypeNum = DPI_ORACLE_TYPE_CLOB
      ∨ typeInfo.oracleTypeNum = DPI_ORACLE_TYPE_NCLOB
      ∨ typeInfo.oracleTypeNum = DPI_ORACLE_TYPE_BLOB) :
    ((dpiLob_getChunkSize w data.value.asLOB = none
        ∨ dpiLob_getSize w data.value.asLOB = none) →
      njsDbObject_transformFromOracle host w obj typeInfo data attr
        = ⟨.error .errDPI, none, w⟩)
    ∧ ∀ chunkSize length ty c value w1,
      dpiLob_getChunkSize w data.value.asLOB = some chunkSize →
      dpiLob_getSize w data.value.asLOB = some length →
      w.objTypes obj.type = some ty → ty.jsDbObjectConstructor = some c →
      host.njsLob_new w ⟨typeInfo.oracleTypeNum, data.value.asLOB, true, chunkSize, length⟩ c
        = (some value, w1) →
      (∀ w2, dpiLob_addRef w1 data.value.asLOB = some w2 →
        njsDbObject_transformFromOracle host w obj typeInfo data attr
          = ⟨.ok (), some value, w2⟩)
      ∧ (dpiLob_addRef w1 data.value.asLOB = none →
        njsDbObject_transformFromOracle host w obj typeInfo data attr
          = ⟨.error .errDPI, some value, w1⟩) := by
  have h1 : ¬ (typeInfo.oracleTypeNum = DPI_ORACLE_TYPE_CHAR
      ∨ typeInfo.oracleTypeNum = DPI_ORACLE_TYPE_NCHAR
      ∨ typeInfo.oracleTypeNum = DPI_ORACLE_TYPE_VARCHAR
      ∨ typeInfo.oracleTypeNum = DPI_ORACLE_TYPE_NVARCHAR) := by
    rcases htag with h | h | h <;> rw [h] <;> decide
  have h2 : ¬ typeInfo.oracleTypeNum = DPI_ORACLE_TYPE_RAW := by
    rcases htag with h | h | h <;> rw [h] <;> decide
  have h3 : ¬ typeInfo.oracleTypeNum = DPI_ORACLE_TYPE_NUMBER := by
    rcases htag with h | h | h <;> rw [h] <;> decide
  have h4 : ¬ typeInfo.oracleTypeNum = DPI_ORACLE_TYPE_NATIVE_INT := by
    rcases htag with h | h | h <;> rw [h] <;> decide
  have h5 : ¬ typeInfo.oracleTypeNum = DPI_ORACLE_TYPE_NATIVE_FLOAT := by
    rcases htag with h | h | h <;> rw [h] <;> decide
  have h6 : ¬ typeInfo.oracleTypeNum = DPI_ORACLE_TYPE_NATIVE_DOUBLE := by
    rcases htag with h | h | h <;> rw [h] <;> decide
  have h7 : ¬ (typeInfo.oracleTypeNum = DPI_ORACLE_TYPE_DATE
      ∨ typeInfo.oracleTypeNum = DPI_ORACLE_TYPE_TIMESTAMP
      ∨ typeInfo.oracleTypeNum = DPI_ORACLE_TYPE_TIMESTAMP_TZ
      ∨ typeInfo.oracleTypeNum = DPI_ORACLE_TYPE_TIMESTAMP_LTZ) := by
    rcases htag with h | h | h <;> rw [h] <;> decide
  unfold njsDbObject_transformFromOracle
  rw [if_neg (by simp [hnull]), if_neg h1, if_neg h2, if_neg h3, if_neg h4, if_neg h5,
    if_neg h6, if_neg h7, if_pos htag]
  refine ⟨?_, ?_⟩
  · intro hq
    cases hcs : dpiLob_getChunkSize w data.value.asLOB with
    | none => rfl
    | some cs =>
      rcases hq with hq | hq
      · rw [hcs] at hq; cases hq
      · dsimp only; rw [hq]
  · intro chunkSize length ty c value w1 hcs hlen hty hc hnew
    rw [hcs, hlen]
    dsimp only
    rw [hty]
    dsimp only
    rw [hc]
    dsimp only
    rw [hnew]
    refine ⟨?_, ?_⟩
    · intro w2 hadd
      dsimp only
      rw [hadd]
    · intro hadd
      dsimp only
      rw [hadd]

/-- An array whose first positions are set and whose tail, up to `n`, is not. -/
theorem filled_then_unset (vs : List HostValue) (n : Nat) :
    (vs.map some ++ List.replicate (n - vs.length) none).length = max n vs.length
    ∧ (∀ p, p < vs.length →
      ∃ v, (vs.map some ++ List.replicate (n - vs.length) none)[p]? = some (some v))
    ∧ (∀ p, vs.length ≤ p → p < n →
      (vs.map some ++ List.replicate (n - vs.length) (none : Option HostValue))[p]?
        = some none)
    ∧ ((vs.map some ++ List.replicate (n - vs.length) (none : Option HostValue)).length
        = vs.length ↔ n ≤ vs.length) := by
  refine ⟨?_, ?_, ?_, ?_⟩
  · simp only [List.length_append, List.length_map, List.length_replicate]
    omega
  · intro p hp
    refine ⟨vs[p], ?_⟩
    rw [List.getElem?_append_left (by simpa using hp)]
    simp [List.getElem?_eq_getElem hp]
  · intro p hp hn
    rw [List.getElem?_append_right (by simpa using hp)]
    simp only [List.length_map]
    rw [List.getElem?_replicate]
    rw [if_pos (by omega)]
  · simp only [List.length_append, List.length_map, List.length_replicate]
    omega

/-- Reading `m` code units reads the first `2 * m` bytes, and no other. -/
theorem char16s_take (u : Utf16) (m : Nat) :
    ∀ s : Bytes, (char16s u s).take m = char16s u (s.take (2 * m)) := by
  induction m with
  | zero => intro s; simp [char16s]
  | succ m ih =>
    intro s
    have h2 : 2 * (m + 1) = 2 * m + 1 + 1 := by omega
    rw [h2]
    match s with
    | [] => simp [char16s]
    | [a] => simp [char16s]
    | a :: b :: rest => simp [char16s, ih rest]

/-- What `njsSodaDocument_genericGetter` returns when the native query succeeds: host null
exactly when the length reported is 0, the text of the `valueLength` bytes otherwise. -/
theorem genericGetter_eq (dpiGetterFn : Option Handle → Option (Bytes × Nat))
    (doc : njsSodaDocument) (value : Bytes) (valueLength : Nat)
    (h : dpiGetterFn doc.handle = some (value, valueLength)) :
    (njsSodaDocument_genericGetter dpiGetterFn doc = .ok .null ↔ valueLength = 0)
    ∧ (valueLength ≠ 0 →
      njsSodaDocument_genericGetter dpiGetterFn doc
        = .ok (.string (value.take valueLength))) := by
  unfold njsSodaDocument_genericGetter
  rw [h]
  dsimp only
  by_cases h0 : valueLength = 0
  · simp [h0]
  · simp [h0, napi_create_string_utf8]

/-- C28: when the native content query succeeds, `njsSodaDocument_getContentAsString`
returns host null exactly when the content length is 0, whatever the encoding; otherwise
the text of all `valueLength` bytes read as UTF-8 when the encoding is absent or is the C
string `UTF-8`, and for every other encoding the text of `valueLength / 2` UTF-16 code
units, which are read from the first `2 * (valueLength / 2)` bytes. Each of the metadata
getters (key, version, createdOn, lastModified, mediaType), when its native query succeeds,
returns host null exactly when the length reported is 0 and the text of the `valueLength`
bytes otherwise. -/
theorem sodaDocument_getters (u : Utf16) (docs : Handle → Option dpiSodaDoc)
    (doc : njsSodaDocument) :
    (∀ value valueLength encoding,
      dpiSodaDoc_getContent docs doc.handle = some (value, valueLength, encoding) →
      (njsSodaDocument_getContentAsString u docs doc = .ok .null ↔ valueLength = 0)
      ∧ (valueLength ≠ 0 → (encoding = none ∨ encoding.map cString = some utf8Name) →
        njsSodaDocument_getContentAsString u docs doc
          = .ok (.string (value.take valueLength)))
      ∧ (valueLength ≠ 0 → ¬ (encoding = none ∨ encoding.map cString = some utf8Name) →
        njsSodaDocument_getContentAsString u docs doc
          = .ok (.string (u.text ((char16s u value).take (valueLength / 2))))
        ∧ (char16s u value).take (valueLength / 2)
          = char16s u (value.take (2 * (valueLength / 2)))))
    ∧ (∀ value valueLength, dpiSodaDoc_getKey docs doc.handle = some (value, valueLength) →
      (njsSodaDocument_getKey docs doc = .ok .null ↔ valueLength = 0)
      ∧ (valueLength ≠ 0 →
        njsSodaDocument_getKey docs doc = .ok (.string (value.take valueLength))))
    ∧ (∀ value valueLength,
      dpiSodaDoc_getVersion docs doc.handle = some (value, valueLength) →
      (njsSodaDocument_getVersion docs doc = .ok .null ↔ valueLength = 0)
      ∧ (valueLength ≠ 0 →
        njsSodaDocument_getVersion docs doc = .ok (.string (value.take valueLength))))
    ∧ (∀ value valueLength,
      dpiSodaDoc_getCreatedOn docs doc.handle = some (value, valueLength) →
      (njsSodaDocument_getCreatedOn docs doc = .ok .null ↔ valueLength = 0)
      ∧ (valueLength ≠ 0 →
        njsSodaDocument_getCreatedOn docs doc = .ok (.string (value.take valueLength))))
    ∧ (∀ value valueLength,
      dpiSodaDoc_getLastModified docs doc.handle = some (value, valueLength) →
      (njsSodaDocument_getLastModified docs doc = .ok .null ↔ valueLength = 0)
      ∧ (valueLength ≠ 0 →
        njsSodaDocument_getLastModified docs doc
          = .ok (.string (value.take valueLength))))
    ∧ (∀ value valueLength,
      dpiSodaDoc_getMediaType docs doc.handle = some (value, valueLength) →
      (njsSodaDocument_getMediaType docs doc = .ok .null ↔ valueLength = 0)
      ∧ (valueLength ≠ 0 →
        njsSodaDocument_getMediaType docs doc
          = .ok (.string (value.take valueLength)))) := by
  refine ⟨?_, fun v n h => genericGetter_eq _ doc v n h,
    fun v n h => genericGetter_eq _ doc v n h, fun v n h => genericGetter_eq _ doc v n h,
    fun v n h => genericGetter_eq _ doc v n h, fun v n h => genericGetter_eq _ doc v n h⟩
  intro value valueLength encoding h
  unfold njsSodaDocument_getContentAsString
  rw [h]
  dsimp only
  by_cases h0 : valueLength = 0
  · simp [h0]
  · rw [if_neg h0]
    by_cases he : encoding = none ∨ encoding.map cString = some utf8Name
    · rw [if_pos he]
      refine ⟨by simp [h0, napi_create_string_utf8], fun _ _ => rfl, fun _ hne => ?_⟩
      exact absurd he hne
    · rw [if_neg he]
      refine ⟨by simp [h0, napi_create_string_utf16], fun _ hhe => absurd hhe he,
        fun _ _ => ⟨rfl, char16s_take u _ value⟩⟩

/-- C28 on the sample documents: a content of 5 bytes in `UTF-16LE` gives the text of 2
code units, `hi`; a content with no encoding gives its 3 bytes; an empty content gives
null whatever the encoding; the key is its 2 bytes and the version, of length 0, null. -/
theorem sodaDocument_getters_witness :
    njsSodaDocument_getContentAsString Utf16.sample sampleDocs ⟨some 1⟩
      = .ok (.string [104, 105])
    ∧ njsSodaDocument_getContentAsString Utf16.sample sampleDocs ⟨some 2⟩
      = .ok (.string [104, 105, 33])
    ∧ njsSodaDocument_getContentAsString Utf16.sample sampleDocs ⟨some 3⟩ = .ok .null
    ∧ njsSodaDocument_getKey sampleDocs ⟨some 1⟩ = .ok (.string [107, 49])
    ∧ njsSodaDocument_getVersion sampleDocs ⟨some 1⟩ = .ok .null :=
  have h1 := sodaDocument_getters Utf16.sample sampleDocs ⟨some 1⟩
  have h2 := sodaDocument_getters Utf16.sample sampleDocs ⟨some 2⟩
  have h3 := sodaDocument_getters Utf16.sample sampleDocs ⟨some 3⟩
  ⟨((h1.1 _ _ _ rfl).2.2 (by decide) (by decide)).1,
    (h2.1 _ _ _ rfl).2.1 (by decide) (by decide),
    (h3.1 _ _ _ rfl).1.mpr rfl,
    (h1.2.1 _ _ rfl).2 (by decide),
    (h1.2.2.1 _ _ rfl).1.mpr rfl⟩

/-- A query of the chunk size that succeeds was made on a live LOB. -/
theorem dpiLob_getChunkSize_live (w : World) (h : Option Handle) (chunkSize : Nat)
    (hq : dpiLob_getChunkSize w h = some chunkSize) :
    ∃ k l, h = some k ∧ w.lobs k = some l ∧ l.chunkSize = some chunkSize := by
  unfold dpiLob_getChunkSize at hq
  cases h with
  | none => cases hq
  | some k =>
    dsimp only at hq
    cases hl : w.lobs k with
    | none => rw [hl] at hq; cases hq
    | some l => rw [hl] at hq; exact ⟨k, l, rfl, hl, hq⟩

/-- On a non-null value with a CLOB, NCLOB or BLOB tag `njsDbObject_transformFromOracle` is
its LOB case. -/
theorem transformFromOracle_lob_eq (host : Collaborators) (w : World) (obj : njsDbObject)
    (typeInfo : njsDataTypeInfo) (data : dpiData) (attr : Option njsDbObjectAttr)
    (hnull : data.isNull = 0)
    (htag : typeInfo.oracleTypeNum = DPI_ORACLE_TYPE_CLOB
      ∨ typeInfo.oracleTypeNum = DPI_ORACLE_TYPE_NCLOB
      ∨ typeInfo.oracleTypeNum = DPI_ORACLE_TYPE_BLOB) :
    njsDbObject_transformFromOracle host w obj typeInfo data attr
      = match dpiLob_getChunkSize w data.value.asLOB with
        | none => ⟨.error .errDPI, none, w⟩
        | some chunkSize =>
          match dpiLob_getSize w data.value.asLOB with
          | none => ⟨.error .errDPI, none, w⟩
          | some length =>
            match w.objTypes obj.type with
            | none => ⟨.error .invalidPointer, none, w⟩
            | some ty =>
              match ty.jsDbObjectConstructor with
              | none => ⟨.error .errNapi, none, w⟩
              | some constructor =>
                match host.njsLob_new w
                    ⟨typeInfo.oracleTypeNum, data.value.asLOB, true, chunkSize, length⟩
                    constructor with
                | (none, w1) => ⟨.error .errCollaborator, none, w1⟩
                | (some value, w1) =>
                  match dpiLob_addRef w1 data.value.asLOB with
                  | none => ⟨.error .errDPI, some value, w1⟩
                  | some w2 => ⟨.ok (), some value, w2⟩ := by
  have h1 : ¬ (typeInfo.oracleTypeNum = DPI_ORACLE_TYPE_CHAR
      ∨ typeInfo.oracleTypeNum = DPI_ORACLE_TYPE_NCHAR
      ∨ typeInfo.oracleTypeNum = DPI_ORACLE_TYPE_VARCHAR
      ∨ typeInfo.oracleTypeNum = DPI_ORACLE_TYPE_NVARCHAR) := by
    rcases htag with h | h | h <;> rw [h] <;> decide
  have h2 : ¬ typeInfo.oracleTypeNum = DPI_ORACLE_TYPE_RAW := by
    rcases htag with h | h | h <;> rw [h] <;> decide
  have h3 : ¬ typeInfo.oracleTypeNum = DPI_ORACLE_TYPE_NUMBER := by
    rcases htag with h | h | h <;> rw [h] <;> decide
  have h4 : ¬ typeInfo.oracleTypeNum = DPI_ORACLE_TYPE_NATIVE_INT := by
    rcases htag with h | h | h <;> rw [h] <;> decide
  have h5 : ¬ typeInfo.oracleTypeNum = DPI_ORACLE_TYPE_NATIVE_FLOAT := by
    rcases htag with h | h | h <;> rw [h] <;> decide
  have h6 : ¬ typeInfo.oracleTypeNum = DPI_ORACLE_TYPE_NATIVE_DOUBLE := by
    rcases htag with h | h | h <;> rw [h] <;> decide
  have h7 : ¬ (typeInfo.oracleTypeNum = DPI_ORACLE_TYPE_DATE
      ∨ typeInfo.oracleTypeNum = DPI_ORACLE_TYPE_TIMESTAMP
      ∨ typeInfo.oracleTypeNum = DPI_ORACLE_TYPE_TIMESTAMP_TZ
      ∨ typeInfo.oracleTypeNum = DPI_ORACLE_TYPE_TIMESTAMP_LTZ) := by
    rcases htag with h | h | h <;> rw [h] <;> decide
  unfold njsDbObject_transformFromOracle
  rw [if_neg (by simp [hnull]), if_neg h1, if_neg h2, if_neg h3, if_neg h4, if_neg h5,
    if_neg h6, if_neg h7, if_pos htag]

/-- C25: on a non-null value with a CLOB, NCLOB or BLOB tag, under a host whose `njsLob_new`
leaves the native LOBs alone. When the chunk size or the size query fails,
`njsDbObject_transformFromOracle` returns the native error with no value and the world as it
was (no wrapper, no reference). When both succeed on the LOB `k` and `njsLob_new`, called on
the buffer made of the tag of the slot, the handle, the chunk size and the length reported
and auto-close set, returns a wrapper, the call succeeds with that wrapper in the world
`njsLob_new` left with exactly one reference more on `k`. In every outcome in which a value
is stored the call has succeeded, so no wrapper is left without its reference. -/
theorem transformFromOracle_lob_wrapper (host : Collaborators) (w : World)
    (obj : njsDbObject) (typeInfo : njsDataTypeInfo) (data : dpiData)
    (attr : Option njsDbObjectAttr)
    (hnull : data.isNull = 0)
    (htag : typeInfo.oracleTypeNum = DPI_ORACLE_TYPE_CLOB
      ∨ typeInfo.oracleTypeNum = DPI_ORACLE_TYPE_NCLOB
      ∨ typeInfo.oracleTypeNum = DPI_ORACLE_TYPE_BLOB)
    (hhost : ∀ w1 b c, (host.njsLob_new w1 b c).2.lobs = w1.lobs) :
    ((dpiLob_getChunkSize w data.value.asLOB = none
        ∨ dpiLob_getSize w data.value.asLOB = none) →
      njsDbObject_transformFromOracle host w obj typeInfo data attr
        = ⟨.error .errDPI, none, w⟩)
    ∧ (∀ k l chunkSize length ty c value w1,
      data.value.asLOB = some k → w.lobs k = some l →
      l.chunkSize = some chunkSize → l.size = some length →
      w.objTypes obj.type = some ty → ty.jsDbObjectConstructor = some c →
      host.njsLob_new w ⟨typeInfo.oracleTypeNum, some k, true, chunkSize, length⟩ c
        = (some value, w1) →
      njsDbObject_transformFromOracle host w obj typeInfo data attr
        = ⟨.ok (), some value, w1.setLob k (some { l with refCount := l.refCount + 1 })⟩)
    ∧ (∀ v, (njsDbObject_transformFromOracle host w obj typeInfo data attr).value = some v →
      (njsDbObject_transformFromOracle host w obj typeInfo data attr).status = .ok ()
      ∧ ∃ k l, data.value.asLOB = some k ∧ w.lobs k = some l
        ∧ (njsDbObject_transformFromOracle host w obj typeInfo data attr).world.lobs k
          = some { l with refCount := l.refCount + 1 }) := by
  obtain ⟨hfail, hrest⟩ := transformFromOracle_lob host w obj typeInfo data attr hnull htag
  have hadd : ∀ (k : Handle) (l : dpiLob) (b : njsLobBuffer) (c : Ref),
      w.lobs k = some l →
      dpiLob_addRef (host.njsLob_new w b c).2 (some k)
        = some ((host.njsLob_new w b c).2.setLob k
            (some { l with refCount := l.refCount + 1 })) := by
    intro k l b c hl
    have hl1 : (host.njsLob_new w b c).2.lobs k = some l := by rw [hhost]; exact hl
    simp [dpiLob_addRef, hl1]
  refine ⟨hfail, ?_, ?_⟩
  · intro k l chunkSize length ty c value w1 hk hl hcs hlen hty hc hnew
    have h1 : dpiLob_getChunkSize w data.value.asLOB = some chunkSize := by
      simp [dpiLob_getChunkSize, hk, hl, hcs]
    have h2 : dpiLob_getSize w data.value.asLOB = some length := by
      simp [dpiLob_getSize, hk, hl, hlen]
    have hnew2 : host.njsLob_new w
        ⟨typeInfo.oracleTypeNum, data.value.asLOB, true, chunkSize, length⟩ c
        = (some value, w1) := by rw [hk]; exact hnew
    have ha := hadd k l ⟨typeInfo.oracleTypeNum, some k, true, chunkSize, length⟩ c hl
    rw [hnew] at ha
    exact (hrest chunkSize length ty c value w1 h1 h2 hty hc hnew2).1 _ (by rw [hk]; exact ha)
  · intro v hv
    cases h1 : dpiLob_getChunkSize w data.value.asLOB with
    | none => rw [hfail (Or.inl h1)] at hv; cases hv
    | some chunkSize =>
      cases h2 : dpiLob_getSize w data.value.asLOB with
      | none => rw [hfail (Or.inr h2)] at hv; cases hv
      | some length =>
        obtain ⟨k, l, hk, hl, _⟩ := dpiLob_getChunkSize_live w _ _ h1
        have heq := transformFromOracle_lob_eq host w obj typeInfo data attr hnull htag
        rw [h1, h2] at heq
        dsimp only at heq
        rw [heq] at hv ⊢
        revert hv
        cases hty : w.objTypes obj.type with
        | none => intro hv; cases hv
        | some ty =>
          dsimp only
          cases hc : ty.jsDbObjectConstructor with
          | none => intro hv; cases hv
          | some c =>
            dsimp only
            have ha := hadd k l
              ⟨typeInfo.oracleTypeNum, data.value.asLOB, true, chunkSize, length⟩ c hl
            cases hnew : host.njsLob_new w
                ⟨typeInfo.oracleTypeNum, data.value.asLOB, true, chunkSize, length⟩ c with
            | mk ov w1 =>
              rw [hnew] at ha
              cases ov with
              | none => intro hv; cases hv
              | some value =>
                dsimp only at ha ⊢
                rw [hk, ha]
                intro _
                refine ⟨rfl, k, l, rfl, hl, ?_⟩
                simp [World.setLob]

/-- C25 on the sample CLOB at handle 4 (chunk size 8132, size 20, one reference): the
wrapper is built from the CLOB tag, the handle, 8132, 20 and auto-close, and the LOB has two
references afterwards. -/
theorem transformFromOracle_lob_wrapper_witness :
    njsDbObject_transformFromOracle Collaborators.streaming World.withLob ⟨1, some 3⟩
        ⟨DPI_ORACLE_TYPE_CLOB, DPI_NATIVE_TYPE_LOB, none⟩ (lobData 4) none
      = ⟨.ok (), some (.lob ⟨DPI_ORACLE_TYPE_CLOB, some 4, true, 8132, 20⟩),
          World.withLob.setLob 4 (some ⟨2, some 8132, some 20⟩)⟩ :=
  (transformFromOracle_lob_wrapper Collaborators.streaming World.withLob ⟨1, some 3⟩
    ⟨DPI_ORACLE_TYPE_CLOB, DPI_NATIVE_TYPE_LOB, none⟩ (lobData 4) none rfl (Or.inl rfl)
    (fun _ _ _ => rfl)).2.1 4 ⟨1, some 8132, some 20⟩ 8132 20 _ 8
    (.lob ⟨DPI_ORACLE_TYPE_CLOB, some 4, true, 8132, 20⟩) World.withLob rfl rfl rfl rfl rfl
    rfl rfl

/-- On a value of kind object `njsDbObject_transformToOracle` is its object case, entered
with `isNull` cleared. -/
theorem transformToOracle_of_object (host : Collaborators) (w : World) (obj : njsDbObject)
    (value : HostValue) (t : dpiNativeTypeNum) (data : dpiData)
    (attr : Option njsDbObjectAttr) (hobj : napi_typeof value = .napi_object) :
    njsDbObject_transformToOracle host w obj value t data attr
      = njsDbObject_transformToOracle_object host w obj value t { data with isNull := 0 }
          attr := by
  unfold njsDbObject_transformToOracle
  simp only [hobj]

/-- C13, as amended: for a host value of kind object, whatever tag comes in (the timestamp
representation included), `njsDbObject_transformToOracle` checks in this order and stops at
the first match. (1) An instance of `Date` yields the double representation holding the
number it coerces to, whether or not it is also a buffer or an instance of the base database
object class. (2) A value that is no instance of `Date` and is a byte buffer yields the
bytes representation over the storage of the buffer itself and no scratch buffer, whether or
not it is also an instance of the base class; the length recorded is the length of the
buffer modulo `2 ^ 32`, which is its length when it is shorter than `2 ^ 32` bytes.
(3) A value that is neither and is an instance of the base class, and whose `njsDbObject` is
found, yields the object representation carrying the handle of that instance: the result is
the same for every collaborator, owning object and attribute, so nothing is constructed and
the type the slot declares is not looked at. -/
theorem transformToOracle_object_kinds (host : Collaborators) (w : World) (obj : njsDbObject)
    (value : HostValue) (t : dpiNativeTypeNum) (data : dpiData)
    (attr : Option njsDbObjectAttr) (hobj : napi_typeof value = .napi_object) :
    (napi_instanceof_Date value = true →
      ∀ x, (napi_coerce_to_number value).bind napi_get_value_double = some x →
        njsDbObject_transformToOracle host w obj value t data attr
          = ⟨.ok (), DPI_NATIVE_TYPE_DOUBLE,
              { isNull := 0, value := { data.value with asDouble := x } }, none, w⟩)
    ∧ (napi_instanceof_Date value = false →
      ∀ b length, napi_get_buffer_info value = some (b, length) →
        njsDbObject_transformToOracle host w obj value t data attr
          = ⟨.ok (), DPI_NATIVE_TYPE_BYTES,
              { isNull := 0, value := { data.value with asBytes := ⟨b, length % 2 ^ 32⟩ } },
              none, w⟩
        ∧ (length < 2 ^ 32 →
          njsDbObject_transformToOracle host w obj value t data attr
            = ⟨.ok (), DPI_NATIVE_TYPE_BYTES,
                { isNull := 0, value := { data.value with asBytes := ⟨b, length⟩ } },
                none, w⟩))
    ∧ (napi_instanceof_Date value = false → napi_get_buffer_info value = none →
      napi_instanceof_BaseDbObject w value = true →
      ∀ valueObj w1 inst, njsDbObject_getInstance w value = (.ok valueObj, w1) →
        w1.instanceAt valueObj = some inst →
        njsDbObject_transformToOracle host w obj value t data attr
          = ⟨.ok (), DPI_NATIVE_TYPE_OBJECT,
              { isNull := 0, value := { data.value with asObject := inst.handle } },
              none, w1⟩
        ∧ ∀ host2 obj2 attr2,
            njsDbObject_transformToOracle host2 w obj2 value t data attr2
              = njsDbObject_transformToOracle host w obj value t data attr) := by
  refine ⟨?_, ?_, ?_⟩
  · intro hd x hx
    rw [transformToOracle_of_object host w obj value t data attr hobj]
    unfold njsDbObject_transformToOracle_object
    rw [if_pos hd, hx]
  · intro hd b length hb
    have key : njsDbObject_transformToOracle host w obj value t data attr
        = ⟨.ok (), DPI_NATIVE_TYPE_BYTES,
            { isNull := 0, value := { data.value with asBytes := ⟨b, length % 2 ^ 32⟩ } },
            none, w⟩ := by
      rw [transformToOracle_of_object host w obj value t data attr hobj]
      unfold njsDbObject_transformToOracle_object
      rw [if_neg (by simp [hd]), hb]
      rfl
    refine ⟨key, fun hlen => ?_⟩
    rw [key, Nat.mod_eq_of_lt hlen]
  · intro hd hb hbase valueObj w1 inst hget hinst
    have key : ∀ (host : Collaborators) (obj : njsDbObject) (attr : Option njsDbObjectAttr),
        njsDbObject_transformToOracle host w obj value t data attr
          = ⟨.ok (), DPI_NATIVE_TYPE_OBJECT,
              { isNull := 0, value := { data.value with asObject := inst.handle } },
              none, w1⟩ := by
      intro host obj attr
      rw [transformToOracle_of_object host w obj value t data attr hobj]
      unfold njsDbObject_transformToOracle_object
      rw [if_neg (by simp [hd]), hb]
      dsimp only
      rw [if_pos hbase, hget]
      dsimp only
      rw [hinst]
      rfl
    exact ⟨key host obj attr, fun host2 obj2 attr2 => (key host2 obj2 attr2).trans
      (key host obj attr).symm⟩

/-- C13 on values that pass several tests, with the timestamp tag coming in: an instance of
`Date` that is also a buffer and an instance of the base class is converted as a Date; a
buffer that is also an instance of the base class is converted as a buffer; the instance at
5 of `World.withInstance`, which holds the native object 3, is converted to that handle. -/
theorem transformToOracle_object_kinds_witness :
    njsDbObject_transformToOracle Collaborators.failing World.withInstance ⟨1, none⟩
        (.exotic true (some ⟨0x4028000000000000⟩) (some [1, 2]) true)
        DPI_NATIVE_TYPE_TIMESTAMP dpiData.zero none
      = ⟨.ok (), DPI_NATIVE_TYPE_DOUBLE,
          { isNull := 0,
            value := { dpiData.zero.value with asDouble := ⟨0x4028000000000000⟩ } }, none,
          World.withInstance⟩
    ∧ njsDbObject_transformToOracle Collaborators.failing World.withInstance ⟨1, none⟩
        (.exotic false none (some [1, 2]) true) DPI_NATIVE_TYPE_TIMESTAMP dpiData.zero none
      = ⟨.ok (), DPI_NATIVE_TYPE_BYTES,
          { isNull := 0, value := { dpiData.zero.value with asBytes := ⟨[1, 2], 2⟩ } }, none,
          World.withInstance⟩
    ∧ njsDbObject_transformToOracle Collaborators.failing World.withInstance ⟨1, none⟩
        (.object 5) DPI_NATIVE_TYPE_TIMESTAMP dpiData.zero none
      = ⟨.ok (), DPI_NATIVE_TYPE_OBJECT,
          { isNull := 0, value := { dpiData.zero.value with asObject := some 3 } }, none,
          World.withInstance⟩ :=
  ⟨(transformToOracle_object_kinds Collaborators.failing World.withInstance ⟨1, none⟩
      (.exotic true (some ⟨0x4028000000000000⟩) (some [1, 2]) true)
      DPI_NATIVE_TYPE_TIMESTAMP dpiData.zero none rfl).1 rfl _ rfl,
    ((transformToOracle_object_kinds Collaborators.failing World.withInstance ⟨1, none⟩
      (.exotic false none (some [1, 2]) true) DPI_NATIVE_TYPE_TIMESTAMP dpiData.zero none
      rfl).2.1 rfl _ _ rfl).2 (by decide),
    ((transformToOracle_object_kinds Collaborators.failing World.withInstance ⟨1, none⟩
      (.object 5) DPI_NATIVE_TYPE_TIMESTAMP dpiData.zero none rfl).2.2 rfl rfl rfl 5
      World.withInstance ⟨1, some 3⟩ rfl rfl).1⟩

theorem sameNative_refl (w : World) : w.sameNative w := ⟨rfl, rfl, rfl, rfl, rfl, rfl⟩

theorem sameNative_trans {w1 w2 w3 : World} (h12 : w1.sameNative w2)
    (h23 : w2.sameNative w3) : w1.sameNative w3 :=
  ⟨h23.1.trans h12.1, h23.2.1.trans h12.2.1, h23.2.2.1.trans h12.2.2.1,
    h23.2.2.2.1.trans h12.2.2.2.1, h23.2.2.2.2.1.trans h12.2.2.2.2.1,
    h23.2.2.2.2.2.trans h12.2.2.2.2.2⟩

theorem alloc_sameNative {w w1 : World} (h : w.alloc = some w1) : w.sameNative w1 := by
  unfold World.alloc at h
  split at h
  · cases h
  · cases h; exact sameNative_refl w

theorem setHeap_sameNative (w : World) (r : Ref) (o : HostObject) :
    w.sameNative (w.setHeap r o) := ⟨rfl, rfl, rfl, rfl, rfl, rfl⟩

/-- The function `njsDbObject_wrap` changes nothing of the descriptors and of the native
state. -/
theorem njsDbObject_wrap_sameNative (w : World) (value : HostValue) :
    w.sameNative (njsDbObject_wrap w value).2 := by
  have hcreate : ∀ (t : Ref) (p : TypePtr), w.sameNative (njsDbObject_wrap_create w t p).2 := by
    intro t p
    unfold njsDbObject_wrap_create
    split
    · exact sameNative_refl w
    · rename_i w1 ha
      split
      · exact sameNative_refl w
      · split
        · exact sameNative_refl w
        · exact sameNative_trans (alloc_sameNative ha) (setHeap_sameNative _ _ _)
  unfold njsDbObject_wrap
  repeat' split
  all_goals first
    | exact sameNative_refl w
    | exact hcreate _ _

/-- What `njsDbObject_new` leaves of the descriptors and of the native objects, under a
host that changes nothing native: all of them but the object whose handle it is given. -/
theorem njsDbObject_new_native (host : Collaborators) (hhost : host.keepsNative) (w : World)
    (objType : Option TypePtr) (objHandle : Option Handle) :
    (njsDbObject_new host w objType objHandle).world.objTypes = w.objTypes
    ∧ ∀ j, objHandle ≠ some j →
      (njsDbObject_new host w objType objHandle).world.objects j = w.objects j := by
  unfold njsDbObject_new
  cases objType.bind w.objTypes with
  | none => exact ⟨rfl, fun _ _ => rfl⟩
  | some ty =>
    dsimp only
    cases ty.jsDbObjectConstructor with
    | none => exact ⟨rfl, fun _ _ => rfl⟩
    | some c =>
      dsimp only
      have h01 := hhost.napi_new_instance w c
      cases hnew : host.napi_new_instance w c [] with
      | mk ov w1 =>
        rw [hnew] at h01
        cases ov with
        | none => exact ⟨h01.1, fun j _ => congrFun h01.2.1 j⟩
        | some value =>
          dsimp only at h01 ⊢
          have h12 := njsDbObject_wrap_sameNative w1 value
          cases hwrap : njsDbObject_wrap w1 value with
          | mk st w2 =>
            rw [hwrap] at h12
            have h02 := sameNative_trans h01 h12
            cases st with
            | error e => exact ⟨h02.1, fun j _ => congrFun h02.2.1 j⟩
            | ok r =>
              dsimp only
              cases hadd : dpiObject_addRef w2 objHandle with
              | none => exact ⟨h02.1, fun j _ => congrFun h02.2.1 j⟩
              | some w3 =>
                dsimp only
                have h23 : w3.objTypes = w2.objTypes
                    ∧ ∀ j, objHandle ≠ some j → w3.objects j = w2.objects j := by
                  unfold dpiObject_addRef at hadd
                  cases objHandle with
                  | none => cases hadd
                  | some k =>
                    dsimp only at hadd
                    cases ho : w2.objects k with
                    | none => rw [ho] at hadd; cases hadd
                    | some o =>
                      rw [ho] at hadd
                      cases hadd
                      refine ⟨rfl, fun j hj => ?_⟩
                      have hjk : j ≠ k := fun e => hj (by rw [e])
                      simp [World.setObject, hjk]
                have h03 : w3.objTypes = w.objTypes
                    ∧ ∀ j, objHandle ≠ some j → w3.objects j = w.objects j :=
                  ⟨h23.1.trans h02.1, fun j hj => (h23.2 j hj).trans (congrFun h02.2.1 j)⟩
                repeat' split
                all_goals exact h03

/-- The function `dpiObject_release` touches no other native object and no descriptor. -/
theorem dpiObject_release_native (w : World) (h : Option Handle) :
    (dpiObject_release w h).objTypes = w.objTypes
    ∧ ∀ j, h ≠ some j → (dpiObject_release w h).objects j = w.objects j := by
  unfold dpiObject_release
  cases h with
  | none => exact ⟨rfl, fun _ _ => rfl⟩
  | some k =>
    dsimp only
    cases w.objects k with
    | none => exact ⟨rfl, fun _ _ => rfl⟩
    | some o =>
      dsimp only
      split
      all_goals
        refine ⟨rfl, fun j hj => ?_⟩
        have hjk : j ≠ k := fun e => hj (by rw [e])
        simp [World.setObject, hjk]

/-- Outside the LOB and object tags, and on a null value, `njsDbObject_transformFromOracle`
leaves the world as it was. -/
theorem transformFromOracle_scalar_world (host : Collaborators) (w : World)
    (obj : njsDbObject) (typeInfo : njsDataTypeInfo) (data : dpiData)
    (attr : Option njsDbObjectAttr)
    (h : data.isNull ≠ 0
      ∨ (¬ (typeInfo.oracleTypeNum = DPI_ORACLE_TYPE_CLOB
          ∨ typeInfo.oracleTypeNum = DPI_ORACLE_TYPE_NCLOB
          ∨ typeInfo.oracleTypeNum = DPI_ORACLE_TYPE_BLOB)
        ∧ typeInfo.oracleTypeNum ≠ DPI_ORACLE_TYPE_OBJECT)) :
    (njsDbObject_transformFromOracle host w obj typeInfo data attr).world = w := by
  unfold njsDbObject_transformFromOracle
  by_cases c0 : data.isNull ≠ 0
  · rw [if_pos c0]
  rw [if_neg c0]
  have hl := (h.resolve_left c0).1
  have ho := (h.resolve_left c0).2
  by_cases c1 : typeInfo.oracleTypeNum = DPI_ORACLE_TYPE_CHAR
      ∨ typeInfo.oracleTypeNum = DPI_ORACLE_TYPE_NCHAR
      ∨ typeInfo.oracleTypeNum = DPI_ORACLE_TYPE_VARCHAR
      ∨ typeInfo.oracleTypeNum = DPI_ORACLE_TYPE_NVARCHAR
  · rw [if_pos c1]
  rw [if_neg c1]
  by_cases c2 : typeInfo.oracleTypeNum = DPI_ORACLE_TYPE_RAW
  · rw [if_pos c2]
  rw [if_neg c2]
  by_cases c3 : typeInfo.oracleTypeNum = DPI_ORACLE_TYPE_NUMBER
  · rw [if_pos c3]
    split <;> rfl
  rw [if_neg c3]
  by_cases c4 : typeInfo.oracleTypeNum = DPI_ORACLE_TYPE_NATIVE_INT
  · rw [if_pos c4]
  rw [if_neg c4]
  by_cases c5 : typeInfo.oracleTypeNum = DPI_ORACLE_TYPE_NATIVE_FLOAT
  · rw [if_pos c5]
  rw [if_neg c5]
  by_cases c6 : typeInfo.oracleTypeNum = DPI_ORACLE_TYPE_NATIVE_DOUBLE
  · rw [if_pos c6]
  rw [if_neg c6]
  by_cases c7 : typeInfo.oracleTypeNum = DPI_ORACLE_TYPE_DATE
      ∨ typeInfo.oracleTypeNum = DPI_ORACLE_TYPE_TIMESTAMP
      ∨ typeInfo.oracleTypeNum = DPI_ORACLE_TYPE_TIMESTAMP_TZ
      ∨ typeInfo.oracleTypeNum = DPI_ORACLE_TYPE_TIMESTAMP_LTZ
  · rw [if_pos c7]
  rw [if_neg c7, if_neg hl, if_neg ho]
  split <;> rfl

/-- What `njsDbObject_transformFromOracle` leaves of the descriptors and of the native
objects, under a host that changes nothing native: all of them but, under the object tag,
the object the value names. -/
theorem transformFromOracle_native (host : Collaborators) (hhost : host.keepsNative)
    (w : World) (obj : njsDbObject) (typeInfo : njsDataTypeInfo) (data : dpiData)
    (attr : Option njsDbObjectAttr) :
    (njsDbObject_transformFromOracle host w obj typeInfo data attr).world.objTypes
      = w.objTypes
    ∧ ∀ j, (typeInfo.oracleTypeNum = DPI_ORACLE_TYPE_OBJECT → data.value.asObject ≠ some j) →
      (njsDbObject_transformFromOracle host w obj typeInfo data attr).world.objects j
        = w.objects j := by
  by_cases hnull : data.isNull = 0
  · by_cases hlob : typeInfo.oracleTypeNum = DPI_ORACLE_TYPE_CLOB
        ∨ typeInfo.oracleTypeNum = DPI_ORACLE_TYPE_NCLOB
        ∨ typeInfo.oracleTypeNum = DPI_ORACLE_TYPE_BLOB
    · rw [transformFromOracle_lob_eq host w obj typeInfo data attr hnull hlob]
      cases dpiLob_getChunkSize w data.value.asLOB with
      | none => exact ⟨rfl, fun _ _ => rfl⟩
      | some chunkSize =>
        dsimp only
        cases dpiLob_getSize w data.value.asLOB with
        | none => exact ⟨rfl, fun _ _ => rfl⟩
        | some length =>
          dsimp only
          cases w.objTypes obj.type with
          | none => exact ⟨rfl, fun _ _ => rfl⟩
          | some ty =>
            dsimp only
            cases ty.jsDbObjectConstructor with
            | none => exact ⟨rfl, fun _ _ => rfl⟩
            | some c =>
              dsimp only
              have h01 := hhost.njsLob_new w
                ⟨typeInfo.oracleTypeNum, data.value.asLOB, true, chunkSize, length⟩ c
              cases hnew : host.njsLob_new w
                  ⟨typeInfo.oracleTypeNum, data.value.asLOB, true, chunkSize, length⟩ c with
              | mk ov w1 =>
                rw [hnew] at h01
                cases ov with
                | none => exact ⟨h01.1, fun j _ => congrFun h01.2.1 j⟩
                | some value =>
                  dsimp only at h01 ⊢
                  cases hadd : dpiLob_addRef w1 data.value.asLOB with
                  | none => exact ⟨h01.1, fun j _ => congrFun h01.2.1 j⟩
                  | some w2 =>
                    dsimp only
                    have h12 : w2.objTypes = w1.objTypes ∧ w2.objects = w1.objects := by
                      unfold dpiLob_addRef at hadd
                      repeat' split at hadd
                      all_goals first
                        | (cases hadd; done)
                        | (cases hadd; exact ⟨rfl, rfl⟩)
                    exact ⟨h12.1.trans h01.1,
                      fun j _ => (congrFun h12.2 j).trans (congrFun h01.2.1 j)⟩
    · by_cases hobj : typeInfo.oracleTypeNum = DPI_ORACLE_TYPE_OBJECT
      · rw [transformFromOracle_object_eq host w obj typeInfo data attr hnull hobj]
        have hn := njsDbObject_new_native host hhost w typeInfo.objectType data.value.asObject
        have hr := dpiObject_release_native
          (njsDbObject_new host w typeInfo.objectType data.value.asObject).world
          data.value.asObject
        exact ⟨hr.1.trans hn.1,
          fun j hj => (hr.2 j (hj hobj)).trans (hn.2 j (hj hobj))⟩
      · rw [transformFromOracle_scalar_world host w obj typeInfo data attr
          (Or.inr ⟨hlob, hobj⟩)]
        exact ⟨rfl, fun _ _ => rfl⟩
  · rw [transformFromOracle_scalar_world host w obj typeInfo data attr (Or.inl hnull)]
    exact ⟨rfl, fun _ _ => rfl⟩

/-- When `njsDbObject_new` succeeds under a host that changes nothing native, the handle
passed is live and all that changed of the native objects is the one reference added to
it. -/
theorem njsDbObject_new_ok_objects (host : Collaborators) (hhost : host.keepsNative)
    (w : World) (objType : Option TypePtr) (objHandle : Option Handle)
    (hok : (njsDbObject_new host w objType objHandle).status = .ok ()) :
    ∃ k o, objHandle = some k ∧ w.objects k = some o
      ∧ (njsDbObject_new host w objType objHandle).world.objects k
        = some { o with refCount := o.refCount + 1 } := by
  revert hok
  unfold njsDbObject_new
  cases objType.bind w.objTypes with
  | none => intro hok; cases hok
  | some ty =>
    dsimp only
    cases ty.jsDbObjectConstructor with
    | none => intro hok; cases hok
    | some c =>
      dsimp only
      have h01 := hhost.napi_new_instance w c
      cases hnew : host.napi_new_instance w c [] with
      | mk ov w1 =>
        rw [hnew] at h01
        cases ov with
        | none => intro hok; cases hok
        | some value =>
          dsimp only at h01 ⊢
          have h12 := njsDbObject_wrap_sameNative w1 value
          cases hwrap : njsDbObject_wrap w1 value with
          | mk st w2 =>
            rw [hwrap] at h12
            have h02 := sameNative_trans h01 h12
            cases st with
            | error e => intro hok; cases hok
            | ok r =>
              dsimp only
              cases hadd : dpiObject_addRef w2 objHandle with
              | none => intro hok; cases hok
              | some w3 =>
                dsimp only
                unfold dpiObject_addRef at hadd
                cases objHandle with
                | none => cases hadd
                | some k =>
                  dsimp only at hadd
                  have hk : w2.objects k = w.objects k := congrFun h02.2.1 k
                  cases ho : w2.objects k with
                  | none => rw [ho] at hadd; cases hadd
                  | some o =>
                    rw [ho] at hadd
                    cases hadd
                    cases (w2.setObject k (some { o with refCount := o.refCount + 1 })).heap r
                      <;> cases (w2.setObject k
                        (some { o with refCount := o.refCount + 1 })).instanceAt r
                      <;> intro hok
                      <;> first
                        | (cases hok; done)
                        | exact ⟨k, o, rfl, hk ▸ ho, by simp [World.setObject, World.setHeap]⟩

/-- A conversion that succeeds under a host that changes nothing native leaves every
descriptor and every native object that holds a reference as it was: under the object tag
the reference that `njsDbObject_new` added is the one `dpiObject_release` drops. -/
theorem transformFromOracle_ok_native (host : Collaborators) (hhost : host.keepsNative)
    (w : World) (obj : njsDbObject) (typeInfo : njsDataTypeInfo) (data : dpiData)
    (attr : Option njsDbObjectAttr)
    (hok : (njsDbObject_transformFromOracle host w obj typeInfo data attr).status = .ok ()) :
    (njsDbObject_transformFromOracle host w obj typeInfo data attr).world.objTypes
      = w.objTypes
    ∧ ∀ j o, w.objects j = some o → 0 < o.refCount →
      (njsDbObject_transformFromOracle host w obj typeInfo data attr).world.objects j
        = some o := by
  have hn := transformFromOracle_native host hhost w obj typeInfo data attr
  refine ⟨hn.1, ?_⟩
  intro j oj hj hpos
  by_cases hobj : data.isNull = 0 ∧ typeInfo.oracleTypeNum = DPI_ORACLE_TYPE_OBJECT
  · rw [transformFromOracle_object_eq host w obj typeInfo data attr hobj.1 hobj.2] at hok ⊢
    dsimp only at hok ⊢
    obtain ⟨k, o, hk, hwk, hnk⟩ := njsDbObject_new_ok_objects host hhost w typeInfo.objectType
      data.value.asObject hok
    have hnn := njsDbObject_new_native host hhost w typeInfo.objectType data.value.asObject
    rw [hk] at hnk hnn ⊢
    unfold dpiObject_release
    dsimp only
    rw [hnk]
    dsimp only
    by_cases hjk : j = k
    · subst hjk
      have hoe : oj = o := Option.some.inj (hj.symm.trans hwk)
      rw [hoe] at hpos ⊢
      have hne : ¬ (o.refCount + 1 ≤ 1) := by omega
      rw [if_neg hne]
      simp [World.setObject]
    · have hrest := hnn.2 j (fun h => hjk (Option.some.inj h).symm)
      split <;> simp only [World.setObject, if_neg hjk] <;> rw [hrest, hj]
  · by_cases hnull : data.isNull = 0
    · rw [hn.2 j (fun h => absurd ⟨hnull, h⟩ hobj), hj]
    · rw [transformFromOracle_scalar_world host w obj typeInfo data attr (Or.inl hnull), hj]

/-- The host that always fails changes nothing native. -/
theorem failing_keepsNative : Collaborators.failing.keepsNative :=
  ⟨fun _ _ => ⟨rfl, rfl, rfl, rfl, rfl, rfl⟩, fun _ _ _ => ⟨rfl, rfl, rfl, rfl, rfl, rfl⟩⟩

/-- The host `Collaborators.constructing` changes nothing native. -/
theorem constructing_keepsNative : Collaborators.constructing.keepsNative := by
  refine ⟨fun w c => ?_, fun _ _ _ => ⟨rfl, rfl, rfl, rfl, rfl, rfl⟩⟩
  simp only [Collaborators.constructing]
  cases w.heap c <;> exact ⟨rfl, rfl, rfl, rfl, rfl, rfl⟩

/-- `njsDbObject_getValues` in general, under a host that changes nothing native: the
converted elements in ascending order of index, then the positions up to the reported size
that were never set. -/
theorem getValues_eq (host : Collaborators) (hhost : host.keepsNative) (w : World)
    (obj : njsDbObject) (h : Handle) (c : dpiObject) (ty : njsDbObjectType) (fuel : Nat)
    (hh : obj.handle = some h) (hc : w.objects h = some c)
    (hty : w.objTypes obj.type = some ty)
    (hlive : 0 < c.refCount)
    (hint : ∀ i ∈ c.indices, -2 ^ 31 ≤ i ∧ i < 2 ^ 31)
    (hfuel : c.indices.toFinset.card < fuel) :
    njsDbObject_getValues host fuel w obj
      = some (match convertElements host obj ty w (c.indices.toFinset.sort (· ≤ ·)) with
        | (.ok vs, w') =>
          (.ok (vs.map some ++ List.replicate (c.size - vs.length) none), w')
        | (.error e, w') => (.error e, w')) := by
  have hframe : ∀ (w' : World) (data : dpiData),
      w'.objects h = some c → w'.objTypes obj.type = some ty →
      (njsDbObject_transformFromOracle host w' obj ty.elementTypeInfo data none).status
        = .ok () →
      (njsDbObject_transformFromOracle host w' obj ty.elementTypeInfo data none).world.objects
          h = some c
      ∧ (njsDbObject_transformFromOracle host w' obj ty.elementTypeInfo data
          none).world.objTypes obj.type = some ty := by
    intro w' data h1 h2 hok
    obtain ⟨e1, e2⟩ := transformFromOracle_ok_native host hhost w' obj ty.elementTypeInfo data
      none hok
    rw [e1]
    exact ⟨e2 h c h1 hlive, h2⟩
  obtain ⟨hs, hm, hl⟩ := sort_indices_facts c.indices
  have hfirst := leastIndex_eq_head c.indices _ hs hm
  have hbound := sorted_length_le _ (-2 ^ 31) (2 ^ 31) hs (fun x hx => hint x ((hm x).mp hx))
  rw [← hl] at hfuel
  generalize c.indices.toFinset.sort (· ≤ ·) = L at hs hm hfirst hbound hfuel
  unfold njsDbObject_getValues
  simp only [dpiObject_getSize_eq w obj h c hh hc, dpiObject_getFirstIndex_eq w obj h c hh hc,
    hfirst]
  cases L with
  | nil => simp [getValues_loop_none, napi_create_array_with_length, convertElements]
  | cons a rest =>
    have hm' : ∀ x, x ∈ a :: rest ↔ x ∈ c.indices ∧ a ≤ x := by
      intro x
      constructor
      · intro hx
        refine ⟨(hm x).mp hx, ?_⟩
        rcases List.mem_cons.mp hx with h | h
        · omega
        · exact le_of_lt (List.rel_of_sorted_cons hs x h)
      · exact fun hx => (hm x).mpr hx.1
    have hlen : (0 : Nat) + rest.length < 2 ^ 32 := by
      simp only [List.length_cons, Nat.cast_add, Nat.cast_one] at hbound
      omega
    simp only [List.head?_cons]
    rw [getValues_loop_eq host obj h c ty hh hframe rest a fuel w _ 0 hs hm'
      (by simp at hfuel; omega) hlen hc hty]
    generalize convertElements host obj ty w (a :: rest) = q
    obtain ⟨res, w2⟩ := q
    cases res with
    | error e => rfl
    | ok vs =>
      have := napi_set_elements_eq vs [] c.size
      simp only [List.nil_append, List.length_nil] at this
      simp only [napi_create_array_with_length, this]

/-- C6: for a collection whose native object holds a reference and a finite set of int32
indices, of elements of any type, under a host that changes nothing native when it
constructs an object without an initial value or a LOB,
`njsDbObject_getValues` is aligned with `njsDbObject_getKeys`: it reads the elements at the
indices held in ascending order and converts each with `njsDbObject_transformFromOracle`
under the element type information and no attribute (`convertElements`). When all succeed
the array returned holds the values in that order at the first positions (then the
positions up to the reported size that were never set) and their number is the number of
indices held; at the first read or conversion that fails `njsDbObject_getValues` fails with
that error and returns no array. -/
theorem getValues_aligned (host : Collaborators) (w : World) (obj : njsDbObject)
    (h : Handle) (c : dpiObject) (ty : njsDbObjectType) (fuel : Nat)
    (hhost : host.keepsNative)
    (hh : obj.handle = some h) (hc : w.objects h = some c)
    (hty : w.objTypes obj.type = some ty)
    (hlive : 0 < c.refCount)
    (hint : ∀ i ∈ c.indices, -2 ^ 31 ≤ i ∧ i < 2 ^ 31)
    (hfuel : c.indices.toFinset.card < fuel) :
    njsDbObject_getValues host fuel w obj
      = some (match convertElements host obj ty w (c.indices.toFinset.sort (· ≤ ·)) with
        | (.ok vs, w') =>
          (.ok (vs.map some ++ List.replicate (c.size - vs.length) none), w')
        | (.error e, w') => (.error e, w'))
    ∧ ∀ vs w', convertElements host obj ty w (c.indices.toFinset.sort (· ≤ ·)) = (.ok vs, w') →
        vs.length = c.indices.toFinset.card := by
  refine ⟨getValues_eq host hhost w obj h c ty fuel hh hc hty hlive hint hfuel, ?_⟩
  intro vs w' hv
  rw [convertElements_length host obj ty _ w vs w' hv, Finset.length_sort]

/-- Witness of C6: a collection of two int64 elements, 5 at index 0 and 7 at index 1, and
the collection of `World.withObjects`, whose one element is the native object 4: the value
emitted for it is the host object created at 21, which then wraps an instance of the element
type that holds the handle 4, and the native object holds one reference as before. -/
theorem getValues_aligned_witness :
    njsDbObject_getValues Collaborators.failing 3
        (World.withCollection 2 [(1, int64Element 7), (0, int64Element 5)]) ⟨1, some 3⟩
      = some (.ok [some (napi_create_int64 5), some (napi_create_int64 7)],
          World.withCollection 2 [(1, int64Element 7), (0, int64Element 5)])
    ∧ ∃ w', njsDbObject_getValues Collaborators.constructing 2 World.withObjects ⟨1, some 3⟩
        = some (.ok [some (.object 21)], w')
      ∧ w'.instanceAt 21 = some ⟨2, some 4⟩
      ∧ w'.objects 4 = some ⟨1, 0, []⟩
      ∧ w'.objects 3 = some ⟨1, 1, [(0, objectElement 4)]⟩ := by
  have hint : ∀ i ∈ (⟨1, 2, [(1, int64Element 7), (0, int64Element 5)]⟩ : dpiObject).indices,
      -2 ^ 31 ≤ i ∧ i < 2 ^ 31 := by
    intro i hi
    simp only [dpiObject.indices, List.map_cons, List.map_nil, List.mem_cons,
      List.mem_singleton, List.mem_nil_iff, or_false] at hi
    rcases hi with rfl | rfl <;> decide
  have key := (getValues_aligned Collaborators.failing
    (World.withCollection 2 [(1, int64Element 7), (0, int64Element 5)]) ⟨1, some 3⟩ 3
    ⟨1, 2, [(1, int64Element 7), (0, int64Element 5)]⟩
    (sampleType ⟨DPI_ORACLE_TYPE_NUMBER, DPI_NATIVE_TYPE_INT64, none⟩) 3
    failing_keepsNative rfl rfl rfl (by decide) hint (by decide)).1
  have hset : ([1, 0] : List Int).toFinset = ([0, 1] : List Int).toFinset := by
    ext x
    simp only [List.mem_toFinset, List.mem_cons, List.mem_singleton, List.mem_nil_iff,
      or_false]
    tauto
  have hsort : ([1, 0] : List Int).toFinset.sort (· ≤ ·) = [0, 1] := by
    rw [hset]
    exact (List.toFinset_sort (· ≤ ·) (by decide)).mpr (by simp [List.Sorted])
  have hint2 : ∀ i ∈ (⟨1, 1, [(0, objectElement 4)]⟩ : dpiObject).indices,
      -2 ^ 31 ≤ i ∧ i < 2 ^ 31 := by
    intro i hi
    simp only [dpiObject.indices, List.map_cons, List.map_nil, List.mem_singleton] at hi
    subst hi
    decide
  have key2 := (getValues_aligned Collaborators.constructing World.withObjects ⟨1, some 3⟩ 3
    ⟨1, 1, [(0, objectElement 4)]⟩
    (sampleType ⟨DPI_ORACLE_TYPE_OBJECT, DPI_NATIVE_TYPE_OBJECT, some 2⟩) 2
    constructing_keepsNative rfl rfl rfl (by decide) hint2 (by decide)).1
  have hsort2 : ([0] : List Int).toFinset.sort (· ≤ ·) = [0] := by
    rw [show ([0] : List Int).toFinset = {0} from rfl, Finset.sort_singleton]
  refine ⟨?_, ?_⟩
  · rw [key]
    simp only [dpiObject.indices, List.map_cons, List.map_nil, hsort]
    rfl
  · refine ⟨(convertElements Collaborators.constructing ⟨1, some 3⟩
      (sampleType ⟨DPI_ORACLE_TYPE_OBJECT, DPI_NATIVE_TYPE_OBJECT, some 2⟩)
      World.withObjects [0]).2, ?_, rfl, rfl, rfl⟩
    rw [key2]
    simp only [dpiObject.indices, List.map_cons, List.map_nil, hsort2]
    rfl

/-- C27: for a collection that holds a finite set of int32 indices, `k` of them, and whose
size query reports `size`, `njsDbObject_getKeys` returns an array of the length
`max size k`: the positions below `k` are filled, the positions from `k` up to `size` are
left unset, and the length is `k` exactly when `size ≤ k`. Likewise
`njsDbObject_getValues`, for elements of any type, when the native collection holds a
reference and the host changes nothing native when it constructs an object without an
initial value or a LOB: whenever every element is read and converted, it returns an array
with these same properties, whose filled positions hold the converted values; and when a
read or a conversion fails it returns that error. -/
theorem getKeys_getValues_length (host : Collaborators) (w : World) (obj : njsDbObject)
    (h : Handle) (c : dpiObject) (fuel : Nat)
    (hh : obj.handle = some h) (hc : w.objects h = some c)
    (hint : ∀ i ∈ c.indices, -2 ^ 31 ≤ i ∧ i < 2 ^ 31)
    (hfuel : c.indices.toFinset.card < fuel) :
    (∃ arr, njsDbObject_getKeys fuel w obj = some (.ok arr)
      ∧ arr.length = max c.size c.indices.toFinset.card
      ∧ (∀ p, p < c.indices.toFinset.card → ∃ v, arr[p]? = some (some v))
      ∧ (∀ p, c.indices.toFinset.card ≤ p → p < c.size → arr[p]? = some none)
      ∧ (arr.length = c.indices.toFinset.card ↔ c.size ≤ c.indices.toFinset.card))
    ∧ ∀ ty, w.objTypes obj.type = some ty → host.keepsNative → 0 < c.refCount →
      (∀ vs w2,
        convertElements host obj ty w (c.indices.toFinset.sort (· ≤ ·)) = (.ok vs, w2) →
        ∃ arr, njsDbObject_getValues host fuel w obj = some (.ok arr, w2)
          ∧ arr.length = max c.size c.indices.toFinset.card
          ∧ (∀ p, p < c.indices.toFinset.card →
            ∃ v, vs[p]? = some v ∧ arr[p]? = some (some v))
          ∧ (∀ p, c.indices.toFinset.card ≤ p → p < c.size → arr[p]? = some none)
          ∧ (arr.length = c.indices.toFinset.card ↔ c.size ≤ c.indices.toFinset.card))
      ∧ ∀ e w2,
        convertElements host obj ty w (c.indices.toFinset.sort (· ≤ ·)) = (.error e, w2) →
        njsDbObject_getValues host fuel w obj = some (.error e, w2) := by
  have hl : (c.indices.toFinset.sort (· ≤ ·)).length = c.indices.toFinset.card :=
    Finset.length_sort _
  refine ⟨?_, ?_⟩
  · refine ⟨_, getKeys_eq w obj h c fuel hh hc hint hfuel, ?_⟩
    have hf := filled_then_unset
      ((c.indices.toFinset.sort (· ≤ ·)).map napi_create_int32) c.size
    simp only [List.length_map, List.map_map, hl] at hf
    exact hf
  · intro ty hty hhost hlive
    have hv := getValues_eq host hhost w obj h c ty fuel hh hc hty hlive hint hfuel
    refine ⟨?_, ?_⟩
    · intro vs w2 hq
      rw [hq] at hv
      have hlen := convertElements_length host obj ty _ w vs w2 hq
      rw [hl] at hlen
      have hf := filled_then_unset vs c.size
      rw [hlen] at hf
      dsimp only at hv
      rw [hlen] at hv
      refine ⟨_, hv, hf.1, ?_, hf.2.2.1, hf.2.2.2⟩
      intro p hp
      have hp2 : p < vs.length := by omega
      refine ⟨vs[p], List.getElem?_eq_getElem hp2, ?_⟩
      rw [List.getElem?_append_left (by simpa using hp2)]
      simp [List.getElem?_eq_getElem hp2]
    · intro e w2 hq
      rw [hq] at hv
      exact hv

/-- C27 on a collection that holds the one index 1 and reports the size 3: the array of
keys and the array of values both have the length 3, with the position 0 filled and the
positions 1 and 2 unset. -/
theorem getKeys_getValues_length_witness :
    (∃ arr, njsDbObject_getKeys 2 (World.withCollection 3 [(1, int64Element 7)]) ⟨1, some 3⟩
        = some (.ok arr)
      ∧ arr.length = 3 ∧ arr[1]? = some none ∧ arr[2]? = some none)
    ∧ ∃ arr, njsDbObject_getValues Collaborators.failing 2
          (World.withCollection 3 [(1, int64Element 7)]) ⟨1, some 3⟩
        = some (.ok arr, World.withCollection 3 [(1, int64Element 7)])
      ∧ arr.length = 3 ∧ arr[0]? = some (some (napi_create_int64 7))
      ∧ arr[1]? = some none ∧ arr[2]? = some none := by
  have hint : ∀ i ∈ (⟨1, 3, [(1, int64Element 7)]⟩ : dpiObject).indices,
      -2 ^ 31 ≤ i ∧ i < 2 ^ 31 := by
    intro i hi
    simp only [dpiObject.indices, List.map_cons, List.map_nil, List.mem_cons,
      List.mem_singleton, List.mem_nil_iff, or_false] at hi
    subst hi
    decide
  have hcard : (⟨1, 3, [(1, int64Element 7)]⟩ : dpiObject).indices.toFinset.card = 1 := by
    decide
  have hsort : (⟨1, 3, [(1, int64Element 7)]⟩ : dpiObject).indices.toFinset.sort (· ≤ ·)
      = [1] := by
    rw [show (⟨1, 3, [(1, int64Element 7)]⟩ : dpiObject).indices.toFinset = {1} from rfl,
      Finset.sort_singleton]
  have key := getKeys_getValues_length Collaborators.failing
    (World.withCollection 3 [(1, int64Element 7)]) ⟨1, some 3⟩ 3
    ⟨1, 3, [(1, int64Element 7)]⟩ 2 rfl rfl hint (by decide)
  obtain ⟨arr, h1, h2, _, h4, _⟩ := key.1
  obtain ⟨arr2, g1, g2, g3, g4, _⟩ := (key.2
    (sampleType ⟨DPI_ORACLE_TYPE_NUMBER, DPI_NATIVE_TYPE_INT64, none⟩) rfl
    failing_keepsNative (by decide)).1 [napi_create_int64 7]
    (World.withCollection 3 [(1, int64Element 7)]) (by rw [hsort]; rfl)
  rw [hcard] at h2 h4 g2 g3 g4
  obtain ⟨v, hv1, hv2⟩ := g3 0 (by decide)
  have hv : v = napi_create_int64 7 := by
    simp only [List.getElem?_cons_zero, Option.some.injEq] at hv1
    exact hv1.symm
  rw [hv] at hv2
  exact ⟨⟨arr, h1, h2, h4 1 (by decide) (by decide), h4 2 (by decide) (by decide)⟩,
    arr2, g1, g2, hv2, g4 1 (by decide) (by decide), g4 2 (by decide) (by decide)⟩

theorem keepsLive_refl (w : World) : w.keepsLive w :=
  ⟨rfl, le_refl _, fun _ _ => ⟨rfl, rfl⟩, fun _ _ _ _ _ => rfl⟩

theorem keepsLive_trans {w1 w2 w3 : World} (h12 : w1.keepsLive w2)
    (h23 : w2.keepsLive w3) : w1.keepsLive w3 := by
  obtain ⟨a1, a2, a3, a4⟩ := h12
  obtain ⟨b1, b2, b3, b4⟩ := h23
  refine ⟨b1.trans a1, le_trans a2 b2, ?_, ?_⟩
  · intro j hj
    have hb := b3 j (lt_of_lt_of_le hj a2)
    have ha := a3 j hj
    exact ⟨hb.1.trans ha.1, hb.2.trans ha.2⟩
  · intro r inst k hi hk
    have ha := a4 r inst k hi hk
    have hi2 : w2.instanceAt r = some inst := by
      rw [← hi]
      simp only [World.instanceAt, ha]
    exact (b4 r inst k hi2 hk).trans ha

/-- Worlds that show the same native state, the later of which has every wrapped instance of
the earlier in place. -/
theorem keepsLive_of_sameNative {w1 w2 : World} (h : w1.sameNative w2)
    (hheap : ∀ r inst, w1.instanceAt r = some inst → w2.heap r = w1.heap r) :
    w1.keepsLive w2 := by
  obtain ⟨a1, a2, _, a4, a5, _⟩ := h
  refine ⟨a1, le_of_eq a5.symm, fun j _ => ⟨congrFun a2 j, congrFun a4 j⟩, ?_⟩
  intro r inst _ hi _
  exact hheap r inst hi

/-- The function `njsDbObject_wrap` leaves every host object that wraps an instance as it
was. -/
theorem njsDbObject_wrap_heap (w : World) (value : HostValue) (r : Ref) (inst : njsDbObject)
    (hi : w.instanceAt r = some inst) :
    (njsDbObject_wrap w value).2.heap r = w.heap r := by
  have hcreate : ∀ (t : Ref) (p : TypePtr), (njsDbObject_wrap_create w t p).2.heap r
      = w.heap r := by
    intro t p
    unfold njsDbObject_wrap_create
    cases ha : w.alloc with
    | none => rfl
    | some w1 =>
      dsimp only
      cases hh : w.heap t with
      | none => rfl
      | some ho =>
        dsimp only
        cases hw : ho.wrapped with
        | some x => rfl
        | none =>
          dsimp only
          have hne : r ≠ t := by
            intro he
            rw [he] at hi
            simp [World.instanceAt, hh, hw] at hi
          have h1 : w1.heap = w.heap := by
            unfold World.alloc at ha
            split at ha
            · cases ha
            · cases ha; rfl
          simp only [World.setHeap, if_neg hne, h1]
  unfold njsDbObject_wrap
  repeat' split
  all_goals first
    | rfl
    | exact hcreate _ _

theorem njsDbObject_wrap_keepsLive (w : World) (value : HostValue) :
    w.keepsLive (njsDbObject_wrap w value).2 :=
  keepsLive_of_sameNative (njsDbObject_wrap_sameNative w value)
    (fun r inst hi => njsDbObject_wrap_heap w value r inst hi)

/-- The function `njsDbObject_getInstance` leaves what is there: all it may change is the
host object it wraps, and the native object it creates for an instance that had none. -/
theorem njsDbObject_getInstance_keepsLive (w : World) (value : HostValue) :
    w.keepsLive (njsDbObject_getInstance w value).2 := by
  unfold njsDbObject_getInstance
  cases napi_unwrap_instance w value with
  | some r => exact keepsLive_refl w
  | none =>
    dsimp only
    have h01 := njsDbObject_wrap_keepsLive w value
    cases hwrap : njsDbObject_wrap w value with
    | mk st w1 =>
      rw [hwrap] at h01
      cases st with
      | error e => exact h01
      | ok tempObj =>
        dsimp only
        cases hh : w1.heap tempObj with
        | none => exact h01
        | some ho =>
          cases hi : w1.instanceAt tempObj with
          | none => exact h01
          | some inst =>
            dsimp only
            cases hhd : inst.handle with
            | some k => exact h01
            | none =>
              dsimp only
              cases w1.objTypes inst.type with
              | none => exact h01
              | some ty =>
                dsimp only
                cases hcr : dpiObjectType_createObject w1 ty.handle with
                | none => exact h01
                | some p =>
                  obtain ⟨h, w2⟩ := p
                  dsimp only
                  refine keepsLive_trans h01 ?_
                  unfold dpiObjectType_createObject at hcr
                  cases hth : ty.handle with
                  | none => rw [hth] at hcr; cases hcr
                  | some t =>
                    rw [hth] at hcr
                    dsimp only at hcr
                    split at hcr
                    · cases hcr
                      refine ⟨rfl, Nat.le_succ _, ?_, ?_⟩
                      · intro j hj
                        have hne : j ≠ w1.nextHandle := ne_of_lt hj
                        simp [World.setHeap, World.setObject, hne]
                      · intro r inst2 k hi2 hk2
                        have hne : r ≠ tempObj := by
                          intro he
                          rw [he, hi] at hi2
                          cases hi2
                          rw [hhd] at hk2
                          cases hk2
                        simp [World.setHeap, World.setObject, hne]
                    · cases hcr

/-- The function `njsDbObject_transformToOracle` leaves what is there, when the constructor
it runs on a value that is an object but neither a date nor a buffer does. -/
theorem transformToOracle_keepsLive (host : Collaborators) (w : World) (obj : njsDbObject)
    (v : HostValue) (t : dpiNativeTypeNum) (data : dpiData) (attr : Option njsDbObjectAttr)
    (hhost : napi_typeof v = .napi_object → napi_instanceof_Date v = false →
      napi_get_buffer_info v = none → host.keepsLive) :
    w.keepsLive (njsDbObject_transformToOracle host w obj v t data attr).world := by
  by_cases hv : napi_typeof v = .napi_object
  · rw [transformToOracle_of_object host w obj v t data attr hv]
    unfold njsDbObject_transformToOracle_object
    cases hd : napi_instanceof_Date v with
    | true =>
      simp only [if_true]
      split <;> exact keepsLive_refl w
    | false =>
      simp only [Bool.false_eq_true, if_false]
      cases hb : napi_get_buffer_info v with
      | some p => exact keepsLive_refl w
      | none =>
        dsimp only
        have hk := hhost hv hd hb
        cases hbase : napi_instanceof_BaseDbObject w v with
        | true =>
          simp only [if_true]
          have hg := njsDbObject_getInstance_keepsLive w v
          cases hgi : njsDbObject_getInstance w v with
          | mk st w1 =>
            rw [hgi] at hg
            cases st with
            | error e => exact hg
            | ok valueObj =>
              dsimp only
              split <;> exact hg
        | false =>
          simp only [Bool.false_eq_true, if_false]
          split
          · exact keepsLive_refl w
          · exact keepsLive_refl w
          · split
            · exact keepsLive_refl w
            · split
              · exact keepsLive_refl w
              · rename_i c hc
                have h1 := hk w c [v]
                cases hn : host.napi_new_instance w c [v] with
                | mk ov w1 =>
                  rw [hn] at h1
                  cases ov with
                  | none => exact h1
                  | some tempObj =>
                    dsimp only at h1 ⊢
                    have hg := njsDbObject_getInstance_keepsLive w1 tempObj
                    cases hgi : njsDbObject_getInstance w1 tempObj with
                    | mk st w2 =>
                      rw [hgi] at hg
                      have h02 := keepsLive_trans h1 hg
                      cases st with
                      | error e => exact h02
                      | ok valueObj =>
                        dsimp only
                        split <;> exact h02
  · obtain ⟨n, hn⟩ := transformToOracle_scalar_world host w obj v t data attr hv
    rw [hn]
    exact ⟨rfl, le_refl _, fun _ _ => ⟨rfl, rfl⟩, fun _ _ _ _ _ => rfl⟩

theorem freeStr_frame (w : World) (str : Option Bytes) :
    (freeStr w str).heap = w.heap ∧ (freeStr w str).objects = w.objects
      ∧ (freeStr w str).objTypes = w.objTypes
      ∧ (freeStr w str).attrValues = w.attrValues := by
  cases str <;> exact ⟨rfl, rfl, rfl, rfl⟩

/-- All that `dpiObject_setAttributeValue` changes, apart from the trace, are the attribute
values of the object it is called on. -/
theorem dpiObject_setAttributeValue_frame (lib : dpiLibrary) (w : World) (k : Handle)
    (a : Option Handle) (nt : dpiNativeTypeNum) (d : dpiData) :
    (dpiObject_setAttributeValue lib w (some k) a nt d).2.heap = w.heap
      ∧ (dpiObject_setAttributeValue lib w (some k) a nt d).2.objects = w.objects
      ∧ (dpiObject_setAttributeValue lib w (some k) a nt d).2.objTypes = w.objTypes
      ∧ ∀ j, j ≠ k →
        (dpiObject_setAttributeValue lib w (some k) a nt d).2.attrValues j
          = w.attrValues j := by
  cases a with
  | none => exact ⟨rfl, rfl, rfl, fun _ _ => rfl⟩
  | some a =>
    simp only [dpiObject_setAttributeValue]
    cases w.objects k with
    | none => exact ⟨rfl, rfl, rfl, fun _ _ => rfl⟩
    | some o =>
      cases lib.store nt d with
      | none => exact ⟨rfl, rfl, rfl, fun _ _ => rfl⟩
      | some value =>
        refine ⟨rfl, rfl, rfl, ?_⟩
        intro j hj
        funext b
        simp [World.record, hj]

/-- Setting an attribute of an instance, to any value, leaves the descriptors, the native
objects handed out so far, the attribute values of every one of them but the object of the
instance, and the host objects that wrap an instance holding a handle as they were, when
the constructor run on a value that is an object but neither a date nor a buffer does. -/
theorem setAttrValueHelper_keeps (host : Collaborators) (lib : dpiLibrary) (w : World)
    (r0 : Ref) (inst : njsDbObject) (k : Handle) (v : HostValue) (attr : njsDbObjectAttr)
    (data : dpiData) (hinst : w.instanceAt r0 = some inst) (hk : inst.handle = some k)
    (hhost : napi_typeof v = .napi_object → napi_instanceof_Date v = false →
      napi_get_buffer_info v = none → host.keepsLive) :
    (njsDbObject_setAttrValueHelper host lib w (.object r0) [v] attr data).2.objTypes
        = w.objTypes
      ∧ (∀ j, j < w.nextHandle →
        (njsDbObject_setAttrValueHelper host lib w (.object r0) [v] attr data).2.objects j
            = w.objects j
          ∧ (j ≠ k →
            (njsDbObject_setAttrValueHelper host lib w (.object r0) [v] attr
              data).2.attrValues j = w.attrValues j))
      ∧ ∀ r i2 k2, w.instanceAt r = some i2 → i2.handle = some k2 →
        (njsDbObject_setAttrValueHelper host lib w (.object r0) [v] attr data).2.heap r
          = w.heap r := by
  have hun := unwrap_of_instanceAt w r0 inst hinst
  have hva : njsDbObject_validateArgs w (.object r0) [v] 1 = (.ok r0, w) := by
    simp [njsDbObject_validateArgs, njsDbObject_getInstance, hun]
  have hT := transformToOracle_keepsLive host w inst v attr.typeInfo.nativeTypeNum data
    (some attr) hhost
  unfold njsDbObject_setAttrValueHelper
  rw [hva]
  simp only [hinst]
  generalize njsDbObject_transformToOracle host w inst v attr.typeInfo.nativeTypeNum data
    (some attr) = T at hT
  obtain ⟨st, nt, d, str, w2⟩ := T
  obtain ⟨t1, -, t3, t4⟩ := hT
  dsimp only at t1 t3 t4
  cases st with
  | error e =>
    exact ⟨t1, fun j hj => ⟨(t3 j hj).1, fun _ => (t3 j hj).2⟩, t4⟩
  | ok u =>
    dsimp only
    rw [hk]
    obtain ⟨s1, s2, s3, s4⟩ := dpiObject_setAttributeValue_frame lib w2 k attr.handle nt d
    generalize dpiObject_setAttributeValue lib w2 (some k) attr.handle nt d = S at s1 s2 s3 s4
    obtain ⟨sb, w3⟩ := S
    dsimp only at s1 s2 s3 s4
    obtain ⟨f1, f2, f3, f4⟩ := freeStr_frame w3 str
    have key : (freeStr w3 str).objTypes = w.objTypes
        ∧ (∀ j, j < w.nextHandle → (freeStr w3 str).objects j = w.objects j
          ∧ (j ≠ k → (freeStr w3 str).attrValues j = w.attrValues j))
        ∧ ∀ r i2 k2, w.instanceAt r = some i2 → i2.handle = some k2 →
          (freeStr w3 str).heap r = w.heap r := by
      refine ⟨by rw [f3, s3, t1], ?_, ?_⟩
      · intro j hj
        refine ⟨by rw [f2, s2]; exact (t3 j hj).1, ?_⟩
        intro hne
        rw [f4, s4 j hne]
        exact (t3 j hj).2
      · intro r i2 k2 hi hh
        rw [f1, s1]
        exact t4 r i2 k2 hi hh
    cases sb <;> exact key

/-- Outside the LOB and object tags the status and the value of a conversion from native
depend on the host and on the world through the descriptor of the owning type only. -/
theorem transformFromOracle_scalar_congr (host1 host2 : Collaborators) (w1 w2 : World)
    (obj : njsDbObject) (typeInfo : njsDataTypeInfo) (data : dpiData)
    (attr : Option njsDbObjectAttr)
    (hl : ¬ (typeInfo.oracleTypeNum = DPI_ORACLE_TYPE_CLOB
      ∨ typeInfo.oracleTypeNum = DPI_ORACLE_TYPE_NCLOB
      ∨ typeInfo.oracleTypeNum = DPI_ORACLE_TYPE_BLOB))
    (ho : typeInfo.oracleTypeNum ≠ DPI_ORACLE_TYPE_OBJECT)
    (hty : w2.objTypes obj.type = w1.objTypes obj.type) :
    (njsDbObject_transformFromOracle host2 w2 obj typeInfo data attr).status
        = (njsDbObject_transformFromOracle host1 w1 obj typeInfo data attr).status
      ∧ (njsDbObject_transformFromOracle host2 w2 obj typeInfo data attr).value
        = (njsDbObject_transformFromOracle host1 w1 obj typeInfo data attr).value := by
  unfold njsDbObject_transformFromOracle
  by_cases c0 : data.isNull ≠ 0
  · rw [if_pos c0, if_pos c0]
    exact ⟨rfl, rfl⟩
  rw [if_neg c0, if_neg c0]
  by_cases c1 : typeInfo.oracleTypeNum = DPI_ORACLE_TYPE_CHAR
      ∨ typeInfo.oracleTypeNum = DPI_ORACLE_TYPE_NCHAR
      ∨ typeInfo.oracleTypeNum = DPI_ORACLE_TYPE_VARCHAR
      ∨ typeInfo.oracleTypeNum = DPI_ORACLE_TYPE_NVARCHAR
  · rw [if_pos c1, if_pos c1]
    exact ⟨rfl, rfl⟩
  rw [if_neg c1, if_neg c1]
  by_cases c2 : typeInfo.oracleTypeNum = DPI_ORACLE_TYPE_RAW
  · rw [if_pos c2, if_pos c2]
    exact ⟨rfl, rfl⟩
  rw [if_neg c2, if_neg c2]
  by_cases c3 : typeInfo.oracleTypeNum = DPI_ORACLE_TYPE_NUMBER
  · rw [if_pos c3, if_pos c3]
    by_cases cn : typeInfo.nativeTypeNum = DPI_NATIVE_TYPE_INT64
    · rw [if_pos cn, if_pos cn]
      exact ⟨rfl, rfl⟩
    · rw [if_neg cn, if_neg cn]
      exact ⟨rfl, rfl⟩
  rw [if_neg c3, if_neg c3]
  by_cases c4 : typeInfo.oracleTypeNum = DPI_ORACLE_TYPE_NATIVE_INT
  · rw [if_pos c4, if_pos c4]
    exact ⟨rfl, rfl⟩
  rw [if_neg c4, if_neg c4]
  by_cases c5 : typeInfo.oracleTypeNum = DPI_ORACLE_TYPE_NATIVE_FLOAT
  · rw [if_pos c5, if_pos c5]
    exact ⟨rfl, rfl⟩
  rw [if_neg c5, if_neg c5]
  by_cases c6 : typeInfo.oracleTypeNum = DPI_ORACLE_TYPE_NATIVE_DOUBLE
  · rw [if_pos c6, if_pos c6]
    exact ⟨rfl, rfl⟩
  rw [if_neg c6, if_neg c6]
  by_cases c7 : typeInfo.oracleTypeNum = DPI_ORACLE_TYPE_DATE
      ∨ typeInfo.oracleTypeNum = DPI_ORACLE_TYPE_TIMESTAMP
      ∨ typeInfo.oracleTypeNum = DPI_ORACLE_TYPE_TIMESTAMP_TZ
      ∨ typeInfo.oracleTypeNum = DPI_ORACLE_TYPE_TIMESTAMP_LTZ
  · rw [if_pos c7, if_pos c7]
    exact ⟨rfl, rfl⟩
  rw [if_neg c7, if_neg c7, if_neg hl, if_neg hl, if_neg ho, if_neg ho]
  by_cases c8 : typeInfo.oracleTypeNum = DPI_ORACLE_TYPE_BOOLEAN
  · rw [if_pos c8, if_pos c8]
    exact ⟨rfl, rfl⟩
  · rw [if_neg c8, if_neg c8]
    simp only [errConvertFrom, hty]
    exact ⟨trivial, trivial⟩

/-- What the get accessor of an attribute returns, in terms of the native read: the
conversion of the value read, under the type information of the attribute. -/
theorem getAttrValueHelper_eq (host : Collaborators) (w : World) (value : HostValue)
    (r : Ref) (inst : njsDbObject) (attr : njsDbObjectAttr)
    (hun : napi_unwrap_instance w value = some r) (hinst : w.instanceAt r = some inst) :
    njsDbObject_getAttrValueHelper host w value [] attr
      = match dpiObject_getAttributeValue w inst.handle attr.handle
          attr.typeInfo.nativeTypeNum with
        | none => ⟨.error .errDPI, none, w⟩
        | some data =>
          njsDbObject_transformFromOracle host w inst attr.typeInfo data (some attr) := by
  have hva : njsDbObject_validateArgs w value [] 0 = (.ok r, w) := by
    simp [njsDbObject_validateArgs, njsDbObject_getInstance, hun]
  unfold njsDbObject_getAttrValueHelper
  rw [hva]
  simp only [hinst]

/-- The host `Collaborators.placing` leaves what is there. -/
theorem placing_keepsLive : Collaborators.placing.keepsLive := by
  intro w c args
  simp only [Collaborators.placing]
  cases w.heap c with
  | none => exact keepsLive_refl w
  | some cls =>
    dsimp only
    split
    · rename_i h21
      refine keepsLive_of_sameNative (setHeap_sameNative _ _ _) ?_
      intro r inst hi
      have hne : r ≠ 21 := by
        intro he
        rw [he] at hi
        cases hh : w.heap 21 with
        | none => simp [World.instanceAt, hh] at hi
        | some x => simp [hh] at h21
      simp [World.setHeap, hne]
    · split
      · rename_i h22
        refine keepsLive_of_sameNative (setHeap_sameNative _ _ _) ?_
        intro r inst hi
        have hne : r ≠ 22 := by
          intro he
          rw [he] at hi
          cases hh : w.heap 22 with
          | none => simp [World.instanceAt, hh] at hi
          | some x => simp [hh] at h22
        simp [World.setHeap, hne]
      · exact keepsLive_refl w

/-- A conversion to native that runs no constructor changes nothing but the allocation
budget. -/
theorem transformToOracle_direct_world (host : Collaborators) (w : World) (obj : njsDbObject)
    (v : HostValue) (t : dpiNativeTypeNum) (data : dpiData) (attr : Option njsDbObjectAttr)
    (hv : napi_typeof v ≠ .napi_object ∨ napi_instanceof_Date v = true
      ∨ napi_get_buffer_info v ≠ none) :
    ∃ n, (njsDbObject_transformToOracle host w obj v t data attr).world
      = { w with allocBudget := n } := by
  by_cases ho : napi_typeof v = .napi_object
  · rw [transformToOracle_of_object host w obj v t data attr ho]
    unfold njsDbObject_transformToOracle_object
    cases hd : napi_instanceof_Date v with
    | true =>
      simp only [if_true]
      split <;> exact ⟨w.allocBudget, rfl⟩
    | false =>
      simp only [Bool.false_eq_true, if_false]
      cases hb : napi_get_buffer_info v with
      | some p => exact ⟨w.allocBudget, rfl⟩
      | none =>
        rcases hv with h | h | h
        · exact absurd ho h
        · rw [hd] at h; cases h
        · exact absurd hb h
  · exact transformToOracle_scalar_world host w obj v t data attr ho

/-- Setting an attribute of an instance to a value whose conversion runs no constructor
leaves the host heap, the descriptors, the native objects and the attribute values of every
other native object as they were. -/
theorem setAttrValueHelper_frame_direct (host : Collaborators) (lib : dpiLibrary) (w : World)
    (r0 : Ref) (inst : njsDbObject) (k : Handle) (v : HostValue) (attr : njsDbObjectAttr)
    (data : dpiData) (hinst : w.instanceAt r0 = some inst) (hk : inst.handle = some k)
    (hv : napi_typeof v ≠ .napi_object ∨ napi_instanceof_Date v = true
      ∨ napi_get_buffer_info v ≠ none) :
    (njsDbObject_setAttrValueHelper host lib w (.object r0) [v] attr data).2.heap = w.heap
      ∧ (njsDbObject_setAttrValueHelper host lib w (.object r0) [v] attr data).2.objects
        = w.objects
      ∧ (njsDbObject_setAttrValueHelper host lib w (.object r0) [v] attr data).2.objTypes
        = w.objTypes
      ∧ ∀ j, j ≠ k →
        (njsDbObject_setAttrValueHelper host lib w (.object r0) [v] attr data).2.attrValues j
          = w.attrValues j := by
  have hun := unwrap_of_instanceAt w r0 inst hinst
  have hva : njsDbObject_validateArgs w (.object r0) [v] 1 = (.ok r0, w) := by
    simp [njsDbObject_validateArgs, njsDbObject_getInstance, hun]
  obtain ⟨n, hn⟩ := transformToOracle_direct_world host w inst v attr.typeInfo.nativeTypeNum
    data (some attr) hv
  unfold njsDbObject_setAttrValueHelper
  rw [hva]
  simp only [hinst]
  generalize njsDbObject_transformToOracle host w inst v attr.typeInfo.nativeTypeNum data
    (some attr) = T at hn
  obtain ⟨st, nt, d, str, w2⟩ := T
  dsimp only at hn
  subst hn
  cases st with
  | error e => exact ⟨rfl, rfl, rfl, fun _ _ => rfl⟩
  | ok u =>
    dsimp only
    rw [hk]
    obtain ⟨s1, s2, s3, s4⟩ := dpiObject_setAttributeValue_frame lib
      { w with allocBudget := n } k attr.handle nt d
    generalize dpiObject_setAttributeValue lib { w with allocBudget := n } (some k)
      attr.handle nt d = S at s1 s2 s3 s4
    obtain ⟨sb, w3⟩ := S
    dsimp only at s1 s2 s3 s4
    obtain ⟨f1, f2, f3, f4⟩ := freeStr_frame w3 str
    have key : (freeStr w3 str).heap = w.heap ∧ (freeStr w3 str).objects = w.objects
        ∧ (freeStr w3 str).objTypes = w.objTypes
        ∧ ∀ j, j ≠ k → (freeStr w3 str).attrValues j = w.attrValues j :=
      ⟨f1.trans s1, f2.trans s2, f3.trans s3, fun j hj => (congrFun f4 j).trans (s4 j hj)⟩
    cases sb <;> exact key

theorem getAttributeValue_congr_at (w ws : World) (k2 : Handle) (a : Option Handle)
    (n : dpiNativeTypeNum) (hobj : ws.objects k2 = w.objects k2)
    (hattr : ws.attrValues k2 = w.attrValues k2) :
    dpiObject_getAttributeValue ws (some k2) a n
      = dpiObject_getAttributeValue w (some k2) a n := by
  cases a with
  | none => rfl
  | some b => simp only [dpiObject_getAttributeValue, hobj, hattr]

theorem unwrap_instance_eq (w : World) (value : HostValue) (r : Ref)
    (h : napi_unwrap_instance w value = some r) : value = .object r := by
  cases value <;> simp only [napi_unwrap_instance] at h <;> try cases h
  rename_i x
  repeat' split at h
  all_goals first
    | (cases h; rfl)
    | cases h

/-- C20: `njsDbObject_copy` on the instance `obj` (attached to the host object at `r0`,
holding the live native object `k`), when the native copy succeeds with the handle `k2`, the
constructor of the type of `obj` returns a value, `njsDbObject_wrap` attaches to it a new
instance of that type (at `r`), and the host has left the original instance and the copy in
place. The call returns the new value; its instance has the type descriptor of `obj` and the
handle `k2`, which is not `k` and names the object the native copy made (the elements and
attribute values of the original, one reference); the instance at `r0` still has the handle
and the type it had. After that, setting an attribute of the original, of any type, to any
value (a number, text, a date, a buffer, a database object, an initial value for one)
changes no attribute value that ODPI-C reports for the copy, under any representation: the
get accessor of every attribute of the copy converts the native value that was there before
the set, and for every attribute that is neither a LOB nor an object, whose conversion
constructs nothing, it returns what it returned before. Where the set takes the value for an
object (it is an object, no date and no buffer) the constructors of the host are run, and
are assumed to leave what is there (`Collaborators.keepsLive`). -/
theorem copy_independent (host : Collaborators) (lib : dpiLibrary) (w : World)
    (obj : njsDbObject) (r0 : Ref) (k : Handle) (o : dpiObject) (ty : njsDbObjectType)
    (c : Ref) (k2 : Handle) (w1 : World) (value : HostValue) (w2 w3 : World) (r : Ref)
    (oc : dpiObject)
    (horig : w.instanceAt r0 = some obj) (hh : obj.handle = some k)
    (ho : w.objects k = some o) (hfresh : w.objects w.nextHandle = none)
    (hty : w.objTypes obj.type = some ty) (hc : ty.jsDbObjectConstructor = some c)
    (hcopy : dpiObject_copy w obj.handle = some (k2, w1))
    (hnew : host.napi_new_instance w1 c [] = (some value, w2))
    (hwrap : njsDbObject_wrap w2 value = (.ok r, w3))
    (hinst : w3.instanceAt r = some ⟨obj.type, none⟩)
    (hlive : w3.objects k2 = some oc) (hrc : 0 < oc.refCount)
    (hkept : w3.instanceAt r0 = w.instanceAt r0) :
    ∃ wf, njsDbObject_copy host w obj = ⟨.ok (), some value, wf⟩
      ∧ wf.instanceAt r = some ⟨obj.type, some k2⟩
      ∧ k2 ≠ k ∧ k2 = w.nextHandle
      ∧ w1.objects k2 = some { o with refCount := 1 }
      ∧ w1.attrValues k2 = w.attrValues k
      ∧ wf.instanceAt r0 = some obj
      ∧ wf.objects k2 = some oc
      ∧ ∀ v attr data,
        (napi_typeof v = .napi_object → napi_instanceof_Date v = false →
          napi_get_buffer_info v = none → host.keepsLive) →
        (∀ a n, dpiObject_getAttributeValue
            (njsDbObject_setAttrValueHelper host lib wf (.object r0) [v] attr data).2
            (some k2) a n
          = dpiObject_getAttributeValue wf (some k2) a n)
        ∧ ∀ attr2, napi_unwrap_instance wf value = some r →
          njsDbObject_getAttrValueHelper host
              (njsDbObject_setAttrValueHelper host lib wf (.object r0) [v] attr data).2
              value [] attr2
            = (match dpiObject_getAttributeValue wf (some k2) attr2.handle
                attr2.typeInfo.nativeTypeNum with
              | none =>
                ⟨.error .errDPI, none,
                  (njsDbObject_setAttrValueHelper host lib wf (.object r0) [v] attr data).2⟩
              | some d =>
                njsDbObject_transformFromOracle host
                  (njsDbObject_setAttrValueHelper host lib wf (.object r0) [v] attr data).2
                  ⟨obj.type, some k2⟩ attr2.typeInfo d (some attr2))
          ∧ (¬ (attr2.typeInfo.oracleTypeNum = DPI_ORACLE_TYPE_CLOB
                ∨ attr2.typeInfo.oracleTypeNum = DPI_ORACLE_TYPE_NCLOB
                ∨ attr2.typeInfo.oracleTypeNum = DPI_ORACLE_TYPE_BLOB) →
              attr2.typeInfo.oracleTypeNum ≠ DPI_ORACLE_TYPE_OBJECT →
              (njsDbObject_getAttrValueHelper host
                  (njsDbObject_setAttrValueHelper host lib wf (.object r0) [v] attr data).2
                  value [] attr2).status
                = (njsDbObject_getAttrValueHelper host wf value [] attr2).status
              ∧ (njsDbObject_getAttrValueHelper host
                  (njsDbObject_setAttrValueHelper host lib wf (.object r0) [v] attr data).2
                  value [] attr2).value
                = (njsDbObject_getAttrValueHelper host wf value [] attr2).value) := by
  have horig3 : w3.instanceAt r0 = some obj := hkept.trans horig
  have hce := dpiObject_copy_eq w k o ho
  have hcopy0 := hcopy
  rw [hh, hce] at hcopy
  obtain ⟨hk2, hw1⟩ := Prod.mk.inj (Option.some.inj hcopy)
  subst hk2
  have hne : w.nextHandle ≠ k := by
    intro he
    rw [he, ho] at hfresh
    cases hfresh
  have hty1 : w1.objTypes obj.type = some ty := by rw [← hw1]; exact hty
  have hnext1 : w1.nextHandle = w.nextHandle + 1 := by rw [← hw1]
  obtain ⟨hor, hheap, hwr⟩ := instanceAt_some w3 r _ hinst
  have hcopyeq := copy_eq host w obj ty c w.nextHandle w1 value w2 w3 r hor oc hty1 hc hcopy0
    hnew hwrap hheap hwr hlive hrc
  have hr0 : r0 ≠ r := by
    intro he
    rw [he, hinst] at horig3
    have := Option.some.inj horig3
    rw [← this] at hh
    cases hh
  have hnext3 : w3.nextHandle = w2.nextHandle := by
    have := njsDbObject_wrap_sameNative w2 value
    rw [hwrap] at this
    exact this.2.2.2.2.1
  generalize hwf : (w3.setObject w.nextHandle (some oc)).setHeap r
    { hor with wrapped := some (.instance ⟨obj.type, some w.nextHandle⟩) } = wf at hcopyeq
  have hnextf : wf.nextHandle = w2.nextHandle := by rw [← hwf]; exact hnext3
  have e1 : wf.instanceAt r = some ⟨obj.type, some w.nextHandle⟩ := by
    rw [← hwf]
    simp [World.instanceAt, World.setHeap]
  have e2 : wf.instanceAt r0 = some obj := by
    have : wf.instanceAt r0 = w3.instanceAt r0 := by
      rw [← hwf]
      simp [World.instanceAt, World.setHeap, World.setObject, hr0]
    rw [this, horig3]
  have e3 : wf.objects w.nextHandle = some oc := by
    rw [← hwf]
    simp [World.setHeap, World.setObject]
  refine ⟨wf, hcopyeq, e1, hne, rfl, ?_, ?_, e2, e3, ?_⟩
  · rw [← hw1]
    simp [World.setObject]
  · rw [← hw1]
    funext b
    simp
  · intro v attr data hhost
    have facts : (njsDbObject_setAttrValueHelper host lib wf (.object r0) [v] attr
          data).2.objects w.nextHandle = wf.objects w.nextHandle
        ∧ (njsDbObject_setAttrValueHelper host lib wf (.object r0) [v] attr
          data).2.attrValues w.nextHandle = wf.attrValues w.nextHandle
        ∧ (njsDbObject_setAttrValueHelper host lib wf (.object r0) [v] attr
          data).2.heap r = wf.heap r
        ∧ (njsDbObject_setAttrValueHelper host lib wf (.object r0) [v] attr
          data).2.objTypes = wf.objTypes := by
      by_cases hdirect : napi_typeof v ≠ .napi_object ∨ napi_instanceof_Date v = true
          ∨ napi_get_buffer_info v ≠ none
      · obtain ⟨fheap, fobj, fty, fattr⟩ := setAttrValueHelper_frame_direct host lib wf r0 obj
          k v attr data e2 hh hdirect
        exact ⟨congrFun fobj _, fattr _ hne, congrFun fheap r, fty⟩
      · have h1 : napi_typeof v = .napi_object := by
          by_contra hc1
          exact hdirect (Or.inl hc1)
        have h2 : napi_instanceof_Date v = false := by
          cases hd : napi_instanceof_Date v with
          | false => rfl
          | true => exact absurd (Or.inr (Or.inl hd)) hdirect
        have h3 : napi_get_buffer_info v = none := by
          by_contra hc3
          exact hdirect (Or.inr (Or.inr hc3))
        have hk := hhost h1 h2 h3
        have h12 := hk w1 c []
        rw [hnew] at h12
        have hlt : w.nextHandle < wf.nextHandle := by
          have := h12.2.1
          rw [hnextf]
          dsimp only at this
          rw [hnext1] at this
          exact lt_of_lt_of_le (Nat.lt_succ_self _) this
        obtain ⟨g1, g2, g3⟩ := setAttrValueHelper_keeps host lib wf r0 obj k v attr data e2 hh
          hhost
        exact ⟨(g2 _ hlt).1, (g2 _ hlt).2 hne, g3 r _ _ e1 rfl, g1⟩
    obtain ⟨F1, F2, F3, F4⟩ := facts
    have hA : ∀ a n, dpiObject_getAttributeValue
          (njsDbObject_setAttrValueHelper host lib wf (.object r0) [v] attr data).2
          (some w.nextHandle) a n
        = dpiObject_getAttributeValue wf (some w.nextHandle) a n :=
      fun a n => getAttributeValue_congr_at wf _ _ a n F1 F2
    refine ⟨hA, ?_⟩
    intro attr2 hun
    have hval := unwrap_instance_eq wf value r hun
    have hinst2 : (njsDbObject_setAttrValueHelper host lib wf (.object r0) [v] attr
        data).2.instanceAt r = some ⟨obj.type, some w.nextHandle⟩ := by
      rw [← e1]
      simp only [World.instanceAt, F3]
    have hun2 : napi_unwrap_instance
        (njsDbObject_setAttrValueHelper host lib wf (.object r0) [v] attr data).2 value
        = some r := by
      rw [hval]
      exact unwrap_of_instanceAt _ r _ hinst2
    have hread := getAttrValueHelper_eq host _ value r _ attr2 hun2 hinst2
    dsimp only at hread
    rw [hA] at hread
    refine ⟨hread, ?_⟩
    intro hl hob
    rw [hread, getAttrValueHelper_eq host wf value r _ attr2 hun e1]
    dsimp only
    cases dpiObject_getAttributeValue wf (some w.nextHandle) attr2.handle
        attr2.typeInfo.nativeTypeNum with
    | none => exact ⟨rfl, rfl⟩
    | some d =>
      exact transformFromOracle_scalar_congr host host wf _ ⟨obj.type, some w.nextHandle⟩
        attr2.typeInfo d (some attr2) hl hob (congrFun F4 obj.type)

/-- C20 at the instance at 5 of `World.withInstance`, whose native object 3 holds the number
5 in the attribute 9. The copy is the host object at 21 with the native object 30. After the
attribute of the original is set to 7 the original reads 7 and the copy still reads 5; the
copy still reads 5 after the attribute is set to the date of time value 9; and after the
attribute 10 of the original, of the object type, is set to the plain object at 20, for
which an instance is constructed at 22 with the new native object 31, the original holds
that object and the copy still reads 5. -/
theorem copy_independent_witness :
    (njsDbObject_copy Collaborators.placing World.withInstance ⟨1, some 3⟩).status = .ok ()
    ∧ (njsDbObject_copy Collaborators.placing World.withInstance ⟨1, some 3⟩).value
        = some (.object 21)
    ∧ (njsDbObject_copy Collaborators.placing World.withInstance
        ⟨1, some 3⟩).world.instanceAt 21 = some ⟨1, some 30⟩
    ∧ (njsDbObject_getAttrValueHelper Collaborators.placing
        (njsDbObject_copy Collaborators.placing World.withInstance ⟨1, some 3⟩).world
        (.object 21) [] (sampleAttr ⟨DPI_ORACLE_TYPE_NUMBER, DPI_NATIVE_TYPE_INT64, none⟩)).value
      = some (napi_create_int64 5)
    ∧ (njsDbObject_getAttrValueHelper Collaborators.placing
        (njsDbObject_setAttrValueHelper Collaborators.placing (dpiLibrary.sample true)
          (njsDbObject_copy Collaborators.placing World.withInstance ⟨1, some 3⟩).world
          (.object 5) [.number (Float64.ofInt64 7)]
          (sampleAttr ⟨DPI_ORACLE_TYPE_NUMBER, DPI_NATIVE_TYPE_INT64, none⟩) dpiData.zero).2
        (.object 21) [] (sampleAttr ⟨DPI_ORACLE_TYPE_NUMBER, DPI_NATIVE_TYPE_INT64, none⟩)).value
      = (njsDbObject_getAttrValueHelper Collaborators.placing
        (njsDbObject_copy Collaborators.placing World.withInstance ⟨1, some 3⟩).world
        (.object 21) [] (sampleAttr ⟨DPI_ORACLE_TYPE_NUMBER, DPI_NATIVE_TYPE_INT64, none⟩)).value
    ∧ (njsDbObject_getAttrValueHelper Collaborators.placing
        (njsDbObject_setAttrValueHelper Collaborators.placing (dpiLibrary.sample true)
          (njsDbObject_copy Collaborators.placing World.withInstance ⟨1, some 3⟩).world
          (.object 5) [.number (Float64.ofInt64 7)]
          (sampleAttr ⟨DPI_ORACLE_TYPE_NUMBER, DPI_NATIVE_TYPE_INT64, none⟩) dpiData.zero).2
        (.object 5) [] (sampleAttr ⟨DPI_ORACLE_TYPE_NUMBER, DPI_NATIVE_TYPE_INT64, none⟩)).value
      = some (napi_create_int64 7)
    ∧ (njsDbObject_getAttrValueHelper Collaborators.placing
        (njsDbObject_setAttrValueHelper Collaborators.placing (dpiLibrary.sample true)
          (njsDbObject_copy Collaborators.placing World.withInstance ⟨1, some 3⟩).world
          (.object 5) [.date (Float64.ofInt64 9)]
          (sampleAttr ⟨DPI_ORACLE_TYPE_NUMBER, DPI_NATIVE_TYPE_INT64, none⟩) dpiData.zero).2
        (.object 21) [] (sampleAttr ⟨DPI_ORACLE_TYPE_NUMBER, DPI_NATIVE_TYPE_INT64, none⟩)).value
      = (njsDbObject_getAttrValueHelper Collaborators.placing
        (njsDbObject_copy Collaborators.placing World.withInstance ⟨1, some 3⟩).world
        (.object 21) [] (sampleAttr ⟨DPI_ORACLE_TYPE_NUMBER, DPI_NATIVE_TYPE_INT64, none⟩)).value
    ∧ (njsDbObject_setAttrValueHelper Collaborators.placing dpiLibrary.storing
        (njsDbObject_copy Collaborators.placing World.withInstance ⟨1, some 3⟩).world
        (.object 5) [.object 20]
        ⟨some 10, [67, 72, 73, 76, 68], 5,
          ⟨DPI_ORACLE_TYPE_OBJECT, DPI_NATIVE_TYPE_OBJECT, some 1⟩⟩ dpiData.zero).1 = .ok ()
    ∧ (dpiObject_getAttributeValue
        (njsDbObject_setAttrValueHelper Collaborators.placing dpiLibrary.storing
          (njsDbObject_copy Collaborators.placing World.withInstance ⟨1, some 3⟩).world
          (.object 5) [.object 20]
          ⟨some 10, [67, 72, 73, 76, 68], 5,
            ⟨DPI_ORACLE_TYPE_OBJECT, DPI_NATIVE_TYPE_OBJECT, some 1⟩⟩ dpiData.zero).2
        (some 3) (some 10) DPI_NATIVE_TYPE_OBJECT).map (fun d => d.value.asObject)
      = some (some 31)
    ∧ (njsDbObject_getAttrValueHelper Collaborators.placing
        (njsDbObject_setAttrValueHelper Collaborators.placing dpiLibrary.storing
          (njsDbObject_copy Collaborators.placing World.withInstance ⟨1, some 3⟩).world
          (.object 5) [.object 20]
          ⟨some 10, [67, 72, 73, 76, 68], 5,
            ⟨DPI_ORACLE_TYPE_OBJECT, DPI_NATIVE_TYPE_OBJECT, some 1⟩⟩ dpiData.zero).2
        (.object 21) [] (sampleAttr ⟨DPI_ORACLE_TYPE_NUMBER, DPI_NATIVE_TYPE_INT64, none⟩)).value
      = (njsDbObject_getAttrValueHelper Collaborators.placing
        (njsDbObject_copy Collaborators.placing World.withInstance ⟨1, some 3⟩).world
        (.object 21) [] (sampleAttr ⟨DPI_ORACLE_TYPE_NUMBER, DPI_NATIVE_TYPE_INT64, none⟩)).value := by
  obtain ⟨wf, h1, h2, -, -, -, -, -, -, h9⟩ := copy_independent Collaborators.placing
    (dpiLibrary.sample true) World.withInstance ⟨1, some 3⟩ 5 3 ⟨1, 0, []⟩ _ 8 30 _
    (.object 21) _ _ 21 ⟨1, 0, []⟩ rfl rfl rfl rfl rfl rfl rfl rfl rfl rfl rfl (by decide) rfl
  obtain ⟨wg, g1, -, -, -, -, -, -, -, g9⟩ := copy_independent Collaborators.placing
    dpiLibrary.storing World.withInstance ⟨1, some 3⟩ 5 3 ⟨1, 0, []⟩ _ 8 30 _
    (.object 21) _ _ 21 ⟨1, 0, []⟩ rfl rfl rfl rfl rfl rfl rfl rfl rfl rfl rfl (by decide) rfl
  have hwf : (njsDbObject_copy Collaborators.placing World.withInstance
      ⟨1, some 3⟩).world = wf := by rw [h1]
  have hwg : wg = wf := by
    rw [h1] at g1
    injection g1 with _ _ e
    exact e.symm
  subst hwg
  have hnum : ¬ ((sampleAttr ⟨DPI_ORACLE_TYPE_NUMBER, DPI_NATIVE_TYPE_INT64,
        none⟩).typeInfo.oracleTypeNum = DPI_ORACLE_TYPE_CLOB
      ∨ (sampleAttr ⟨DPI_ORACLE_TYPE_NUMBER, DPI_NATIVE_TYPE_INT64,
        none⟩).typeInfo.oracleTypeNum = DPI_ORACLE_TYPE_NCLOB
      ∨ (sampleAttr ⟨DPI_ORACLE_TYPE_NUMBER, DPI_NATIVE_TYPE_INT64,
        none⟩).typeInfo.oracleTypeNum = DPI_ORACLE_TYPE_BLOB) := by decide
  have hnob : (sampleAttr ⟨DPI_ORACLE_TYPE_NUMBER, DPI_NATIVE_TYPE_INT64,
      none⟩).typeInfo.oracleTypeNum ≠ DPI_ORACLE_TYPE_OBJECT := by decide
  have hun : napi_unwrap_instance wg (.object 21) = some 21 := by rw [← hwf]; rfl
  rw [hwf]
  refine ⟨by rw [h1], by rw [h1], h2, ?_, ?_, ?_, ?_, ?_, ?_, ?_⟩
  · rw [← hwf]; rfl
  · exact (((h9 (.number (Float64.ofInt64 7))
      (sampleAttr ⟨DPI_ORACLE_TYPE_NUMBER, DPI_NATIVE_TYPE_INT64, none⟩) dpiData.zero
      (fun h => absurd h (by decide))).2
      (sampleAttr ⟨DPI_ORACLE_TYPE_NUMBER, DPI_NATIVE_TYPE_INT64, none⟩) hun).2 hnum hnob).2
  · rw [← hwf]; rfl
  · exact (((h9 (.date (Float64.ofInt64 9))
      (sampleAttr ⟨DPI_ORACLE_TYPE_NUMBER, DPI_NATIVE_TYPE_INT64, none⟩) dpiData.zero
      (fun _ h => absurd h (by decide))).2
      (sampleAttr ⟨DPI_ORACLE_TYPE_NUMBER, DPI_NATIVE_TYPE_INT64, none⟩) hun).2 hnum hnob).2
  · rw [← hwf]; rfl
  · rw [← hwf]; rfl
  · exact (((g9 (.object 20)
      ⟨some 10, [67, 72, 73, 76, 68], 5,
        ⟨DPI_ORACLE_TYPE_OBJECT, DPI_NATIVE_TYPE_OBJECT, some 1⟩⟩ dpiData.zero
      (fun _ _ _ => placing_keepsLive)).2
      (sampleAttr ⟨DPI_ORACLE_TYPE_NUMBER, DPI_NATIVE_TYPE_INT64, none⟩) hun).2 hnum hnob).2

end njs
